import Mathlib

/-!
# Frame scheduling and swapchain recreation (HPGA3 deferred rendering demo)

A shallow embedding of `Application::drawFrame`, `Application::recreateVulkanData`,
`Application::initVulkan`, `Application::run`, `Application::mainLoop`,
`Application::cleanup` and the functions they call (`src/src/app/Application.cpp`), of the
swap-chain negotiation of `SwapChain::createSwapChain` (`src/src/hpg/SwapChain.cpp`) and
of `utils::findMemoryType` (`src/src/utils/Utils.cpp`).

* The members of `Application` that the frame loop reads or writes are the fields of
  `Application`; handles (`VkFence`, `VkSemaphore`, `VkCommandBuffer`, ...) are natural
  numbers and `VK_NULL_HANDLE` is `0`.
* Every call that leaves the application (Vulkan, GLFW, ImGui, or another class of the
  repository) is logged, in program order, in the `trace` of a `Run`; of the calls made
  inside `swapChain.initSwapChain` the `vkCreateSwapchainKHR` request is logged as well.
* What the driver and the window system answer (status codes, the acquired image index,
  the new image count, ...) is an explicit environment argument.
* A `throw` ends the run with `Outcome.threw`; an out-of-range `operator[]` on a
  `std::vector` ends it with `Outcome.outOfRange`.
* The GPU is the field `pending`: the fences of the submissions that were queued and whose
  fence has not been signalled yet. A blocking call (`vkWaitForFences` with `UINT64_MAX`,
  `vkDeviceWaitIdle`, the wait for a window of non-zero area) is modelled by the state in
  which it returns: the GPU and the window system are assumed to let it return.
* `MAX_FRAMES_IN_FLIGHT` is the parameter `maxFrames` of the functions that use it, so
  that properties can be stated for every number of frames in flight; the constant of
  Utils.h is `MAX_FRAMES_IN_FLIGHT`.
-/

namespace HPGA3

/-! ## Handles, status codes, constants -/

abbrev Handle := Nat

def VK_NULL_HANDLE : Handle := 0

abbrev VkResult := Int

def VK_SUCCESS : VkResult := 0

def VK_SUBOPTIMAL_KHR : VkResult := 1000001003

def VK_ERROR_OUT_OF_DATE_KHR : VkResult := -1000001004

def VK_PIPELINE_STAGE_COLOR_ATTACHMENT_OUTPUT_BIT : Nat := 0x400

/-- Utils.h:57. -/
def MAX_FRAMES_IN_FLIGHT : Nat := 2

/-- Utils.h:59. -/
def IMGUI_POOL_NUM : Nat := 1000

/-- The two command pools of the application (Application.h: `renderCommandPool`,
`imGuiCommandPool`). -/
inductive CommandPool where
  | renderCommandPool
  | imGuiCommandPool
deriving DecidableEq, Repr

/-- The two render passes owned by the swap chain (`swapChain.renderPass`,
`swapChain.imGuiRenderPass`). -/
inductive RenderPass where
  | renderPass
  | imGuiRenderPass
deriving DecidableEq, Repr

/-- The three `VulkanBuffer` members of `Application` (Application.h:102-104). -/
inductive BufferMember where
  | uniforms
  | vertexBuffer
  | indexBuffer
deriving DecidableEq, Repr

/-- `VkExtent2D`. -/
structure VkExtent2D where
  width : Nat
  height : Nat
deriving DecidableEq, Repr

/-- `VkSurfaceFormatKHR`. -/
structure VkSurfaceFormatKHR where
  format : Nat
  colorSpace : Nat
deriving DecidableEq, Repr

/-- The fields of `VkSwapchainCreateInfoKHR` that `createSwapChain` negotiates
(SwapChain.cpp:60-67, 87). -/
structure VkSwapchainCreateInfoKHR where
  minImageCount : Nat
  imageFormat : Nat
  imageColorSpace : Nat
  imageExtent : VkExtent2D
  presentMode : Nat
deriving DecidableEq, Repr

/-- The fields of `VkSubmitInfo` that `drawFrame` fills in (Application.cpp:641-658). -/
structure VkSubmitInfo where
  pWaitSemaphores : List Handle
  pWaitDstStageMask : List Nat
  pCommandBuffers : List Handle
  pSignalSemaphores : List Handle
deriving DecidableEq, Repr

/-- The fields of `VkPresentInfoKHR` that `drawFrame` fills in (Application.cpp:671-682). -/
structure VkPresentInfoKHR where
  pWaitSemaphores : List Handle
  pImageIndices : List Nat
deriving DecidableEq, Repr

/-- The calls made by `run`, `mainLoop` and `cleanup` (Application.cpp:34-49, 556-587,
767-815) that the frame loop and the (re)creation code do not make. The constructors
`drawFrame` and `cleanup` mark the entry into the member function of that name. -/
inductive LifecycleCall where
  | initWindow
  | initImGui
  | glfwWindowShouldClose
  | glfwPollEvents
  | glfwGetCursorPos
  | processKeyInput
  | glfwGetMouseButton
  | processMouseInput
  | setGUI
  | drawFrame
  | cleanup
  | ImGui_ImplVulkan_Shutdown
  | ImGui_ImplGlfw_Shutdown
  | ImGui_DestroyContext
  | cleanupTexture
  | vkDestroyDescriptorPool
  | vkDestroyDescriptorSetLayout
  | vkDestroySemaphore (semaphore : Handle)
  | vkDestroyFence (fence : Handle)
  | vkDestroyCommandPool (pool : CommandPool)
  | cleanupSetup
  | glfwDestroyWindow
  | glfwTerminate
deriving DecidableEq, Repr

/-- The calls that only `initVulkan` makes (Application.cpp:53-110, with
`createSyncObjects`, Application.cpp:526-550). The constructors
`createDescriptorSetLayout`, `createCommandPool`, `createDescriptorPool` and
`createSyncObjects` stand for the member function of that name. -/
inductive StartupCall where
  | initSetup
  | loadModel
  | createDescriptorSetLayout
  | createCommandPool (pool : CommandPool)
  | createTexture
  | createDeviceLocalBuffer (buffer : BufferMember)
  | createDescriptorPool (maxSets : Nat)
  | createSyncObjects
  | vkCreateSemaphore
  | vkCreateFence
deriving DecidableEq, Repr

/-- One logged call. The constructors `recreateVulkanData`, `updateUniformBuffers`,
`recordGuiCommandBuffer`, `recordGeometryCommandBuffer`, `createDescriptorSets`
and `createCommandBuffers` mark the entry into the member function of that name; the
calls the function makes follow it in the trace. -/
inductive Call where
  | vkWaitForFences (fence : Handle)
  | vkAcquireNextImageKHR (semaphore : Handle)
  | recreateVulkanData
  | updateUniformBuffers (currentImage : Nat)
  | recordGuiCommandBuffer (cmdBufferIndex : Nat)
  | recordGeometryCommandBuffer (cmdBufferIndex : Nat)
  | ImGui_Render
  | vkBeginCommandBuffer (commandBuffer : Handle)
  | vkCmdBeginRenderPass (commandBuffer : Handle) (pass : RenderPass) (framebuffer : Handle)
      (renderArea : VkExtent2D)
  | ImGui_ImplVulkan_RenderDrawData (commandBuffer : Handle)
  | vkCmdBindPipeline (commandBuffer : Handle)
  | vkCmdBindVertexBuffers (commandBuffer : Handle)
  | vkCmdBindIndexBuffer (commandBuffer : Handle)
  | vkCmdBindDescriptorSets (commandBuffer : Handle) (descriptorSet : Handle)
  | vkCmdDrawIndexed (commandBuffer : Handle) (indexCount : Nat) (instanceCount : Nat)
  | vkCmdEndRenderPass (commandBuffer : Handle)
  | vkEndCommandBuffer (commandBuffer : Handle)
  | vkResetFences (fence : Handle)
  | vkQueueSubmit (submitInfo : VkSubmitInfo) (fence : Handle)
  | vkQueuePresentKHR (presentInfo : VkPresentInfoKHR)
  | glfwGetFramebufferSize
  | glfwWaitEvents
  | framebufferResizeCallback
  | vkDeviceWaitIdle
  | vkFreeCommandBuffers (pool : CommandPool) (commandBuffers : List Handle)
  | cleanupBufferData (buffer : BufferMember)
  | cleanupGBuffer
  | cleanupFrambufferData
  | cleanupSwapChain
  | initSwapChain
  | vkCreateSwapchainKHR (createInfo : VkSwapchainCreateInfoKHR)
  | initFramebufferData
  | createGBuffer
  | createUniformBuffer (count : Nat)
  | createDescriptorSets
  | vkAllocateDescriptorSets (descriptorSetCount : Nat)
  | vkUpdateDescriptorSets (dstSet : Handle)
  | createCommandBuffers (pool : CommandPool)
  | vkAllocateCommandBuffers (pool : CommandPool) (commandBufferCount : Nat)
  | ImGui_ImplVulkan_SetMinImageCount (count : Nat)
  | startup (call : StartupCall)
  | lifecycle (call : LifecycleCall)
deriving DecidableEq, Repr

/-- How a run of a function ends: it returns; a `throw std::runtime_error(what)` of the
function itself is executed (for the member functions of `Application`: a throw statement
of Application.cpp); an exception leaves a call into another class (`SwapChain`,
`FramebufferData`, `GBuffer`, `Model`, ...); or an operation without defined behaviour is
evaluated: an `operator[]` of a `std::vector` or an array subscript out of range, or a
shift by the width of the type or more. -/
inductive Outcome where
  | returned
  | threw (what : String)
  | calleeThrew (what : String)
  | outOfRange (access : String)
deriving DecidableEq, Repr

/-- The members of `Application` (Application.h:93-142) used by the frame loop
(`images`, `imageViews`, `extent`, `framebuffers`, `imGuiFramebuffers` are the members of
`swapChain` and `framebufferData`; `textureCount` is `textures.size()`;
`modelNumIndices` is `model.getNumIndices(0)`), the driver-side handle
counter `nextHandle`, the number of descriptor sets taken from `descriptorPool` so far,
and the GPU-side list `pending`. -/
structure Application where
  images : List Handle
  imageViews : List Handle
  extent : VkExtent2D
  textureCount : Nat
  framebuffers : List Handle
  imGuiFramebuffers : List Handle
  descriptorSets : List Handle
  renderCommandBuffers : List Handle
  imGuiCommandBuffers : List Handle
  imageAvailableSemaphores : List Handle
  renderFinishedSemaphores : List Handle
  inFlightFences : List Handle
  imagesInFlight : List Handle
  framebufferResized : Bool
  currentFrame : Nat
  imageIndex : Nat
  modelNumIndices : Nat
  allocatedDescriptorSets : Nat
  nextHandle : Nat
  pending : List Handle
deriving DecidableEq, Repr

/-- A finished (or aborted) run: the application state it leaves, the calls it made, and
how it ended. -/
structure Run where
  app : Application
  trace : List Call
  outcome : Outcome
deriving DecidableEq, Repr

/-- Sequential composition: the statements `f` run after `r`, unless `r` already left the
function by an exception or an out-of-range access. -/
def Run.andThen (r : Run) (f : Application → Run) : Run :=
  match r.outcome with
  | Outcome.returned => ⟨(f r.app).app, r.trace ++ (f r.app).trace, (f r.app).outcome⟩
  | _ => r

/-- A run that only logs calls. -/
def logCalls (calls : List Call) (s : Application) : Run :=
  ⟨s, calls, Outcome.returned⟩

/-- The semantics of `std::vector::resize(n, v)`. -/
def vectorResize (xs : List Handle) (n : Nat) (v : Handle) : List Handle :=
  xs.take n ++ List.replicate (n - xs.length) v

/-- The driver hands out `n` fresh non-null handles. -/
def freshHandles (s : Application) (n : Nat) : List Handle :=
  List.range' (s.nextHandle + 1) n

/-! ## Environment -/

/-- The fields of `VkSurfaceCapabilitiesKHR` read by `createSwapChain` and
`chooseSwapExtent`; all are `uint32_t`. -/
structure VkSurfaceCapabilitiesKHR where
  minImageCount : Nat
  maxImageCount : Nat
  currentExtent : VkExtent2D
  minImageExtent : VkExtent2D
  maxImageExtent : VkExtent2D
deriving DecidableEq, Repr

/-- `SwapChainSupportDetails` (SwapChain.h), as filled by `querySwapChainSupport`. -/
structure SwapChainSupportDetails where
  capabilities : VkSurfaceCapabilitiesKHR
  formats : List VkSurfaceFormatKHR
  presentModes : List Nat
deriving DecidableEq, Repr

/-- What the window system and the driver answer during one (re)creation of the
swap-chain dependent data.

* `zeroAreaPolls`: one entry per iteration of the loop at Application.cpp:116-119 (the
  window is zero-area on entry exactly when the list is non-empty, and the loop is left
  after the last entry); the entry says whether `glfwWaitEvents` delivered a
  framebuffer-size event, which GLFW hands to `framebufferResizeCallback`
  (registered at Application.cpp:199).
* `surface`: what `querySwapChainSupport` reports (SwapChain.cpp:49).
* `windowSize`: what `glfwGetFramebufferSize` writes in `chooseSwapExtent`
  (SwapChain.cpp:178), two `int`s.
* `initSwapChain`: `swapChain.initSwapChain` raises, or returns with that many images
  (the count written by `vkGetSwapchainImagesKHR`, SwapChain.cpp:95).
* `initFramebufferData`: `framebufferData.initFramebufferData` raises, or returns with
  that many `framebuffers` and `imGuiFramebuffers`.
* the remaining fields are the exceptions raised by, or the status codes of, the calls of
  the same name (`vkBeginCommandBuffer` and `vkEndCommandBuffer` by command-buffer index). -/
structure CreationEnv where
  zeroAreaPolls : List Bool
  surface : SwapChainSupportDetails
  windowSize : Int × Int
  initSwapChain : Except String Nat
  initFramebufferData : Except String (Nat × Nat)
  createGBuffer : Option String
  createUniformBuffer : Option String
  vkAllocateDescriptorSets : VkResult
  vkAllocateCommandBuffers : CommandPool → VkResult
  vkBeginCommandBuffer : Nat → VkResult
  vkEndCommandBuffer : Nat → VkResult

/-- What the driver answers during one call of `drawFrame`: the status and the image index
written by `vkAcquireNextImageKHR`, the status of `vkBeginCommandBuffer` in
`recordGuiCommandBuffer`, the statuses of `vkQueueSubmit` and `vkQueuePresentKHR`, and the
answers to a recreation, should one happen. -/
structure FrameEnv where
  acquireResult : VkResult
  acquiredIndex : Nat
  guiBeginResult : VkResult
  submitResult : VkResult
  presentResult : VkResult
  recreate : CreationEnv

/-- What the driver answers during `initVulkan`: exceptions raised by the external
set-up calls, `model.getNumIndices(0)` and the number of material textures as loaded,
status codes of the creation calls made by `Application` itself (`vkCreateSyncObject i k`
is the status of the `k`-th creation call for frame `i` in `createSyncObjects`), and the
answers to the swap-chain creation. -/
structure InitEnv where
  initSetup : Option String
  loadModel : Except String (Nat × Nat)
  vkCreateDescriptorSetLayout : VkResult
  vkCreateCommandPool : CommandPool → VkResult
  createTexture : Option String
  createDeviceLocalBuffer : Option String
  vkCreateDescriptorPool : VkResult
  vkCreateSyncObject : Nat → Nat → VkResult
  creation : CreationEnv

/-! ## GPU-side effect of the synchronisation calls -/

/-- The call `vkWaitForFences(device, 1, &fence, VK_TRUE, UINT64_MAX)`: it returns once
`fence` is signalled, so on return no submission that signals `fence` is pending. -/
def waitForFence (fence : Handle) (s : Application) : Application :=
  { s with pending := s.pending.filter (fun f => f ≠ fence) }

/-- The call `vkDeviceWaitIdle`: on return no submission is pending. -/
def waitDeviceIdle (s : Application) : Run :=
  ⟨{ s with pending := [] }, [Call.vkDeviceWaitIdle], Outcome.returned⟩

/-- A step of the GPU: the `k`-th pending submission completes and signals its fence. -/
def gpuComplete (k : Nat) (s : Application) : Application :=
  { s with pending := s.pending.eraseIdx k }

/-! ## Command recording -/

/-- Application.cpp:424-478, `recordGeometryCommandBuffer(cmdBufferIndex)`. -/
def recordGeometryCommandBuffer (env : CreationEnv) (cmdBufferIndex : Nat)
    (s : Application) : Run :=
  let enter := Call.recordGeometryCommandBuffer cmdBufferIndex
  match s.renderCommandBuffers[cmdBufferIndex]? with
  | none => ⟨s, [enter], Outcome.outOfRange "renderCommandBuffers[cmdBufferIndex]"⟩
  | some cb =>
    if env.vkBeginCommandBuffer cmdBufferIndex ≠ VK_SUCCESS then
      ⟨s, [enter, Call.vkBeginCommandBuffer cb],
        Outcome.threw "failed to begin recording command buffer!"⟩
    else
      match s.framebuffers[cmdBufferIndex]? with
      | none =>
        ⟨s, [enter, Call.vkBeginCommandBuffer cb],
          Outcome.outOfRange "framebufferData.framebuffers[cmdBufferIndex]"⟩
      | some fb =>
        let bound := [enter, Call.vkBeginCommandBuffer cb,
          Call.vkCmdBeginRenderPass cb RenderPass.renderPass fb s.extent,
          Call.vkCmdBindPipeline cb, Call.vkCmdBindVertexBuffers cb,
          Call.vkCmdBindIndexBuffer cb]
        match s.descriptorSets[cmdBufferIndex]? with
        | none => ⟨s, bound, Outcome.outOfRange "descriptorSets[cmdBufferIndex]"⟩
        | some set =>
          let recorded := bound ++ [Call.vkCmdBindDescriptorSets cb set,
            Call.vkCmdDrawIndexed cb s.modelNumIndices 1, Call.vkCmdEndRenderPass cb,
            Call.vkEndCommandBuffer cb]
          if env.vkEndCommandBuffer cmdBufferIndex ≠ VK_SUCCESS then
            ⟨s, recorded, Outcome.threw "failed to record command buffer!"⟩
          else ⟨s, recorded, Outcome.returned⟩

/-- The loops at Application.cpp:107-109 and 146-148, over the given indices. -/
def recordGeometryCommandBuffers (env : CreationEnv) : List Nat → Application → Run
  | [], s => logCalls [] s
  | i :: rest, s =>
    (recordGeometryCommandBuffer env i s).andThen (recordGeometryCommandBuffers env rest)

/-- Application.cpp:480-513, `recordGuiCommandBuffer(cmdBufferIndex)`; line 505 indexes
with the member `imageIndex`. -/
def recordGuiCommandBuffer (beginResult : VkResult) (cmdBufferIndex : Nat)
    (s : Application) : Run :=
  let enter := [Call.recordGuiCommandBuffer cmdBufferIndex, Call.ImGui_Render]
  match s.imGuiCommandBuffers[cmdBufferIndex]? with
  | none => ⟨s, enter, Outcome.outOfRange "imGuiCommandBuffers[cmdBufferIndex]"⟩
  | some cb =>
    if beginResult ≠ VK_SUCCESS then
      ⟨s, enter ++ [Call.vkBeginCommandBuffer cb],
        Outcome.threw "failed to begin recording command buffer!"⟩
    else
      match s.imGuiFramebuffers[cmdBufferIndex]? with
      | none =>
        ⟨s, enter ++ [Call.vkBeginCommandBuffer cb],
          Outcome.outOfRange "framebufferData.imGuiFramebuffers[cmdBufferIndex]"⟩
      | some fb =>
        match s.imGuiCommandBuffers[s.imageIndex]? with
        | none =>
          ⟨s, enter ++ [Call.vkBeginCommandBuffer cb],
            Outcome.outOfRange "imGuiCommandBuffers[imageIndex]"⟩
        | some target =>
          ⟨s, enter ++ [Call.vkBeginCommandBuffer cb,
              Call.vkCmdBeginRenderPass target RenderPass.imGuiRenderPass fb s.extent,
              Call.ImGui_ImplVulkan_RenderDrawData cb, Call.vkCmdEndRenderPass cb,
              Call.vkEndCommandBuffer cb],
            Outcome.returned⟩

/-- Application.cpp:353-370, `updateUniformBuffers(currentImage)`. -/
def updateUniformBuffers (currentImage : Nat) (s : Application) : Run :=
  logCalls [Call.updateUniformBuffers currentImage] s

/-! ## Creation of the swap-chain dependent data -/

/-- A call into another class that either raises or returns. -/
def externalCall (call : Call) (failure : Option String) (s : Application) : Run :=
  match failure with
  | some what => ⟨s, [call], Outcome.calleeThrew what⟩
  | none => ⟨s, [call], Outcome.returned⟩

/-- The width of `uint32_t`. -/
def UINT32_MAX : Nat := 2 ^ 32 - 1

/-- `VK_FORMAT_B8G8R8A8_SRGB`. -/
def VK_FORMAT_B8G8R8A8_SRGB : Nat := 50

/-- `VK_COLOR_SPACE_SRGB_NONLINEAR_KHR`. -/
def VK_COLOR_SPACE_SRGB_NONLINEAR_KHR : Nat := 0

/-- `VK_PRESENT_MODE_MAILBOX_KHR`. -/
def VK_PRESENT_MODE_MAILBOX_KHR : Nat := 1

/-- `VK_PRESENT_MODE_FIFO_KHR`. -/
def VK_PRESENT_MODE_FIFO_KHR : Nat := 2

/-- `SwapChain::chooseSwapSurfaceFormat` (SwapChain.cpp:133-146): the first entry with the
wanted format and colour space, else `availableFormats[0]`; `none` is the read of element 0
of an empty vector. -/
def chooseSwapSurfaceFormat (availableFormats : List VkSurfaceFormatKHR) :
    Option VkSurfaceFormatKHR :=
  match availableFormats.find? (fun availableFormat =>
      availableFormat.format = VK_FORMAT_B8G8R8A8_SRGB ∧
        availableFormat.colorSpace = VK_COLOR_SPACE_SRGB_NONLINEAR_KHR) with
  | some availableFormat => some availableFormat
  | none => availableFormats[0]?

/-- `SwapChain::chooseSwapPresentMode` (SwapChain.cpp:148-165). -/
def chooseSwapPresentMode (availablePresentModes : List Nat) : Nat :=
  match availablePresentModes.find? (fun availablePresentMode =>
      availablePresentMode = VK_PRESENT_MODE_MAILBOX_KHR) with
  | some availablePresentMode => availablePresentMode
  | none => VK_PRESENT_MODE_FIFO_KHR

/-- The conversion `static_cast<uint32_t>` of an `int`. -/
def castUInt32 (value : Int) : Nat :=
  (value % 2 ^ 32).toNat

/-- `SwapChain::chooseSwapExtent` (SwapChain.cpp:167-192), given what
`glfwGetFramebufferSize` writes. -/
def chooseSwapExtent (capabilities : VkSurfaceCapabilitiesKHR) (windowSize : Int × Int) :
    VkExtent2D :=
  if capabilities.currentExtent.width ≠ UINT32_MAX then capabilities.currentExtent
  else
    { width := max capabilities.minImageExtent.width
        (min capabilities.maxImageExtent.width (castUInt32 windowSize.1)),
      height := max capabilities.minImageExtent.height
        (min capabilities.maxImageExtent.height (castUInt32 windowSize.2)) }

/-- The local `imageCount` of `createSwapChain` when `createInfo` is filled
(SwapChain.cpp:56-59); the addition is on `uint32_t`. -/
def requestedImageCount (capabilities : VkSurfaceCapabilitiesKHR) : Nat :=
  let imageCount := (capabilities.minImageCount + 1) % 2 ^ 32
  if capabilities.maxImageCount > 0 ∧ imageCount > capabilities.maxImageCount then
    capabilities.maxImageCount
  else imageCount

/-- The `createInfo` that `createSwapChain` hands to `vkCreateSwapchainKHR`
(SwapChain.cpp:61-87), for the chosen surface format. -/
def swapchainCreateInfo (env : CreationEnv) (surfaceFormat : VkSurfaceFormatKHR) :
    VkSwapchainCreateInfoKHR :=
  { minImageCount := requestedImageCount env.surface.capabilities,
    imageFormat := surfaceFormat.format,
    imageColorSpace := surfaceFormat.colorSpace,
    imageExtent := chooseSwapExtent env.surface.capabilities env.windowSize,
    presentMode := chooseSwapPresentMode env.surface.presentModes }

/-- The call `swapChain.initSwapChain(...)` (SwapChain.cpp:14-27), with `createSwapChain`
(SwapChain.cpp:48-102) and the sizing of `imageViews` (SwapChain.cpp:196) spelled out: on
return `swapChain.images` holds the images of the new swap chain, `swapChain.imageViews`
one view per image and `swapChain.extent` the negotiated extent. Image views are handles
of a type of their own; the view of an image carries the number of the image. -/
def initSwapChain (env : CreationEnv) (s : Application) : Run :=
  match chooseSwapSurfaceFormat env.surface.formats with
  | none => ⟨s, [Call.initSwapChain], Outcome.outOfRange "availableFormats[0]"⟩
  | some surfaceFormat =>
    match env.initSwapChain with
    | Except.error what =>
      ⟨s, [Call.initSwapChain, Call.vkCreateSwapchainKHR (swapchainCreateInfo env surfaceFormat)],
        Outcome.calleeThrew what⟩
    | Except.ok n =>
      ⟨{ s with
          images := freshHandles s n,
          imageViews := freshHandles s n,
          extent := chooseSwapExtent env.surface.capabilities env.windowSize,
          nextHandle := s.nextHandle + n },
        [Call.initSwapChain, Call.vkCreateSwapchainKHR (swapchainCreateInfo env surfaceFormat)],
        Outcome.returned⟩

/-- The call `framebufferData.initFramebufferData(...)`. The function is declared in
FramebufferData.h and its definition is not among the sources, so the lengths of the two
vectors it builds, `framebuffers` and `imGuiFramebuffers`, are taken from the
environment. -/
def initFramebufferData (env : CreationEnv) (s : Application) : Run :=
  match env.initFramebufferData with
  | Except.error what => ⟨s, [Call.initFramebufferData], Outcome.calleeThrew what⟩
  | Except.ok (n, m) =>
    ⟨{ s with framebuffers := freshHandles s n,
              imGuiFramebuffers := freshHandles { s with nextHandle := s.nextHandle + n } m,
              nextHandle := s.nextHandle + n + m },
      [Call.initFramebufferData], Outcome.returned⟩

/-- Application.cpp:295-349, `createDescriptorSets()`. -/
def createDescriptorSets (env : CreationEnv) (s : Application) : Run :=
  let n := s.images.length
  if env.vkAllocateDescriptorSets ≠ VK_SUCCESS then
    ⟨{ s with descriptorSets := vectorResize s.descriptorSets n VK_NULL_HANDLE },
      [Call.createDescriptorSets, Call.vkAllocateDescriptorSets n],
      Outcome.threw "failed to allocate descriptor sets!"⟩
  else
    ⟨{ s with descriptorSets := freshHandles s n, nextHandle := s.nextHandle + n,
              allocatedDescriptorSets := s.allocatedDescriptorSets + n },
      [Call.createDescriptorSets, Call.vkAllocateDescriptorSets n]
        ++ (freshHandles s n).map Call.vkUpdateDescriptorSets,
      Outcome.returned⟩

/-- The vector that the two call sites of `createCommandBuffers` pass together with the
pool (Application.cpp:100-101, 143-144). -/
def commandBuffersOf (pool : CommandPool) (s : Application) : List Handle :=
  match pool with
  | CommandPool.renderCommandPool => s.renderCommandBuffers
  | CommandPool.imGuiCommandPool => s.imGuiCommandBuffers

/-- Assignment to the vector that belongs to the pool. -/
def setCommandBuffers (pool : CommandPool) (buffers : List Handle) (s : Application) :
    Application :=
  match pool with
  | CommandPool.renderCommandPool => { s with renderCommandBuffers := buffers }
  | CommandPool.imGuiCommandPool => { s with imGuiCommandBuffers := buffers }

/-- Application.cpp:406-422, `createCommandBuffers(&commandBuffers, commandPool)`. -/
def createCommandBuffers (env : CreationEnv) (pool : CommandPool) (s : Application) : Run :=
  let n := s.framebuffers.length
  if env.vkAllocateCommandBuffers pool ≠ VK_SUCCESS then
    ⟨setCommandBuffers pool (vectorResize (commandBuffersOf pool s) n VK_NULL_HANDLE) s,
      [Call.createCommandBuffers pool, Call.vkAllocateCommandBuffers pool n],
      Outcome.threw "failed to allocate command buffers!"⟩
  else
    ⟨setCommandBuffers pool (freshHandles s n) { s with nextHandle := s.nextHandle + n },
      [Call.createCommandBuffers pool, Call.vkAllocateCommandBuffers pool n],
      Outcome.returned⟩

/-- One iteration of the loop at Application.cpp:116-119. -/
def zeroAreaPoll (resized : Bool) (s : Application) : Run :=
  if resized then
    ⟨{ s with framebufferResized := true },
      [Call.glfwGetFramebufferSize, Call.glfwWaitEvents, Call.framebufferResizeCallback],
      Outcome.returned⟩
  else ⟨s, [Call.glfwGetFramebufferSize, Call.glfwWaitEvents], Outcome.returned⟩

/-- The loop at Application.cpp:116-119. -/
def zeroAreaLoop : List Bool → Application → Run
  | [], s => logCalls [] s
  | resized :: rest, s => (zeroAreaPoll resized s).andThen (zeroAreaLoop rest)

/-- Application.cpp:112-152, `recreateVulkanData()`. -/
def recreateVulkanData (env : CreationEnv) (s : Application) : Run :=
  (logCalls [Call.recreateVulkanData, Call.glfwGetFramebufferSize] s)
    |>.andThen (zeroAreaLoop env.zeroAreaPolls)
    |>.andThen waitDeviceIdle
    |>.andThen (fun s => logCalls
        [Call.vkFreeCommandBuffers CommandPool.renderCommandPool s.renderCommandBuffers,
         Call.vkFreeCommandBuffers CommandPool.imGuiCommandPool s.imGuiCommandBuffers,
         Call.cleanupBufferData BufferMember.uniforms, Call.cleanupGBuffer,
         Call.cleanupFrambufferData,
         Call.cleanupSwapChain] s)
    |>.andThen (initSwapChain env)
    |>.andThen (initFramebufferData env)
    |>.andThen (externalCall Call.createGBuffer env.createGBuffer)
    |>.andThen (fun s =>
        externalCall (Call.createUniformBuffer s.images.length) env.createUniformBuffer s)
    |>.andThen (createDescriptorSets env)
    |>.andThen (createCommandBuffers env CommandPool.renderCommandPool)
    |>.andThen (createCommandBuffers env CommandPool.imGuiCommandPool)
    |>.andThen (fun s => recordGeometryCommandBuffers env (List.range s.images.length) s)
    |>.andThen (fun s => logCalls [Call.ImGui_ImplVulkan_SetMinImageCount s.images.length] s)

/-! ## Synchronisation objects and start-up -/

/-- The body of the loop at Application.cpp:542-549 for frame `i`. -/
def createFrameSyncObjects (env : InitEnv) (i : Nat) (s : Application) : Run :=
  if env.vkCreateSyncObject i 0 ≠ VK_SUCCESS then
    ⟨s, [Call.startup StartupCall.vkCreateSemaphore],
      Outcome.threw "failed to create semaphores!"⟩
  else if env.vkCreateSyncObject i 1 ≠ VK_SUCCESS then
    ⟨{ s with imageAvailableSemaphores := s.imageAvailableSemaphores.set i (s.nextHandle + 1),
              nextHandle := s.nextHandle + 1 },
      [Call.startup StartupCall.vkCreateSemaphore, Call.startup StartupCall.vkCreateSemaphore],
      Outcome.threw "failed to create semaphores!"⟩
  else if env.vkCreateSyncObject i 2 ≠ VK_SUCCESS then
    ⟨{ s with imageAvailableSemaphores := s.imageAvailableSemaphores.set i (s.nextHandle + 1),
              renderFinishedSemaphores := s.renderFinishedSemaphores.set i (s.nextHandle + 2),
              nextHandle := s.nextHandle + 2 },
      [Call.startup StartupCall.vkCreateSemaphore, Call.startup StartupCall.vkCreateSemaphore,
        Call.startup StartupCall.vkCreateFence],
      Outcome.threw "failed to create semaphores!"⟩
  else
    ⟨{ s with imageAvailableSemaphores := s.imageAvailableSemaphores.set i (s.nextHandle + 1),
              renderFinishedSemaphores := s.renderFinishedSemaphores.set i (s.nextHandle + 2),
              inFlightFences := s.inFlightFences.set i (s.nextHandle + 3),
              nextHandle := s.nextHandle + 3 },
      [Call.startup StartupCall.vkCreateSemaphore, Call.startup StartupCall.vkCreateSemaphore,
        Call.startup StartupCall.vkCreateFence],
      Outcome.returned⟩

/-- The loop at Application.cpp:542-549, over the given frame indices. -/
def createSyncObjectsLoop (env : InitEnv) : List Nat → Application → Run
  | [], s => logCalls [] s
  | i :: rest, s => (createFrameSyncObjects env i s).andThen (createSyncObjectsLoop env rest)

/-- Application.cpp:526-550, `createSyncObjects()`, with `maxFrames` for
`MAX_FRAMES_IN_FLIGHT`. The fences are created signalled. -/
def createSyncObjects (maxFrames : Nat) (env : InitEnv) (s : Application) : Run :=
  (logCalls [Call.startup StartupCall.createSyncObjects]
    { s with
      imageAvailableSemaphores := vectorResize s.imageAvailableSemaphores maxFrames VK_NULL_HANDLE,
      renderFinishedSemaphores := vectorResize s.renderFinishedSemaphores maxFrames VK_NULL_HANDLE,
      inFlightFences := vectorResize s.inFlightFences maxFrames VK_NULL_HANDLE,
      imagesInFlight := vectorResize s.imagesInFlight s.images.length VK_NULL_HANDLE })
    |>.andThen (createSyncObjectsLoop env (List.range maxFrames))

/-- The application object before `run()`: empty vectors and the member initialisers of
Application.h:132-141; nothing is pending on the GPU. -/
def Application.initial : Application :=
  { images := [], imageViews := [], extent := ⟨0, 0⟩, textureCount := 0, framebuffers := [],
    imGuiFramebuffers := [], descriptorSets := [],
    renderCommandBuffers := [], imGuiCommandBuffers := [], imageAvailableSemaphores := [],
    renderFinishedSemaphores := [], inFlightFences := [], imagesInFlight := [],
    framebufferResized := false, currentFrame := 0, imageIndex := 0, modelNumIndices := 0,
    allocatedDescriptorSets := 0, nextHandle := 0, pending := [] }

/-- A call that raises when its status code is not `VK_SUCCESS`. -/
def checkedCall (call : Call) (result : VkResult) (what : String) (s : Application) : Run :=
  if result ≠ VK_SUCCESS then ⟨s, [call], Outcome.threw what⟩
  else ⟨s, [call], Outcome.returned⟩

/-- The call `model.loadModel(MODEL_PATH)` (Application.cpp:61): on return the index count
of the model is known, and `textures` is sized to the material textures of the model
(Application.cpp:64-65). -/
def loadModel (env : InitEnv) (s : Application) : Run :=
  match env.loadModel with
  | Except.error what => ⟨s, [Call.startup StartupCall.loadModel], Outcome.calleeThrew what⟩
  | Except.ok (numIndices, textures) =>
    ⟨{ s with modelNumIndices := numIndices, textureCount := textures },
      [Call.startup StartupCall.loadModel], Outcome.returned⟩

/-- The loop at Application.cpp:79-82, over the given texture indices. -/
def createTextures (env : InitEnv) : List Nat → Application → Run
  | [], s => logCalls [] s
  | _ :: rest, s =>
    (externalCall (Call.startup StartupCall.createTexture) env.createTexture s).andThen
      (createTextures env rest)

/-- The number of material textures of the loaded model (Application.cpp:64-65). -/
def textureCount (env : InitEnv) : Nat :=
  match env.loadModel with
  | Except.error _ => 0
  | Except.ok (_, textures) => textures

/-- Application.cpp:53-110, `initVulkan()`, with `maxFrames` for `MAX_FRAMES_IN_FLIGHT`. The
`maxSets` of the descriptor pool is a product of two `uint32_t` (Application.cpp:287). -/
def initVulkan (maxFrames : Nat) (env : InitEnv) (s : Application) : Run :=
  (externalCall (Call.startup StartupCall.initSetup) env.initSetup s)
    |>.andThen (loadModel env)
    |>.andThen (checkedCall (Call.startup StartupCall.createDescriptorSetLayout)
        env.vkCreateDescriptorSetLayout
        "failed to create descriptor set layout!")
    |>.andThen (checkedCall
        (Call.startup (StartupCall.createCommandPool CommandPool.renderCommandPool))
        (env.vkCreateCommandPool CommandPool.renderCommandPool) "failed to create command pool!")
    |>.andThen (checkedCall
        (Call.startup (StartupCall.createCommandPool CommandPool.imGuiCommandPool))
        (env.vkCreateCommandPool CommandPool.imGuiCommandPool) "failed to create command pool!")
    |>.andThen (initSwapChain env.creation)
    |>.andThen (initFramebufferData env.creation)
    |>.andThen (externalCall Call.createGBuffer env.creation.createGBuffer)
    |>.andThen (createTextures env (List.range (textureCount env)))
    |>.andThen (externalCall
        (Call.startup (StartupCall.createDeviceLocalBuffer BufferMember.vertexBuffer))
        env.createDeviceLocalBuffer)
    |>.andThen (externalCall
        (Call.startup (StartupCall.createDeviceLocalBuffer BufferMember.indexBuffer))
        env.createDeviceLocalBuffer)
    |>.andThen (fun s => externalCall (Call.createUniformBuffer s.images.length)
        env.creation.createUniformBuffer s)
    |>.andThen (fun s => checkedCall
        (Call.startup (StartupCall.createDescriptorPool
          ((IMGUI_POOL_NUM * s.images.length) % 2 ^ 32)))
        env.vkCreateDescriptorPool "failed to create descriptor pool!" s)
    |>.andThen (createDescriptorSets env.creation)
    |>.andThen (createCommandBuffers env.creation CommandPool.renderCommandPool)
    |>.andThen (createCommandBuffers env.creation CommandPool.imGuiCommandPool)
    |>.andThen (createSyncObjects maxFrames env)
    |>.andThen (fun s =>
        recordGeometryCommandBuffers env.creation (List.range s.images.length) s)

/-! ## The frame -/

/-- Application.cpp:602-606: wait for the fence of the current frame slot, then ask for
the next image. `vkAcquireNextImageKHR` writes the member `imageIndex`. -/
def waitAndAcquire (env : FrameEnv) (s : Application) : Run :=
  match s.inFlightFences[s.currentFrame]? with
  | none => ⟨s, [], Outcome.outOfRange "inFlightFences[currentFrame]"⟩
  | some fence =>
    match s.imageAvailableSemaphores[s.currentFrame]? with
    | none =>
      ⟨waitForFence fence s, [Call.vkWaitForFences fence],
        Outcome.outOfRange "imageAvailableSemaphores[currentFrame]"⟩
    | some semaphore =>
      ⟨{ waitForFence fence s with imageIndex := env.acquiredIndex },
        [Call.vkWaitForFences fence, Call.vkAcquireNextImageKHR semaphore],
        Outcome.returned⟩

/-- Application.cpp:623-629: wait for the fence that guards the acquired image, if there
is one, and mark the image as used by the current frame slot. -/
def markImageInFlight (s : Application) : Run :=
  match s.imagesInFlight[s.imageIndex]? with
  | none => ⟨s, [], Outcome.outOfRange "imagesInFlight[imageIndex]"⟩
  | some guard =>
    let waited : Run :=
      if guard ≠ VK_NULL_HANDLE then
        ⟨waitForFence guard s, [Call.vkWaitForFences guard], Outcome.returned⟩
      else logCalls [] s
    match s.inFlightFences[s.currentFrame]? with
    | none => ⟨waited.app, waited.trace, Outcome.outOfRange "inFlightFences[currentFrame]"⟩
    | some fence =>
      ⟨{ waited.app with imagesInFlight := s.imagesInFlight.set s.imageIndex fence },
        waited.trace, Outcome.returned⟩

/-- The locals that `drawFrame` builds for the submission (Application.cpp:638-656). -/
structure SubmitLocals where
  submitCommandBuffers : List Handle
  waitSemaphores : List Handle
  waitStages : List Nat
  signalSemaphores : List Handle
deriving DecidableEq, Repr

/-- Application.cpp:638-656: the vector reads that fill the locals, in program order; an
out-of-range read is reported by its source text. -/
def submitLocals (s : Application) : Except String SubmitLocals :=
  match s.renderCommandBuffers[s.imageIndex]? with
  | none => Except.error "renderCommandBuffers[imageIndex]"
  | some render =>
    match s.imGuiCommandBuffers[s.imageIndex]? with
    | none => Except.error "imGuiCommandBuffers[imageIndex]"
    | some gui =>
      match s.imageAvailableSemaphores[s.currentFrame]? with
      | none => Except.error "imageAvailableSemaphores[currentFrame]"
      | some available =>
        match s.renderFinishedSemaphores[s.imageIndex]? with
        | none => Except.error "renderFinishedSemaphores[imageIndex]"
        | some finished =>
          Except.ok ⟨[render, gui], [available],
            [VK_PIPELINE_STAGE_COLOR_ATTACHMENT_OUTPUT_BIT], [finished]⟩

/-- Application.cpp:641-668: reset the fence of the current frame slot and submit. A
successful submission is pending until its fence is signalled. -/
def submitFrame (env : FrameEnv) (l : SubmitLocals) (s : Application) : Run :=
  match s.inFlightFences[s.currentFrame]? with
  | none => ⟨s, [], Outcome.outOfRange "inFlightFences[currentFrame]"⟩
  | some fence =>
    let calls := [Call.vkResetFences fence,
      Call.vkQueueSubmit ⟨l.waitSemaphores, l.waitStages, l.submitCommandBuffers,
        l.signalSemaphores⟩ fence]
    if env.submitResult ≠ VK_SUCCESS then
      ⟨s, calls, Outcome.threw "failed to submit draw command buffer!"⟩
    else ⟨{ s with pending := s.pending ++ [fence] }, calls, Outcome.returned⟩

/-- Application.cpp:698. -/
def advanceFrame (maxFrames : Nat) (s : Application) : Run :=
  logCalls [] { s with currentFrame := (s.currentFrame + 1) % maxFrames }

/-- Application.cpp:670-698: present, recreate or raise according to the status and the
resize flag, and advance the frame slot. -/
def presentFrame (maxFrames : Nat) (env : FrameEnv) (l : SubmitLocals) (s : Application) :
    Run :=
  let present := Call.vkQueuePresentKHR ⟨l.signalSemaphores, [s.imageIndex]⟩
  if env.presentResult = VK_ERROR_OUT_OF_DATE_KHR ∨ env.presentResult = VK_SUBOPTIMAL_KHR
      ∨ s.framebufferResized = true then
    (logCalls [present] { s with framebufferResized := false })
      |>.andThen (recreateVulkanData env.recreate)
      |>.andThen (advanceFrame maxFrames)
  else if env.presentResult ≠ VK_SUCCESS then
    ⟨s, [present], Outcome.threw "failed to present swap chain image!"⟩
  else (logCalls [present] s).andThen (advanceFrame maxFrames)

/-- Application.cpp:623-698: the part of `drawFrame` after a usable image was acquired. -/
def renderAcquiredImage (maxFrames : Nat) (env : FrameEnv) (s : Application) : Run :=
  (markImageInFlight s)
    |>.andThen (fun s => updateUniformBuffers s.imageIndex s)
    |>.andThen (fun s => recordGuiCommandBuffer env.guiBeginResult s.imageIndex s)
    |>.andThen (fun s =>
        match submitLocals s with
        | Except.error access => ⟨s, [], Outcome.outOfRange access⟩
        | Except.ok l => (submitFrame env l s).andThen (presentFrame maxFrames env l))

/-- Application.cpp:591-699, `drawFrame()`, with `maxFrames` for `MAX_FRAMES_IN_FLIGHT`. -/
def drawFrame (maxFrames : Nat) (env : FrameEnv) (s : Application) : Run :=
  (waitAndAcquire env s).andThen (fun s =>
    if env.acquireResult = VK_ERROR_OUT_OF_DATE_KHR then
      recreateVulkanData env.recreate s
    else if env.acquireResult ≠ VK_SUCCESS ∧ env.acquireResult ≠ VK_SUBOPTIMAL_KHR then
      ⟨s, [], Outcome.threw "failed to acquire swap chain image!"⟩
    else renderAcquiredImage maxFrames env s)

/-- Application.cpp:517-522, `framebufferResizeCallback`, as run by `glfwPollEvents`
between two frames. -/
def framebufferResizeCallback (s : Application) : Application :=
  { s with framebufferResized := true }

/-! ## Classification of calls, and the members that recreation keeps -/

/-- Calls that `recreateVulkanData` makes after its entry. -/
def Call.inRecreation : Call → Bool
  | Call.glfwGetFramebufferSize => true
  | Call.glfwWaitEvents => true
  | Call.framebufferResizeCallback => true
  | Call.vkDeviceWaitIdle => true
  | Call.vkFreeCommandBuffers _ _ => true
  | Call.cleanupBufferData _ => true
  | Call.cleanupGBuffer => true
  | Call.cleanupFrambufferData => true
  | Call.cleanupSwapChain => true
  | Call.initSwapChain => true
  | Call.vkCreateSwapchainKHR _ => true
  | Call.initFramebufferData => true
  | Call.createGBuffer => true
  | Call.createUniformBuffer _ => true
  | Call.createDescriptorSets => true
  | Call.vkAllocateDescriptorSets _ => true
  | Call.vkUpdateDescriptorSets _ => true
  | Call.createCommandBuffers _ => true
  | Call.vkAllocateCommandBuffers _ _ => true
  | Call.recordGeometryCommandBuffer _ => true
  | Call.vkBeginCommandBuffer _ => true
  | Call.vkCmdBeginRenderPass _ _ _ _ => true
  | Call.vkCmdBindPipeline _ => true
  | Call.vkCmdBindVertexBuffers _ => true
  | Call.vkCmdBindIndexBuffer _ => true
  | Call.vkCmdBindDescriptorSets _ _ => true
  | Call.vkCmdDrawIndexed _ _ _ => true
  | Call.vkCmdEndRenderPass _ => true
  | Call.vkEndCommandBuffer _ => true
  | Call.ImGui_ImplVulkan_SetMinImageCount _ => true
  | _ => false

/-- The members that `drawFrame` synchronises on: the vectors of semaphores and fences, the
marker vector, the two indices, the GPU-side list and the resize flag. The creation calls
of the swap-chain dependent data write none of them. -/
def Application.kept (s : Application) :
    List Handle × List Handle × List Handle × List Handle × Nat × Nat × List Handle × Bool :=
  (s.imageAvailableSemaphores, s.renderFinishedSemaphores, s.inFlightFences,
    s.imagesInFlight, s.currentFrame, s.imageIndex, s.pending, s.framebufferResized)

/-! ## Concrete environments and states -/

/-- A creation environment in which every call succeeds, the window is not minimised, and
the swap chain has `images` images with one framebuffer of each kind per image. -/
def exampleCreation (images : Nat) : CreationEnv :=
  { zeroAreaPolls := [],
    surface :=
      { capabilities :=
          { minImageCount := images - 1, maxImageCount := 8, currentExtent := ⟨800, 600⟩,
            minImageExtent := ⟨1, 1⟩, maxImageExtent := ⟨4096, 4096⟩ },
        formats := [⟨VK_FORMAT_B8G8R8A8_SRGB, VK_COLOR_SPACE_SRGB_NONLINEAR_KHR⟩],
        presentModes := [VK_PRESENT_MODE_FIFO_KHR] },
    windowSize := (800, 600),
    initSwapChain := Except.ok images,
    initFramebufferData := Except.ok (images, images), createGBuffer := none,
    createUniformBuffer := none, vkAllocateDescriptorSets := VK_SUCCESS,
    vkAllocateCommandBuffers := fun _ => VK_SUCCESS,
    vkBeginCommandBuffer := fun _ => VK_SUCCESS, vkEndCommandBuffer := fun _ => VK_SUCCESS }

/-- A start-up environment in which every call succeeds. -/
def exampleInit (images : Nat) : InitEnv :=
  { initSetup := none, loadModel := Except.ok (36, 1),
    vkCreateDescriptorSetLayout := VK_SUCCESS, vkCreateCommandPool := fun _ => VK_SUCCESS,
    createTexture := none, createDeviceLocalBuffer := none,
    vkCreateDescriptorPool := VK_SUCCESS, vkCreateSyncObject := fun _ _ => VK_SUCCESS,
    creation := exampleCreation images }

/-- A frame environment in which image `i` is acquired and every call succeeds; a
recreation, should one happen, keeps `images` images. -/
def exampleFrame (i images : Nat) : FrameEnv :=
  { acquireResult := VK_SUCCESS, acquiredIndex := i, guiBeginResult := VK_SUCCESS,
    submitResult := VK_SUCCESS, presentResult := VK_SUCCESS,
    recreate := exampleCreation images }

/-- The application after a successful `initVulkan` with two frames in flight and three
swap-chain images. -/
def exampleStarted : Application :=
  (initVulkan MAX_FRAMES_IN_FLIGHT (exampleInit 3) Application.initial).app

/-- The acquisition reports out-of-date and the descriptor-set allocation of the
recreation fails with the status `-1000069000` (`VK_ERROR_OUT_OF_POOL_MEMORY`). -/
def exampleOutOfDateFailing : FrameEnv :=
  { exampleFrame 0 3 with
    acquireResult := VK_ERROR_OUT_OF_DATE_KHR,
    recreate := { exampleCreation 3 with vkAllocateDescriptorSets := -1000069000 } }

/-! ## Notions used to state the properties of a frame -/

/-- Calls that `drawFrame` makes before it resets the fence for the submission
(Application.cpp:602-635). -/
def Call.inPreparation : Call → Bool
  | Call.vkWaitForFences _ => true
  | Call.vkAcquireNextImageKHR _ => true
  | Call.updateUniformBuffers _ => true
  | Call.recordGuiCommandBuffer _ => true
  | Call.ImGui_Render => true
  | Call.vkBeginCommandBuffer _ => true
  | Call.vkCmdBeginRenderPass _ _ _ _ => true
  | Call.ImGui_ImplVulkan_RenderDrawData _ => true
  | Call.vkCmdEndRenderPass _ => true
  | Call.vkEndCommandBuffer _ => true
  | _ => false

/-- The wait of Application.cpp:624-626 as a list of calls: one wait when the marker of
the image names a fence, none when it is `VK_NULL_HANDLE`. -/
def guardWait (guard : Handle) : List Call :=
  if guard ≠ VK_NULL_HANDLE then [Call.vkWaitForFences guard] else []

/-- The state in which `updateUniformBuffers` is called (Application.cpp:632), given the
state `s` right after the acquisition, the marker `guard` read for the acquired image and
the fence `fence` of the current frame slot. -/
def markedState (guard fence : Handle) (s : Application) : Application :=
  { (if guard ≠ VK_NULL_HANDLE then waitForFence guard s else s) with
    imagesInFlight := s.imagesInFlight.set s.imageIndex fence }

/-- The state right after `vkAcquireNextImageKHR` returned (Application.cpp:606), given the
fence `fence` of the current frame slot. -/
def acquiredState (env : FrameEnv) (fence : Handle) (s : Application) : Application :=
  { waitForFence fence s with imageIndex := env.acquiredIndex }

/-- The calls of Application.cpp:602-635 in a frame that reaches the submission: the wait
on the fence of the frame slot, the acquisition, the wait on the marker of the image (if
any), the uniform update and the GUI recording. -/
def preparationCalls (env : FrameEnv) (fence semaphore guard : Handle) (s : Application) :
    List Call :=
  [Call.vkWaitForFences fence, Call.vkAcquireNextImageKHR semaphore] ++ guardWait guard ++
    Call.updateUniformBuffers env.acquiredIndex ::
      (recordGuiCommandBuffer env.guiBeginResult env.acquiredIndex
        (markedState guard fence (acquiredState env fence s))).trace

/-- The calls of Application.cpp:661 and 666. -/
def submitCalls (l : SubmitLocals) (fence : Handle) : List Call :=
  [Call.vkResetFences fence,
    Call.vkQueueSubmit
      ⟨l.waitSemaphores, l.waitStages, l.submitCommandBuffers, l.signalSemaphores⟩ fence]

/-- The state right after a successful `vkQueueSubmit` (Application.cpp:668). -/
def submittedState (env : FrameEnv) (guard fence : Handle) (s : Application) : Application :=
  { markedState guard fence (acquiredState env fence s) with
    pending := (markedState guard fence (acquiredState env fence s)).pending ++ [fence] }

/-! ## Reachable states and the bound on outstanding submissions -/

/-- The states the application can be in between two frames: the state left by a
successful `initVulkan`, the state left by a `drawFrame` that returned, the state after
the GPU completed one pending submission, and the state after `glfwPollEvents` delivered
a resize event. -/
inductive Reachable (maxFrames : Nat) : Application → Prop where
  | init (env : InitEnv) :
      (initVulkan maxFrames env Application.initial).outcome = Outcome.returned →
      Reachable maxFrames (initVulkan maxFrames env Application.initial).app
  | frame (env : FrameEnv) (s : Application) :
      Reachable maxFrames s →
      (drawFrame maxFrames env s).outcome = Outcome.returned →
      Reachable maxFrames (drawFrame maxFrames env s).app
  | gpu (k : Nat) (s : Application) :
      Reachable maxFrames s → Reachable maxFrames (gpuComplete k s)
  | resized (s : Application) :
      Reachable maxFrames s → Reachable maxFrames (framebufferResizeCallback s)

/-- Every pending submission signals a different fence, each of them one of the
`maxFrames` fences of `inFlightFences`. -/
def SubmissionInv (maxFrames : Nat) (s : Application) : Prop :=
  s.pending.Nodup ∧ (∀ f ∈ s.pending, f ∈ s.inFlightFences) ∧
    s.inFlightFences.length = maxFrames

/-- The application after `exampleStarted` drew two frames (images 0 and 1) with no GPU
completion in between. -/
def exampleTwoFrames : Application :=
  (drawFrame MAX_FRAMES_IN_FLIGHT (exampleFrame 1 3)
    (drawFrame MAX_FRAMES_IN_FLIGHT (exampleFrame 0 3) exampleStarted).app).app

/-- The ways in which `drawFrame` can stop between the acquisition and the submission
(Application.cpp:623-656): an out-of-range read, or the exception of
`recordGuiCommandBuffer`. -/
def Outcome.stoppedInPreparation (o : Outcome) : Prop :=
  (∃ access, o = Outcome.outOfRange access) ∨
    o = Outcome.threw "failed to begin recording command buffer!"

/-- The ways in which `recreateVulkanData` can end: it returns, an exception leaves one of
the classes it calls, one of the `throw` statements of `createDescriptorSets`,
`createCommandBuffers` and `recordGeometryCommandBuffer` is executed, or a vector is read
out of range. -/
def Outcome.ofRecreation : Outcome → Bool
  | Outcome.returned => true
  | Outcome.calleeThrew _ => true
  | Outcome.outOfRange _ => true
  | Outcome.threw what =>
    what = "failed to allocate descriptor sets!" ∨ what = "failed to allocate command buffers!"
      ∨ what = "failed to begin recording command buffer!"
      ∨ what = "failed to record command buffer!"

/-- The acquisition reports out-of-date and the recreation succeeds. -/
def exampleOutOfDate : FrameEnv :=
  { exampleFrame 0 3 with acquireResult := VK_ERROR_OUT_OF_DATE_KHR }

/-- The acquisition reports out-of-date and the recreation builds a swap chain of four
images. -/
def exampleOutOfDateGrowing : FrameEnv :=
  { exampleFrame 0 4 with acquireResult := VK_ERROR_OUT_OF_DATE_KHR }

/-- The application after `exampleStarted` drew one frame on image 0. -/
def exampleFirstFrame : Application :=
  (drawFrame MAX_FRAMES_IN_FLIGHT (exampleFrame 0 3) exampleStarted).app

/-- The application after a resize event and a frame on image 0 whose recreation builds a
swap chain of four images. -/
def exampleGrown : Application :=
  (drawFrame MAX_FRAMES_IN_FLIGHT (exampleFrame 0 4)
    (framebufferResizeCallback exampleStarted)).app

/-- A resize event is pending and `vkQueuePresentKHR` reports the status `-4`
(`VK_ERROR_DEVICE_LOST`), which is none of success, suboptimal and out-of-date. -/
def examplePresentError : FrameEnv :=
  { exampleFrame 0 3 with presentResult := -4 }

/-- The window is zero-area when the recreation starts, and `glfwWaitEvents` delivers a
framebuffer-size event before it is not. -/
def exampleResizeWhileWaiting : FrameEnv :=
  { exampleFrame 0 3 with recreate := { exampleCreation 3 with zeroAreaPolls := [true] } }

/-- The acquisition reports suboptimal; the submission and the present succeed. -/
def exampleSuboptimal : FrameEnv :=
  { exampleFrame 0 3 with acquireResult := VK_SUBOPTIMAL_KHR }

/-- The acquisition reports the status `-4` (`VK_ERROR_DEVICE_LOST`). -/
def exampleAcquireError : FrameEnv :=
  { exampleFrame 0 3 with acquireResult := -4 }

/-! ## The lifetime of the application: `run`, `mainLoop`, `cleanup` -/

/-- What the window system answers during one iteration of the loop of `mainLoop`
(Application.cpp:561-585), an iteration being entered when `glfwWindowShouldClose` returns
false: whether `glfwPollEvents` delivers a framebuffer-size event (GLFW then runs
`framebufferResizeCallback`), whether `glfwGetKey` reports the ESC key in
`processKeyInput`, whether the right mouse button is down, and the answers to the
`drawFrame` call of the iteration. -/
structure LoopEnv where
  resized : Bool
  escapePressed : Bool
  rightButtonPressed : Bool
  frame : FrameEnv

/-- The value returned by `processKeyInput` (Application.cpp:715-740). -/
def processKeyInput (env : LoopEnv) : Int :=
  if env.escapePressed then 0 else 1

/-- The `glfwPollEvents` call at Application.cpp:562. -/
def pollEvents (env : LoopEnv) (s : Application) : Run :=
  if env.resized then
    ⟨framebufferResizeCallback s,
      [Call.lifecycle LifecycleCall.glfwPollEvents, Call.framebufferResizeCallback],
      Outcome.returned⟩
  else ⟨s, [Call.lifecycle LifecycleCall.glfwPollEvents], Outcome.returned⟩

/-- Application.cpp:571-577, the mouse input of one iteration. -/
def mouseInput (env : LoopEnv) (s : Application) : Run :=
  if env.rightButtonPressed then
    logCalls [Call.lifecycle LifecycleCall.glfwGetMouseButton,
      Call.lifecycle LifecycleCall.processMouseInput] s
  else logCalls [Call.lifecycle LifecycleCall.glfwGetMouseButton] s

/-- The loop of `mainLoop` followed by the `vkDeviceWaitIdle` after it
(Application.cpp:561-586). The list holds the iterations that the window system lets the
loop enter; when it is used up `glfwWindowShouldClose` returns true. An iteration in which
`processKeyInput` returns 0 leaves the loop by `break`. -/
def mainLoopIterations (maxFrames : Nat) : List LoopEnv → Application → Run
  | [], s => (logCalls [Call.lifecycle LifecycleCall.glfwWindowShouldClose] s).andThen waitDeviceIdle
  | env :: rest, s =>
    (logCalls [Call.lifecycle LifecycleCall.glfwWindowShouldClose] s)
      |>.andThen (pollEvents env)
      |>.andThen (logCalls [Call.lifecycle LifecycleCall.glfwGetCursorPos,
          Call.lifecycle LifecycleCall.processKeyInput])
      |>.andThen (fun s =>
        if processKeyInput env = 0 then waitDeviceIdle s
        else
          (mouseInput env s)
            |>.andThen (logCalls [Call.lifecycle LifecycleCall.setGUI,
                Call.lifecycle LifecycleCall.drawFrame])
            |>.andThen (drawFrame maxFrames env.frame)
            |>.andThen (logCalls [Call.lifecycle LifecycleCall.glfwGetCursorPos])
            |>.andThen (mainLoopIterations maxFrames rest))

/-- Application.cpp:556-587, `mainLoop()`. -/
def mainLoop (maxFrames : Nat) (envs : List LoopEnv) (s : Application) : Run :=
  (logCalls [Call.lifecycle LifecycleCall.glfwGetCursorPos] s).andThen
    (mainLoopIterations maxFrames envs)

/-- One iteration of the loop at Application.cpp:799-803. -/
def destroyFrameSyncObjects (i : Nat) (s : Application) : Run :=
  match s.renderFinishedSemaphores[i]? with
  | none => ⟨s, [], Outcome.outOfRange "renderFinishedSemaphores[i]"⟩
  | some renderFinished =>
    match s.imageAvailableSemaphores[i]? with
    | none =>
      ⟨s, [Call.lifecycle (LifecycleCall.vkDestroySemaphore renderFinished)],
        Outcome.outOfRange "imageAvailableSemaphores[i]"⟩
    | some imageAvailable =>
      match s.inFlightFences[i]? with
      | none =>
        ⟨s, [Call.lifecycle (LifecycleCall.vkDestroySemaphore renderFinished),
            Call.lifecycle (LifecycleCall.vkDestroySemaphore imageAvailable)],
          Outcome.outOfRange "inFlightFences[i]"⟩
      | some fence =>
        logCalls [Call.lifecycle (LifecycleCall.vkDestroySemaphore renderFinished),
          Call.lifecycle (LifecycleCall.vkDestroySemaphore imageAvailable),
          Call.lifecycle (LifecycleCall.vkDestroyFence fence)] s

/-- The loop at Application.cpp:799-803, over the given frame indices. -/
def destroySyncObjects : List Nat → Application → Run
  | [], s => logCalls [] s
  | i :: rest, s => (destroyFrameSyncObjects i s).andThen (destroySyncObjects rest)

/-- Application.cpp:767-815, `cleanup()`, with `maxFrames` for `MAX_FRAMES_IN_FLIGHT`. -/
def cleanup (maxFrames : Nat) (s : Application) : Run :=
  (logCalls
      ([Call.lifecycle LifecycleCall.cleanup,
        Call.lifecycle LifecycleCall.ImGui_ImplVulkan_Shutdown,
        Call.lifecycle LifecycleCall.ImGui_ImplGlfw_Shutdown,
        Call.lifecycle LifecycleCall.ImGui_DestroyContext]
        ++ List.replicate s.textureCount (Call.lifecycle LifecycleCall.cleanupTexture)
        ++ [Call.vkFreeCommandBuffers CommandPool.renderCommandPool s.renderCommandBuffers,
            Call.vkFreeCommandBuffers CommandPool.imGuiCommandPool s.imGuiCommandBuffers,
            Call.cleanupBufferData BufferMember.uniforms,
            Call.cleanupGBuffer,
            Call.cleanupFrambufferData,
            Call.cleanupSwapChain,
            Call.lifecycle LifecycleCall.vkDestroyDescriptorPool,
            Call.lifecycle LifecycleCall.vkDestroyDescriptorSetLayout,
            Call.cleanupBufferData BufferMember.indexBuffer,
            Call.cleanupBufferData BufferMember.vertexBuffer]) s)
    |>.andThen (destroySyncObjects (List.range maxFrames))
    |>.andThen (logCalls
      [Call.lifecycle (LifecycleCall.vkDestroyCommandPool CommandPool.renderCommandPool),
       Call.lifecycle (LifecycleCall.vkDestroyCommandPool CommandPool.imGuiCommandPool),
       Call.lifecycle LifecycleCall.cleanupSetup,
       Call.lifecycle LifecycleCall.glfwDestroyWindow,
       Call.lifecycle LifecycleCall.glfwTerminate])

/-- What the outside answers during `run()`: the answers to `initVulkan`, the exception
raised by `initImGui` if any, and the iterations of the main loop. -/
structure RunEnv where
  init : InitEnv
  initImGui : Option String
  loop : List LoopEnv

/-- Application.cpp:34-49, `run()`, with `maxFrames` for `MAX_FRAMES_IN_FLIGHT`. -/
def run (maxFrames : Nat) (env : RunEnv) : Run :=
  (logCalls [Call.lifecycle LifecycleCall.initWindow] Application.initial)
    |>.andThen (initVulkan maxFrames env.init)
    |>.andThen (externalCall (Call.lifecycle LifecycleCall.initImGui) env.initImGui)
    |>.andThen (mainLoop maxFrames env.loop)
    |>.andThen (cleanup maxFrames)

/-- Consecutive calls of `drawFrame`, one per environment, as the loop of `mainLoop` makes
them; the run ends with the first call that does not return. -/
def drawFrames (maxFrames : Nat) : List FrameEnv → Application → Run
  | [], s => logCalls [] s
  | env :: rest, s => (drawFrame maxFrames env s).andThen (drawFrames maxFrames rest)

/-! ## Resources, and the calls that create and release them -/

/-- The resources owned by `Application` that `initVulkan` creates and `cleanup` releases. -/
inductive Resource where
  | descriptorSetLayout
  | commandPools
  | swapChain
  | framebufferData
  | gBuffer
  | textures
  | vertexBuffer
  | indexBuffer
  | uniformBuffer
  | descriptorPool
  | commandBuffers
  | syncObjects
deriving DecidableEq, Repr

/-- The resource that a call creates, if it is one of the creation calls of `initVulkan`
or `recreateVulkanData`. -/
def Call.creates : Call → Option Resource
  | Call.startup StartupCall.createDescriptorSetLayout => some Resource.descriptorSetLayout
  | Call.startup (StartupCall.createCommandPool _) => some Resource.commandPools
  | Call.initSwapChain => some Resource.swapChain
  | Call.initFramebufferData => some Resource.framebufferData
  | Call.createGBuffer => some Resource.gBuffer
  | Call.startup StartupCall.createTexture => some Resource.textures
  | Call.startup (StartupCall.createDeviceLocalBuffer BufferMember.vertexBuffer) =>
    some Resource.vertexBuffer
  | Call.startup (StartupCall.createDeviceLocalBuffer BufferMember.indexBuffer) =>
    some Resource.indexBuffer
  | Call.createUniformBuffer _ => some Resource.uniformBuffer
  | Call.startup (StartupCall.createDescriptorPool _) => some Resource.descriptorPool
  | Call.createCommandBuffers _ => some Resource.commandBuffers
  | Call.startup StartupCall.createSyncObjects => some Resource.syncObjects
  | _ => none

/-- The resource that a call frees or destroys, if it is a release call of
`recreateVulkanData` or `cleanup`. -/
def Call.releases : Call → Option Resource
  | Call.lifecycle LifecycleCall.cleanupTexture => some Resource.textures
  | Call.vkFreeCommandBuffers _ _ => some Resource.commandBuffers
  | Call.cleanupBufferData BufferMember.uniforms => some Resource.uniformBuffer
  | Call.cleanupBufferData BufferMember.vertexBuffer => some Resource.vertexBuffer
  | Call.cleanupBufferData BufferMember.indexBuffer => some Resource.indexBuffer
  | Call.cleanupGBuffer => some Resource.gBuffer
  | Call.cleanupFrambufferData => some Resource.framebufferData
  | Call.cleanupSwapChain => some Resource.swapChain
  | Call.lifecycle LifecycleCall.vkDestroyDescriptorPool => some Resource.descriptorPool
  | Call.lifecycle LifecycleCall.vkDestroyDescriptorSetLayout =>
    some Resource.descriptorSetLayout
  | Call.lifecycle (LifecycleCall.vkDestroySemaphore _) => some Resource.syncObjects
  | Call.lifecycle (LifecycleCall.vkDestroyFence _) => some Resource.syncObjects
  | Call.lifecycle (LifecycleCall.vkDestroyCommandPool _) => some Resource.commandPools
  | _ => none

/-- The resources that exist per swap chain and are rebuilt by `recreateVulkanData`. -/
def Resource.swapChainDependent : Resource → Bool
  | Resource.swapChain => true
  | Resource.framebufferData => true
  | Resource.gBuffer => true
  | Resource.uniformBuffer => true
  | _ => false

/-- A list of resources with each run of equal neighbours reduced to one entry. -/
def collapse : List Resource → List Resource
  | [] => []
  | [a] => [a]
  | a :: b :: rest => if a = b then collapse (b :: rest) else a :: collapse (b :: rest)

/-- The order in which a trace creates resources. -/
def creationOrder (trace : List Call) : List Resource :=
  collapse (trace.filterMap Call.creates)

/-- The order in which a trace releases resources. -/
def releaseOrder (trace : List Call) : List Resource :=
  collapse (trace.filterMap Call.releases)

/-- The index passed to `recordGeometryCommandBuffer`, for the entry into that function. -/
def Call.recordedIndex : Call → Option Nat
  | Call.recordGeometryCommandBuffer i => some i
  | _ => none

/-! ## `utils::findMemoryType` -/

/-- `VK_MAX_MEMORY_TYPES`, the length of the array `memoryTypes`. -/
def VK_MAX_MEMORY_TYPES : Nat := 32

/-- The fields of `VkPhysicalDeviceMemoryProperties` read by `findMemoryType`:
`memoryTypeCount` and, for each element of the array `memoryTypes`, its `propertyFlags`. -/
structure VkPhysicalDeviceMemoryProperties where
  memoryTypeCount : Nat
  memoryTypes : List Nat
deriving DecidableEq, Repr

/-- The loop of `findMemoryType` (Utils.cpp:66-71) from index `i`, with `fuel` iterations
left. The shift `1 << i` is on a 32-bit `int`; converted to `uint32_t` for the `&` it is
`2 ^ i` up to `i = 31` (the sources use `std::optional`, so the language is C++17 or
later, where `1 << 31` is defined) and it is undefined from `i = 32`; the read
`memoryTypes[i]` is outside the array from the length of the array. Both end the run with
`Outcome.outOfRange`. The second operand of `&&` is evaluated only if the first is
non-zero. -/
def findMemoryTypeFrom (memProperties : VkPhysicalDeviceMemoryProperties)
    (typeFilter properties : Nat) : Nat → Nat → Except Outcome Nat
  | 0, _ => Except.error (Outcome.threw "failed to find suitable memory type!")
  | fuel + 1, i =>
    if 32 ≤ i then Except.error (Outcome.outOfRange "1 << i")
    else if typeFilter &&& (1 <<< i) = 0 then
      findMemoryTypeFrom memProperties typeFilter properties fuel (i + 1)
    else
      match memProperties.memoryTypes[i]? with
      | none => Except.error (Outcome.outOfRange "memProperties.memoryTypes[i]")
      | some memoryType =>
        if memoryType &&& properties = properties then Except.ok i
        else findMemoryTypeFrom memProperties typeFilter properties fuel (i + 1)

/-- Utils.cpp:59-74, `utils::findMemoryType`, given what
`vkGetPhysicalDeviceMemoryProperties` writes. -/
def findMemoryType (memProperties : VkPhysicalDeviceMemoryProperties)
    (typeFilter properties : Nat) : Except Outcome Nat :=
  findMemoryTypeFrom memProperties typeFilter properties memProperties.memoryTypeCount 0

/-! ## Further notions and examples -/

/-- Calls of `vkQueuePresentKHR`. -/
def Call.isPresent : Call → Bool
  | Call.vkQueuePresentKHR _ => true
  | _ => false

/-- Ten frames with three images in which the driver answers `VK_SUCCESS` to every call
and hands out the images in the order 0, 1, 2, 0, 1, 2, ... -/
def exampleTenFrames : List FrameEnv :=
  [0, 1, 2, 0, 1, 2, 0, 1, 2, 0].map (fun i => exampleFrame i 3)

/-- The lengths of the vectors that hold one entry per swap-chain image or per
framebuffer: `swapChain.images`, `swapChain.imageViews`, `framebufferData.framebuffers`,
`descriptorSets`, `renderCommandBuffers`, `imGuiCommandBuffers`. -/
def Application.lengths (s : Application) : Nat × Nat × Nat × Nat × Nat × Nat :=
  (s.images.length, s.imageViews.length, s.framebuffers.length, s.descriptorSets.length,
    s.renderCommandBuffers.length, s.imGuiCommandBuffers.length)

/-- The swap-chain dependent resources that a trace creates, in the order of creation. -/
def createdSwapChainData (trace : List Call) : List Resource :=
  (trace.filterMap Call.creates).filter Resource.swapChainDependent

/-- Application.cpp:134-151, the second half of `recreateVulkanData`: the calls that
create the swap-chain dependent data anew, from the state in which the old data was
destroyed. -/
def createSwapChainData (env : CreationEnv) (s : Application) : Run :=
  (initSwapChain env s)
    |>.andThen (initFramebufferData env)
    |>.andThen (externalCall Call.createGBuffer env.createGBuffer)
    |>.andThen (fun s =>
        externalCall (Call.createUniformBuffer s.images.length) env.createUniformBuffer s)
    |>.andThen (createDescriptorSets env)
    |>.andThen (createCommandBuffers env CommandPool.renderCommandPool)
    |>.andThen (createCommandBuffers env CommandPool.imGuiCommandPool)
    |>.andThen (fun s => recordGeometryCommandBuffers env (List.range s.images.length) s)
    |>.andThen (fun s => logCalls [Call.ImGui_ImplVulkan_SetMinImageCount s.images.length] s)

/-- Application.cpp:121-132, the calls of `recreateVulkanData` that wait for the device and
release the old swap-chain dependent data. -/
def destroySwapChainData (s : Application) : List Call :=
  [Call.vkDeviceWaitIdle,
   Call.vkFreeCommandBuffers CommandPool.renderCommandPool s.renderCommandBuffers,
   Call.vkFreeCommandBuffers CommandPool.imGuiCommandPool s.imGuiCommandBuffers,
   Call.cleanupBufferData BufferMember.uniforms, Call.cleanupGBuffer,
   Call.cleanupFrambufferData, Call.cleanupSwapChain]

/-- The state in which `recreateVulkanData` starts to create the new data: the device is
idle, and a resize event may have arrived while the window had no area. -/
def idleState (env : CreationEnv) (s : Application) : Application :=
  { s with pending := [],
           framebufferResized := s.framebufferResized || env.zeroAreaPolls.any id }

/-- Calls of `vkCreateSwapchainKHR`. -/
def Call.isSwapchainRequest : Call → Bool
  | Call.vkCreateSwapchainKHR _ => true
  | _ => false

/-- Calls that neither enter `recordGeometryCommandBuffer`, nor release a resource, nor
request a swap chain, nor create one of the swap-chain dependent resources. -/
def Call.plain (c : Call) : Bool :=
  c.recordedIndex.isNone && c.releases.isNone && !c.isSwapchainRequest &&
    !((c.creates.map Resource.swapChainDependent).getD false)

/-- The swap-chain dependent resources created by the run so far are the first `j` entries
of `order` for some `j ≤ k`, and the first `k` entries if the run has returned. -/
def CreatedInOrder (order : List Resource) (k : Nat) (r : Run) : Prop :=
  (r.outcome = Outcome.returned → createdSwapChainData r.trace = order.take k) ∧
    ∃ j, j ≤ k ∧ createdSwapChainData r.trace = order.take j

/-- The trace holds no entry into `recordGeometryCommandBuffer`, and it holds the
allocation of the descriptor sets (if `sets`), of the render command buffers (if `render`)
and of the GUI command buffers (if `gui`) for the image and framebuffer counts of the
state. -/
def Allocated (sets render gui : Bool) (t : List Call) (a : Application) : Prop :=
  t.filterMap Call.recordedIndex = [] ∧
  (sets = true → Call.vkAllocateDescriptorSets a.images.length ∈ t) ∧
  (render = true →
    Call.vkAllocateCommandBuffers CommandPool.renderCommandPool a.framebuffers.length ∈ t) ∧
  (gui = true →
    Call.vkAllocateCommandBuffers CommandPool.imGuiCommandPool a.framebuffers.length ∈ t)

/-- The trace splits into a part that allocates the descriptor sets and the command
buffers of both pools and does not enter `recordGeometryCommandBuffer`, and a part that
enters `recordGeometryCommandBuffer` once for each index below the image count of the
state, in increasing order, and for no other index. -/
def RecordedAfterAllocation (t : List Call) (a : Application) : Prop :=
  ∃ before after, t = before ++ after ∧ Allocated true true true before a ∧
    after.filterMap Call.recordedIndex = List.range a.images.length

/-- The order in which `initVulkan` and `recreateVulkanData` create the swap-chain
dependent resources (Application.cpp:73-75, 94 and 135-138). -/
def swapChainCreationOrder : List Resource :=
  [Resource.swapChain, Resource.framebufferData, Resource.gBuffer, Resource.uniformBuffer]

/-- Calls that neither release a resource nor request a swap chain nor create one of the
swap-chain dependent resources. -/
def Call.quiet (c : Call) : Bool :=
  c.releases.isNone && !c.isSwapchainRequest &&
    !((c.creates.map Resource.swapChainDependent).getD false)

/-- The run ends with `vkDeviceWaitIdle` as its last call, and with nothing pending on the
device. -/
def EndsIdle (r : Run) : Prop :=
  (∃ t, r.trace = t ++ [Call.vkDeviceWaitIdle]) ∧ r.app.pending = []

/-- The order in which `cleanup` releases the resources (Application.cpp:773-807). -/
def cleanupOrder : List Resource :=
  [Resource.textures, Resource.commandBuffers, Resource.uniformBuffer, Resource.gBuffer,
   Resource.framebufferData, Resource.swapChain, Resource.descriptorPool,
   Resource.descriptorSetLayout, Resource.indexBuffer, Resource.vertexBuffer,
   Resource.syncObjects, Resource.commandPools]

/-- One iteration of the main loop in which no event arrives and the frame acquires
image `i`. -/
def exampleIteration (i : Nat) : LoopEnv :=
  { resized := false, escapePressed := false, rightButtonPressed := false,
    frame := exampleFrame i 3 }

/-- A run with three images: one frame is drawn, then the window is closed. -/
def exampleRun : RunEnv :=
  { init := exampleInit 3, initImGui := none, loop := [exampleIteration 0] }

/-- A run with three images: one frame is drawn, then the ESC key is found pressed. -/
def exampleRunEscape : RunEnv :=
  { init := exampleInit 3, initImGui := none,
    loop := [exampleIteration 0, { exampleIteration 1 with escapePressed := true },
      exampleIteration 2] }

/-- The condition of the specification on a memory type index: `i` is below
`memoryTypeCount`, bit `i` of `typeFilter` is set, and the `propertyFlags` of
`memoryTypes[i]` contain every bit of `properties`. -/
def SuitableMemoryType (memProperties : VkPhysicalDeviceMemoryProperties)
    (typeFilter properties : Nat) (i : Nat) : Prop :=
  i < memProperties.memoryTypeCount ∧ typeFilter.testBit i = true ∧
    ∃ propertyFlags, memProperties.memoryTypes[i]? = some propertyFlags ∧
      ∀ bit, properties.testBit bit = true → propertyFlags.testBit bit = true

/-- A device with three memory types: device-local, host-visible and host-coherent,
host-visible and host-coherent and host-cached; the array is filled up to
`VK_MAX_MEMORY_TYPES` entries. -/
def exampleMemoryProperties : VkPhysicalDeviceMemoryProperties :=
  { memoryTypeCount := 3, memoryTypes := [1, 6, 14] ++ List.replicate 29 0 }

/-! ## The contents of command buffers -/

/-- A command held by a command buffer. -/
inductive Command where
  | beginRenderPass (pass : RenderPass) (framebuffer : Handle) (renderArea : VkExtent2D)
  | bindPipeline
  | bindVertexBuffers
  | bindIndexBuffer
  | bindDescriptorSets (descriptorSet : Handle)
  | drawIndexed (indexCount instanceCount : Nat)
  | renderDrawData
  | endRenderPass
deriving DecidableEq, Repr

/-- The command buffer gets the command appended; the other command buffers keep their
contents. -/
def appendCommand (commandBuffer : Handle) (command : Command)
    (contents : Handle → List Command) : Handle → List Command :=
  fun h => if h = commandBuffer then contents h ++ [command] else contents h

/-- What a call does to the contents of the command buffers of the device. Both command
pools are created with `VK_COMMAND_POOL_CREATE_RESET_COMMAND_BUFFER_BIT`
(Application.cpp:69-70), so `vkBeginCommandBuffer` resets the command buffer it begins; a
`vkCmd...` call appends to the command buffer it names; `vkFreeCommandBuffers` leaves the
freed command buffers without contents; no other call of the application changes the
contents of a command buffer. -/
def Call.record (c : Call) (contents : Handle → List Command) : Handle → List Command :=
  match c with
  | Call.vkBeginCommandBuffer commandBuffer =>
    fun h => if h = commandBuffer then [] else contents h
  | Call.vkCmdBeginRenderPass commandBuffer pass framebuffer renderArea =>
    appendCommand commandBuffer (Command.beginRenderPass pass framebuffer renderArea) contents
  | Call.vkCmdBindPipeline commandBuffer =>
    appendCommand commandBuffer Command.bindPipeline contents
  | Call.vkCmdBindVertexBuffers commandBuffer =>
    appendCommand commandBuffer Command.bindVertexBuffers contents
  | Call.vkCmdBindIndexBuffer commandBuffer =>
    appendCommand commandBuffer Command.bindIndexBuffer contents
  | Call.vkCmdBindDescriptorSets commandBuffer descriptorSet =>
    appendCommand commandBuffer (Command.bindDescriptorSets descriptorSet) contents
  | Call.vkCmdDrawIndexed commandBuffer indexCount instanceCount =>
    appendCommand commandBuffer (Command.drawIndexed indexCount instanceCount) contents
  | Call.ImGui_ImplVulkan_RenderDrawData commandBuffer =>
    appendCommand commandBuffer Command.renderDrawData contents
  | Call.vkCmdEndRenderPass commandBuffer =>
    appendCommand commandBuffer Command.endRenderPass contents
  | Call.vkFreeCommandBuffers _ commandBuffers =>
    fun h => if h ∈ commandBuffers then [] else contents h
  | _ => contents

/-- The contents of the command buffers after the calls of a trace, in the order of the
trace. -/
def recorded (trace : List Call) (contents : Handle → List Command) :
    Handle → List Command :=
  trace.foldl (fun contents c => c.record contents) contents

/-- The call changes, or may change, the contents of the command buffer `h`. -/
def Call.touches (c : Call) (h : Handle) : Bool :=
  match c with
  | Call.vkBeginCommandBuffer commandBuffer => h = commandBuffer
  | Call.vkCmdBeginRenderPass commandBuffer _ _ _ => h = commandBuffer
  | Call.vkCmdBindPipeline commandBuffer => h = commandBuffer
  | Call.vkCmdBindVertexBuffers commandBuffer => h = commandBuffer
  | Call.vkCmdBindIndexBuffer commandBuffer => h = commandBuffer
  | Call.vkCmdBindDescriptorSets commandBuffer _ => h = commandBuffer
  | Call.vkCmdDrawIndexed commandBuffer _ _ => h = commandBuffer
  | Call.ImGui_ImplVulkan_RenderDrawData commandBuffer => h = commandBuffer
  | Call.vkCmdEndRenderPass commandBuffer => h = commandBuffer
  | Call.vkFreeCommandBuffers _ commandBuffers => h ∈ commandBuffers
  | _ => false

/-- The commands that `recordGeometryCommandBuffer` leaves in a command buffer, for the
framebuffer, the render area, the descriptor set and the index count it is given. -/
def geometryCommands (framebuffer : Handle) (renderArea : VkExtent2D) (descriptorSet : Handle)
    (indexCount : Nat) : List Command :=
  [Command.beginRenderPass RenderPass.renderPass framebuffer renderArea,
   Command.bindPipeline, Command.bindVertexBuffers, Command.bindIndexBuffer,
   Command.bindDescriptorSets descriptorSet, Command.drawIndexed indexCount 1,
   Command.endRenderPass]

/-- Entries into `recordGuiCommandBuffer`. -/
def Call.isRecordGui : Call → Bool
  | Call.recordGuiCommandBuffer _ => true
  | _ => false

/-- Calls of `vkQueueSubmit`. -/
def Call.isSubmit : Call → Bool
  | Call.vkQueueSubmit _ _ => true
  | _ => false

/-- Calls of the submission and presentation part of `drawFrame` (Application.cpp:661-672). -/
def Call.inSubmission : Call → Bool
  | Call.vkResetFences _ => true
  | Call.vkQueueSubmit _ _ => true
  | Call.vkQueuePresentKHR _ => true
  | _ => false

/-- The two calls with which `drawFrame` begins (Application.cpp:602-606), and the wait on
the marker of the acquired image (Application.cpp:625). -/
def Call.inAcquisition : Call → Bool
  | Call.vkWaitForFences _ => true
  | Call.vkAcquireNextImageKHR _ => true
  | _ => false

/-- The calls that `recordGuiCommandBuffer` makes after its entry are calls of ImGui and
recordings; a recording names one of the given command buffers. -/
def Call.inGuiRecording (commandBuffers : List Handle) : Call → Bool
  | Call.ImGui_Render => true
  | Call.vkBeginCommandBuffer cb => cb ∈ commandBuffers
  | Call.vkCmdBeginRenderPass cb _ _ _ => cb ∈ commandBuffers
  | Call.ImGui_ImplVulkan_RenderDrawData cb => cb ∈ commandBuffers
  | Call.vkCmdEndRenderPass cb => cb ∈ commandBuffers
  | Call.vkEndCommandBuffer cb => cb ∈ commandBuffers
  | _ => false

/-- The acquisition reports out-of-date; the window is zero-area when the recreation
starts, and `glfwWaitEvents` delivers a framebuffer-size event before it is not. -/
def exampleOutOfDateWhileMinimised : FrameEnv :=
  { exampleFrame 0 3 with
    acquireResult := VK_ERROR_OUT_OF_DATE_KHR,
    recreate := { exampleCreation 3 with zeroAreaPolls := [true] } }

/-! ## The uniform buffer ranges -/

/-- The arguments `offset` and `size` of a `vkMapMemory` call. -/
structure MappedRange where
  offset : Nat
  size : Nat
deriving DecidableEq, Repr

/-- The members `offset` and `range` of a `VkDescriptorBufferInfo`. -/
structure VkDescriptorBufferInfo where
  offset : Nat
  range : Nat
deriving DecidableEq, Repr

/-- The range that `updateUniformBuffers(currentImage)` maps and then writes with `memcpy`
(Application.cpp:367-368): `offset = sizeof(ubo) * currentImage`, a product on the 64-bit
`size_t`, and `size = sizeof(ubo)`. `GBuffer::UBO` is three `glm::mat4` (GBuffer.h:27-31);
glm is not among the sources, so `sizeofUBO` stands for `sizeof(GBuffer::UBO)`. -/
def mappedUniformRange (sizeofUBO currentImage : Nat) : MappedRange :=
  { offset := (sizeofUBO * currentImage) % 2 ^ 64, size := sizeofUBO }

/-- The local `uboBufferInf` of iteration `i` of the loop in `createDescriptorSets`
(Application.cpp:312-315): `offset = sizeof(GBuffer::UBO) * i`, a product on the 64-bit
`size_t`, and `range = sizeof(GBuffer::UBO)`. -/
def uboBufferInf (sizeofUBO i : Nat) : VkDescriptorBufferInfo :=
  { offset := (sizeofUBO * i) % 2 ^ 64, range := sizeofUBO }

/-- The writes to binding 0 made by the loop of `createDescriptorSets`
(Application.cpp:311-348), one per swap-chain image, in the order of the loop: the
destination set `descriptorSets[i]` and the buffer range. The state is the one after the
allocation, in which `descriptorSets` holds the allocated sets. -/
def uniformDescriptorWrites (sizeofUBO : Nat) (s : Application) :
    List (Option Handle × VkDescriptorBufferInfo) :=
  (List.range s.images.length).map (fun i => (s.descriptorSets[i]?, uboBufferInf sizeofUBO i))

/-- The byte `b` lies in the mapped range. -/
def MappedRange.contains (r : MappedRange) (b : Nat) : Bool :=
  decide (r.offset ≤ b ∧ b < r.offset + r.size)

/-- The byte `b` lies in the range of the buffer info. -/
def VkDescriptorBufferInfo.contains (r : VkDescriptorBufferInfo) (b : Nat) : Bool :=
  decide (r.offset ≤ b ∧ b < r.offset + r.range)

/-- The destination set of a `vkUpdateDescriptorSets` call. -/
def Call.updatedSet : Call → Option Handle
  | Call.vkUpdateDescriptorSets dstSet => some dstSet
  | _ => none

/-! ## The descriptor pool -/

/-- Recreations one after the other, each in the environment it finds. -/
def recreations : List CreationEnv → Application → Run
  | [], s => logCalls [] s
  | env :: rest, s => (recreateVulkanData env s).andThen (recreations rest)

/-- The `maxSets` of a call that creates the descriptor pool. -/
def Call.poolMaxSets : Call → Option Nat
  | Call.startup (StartupCall.createDescriptorPool maxSets) => some maxSets
  | _ => none

/-! ## Image layout transitions (Image.cpp, Utils.cpp) -/

/-- `VK_IMAGE_LAYOUT_UNDEFINED`. -/
def VK_IMAGE_LAYOUT_UNDEFINED : Nat := 0

/-- `VK_IMAGE_LAYOUT_COLOR_ATTACHMENT_OPTIMAL`. -/
def VK_IMAGE_LAYOUT_COLOR_ATTACHMENT_OPTIMAL : Nat := 2

/-- `VK_IMAGE_LAYOUT_DEPTH_STENCIL_ATTACHMENT_OPTIMAL`. -/
def VK_IMAGE_LAYOUT_DEPTH_STENCIL_ATTACHMENT_OPTIMAL : Nat := 3

/-- `VK_IMAGE_LAYOUT_SHADER_READ_ONLY_OPTIMAL`. -/
def VK_IMAGE_LAYOUT_SHADER_READ_ONLY_OPTIMAL : Nat := 5

/-- `VK_IMAGE_LAYOUT_TRANSFER_DST_OPTIMAL`. -/
def VK_IMAGE_LAYOUT_TRANSFER_DST_OPTIMAL : Nat := 7

/-- `VK_FORMAT_D24_UNORM_S8_UINT`. -/
def VK_FORMAT_D24_UNORM_S8_UINT : Nat := 129

/-- `VK_FORMAT_D32_SFLOAT_S8_UINT`. -/
def VK_FORMAT_D32_SFLOAT_S8_UINT : Nat := 130

/-- `VK_IMAGE_ASPECT_COLOR_BIT`. -/
def VK_IMAGE_ASPECT_COLOR_BIT : Nat := 0x1

/-- `VK_IMAGE_ASPECT_DEPTH_BIT`. -/
def VK_IMAGE_ASPECT_DEPTH_BIT : Nat := 0x2

/-- `VK_IMAGE_ASPECT_STENCIL_BIT`. -/
def VK_IMAGE_ASPECT_STENCIL_BIT : Nat := 0x4

/-- `VK_ACCESS_SHADER_READ_BIT`. -/
def VK_ACCESS_SHADER_READ_BIT : Nat := 0x20

/-- `VK_ACCESS_DEPTH_STENCIL_ATTACHMENT_READ_BIT`. -/
def VK_ACCESS_DEPTH_STENCIL_ATTACHMENT_READ_BIT : Nat := 0x200

/-- `VK_ACCESS_DEPTH_STENCIL_ATTACHMENT_WRITE_BIT`. -/
def VK_ACCESS_DEPTH_STENCIL_ATTACHMENT_WRITE_BIT : Nat := 0x400

/-- `VK_ACCESS_TRANSFER_WRITE_BIT`. -/
def VK_ACCESS_TRANSFER_WRITE_BIT : Nat := 0x1000

/-- `VK_PIPELINE_STAGE_TOP_OF_PIPE_BIT`. -/
def VK_PIPELINE_STAGE_TOP_OF_PIPE_BIT : Nat := 0x1

/-- `VK_PIPELINE_STAGE_FRAGMENT_SHADER_BIT`. -/
def VK_PIPELINE_STAGE_FRAGMENT_SHADER_BIT : Nat := 0x80

/-- `VK_PIPELINE_STAGE_EARLY_FRAGMENT_TESTS_BIT`. -/
def VK_PIPELINE_STAGE_EARLY_FRAGMENT_TESTS_BIT : Nat := 0x100

/-- `VK_PIPELINE_STAGE_TRANSFER_BIT`. -/
def VK_PIPELINE_STAGE_TRANSFER_BIT : Nat := 0x1000

/-- `VulkanImage::LayoutTransitionInfo` (Image.h:38-44), the members that
`transitionImageLayout` reads besides the image and the command pool. -/
structure LayoutTransitionInfo where
  format : Nat
  oldLayout : Nat
  newLayout : Nat
deriving DecidableEq, Repr

/-- The members of `VkImageMemoryBarrier` that `transitionImageLayout` computes. -/
structure VkImageMemoryBarrier where
  oldLayout : Nat
  newLayout : Nat
  aspectMask : Nat
  srcAccessMask : Nat
  dstAccessMask : Nat
deriving DecidableEq, Repr

/-- The driver calls of `transitionImageLayout` and of the two helpers of Utils.cpp. -/
inductive TransitionCall where
  | vkAllocateCommandBuffers (commandBuffer : Handle)
  | vkBeginCommandBuffer (commandBuffer : Handle)
  | vkCmdPipelineBarrier (commandBuffer : Handle) (sourceStage destinationStage : Nat)
      (barrier : VkImageMemoryBarrier)
  | vkEndCommandBuffer (commandBuffer : Handle)
  | vkQueueSubmit (commandBuffer : Handle)
  | vkQueueWaitIdle
  | vkFreeCommandBuffers (commandBuffer : Handle)
deriving DecidableEq, Repr

/-- How a call of `transitionImageLayout` ends. -/
inductive TransitionOutcome where
  | returned
  | invalidArgument (what : String)
deriving DecidableEq, Repr

/-- The calls made by `transitionImageLayout`, in order, and how it ended. -/
structure TransitionRun where
  trace : List TransitionCall
  outcome : TransitionOutcome
deriving DecidableEq, Repr

/-- Utils.cpp:117-120, `utils::hasStencilComponent`. -/
def hasStencilComponent (format : Nat) : Bool :=
  format == VK_FORMAT_D32_SFLOAT_S8_UINT || format == VK_FORMAT_D24_UNORM_S8_UINT

/-- Utils.cpp:76-95, `utils::beginSingleTimeCommands`: the calls it makes; `commandBuffer`
is the command buffer that the driver hands out. The status codes of the two calls are not
examined. -/
def beginSingleTimeCommands (commandBuffer : Handle) : List TransitionCall :=
  [TransitionCall.vkAllocateCommandBuffers commandBuffer,
   TransitionCall.vkBeginCommandBuffer commandBuffer]

/-- Utils.cpp:97-115, `utils::endSingleTimeCommands`: the calls it makes. -/
def endSingleTimeCommands (commandBuffer : Handle) : List TransitionCall :=
  [TransitionCall.vkEndCommandBuffer commandBuffer,
   TransitionCall.vkQueueSubmit commandBuffer,
   TransitionCall.vkQueueWaitIdle,
   TransitionCall.vkFreeCommandBuffers commandBuffer]

/-- Image.cpp:97-108: the aspect mask of the barrier. -/
def barrierAspectMask (transitionData : LayoutTransitionInfo) : Nat :=
  if transitionData.newLayout = VK_IMAGE_LAYOUT_DEPTH_STENCIL_ATTACHMENT_OPTIMAL then
    if hasStencilComponent transitionData.format then
      VK_IMAGE_ASPECT_DEPTH_BIT ||| VK_IMAGE_ASPECT_STENCIL_BIT
    else VK_IMAGE_ASPECT_DEPTH_BIT
  else VK_IMAGE_ASPECT_COLOR_BIT

/-- Image.cpp:76-168, `VulkanImage::transitionImageLayout`; `commandBuffer` is the command
buffer that the driver hands out in `beginSingleTimeCommands`. -/
def transitionImageLayout (commandBuffer : Handle) (transitionData : LayoutTransitionInfo) :
    TransitionRun :=
  let begun := beginSingleTimeCommands commandBuffer
  let barrier : VkImageMemoryBarrier :=
    { oldLayout := transitionData.oldLayout, newLayout := transitionData.newLayout,
      aspectMask := barrierAspectMask transitionData, srcAccessMask := 0, dstAccessMask := 0 }
  if transitionData.oldLayout = VK_IMAGE_LAYOUT_UNDEFINED ∧
      transitionData.newLayout = VK_IMAGE_LAYOUT_TRANSFER_DST_OPTIMAL then
    ⟨begun ++
        [TransitionCall.vkCmdPipelineBarrier commandBuffer VK_PIPELINE_STAGE_TOP_OF_PIPE_BIT
          VK_PIPELINE_STAGE_TRANSFER_BIT
          { barrier with srcAccessMask := 0, dstAccessMask := VK_ACCESS_TRANSFER_WRITE_BIT }] ++
        endSingleTimeCommands commandBuffer,
      TransitionOutcome.returned⟩
  else if transitionData.oldLayout = VK_IMAGE_LAYOUT_TRANSFER_DST_OPTIMAL ∧
      transitionData.newLayout = VK_IMAGE_LAYOUT_SHADER_READ_ONLY_OPTIMAL then
    ⟨begun ++
        [TransitionCall.vkCmdPipelineBarrier commandBuffer VK_PIPELINE_STAGE_TRANSFER_BIT
          VK_PIPELINE_STAGE_FRAGMENT_SHADER_BIT
          { barrier with srcAccessMask := VK_ACCESS_TRANSFER_WRITE_BIT,
                         dstAccessMask := VK_ACCESS_SHADER_READ_BIT }] ++
        endSingleTimeCommands commandBuffer,
      TransitionOutcome.returned⟩
  else if transitionData.oldLayout = VK_IMAGE_LAYOUT_UNDEFINED ∧
      transitionData.newLayout = VK_IMAGE_LAYOUT_DEPTH_STENCIL_ATTACHMENT_OPTIMAL then
    ⟨begun ++
        [TransitionCall.vkCmdPipelineBarrier commandBuffer VK_PIPELINE_STAGE_TOP_OF_PIPE_BIT
          VK_PIPELINE_STAGE_EARLY_FRAGMENT_TESTS_BIT
          { barrier with
            srcAccessMask := 0,
            dstAccessMask := VK_ACCESS_DEPTH_STENCIL_ATTACHMENT_READ_BIT |||
              VK_ACCESS_DEPTH_STENCIL_ATTACHMENT_WRITE_BIT }] ++
        endSingleTimeCommands commandBuffer,
      TransitionOutcome.returned⟩
  else ⟨begun, TransitionOutcome.invalidArgument "unsupported layout transition!"⟩

/-- The three pairs of layouts for which `transitionImageLayout` sets up a barrier. -/
def supportedTransition (oldLayout newLayout : Nat) : Prop :=
  (oldLayout = VK_IMAGE_LAYOUT_UNDEFINED ∧ newLayout = VK_IMAGE_LAYOUT_TRANSFER_DST_OPTIMAL) ∨
  (oldLayout = VK_IMAGE_LAYOUT_TRANSFER_DST_OPTIMAL ∧
    newLayout = VK_IMAGE_LAYOUT_SHADER_READ_ONLY_OPTIMAL) ∨
  (oldLayout = VK_IMAGE_LAYOUT_UNDEFINED ∧
    newLayout = VK_IMAGE_LAYOUT_DEPTH_STENCIL_ATTACHMENT_OPTIMAL)

instance (oldLayout newLayout : Nat) : Decidable (supportedTransition oldLayout newLayout) := by
  unfold supportedTransition
  exact inferInstance

/-! ## The G-buffer attachments (GBuffer.cpp) -/

/-- `VK_FORMAT_UNDEFINED`. -/
def VK_FORMAT_UNDEFINED : Nat := 0

/-- `VK_FORMAT_R8G8B8A8_SRGB`. -/
def VK_FORMAT_R8G8B8A8_SRGB : Nat := 43

/-- `VK_FORMAT_R16G16B16A16_SFLOAT`. -/
def VK_FORMAT_R16G16B16A16_SFLOAT : Nat := 97

/-- `VK_IMAGE_USAGE_COLOR_ATTACHMENT_BIT`. -/
def VK_IMAGE_USAGE_COLOR_ATTACHMENT_BIT : Nat := 0x10

/-- `VK_IMAGE_USAGE_DEPTH_STENCIL_ATTACHMENT_BIT`. -/
def VK_IMAGE_USAGE_DEPTH_STENCIL_ATTACHMENT_BIT : Nat := 0x20

/-- `GBuffer::Attachment` (GBuffer.h:34-38), with its member initialisers. -/
structure Attachment where
  image : Handle := VK_NULL_HANDLE
  format : Nat := VK_FORMAT_UNDEFINED
  imageView : Handle := VK_NULL_HANDLE
deriving DecidableEq, Repr

/-- `VkAttachmentDescription`, the members that depend on the attachment. -/
structure VkAttachmentDescription where
  format : Nat
  initialLayout : Nat
  finalLayout : Nat
deriving DecidableEq, Repr

/-- `VkAttachmentReference`. -/
structure VkAttachmentReference where
  attachment : Nat
  layout : Nat
deriving DecidableEq, Repr

/-- The locals that `createDeferredRenderPass` fills from the attachments
(GBuffer.cpp:68-93). -/
structure RenderPassAttachments where
  attachmentDescriptions : List VkAttachmentDescription
  colourReferences : List VkAttachmentReference
  depthReference : VkAttachmentReference
deriving DecidableEq, Repr

/-- The members of `GBuffer` (GBuffer.h:63-75) that the attachments determine: the map
`attachments`, a `std::map<std::string, Attachment>`, as the list of its entries in the
order of iteration, which is the order of the keys; the attachments handed to
`vkCreateRenderPass` for `deferredRenderPass`; and the views handed to `vkCreateFramebuffer`
for `deferredFrameBuffer`. `nextHandle` numbers the images and views that the driver hands
out. -/
structure GBuffer where
  attachments : List (String × Attachment)
  deferredRenderPass : Option RenderPassAttachments
  deferredFrameBuffer : Option (List Handle)
  nextHandle : Nat
deriving DecidableEq, Repr

/-- What the calls of `createGBuffer` into the driver and into other classes answer: for
each attachment name whether `VulkanImage::createImage` and `VulkanImage::createImageView`
raise, the format found by `DepthResource::findDepthFormat` (or what it raises), the status
codes of `vkCreateRenderPass` and `vkCreateFramebuffer`, and whether `createColourSampler`
and `VulkanBuffer::createUniformBuffer` raise. -/
structure GBufferEnv where
  createImage : String → Option String
  createImageView : String → Option String
  findDepthFormat : Except String Nat
  vkCreateRenderPass : VkResult
  vkCreateFramebuffer : VkResult
  createColourSampler : Option String
  createUniformBuffer : Option String

/-- The order of the keys of `std::map<std::string, Attachment>`, `std::less<std::string>`:
the lexicographic order of the characters. -/
def keyLess (a b : String) : Bool :=
  decide (a.data < b.data)

/-- The map after `attachments[name]` (GBuffer.cpp:39): `operator[]` inserts a
value-initialised element at the place of the key if there is none with that key. -/
def subscript (name : String) : List (String × Attachment) → List (String × Attachment)
  | [] => [(name, {})]
  | (key, value) :: rest =>
    if keyLess name key then (name, {}) :: (key, value) :: rest
    else if name = key then (key, value) :: rest
    else (key, value) :: subscript name rest

/-- An assignment through the pointer `attachment = &attachments[name]`. -/
def assign (name : String) (f : Attachment → Attachment) :
    List (String × Attachment) → List (String × Attachment)
  | [] => []
  | (key, value) :: rest =>
    if name = key then (key, f value) :: rest else (key, value) :: assign name f rest

/-- GBuffer.cpp:38-64, `createAttachment(name, format, usage, cmdPool)`. -/
def createAttachment (env : GBufferEnv) (name : String) (format usage : Nat) (g : GBuffer) :
    Except String GBuffer :=
  let inserted := subscript name g.attachments
  let formatted := assign name (fun a => { a with format := format }) inserted
  match env.createImage name with
  | some what => Except.error what
  | none =>
    let image := g.nextHandle + 1
    let imaged := assign name (fun a => { a with image := image }) formatted
    let colour := if usage &&& VK_IMAGE_USAGE_COLOR_ATTACHMENT_BIT ≠ 0
      then VK_IMAGE_ASPECT_COLOR_BIT else 0
    let aspectMask := if usage &&& VK_IMAGE_USAGE_DEPTH_STENCIL_ATTACHMENT_BIT ≠ 0
      then VK_IMAGE_ASPECT_DEPTH_BIT else colour
    if aspectMask ≤ 0 then Except.error "Invalid aspect mask!"
    else
      match env.createImageView name with
      | some what => Except.error what
      | none =>
        let imageView := g.nextHandle + 2
        Except.ok { g with
          attachments := assign name (fun a => { a with imageView := imageView }) imaged,
          nextHandle := g.nextHandle + 2 }

/-- The loop of `createDeferredRenderPass` (GBuffer.cpp:72-93) from the map iterator
`attachment` and the counter `attachmentNum` on: one description per entry, the reference of
the entry with the key "depth" as depth reference, the references of the others appended to
the colour references. -/
def describeAttachments :
    List (String × Attachment) → Nat → RenderPassAttachments → RenderPassAttachments
  | [], _, locals => locals
  | (key, value) :: rest, attachmentNum, locals =>
    if key = "depth" then
      describeAttachments rest ((attachmentNum + 1) % 2 ^ 32)
        { locals with
          attachmentDescriptions := locals.attachmentDescriptions ++
            [⟨value.format, VK_IMAGE_LAYOUT_UNDEFINED,
              VK_IMAGE_LAYOUT_DEPTH_STENCIL_ATTACHMENT_OPTIMAL⟩],
          depthReference :=
            ⟨attachmentNum, VK_IMAGE_LAYOUT_DEPTH_STENCIL_ATTACHMENT_OPTIMAL⟩ }
    else
      describeAttachments rest ((attachmentNum + 1) % 2 ^ 32)
        { locals with
          attachmentDescriptions := locals.attachmentDescriptions ++
            [⟨value.format, VK_IMAGE_LAYOUT_UNDEFINED,
              VK_IMAGE_LAYOUT_SHADER_READ_ONLY_OPTIMAL⟩],
          colourReferences := locals.colourReferences ++
            [⟨attachmentNum, VK_IMAGE_LAYOUT_COLOR_ATTACHMENT_OPTIMAL⟩] }

/-- GBuffer.cpp:66-132, `createDeferredRenderPass()`. -/
def createDeferredRenderPass (env : GBufferEnv) (g : GBuffer) : Except String GBuffer :=
  let locals := describeAttachments g.attachments 0 ⟨[], [], ⟨0, 0⟩⟩
  if env.vkCreateRenderPass ≠ VK_SUCCESS then
    Except.error "Could not create GBuffer's render pass"
  else Except.ok { g with deferredRenderPass := some locals }

/-- GBuffer.cpp:134-156, `createDeferredFrameBuffer()`. -/
def createDeferredFrameBuffer (env : GBufferEnv) (g : GBuffer) : Except String GBuffer :=
  let attachmentViews := g.attachments.map (fun attachment => attachment.2.imageView)
  if env.vkCreateFramebuffer ≠ VK_SUCCESS then
    Except.error "Could not create GBuffer's frame buffer"
  else Except.ok { g with deferredFrameBuffer := some attachmentViews }

/-- A call into another class that either raises or returns, and leaves the attachments as
they are. -/
def gBufferCall (failure : Option String) (g : GBuffer) : Except String GBuffer :=
  match failure with
  | some what => Except.error what
  | none => Except.ok g

/-- GBuffer.cpp:5-21, `createGBuffer(pVkSetup, swapChain, cmdPool)`. -/
def createGBuffer (env : GBufferEnv) (g : GBuffer) : Except String GBuffer := do
  let g ← createAttachment env "position" VK_FORMAT_R16G16B16A16_SFLOAT
    VK_IMAGE_USAGE_COLOR_ATTACHMENT_BIT g
  let g ← createAttachment env "normal" VK_FORMAT_R16G16B16A16_SFLOAT
    VK_IMAGE_USAGE_COLOR_ATTACHMENT_BIT g
  let g ← createAttachment env "albedo" VK_FORMAT_R8G8B8A8_SRGB
    VK_IMAGE_USAGE_COLOR_ATTACHMENT_BIT g
  let depthFormat ← env.findDepthFormat
  let g ← createAttachment env "depth" depthFormat
    VK_IMAGE_USAGE_DEPTH_STENCIL_ATTACHMENT_BIT g
  let g ← createDeferredRenderPass env g
  let g ← createDeferredFrameBuffer env g
  let g ← gBufferCall env.createColourSampler g
  gBufferCall env.createUniformBuffer g

/-- GBuffer.cpp:23-36, `cleanupGBuffer()`: the render pass, the framebuffer, the views and
the images are destroyed; the map keeps its entries. -/
def cleanupGBuffer (g : GBuffer) : GBuffer :=
  { g with deferredRenderPass := none, deferredFrameBuffer := none }

/-- A `GBuffer` object before its first `createGBuffer`: the map is empty. -/
def GBuffer.initial : GBuffer :=
  { attachments := [], deferredRenderPass := none, deferredFrameBuffer := none,
    nextHandle := 0 }

/-- Cycles of `createGBuffer` and `cleanupGBuffer`, one per environment. -/
def gBufferCycles : List GBufferEnv → GBuffer → Except String GBuffer
  | [], g => Except.ok g
  | env :: rest, g =>
    match createGBuffer env g with
    | Except.error what => Except.error what
    | Except.ok created => gBufferCycles rest (cleanupGBuffer created)

/-- An environment in which every call of `createGBuffer` succeeds and the depth format is
`VK_FORMAT_D32_SFLOAT` (126). -/
def exampleGBufferEnv : GBufferEnv :=
  { createImage := fun _ => none, createImageView := fun _ => none,
    findDepthFormat := Except.ok 126, vkCreateRenderPass := VK_SUCCESS,
    vkCreateFramebuffer := VK_SUCCESS, createColourSampler := none,
    createUniformBuffer := none }

/-- The keys of the map after `attachments[name]`, from the keys before. -/
def insertKey (name : String) : List String → List String
  | [] => [name]
  | key :: rest =>
    if keyLess name key then name :: key :: rest
    else if name = key then key :: rest
    else key :: insertKey name rest

/-- The G-buffer after two cycles of `createGBuffer` and `cleanupGBuffer` in
`exampleGBufferEnv`. -/
def exampleCycledGBuffer : GBuffer :=
  { attachments :=
      [("albedo", { image := 13, format := 43, imageView := 14 }),
       ("depth", { image := 15, format := 126, imageView := 16 }),
       ("normal", { image := 11, format := 97, imageView := 12 }),
       ("position", { image := 9, format := 97, imageView := 10 })],
    deferredRenderPass := none, deferredFrameBuffer := none, nextHandle := 16 }

/-- The G-buffer after a third `createGBuffer` in `exampleGBufferEnv`. -/
def exampleCreatedGBuffer : GBuffer :=
  { attachments :=
      [("albedo", { image := 21, format := 43, imageView := 22 }),
       ("depth", { image := 23, format := 126, imageView := 24 }),
       ("normal", { image := 19, format := 97, imageView := 20 }),
       ("position", { image := 17, format := 97, imageView := 18 })],
    deferredRenderPass := some
      { attachmentDescriptions :=
          [{ format := 43, initialLayout := 0, finalLayout := 5 },
           { format := 126, initialLayout := 0, finalLayout := 3 },
           { format := 97, initialLayout := 0, finalLayout := 5 },
           { format := 97, initialLayout := 0, finalLayout := 5 }],
        colourReferences :=
          [{ attachment := 0, layout := 2 }, { attachment := 2, layout := 2 },
           { attachment := 3, layout := 2 }],
        depthReference := { attachment := 1, layout := 3 } },
    deferredFrameBuffer := some [22, 24, 20, 18], nextHandle := 24 }

/-! ## Sequential composition -/

theorem Run.andThen_of_returned {r : Run} (f : Application → Run)
    (h : r.outcome = Outcome.returned) :
    r.andThen f = ⟨(f r.app).app, r.trace ++ (f r.app).trace, (f r.app).outcome⟩ := by
  unfold Run.andThen
  rw [h]

theorem Run.andThen_of_stopped {r : Run} (f : Application → Run)
    (h : r.outcome ≠ Outcome.returned) : r.andThen f = r := by
  unfold Run.andThen
  split
  · contradiction
  · rfl

theorem Run.mk_andThen (a : Application) (t : List Call) (f : Application → Run) :
    (Run.mk a t Outcome.returned).andThen f = ⟨(f a).app, t ++ (f a).trace, (f a).outcome⟩ :=
  rfl

theorem Run.mk_andThen_stopped (a : Application) (t : List Call) (o : Outcome)
    (f : Application → Run) (h : o ≠ Outcome.returned) :
    (Run.mk a t o).andThen f = ⟨a, t, o⟩ :=
  Run.andThen_of_stopped f h

theorem Run.mem_andThen_trace {r : Run} {f : Application → Run} {c : Call} :
    c ∈ (r.andThen f).trace ↔
      c ∈ r.trace ∨ (r.outcome = Outcome.returned ∧ c ∈ (f r.app).trace) := by
  by_cases h : r.outcome = Outcome.returned
  · rw [Run.andThen_of_returned f h]
    simp [h]
  · rw [Run.andThen_of_stopped f h]
    simp [h]

theorem Run.andThen_outcome_returned {r : Run} {f : Application → Run} :
    (r.andThen f).outcome = Outcome.returned ↔
      r.outcome = Outcome.returned ∧ (f r.app).outcome = Outcome.returned := by
  by_cases h : r.outcome = Outcome.returned
  · rw [Run.andThen_of_returned f h]
    simp [h]
  · rw [Run.andThen_of_stopped f h]
    simp [h]

theorem Run.andThen_forall_trace {P : Call → Prop} {r : Run} {f : Application → Run}
    (hr : ∀ c ∈ r.trace, P c) (hf : ∀ s, ∀ c ∈ (f s).trace, P c) :
    ∀ c ∈ (r.andThen f).trace, P c := by
  intro c hc
  rcases Run.mem_andThen_trace.mp hc with h | ⟨_, h⟩
  · exact hr c h
  · exact hf _ c h

theorem Run.andThen_preserves {α : Type} (g : Application → α) {r : Run}
    {f : Application → Run} {a : α} (hr : g r.app = a) (hf : ∀ s, g (f s).app = g s) :
    g (r.andThen f).app = a := by
  by_cases h : r.outcome = Outcome.returned
  · rw [Run.andThen_of_returned f h]
    simp [hf, hr]
  · rw [Run.andThen_of_stopped f h]
    exact hr

/-- The trace of a composition extends the trace of its first part. -/
theorem Run.andThen_trace_from {P : Call → Prop} {pre : List Call} {r : Run}
    {f : Application → Run}
    (hr : ∃ t, r.trace = pre ++ t ∧ ∀ c ∈ t, P c) (hf : ∀ s, ∀ c ∈ (f s).trace, P c) :
    ∃ t, (r.andThen f).trace = pre ++ t ∧ ∀ c ∈ t, P c := by
  obtain ⟨t, ht, hP⟩ := hr
  by_cases h : r.outcome = Outcome.returned
  · rw [Run.andThen_of_returned f h]
    refine ⟨t ++ (f r.app).trace, by simp [ht], ?_⟩
    intro c hc
    rcases List.mem_append.mp hc with h1 | h1
    · exact hP c h1
    · exact hf _ c h1
  · rw [Run.andThen_of_stopped f h]
    exact ⟨t, ht, hP⟩

theorem zeroAreaLoop_inRecreation (polls : List Bool) (s : Application) :
    ∀ c ∈ (zeroAreaLoop polls s).trace, c.inRecreation = true := by
  induction polls generalizing s with
  | nil => simp [zeroAreaLoop, logCalls]
  | cons b rest ih =>
    unfold zeroAreaLoop
    apply Run.andThen_forall_trace
    · cases b <;> simp [zeroAreaPoll, Call.inRecreation]
    · exact ih

theorem recordGeometryCommandBuffer_inRecreation (env : CreationEnv) (i : Nat)
    (s : Application) :
    ∀ c ∈ (recordGeometryCommandBuffer env i s).trace, c.inRecreation = true := by
  unfold recordGeometryCommandBuffer
  intro c hc
  split at hc
  · simp at hc; subst hc; rfl
  · split at hc
    · simp at hc; rcases hc with rfl | rfl <;> rfl
    · split at hc
      · simp at hc; rcases hc with rfl | rfl <;> rfl
      · split at hc
        · simp at hc; rcases hc with rfl | rfl | rfl | rfl | rfl | rfl <;> rfl
        · split at hc <;>
          · simp at hc
            rcases hc with rfl | rfl | rfl | rfl | rfl | rfl | rfl | rfl | rfl | rfl <;> rfl

theorem recordGeometryCommandBuffers_inRecreation (env : CreationEnv) (is : List Nat)
    (s : Application) :
    ∀ c ∈ (recordGeometryCommandBuffers env is s).trace, c.inRecreation = true := by
  induction is generalizing s with
  | nil => simp [recordGeometryCommandBuffers, logCalls]
  | cons i rest ih =>
    unfold recordGeometryCommandBuffers
    exact Run.andThen_forall_trace (recordGeometryCommandBuffer_inRecreation env i s) ih

theorem externalCall_inRecreation (call : Call) (failure : Option String) (s : Application)
    (h : call.inRecreation = true) :
    ∀ c ∈ (externalCall call failure s).trace, c.inRecreation = true := by
  unfold externalCall
  cases failure <;> simp [h]

theorem initSwapChain_inRecreation (env : CreationEnv) (s : Application) :
    ∀ c ∈ (initSwapChain env s).trace, c.inRecreation = true := by
  unfold initSwapChain
  split
  · simp [Call.inRecreation]
  · split <;> simp [Call.inRecreation]

theorem initFramebufferData_inRecreation (env : CreationEnv) (s : Application) :
    ∀ c ∈ (initFramebufferData env s).trace, c.inRecreation = true := by
  unfold initFramebufferData
  split <;> simp [Call.inRecreation]

theorem createDescriptorSets_inRecreation (env : CreationEnv) (s : Application) :
    ∀ c ∈ (createDescriptorSets env s).trace, c.inRecreation = true := by
  unfold createDescriptorSets
  intro c hc
  split at hc
  · simp at hc; rcases hc with rfl | rfl <;> rfl
  · simp at hc
    rcases hc with rfl | rfl | ⟨h, _, rfl⟩ <;> rfl

theorem createCommandBuffers_inRecreation (env : CreationEnv) (pool : CommandPool)
    (s : Application) :
    ∀ c ∈ (createCommandBuffers env pool s).trace, c.inRecreation = true := by
  unfold createCommandBuffers
  intro c hc
  split at hc <;>
  · simp at hc; rcases hc with rfl | rfl <;> rfl

/-- The trace of `recreateVulkanData` is its entry mark followed by recreation calls. -/
theorem recreateVulkanData_trace (env : CreationEnv) (s : Application) :
    ∃ t, (recreateVulkanData env s).trace = [Call.recreateVulkanData] ++ t ∧
      ∀ c ∈ t, c.inRecreation = true := by
  unfold recreateVulkanData
  refine Run.andThen_trace_from (Run.andThen_trace_from (Run.andThen_trace_from
    (Run.andThen_trace_from (Run.andThen_trace_from (Run.andThen_trace_from
    (Run.andThen_trace_from (Run.andThen_trace_from (Run.andThen_trace_from
    (Run.andThen_trace_from (Run.andThen_trace_from (Run.andThen_trace_from
    ⟨[Call.glfwGetFramebufferSize], rfl, by simp [Call.inRecreation]⟩
    ?_) ?_) ?_) ?_) ?_) ?_) ?_) ?_) ?_) ?_) ?_) ?_
  · exact zeroAreaLoop_inRecreation _
  · intro s; simp [waitDeviceIdle, Call.inRecreation]
  · intro s; simp [logCalls, Call.inRecreation]
  · exact initSwapChain_inRecreation env
  · exact initFramebufferData_inRecreation env
  · intro s; exact externalCall_inRecreation _ _ _ rfl
  · intro s; exact externalCall_inRecreation _ _ _ rfl
  · exact createDescriptorSets_inRecreation env
  · exact createCommandBuffers_inRecreation env _
  · exact createCommandBuffers_inRecreation env _
  · intro s; exact recordGeometryCommandBuffers_inRecreation env _ s
  · intro s; simp [logCalls, Call.inRecreation]

theorem zeroAreaLoop_run (polls : List Bool) (s : Application) :
    (zeroAreaLoop polls s).outcome = Outcome.returned ∧
      (zeroAreaLoop polls s).app =
        { s with framebufferResized := s.framebufferResized || polls.any id } := by
  induction polls generalizing s with
  | nil => simp [zeroAreaLoop, logCalls]
  | cons b rest ih =>
    unfold zeroAreaLoop
    have hp : (zeroAreaPoll b s).outcome = Outcome.returned := by
      cases b <;> rfl
    rw [Run.andThen_of_returned _ hp]
    refine ⟨(ih _).1, ?_⟩
    simp only [(ih _).2]
    cases b <;> simp [zeroAreaPoll]

theorem recordGeometryCommandBuffer_app (env : CreationEnv) (i : Nat) (s : Application) :
    (recordGeometryCommandBuffer env i s).app = s := by
  unfold recordGeometryCommandBuffer
  repeat' split
  all_goals rfl

theorem recordGeometryCommandBuffers_app (env : CreationEnv) (is : List Nat)
    (s : Application) : (recordGeometryCommandBuffers env is s).app = s := by
  induction is generalizing s with
  | nil => rfl
  | cons i rest ih =>
    unfold recordGeometryCommandBuffers
    exact Run.andThen_preserves id (recordGeometryCommandBuffer_app env i s) ih

theorem externalCall_app (call : Call) (failure : Option String) (s : Application) :
    (externalCall call failure s).app = s := by
  unfold externalCall
  cases failure <;> rfl

theorem initSwapChain_kept (env : CreationEnv) (s : Application) :
    (initSwapChain env s).app.kept = s.kept := by
  unfold initSwapChain
  split
  · rfl
  · split <;> rfl

theorem initFramebufferData_kept (env : CreationEnv) (s : Application) :
    (initFramebufferData env s).app.kept = s.kept := by
  unfold initFramebufferData
  split <;> rfl

theorem createDescriptorSets_kept (env : CreationEnv) (s : Application) :
    (createDescriptorSets env s).app.kept = s.kept := by
  unfold createDescriptorSets
  split <;> rfl

theorem createCommandBuffers_kept (env : CreationEnv) (pool : CommandPool)
    (s : Application) : (createCommandBuffers env pool s).app.kept = s.kept := by
  unfold createCommandBuffers
  cases pool <;> (simp only []; split <;> rfl)

/-- What `recreateVulkanData` does to the members that `drawFrame` synchronises on: it
empties the GPU queue (`vkDeviceWaitIdle`) and lets a resize event through while the
window is zero-area, and nothing else. -/
theorem recreateVulkanData_kept (env : CreationEnv) (s : Application) :
    (recreateVulkanData env s).app.kept =
      ({ s with pending := [],
                framebufferResized := s.framebufferResized || env.zeroAreaPolls.any id }
        : Application).kept := by
  unfold recreateVulkanData
  refine Run.andThen_preserves Application.kept (Run.andThen_preserves Application.kept
    (Run.andThen_preserves Application.kept (Run.andThen_preserves Application.kept
    (Run.andThen_preserves Application.kept (Run.andThen_preserves Application.kept
    (Run.andThen_preserves Application.kept (Run.andThen_preserves Application.kept
    (Run.andThen_preserves Application.kept (Run.andThen_preserves Application.kept
    ?_ ?_) ?_) ?_) ?_) ?_) ?_) ?_) ?_) ?_) ?_
  · have h1 : (logCalls [Call.recreateVulkanData, Call.glfwGetFramebufferSize] s).outcome
        = Outcome.returned := rfl
    rw [Run.andThen_of_returned _ h1]
    have h2 := zeroAreaLoop_run env.zeroAreaPolls s
    have h3 : (Run.mk (zeroAreaLoop env.zeroAreaPolls s).app
        ([Call.recreateVulkanData, Call.glfwGetFramebufferSize]
          ++ (zeroAreaLoop env.zeroAreaPolls s).trace)
        (zeroAreaLoop env.zeroAreaPolls s).outcome).outcome = Outcome.returned := h2.1
    simp only [logCalls]
    rw [Run.andThen_of_returned _ h3]
    simp only [h2.2, waitDeviceIdle]
  · intro s; rfl
  · exact initSwapChain_kept env
  · exact initFramebufferData_kept env
  · intro s; rw [externalCall_app]
  · intro s; rw [externalCall_app]
  · exact createDescriptorSets_kept env
  · exact createCommandBuffers_kept env _
  · exact createCommandBuffers_kept env _
  · intro s; rw [recordGeometryCommandBuffers_app]
  · intro s; rfl

/-- Either `drawFrame` stops at an out-of-range read before it asks for an image, or it
waits for the fence of the current frame slot and asks for an image. -/
theorem waitAndAcquire_cases (env : FrameEnv) (s : Application) :
    ((∃ access, (waitAndAcquire env s).outcome = Outcome.outOfRange access) ∧
        ∀ c ∈ (waitAndAcquire env s).trace, ∃ fence, c = Call.vkWaitForFences fence) ∨
      ∃ fence semaphore,
        s.inFlightFences[s.currentFrame]? = some fence ∧
        s.imageAvailableSemaphores[s.currentFrame]? = some semaphore ∧
        waitAndAcquire env s =
          ⟨acquiredState env fence s,
            [Call.vkWaitForFences fence, Call.vkAcquireNextImageKHR semaphore],
            Outcome.returned⟩ := by
  unfold waitAndAcquire
  split
  · left; simp
  · rename_i fence hf
    split
    · left
      exact ⟨by simp, by simp⟩
    · rename_i semaphore hs
      right
      exact ⟨fence, semaphore, hf, hs, rfl⟩

/-- When the acquire call is in the trace, the first stage returned. -/
theorem drawFrame_acquire_called {maxFrames : Nat} {env : FrameEnv} {s : Application}
    (h : ∃ semaphore, Call.vkAcquireNextImageKHR semaphore ∈ (drawFrame maxFrames env s).trace) :
    ∃ fence semaphore,
        s.inFlightFences[s.currentFrame]? = some fence ∧
        s.imageAvailableSemaphores[s.currentFrame]? = some semaphore ∧
        waitAndAcquire env s =
          ⟨acquiredState env fence s,
            [Call.vkWaitForFences fence, Call.vkAcquireNextImageKHR semaphore],
            Outcome.returned⟩ := by
  rcases waitAndAcquire_cases env s with ⟨⟨access, ha⟩, htr⟩ | h'
  · exfalso
    obtain ⟨semaphore, hmem⟩ := h
    have hout : (waitAndAcquire env s).outcome ≠ Outcome.returned := by
      rw [ha]; simp
    unfold drawFrame at hmem
    rw [Run.andThen_of_stopped _ hout] at hmem
    obtain ⟨fence, hc⟩ := htr _ hmem
    cases hc
  · exact h'

/-! ## The stages of a frame -/

theorem markImageInFlight_cases (s : Application) :
    ((∃ access, (markImageInFlight s).outcome = Outcome.outOfRange access) ∧
        ∀ c ∈ (markImageInFlight s).trace, c.inPreparation = true) ∨
      ∃ guard fence,
        s.imagesInFlight[s.imageIndex]? = some guard ∧
        s.inFlightFences[s.currentFrame]? = some fence ∧
        markImageInFlight s = ⟨markedState guard fence s, guardWait guard, Outcome.returned⟩ := by
  cases hg : s.imagesInFlight[s.imageIndex]? with
  | none => left; simp [markImageInFlight, hg]
  | some guard =>
    cases hf : s.inFlightFences[s.currentFrame]? with
    | none =>
      left
      by_cases h : guard = VK_NULL_HANDLE <;>
        simp [markImageInFlight, hg, hf, h, logCalls, Call.inPreparation]
    | some fence =>
      right
      refine ⟨guard, fence, rfl, rfl, ?_⟩
      by_cases h : guard = VK_NULL_HANDLE <;>
        simp [markImageInFlight, hg, hf, h, logCalls, markedState, guardWait]

theorem guardWait_inPreparation (guard : Handle) :
    ∀ c ∈ guardWait guard, c.inPreparation = true := by
  unfold guardWait
  split <;> simp [Call.inPreparation]

theorem recordGuiCommandBuffer_app (b : VkResult) (k : Nat) (s : Application) :
    (recordGuiCommandBuffer b k s).app = s := by
  unfold recordGuiCommandBuffer
  repeat' split
  all_goals rfl

theorem recordGuiCommandBuffer_inPreparation (b : VkResult) (k : Nat) (s : Application) :
    ∀ c ∈ (recordGuiCommandBuffer b k s).trace, c.inPreparation = true := by
  unfold recordGuiCommandBuffer
  intro c hc
  split at hc
  · simp at hc; rcases hc with rfl | rfl <;> rfl
  · split at hc
    · simp at hc; rcases hc with rfl | rfl | rfl <;> rfl
    · split at hc
      · simp at hc; rcases hc with rfl | rfl | rfl <;> rfl
      · split at hc
        · simp at hc; rcases hc with rfl | rfl | rfl <;> rfl
        · simp at hc
          rcases hc with rfl | rfl | rfl | rfl | rfl | rfl | rfl <;> rfl

theorem recordGuiCommandBuffer_outcome (b : VkResult) (k : Nat) (s : Application) :
    (recordGuiCommandBuffer b k s).outcome = Outcome.returned ∨
      (recordGuiCommandBuffer b k s).outcome.stoppedInPreparation := by
  unfold recordGuiCommandBuffer Outcome.stoppedInPreparation
  repeat' split
  all_goals simp

theorem markedState_eq (guard fence : Handle) (s : Application) :
    markedState guard fence s =
      { s with
        pending := if guard ≠ VK_NULL_HANDLE then s.pending.filter (fun f => f ≠ guard)
          else s.pending,
        imagesInFlight := s.imagesInFlight.set s.imageIndex fence } := by
  by_cases h : guard = VK_NULL_HANDLE <;> simp [markedState, waitForFence, h]

theorem submitLocals_markedState (guard fence : Handle) (s : Application) :
    submitLocals (markedState guard fence s) = submitLocals s := by
  rw [markedState_eq]
  rfl

/-- The part of `drawFrame` after the acquisition either stops before the submission,
having made preparation calls only, or reaches line 661 in the state `markedState` after
the calls listed. -/
theorem renderAcquiredImage_cases (maxFrames : Nat) (env : FrameEnv) (s : Application) :
    ((renderAcquiredImage maxFrames env s).outcome.stoppedInPreparation ∧
        (∀ c ∈ (renderAcquiredImage maxFrames env s).trace, c.inPreparation = true)) ∨
      ∃ guard fence l,
        s.imagesInFlight[s.imageIndex]? = some guard ∧
        s.inFlightFences[s.currentFrame]? = some fence ∧
        submitLocals s = Except.ok l ∧
        (recordGuiCommandBuffer env.guiBeginResult s.imageIndex
          (markedState guard fence s)).outcome = Outcome.returned ∧
        renderAcquiredImage maxFrames env s =
          (Run.mk (markedState guard fence s)
            (guardWait guard ++ Call.updateUniformBuffers s.imageIndex ::
              (recordGuiCommandBuffer env.guiBeginResult s.imageIndex
                (markedState guard fence s)).trace)
            Outcome.returned).andThen
            (fun s' => (submitFrame env l s').andThen (presentFrame maxFrames env l)) := by
  unfold renderAcquiredImage
  rcases markImageInFlight_cases s with ⟨⟨access, ha⟩, htr⟩ | ⟨guard, fence, hg, hf, hrun⟩
  · left
    have hout : (markImageInFlight s).outcome ≠ Outcome.returned := by
      rw [ha]; simp
    rw [Run.andThen_of_stopped _ hout, Run.andThen_of_stopped _ hout,
      Run.andThen_of_stopped _ hout]
    exact ⟨Or.inl ⟨access, ha⟩, htr⟩
  · have hidx : (markedState guard fence s).imageIndex = s.imageIndex := by
      rw [markedState_eq]
    rw [hrun]
    simp only [Run.mk_andThen, updateUniformBuffers, logCalls, hidx]
    have htrace : ∀ c ∈ guardWait guard ++ [Call.updateUniformBuffers s.imageIndex] ++
        (recordGuiCommandBuffer env.guiBeginResult s.imageIndex
          (markedState guard fence s)).trace, c.inPreparation = true := by
      intro c hc
      simp only [List.mem_append, List.mem_cons, List.mem_singleton,
        List.not_mem_nil, or_false] at hc
      rcases hc with (h | h) | h
      · exact guardWait_inPreparation _ c h
      · subst h; rfl
      · exact recordGuiCommandBuffer_inPreparation _ _ _ c h
    by_cases hgui : (recordGuiCommandBuffer env.guiBeginResult s.imageIndex
        (markedState guard fence s)).outcome = Outcome.returned
    · simp only [hgui, Run.mk_andThen, recordGuiCommandBuffer_app, submitLocals_markedState]
      cases hl : submitLocals s with
      | error access =>
        left
        refine ⟨Or.inl ⟨access, rfl⟩, ?_⟩
        simpa using htrace
      | ok l =>
        right
        refine ⟨guard, fence, l, hg, hf, rfl, hgui, ?_⟩
        simp [Run.mk_andThen]
    · left
      rw [Run.mk_andThen_stopped _ _ _ _ hgui]
      rcases recordGuiCommandBuffer_outcome env.guiBeginResult s.imageIndex
        (markedState guard fence s) with h | h
      · exact absurd h hgui
      · exact ⟨h, htrace⟩

/-- The shape of `drawFrame` once the acquire call was made. -/
theorem drawFrame_of_acquire (maxFrames : Nat) (env : FrameEnv) (s : Application)
    (fence semaphore : Handle)
    (hrun : waitAndAcquire env s =
      ⟨acquiredState env fence s,
        [Call.vkWaitForFences fence, Call.vkAcquireNextImageKHR semaphore],
        Outcome.returned⟩) :
    drawFrame maxFrames env s =
      (Run.mk (acquiredState env fence s)
        [Call.vkWaitForFences fence, Call.vkAcquireNextImageKHR semaphore]
        Outcome.returned).andThen (fun s =>
          if env.acquireResult = VK_ERROR_OUT_OF_DATE_KHR then
            recreateVulkanData env.recreate s
          else if env.acquireResult ≠ VK_SUCCESS ∧ env.acquireResult ≠ VK_SUBOPTIMAL_KHR then
            ⟨s, [], Outcome.threw "failed to acquire swap chain image!"⟩
          else renderAcquiredImage maxFrames env s) := by
  unfold drawFrame
  rw [hrun]

theorem submitFrame_of_fence (env : FrameEnv) (l : SubmitLocals) (s : Application)
    (fence : Handle) (hf : s.inFlightFences[s.currentFrame]? = some fence) :
    submitFrame env l s =
      if env.submitResult ≠ VK_SUCCESS then
        ⟨s, submitCalls l fence, Outcome.threw "failed to submit draw command buffer!"⟩
      else ⟨{ s with pending := s.pending ++ [fence] }, submitCalls l fence, Outcome.returned⟩ := by
  simp only [submitFrame, hf, submitCalls]

/-- The runs of `drawFrame`, by how far they get:
1. an out-of-range read stops it before the acquisition;
2. the acquisition reports out-of-date, and the rest of the run is the recreation;
3. the acquisition reports a fatal status;
4. it stops between the acquisition and the submission;
5. the submission fails;
6. the submission succeeds, and the rest of the run is `presentFrame`. -/
theorem drawFrame_cases (maxFrames : Nat) (env : FrameEnv) (s : Application) :
    ((∃ access, (drawFrame maxFrames env s).outcome = Outcome.outOfRange access) ∧
        (∀ c ∈ (drawFrame maxFrames env s).trace, ∃ fence, c = Call.vkWaitForFences fence)) ∨
    (∃ fence semaphore,
        s.inFlightFences[s.currentFrame]? = some fence ∧
        s.imageAvailableSemaphores[s.currentFrame]? = some semaphore ∧
        env.acquireResult = VK_ERROR_OUT_OF_DATE_KHR ∧
        drawFrame maxFrames env s =
          (Run.mk (acquiredState env fence s)
            [Call.vkWaitForFences fence, Call.vkAcquireNextImageKHR semaphore]
            Outcome.returned).andThen (recreateVulkanData env.recreate)) ∨
    (∃ fence semaphore,
        s.inFlightFences[s.currentFrame]? = some fence ∧
        s.imageAvailableSemaphores[s.currentFrame]? = some semaphore ∧
        (env.acquireResult ≠ VK_ERROR_OUT_OF_DATE_KHR ∧ env.acquireResult ≠ VK_SUCCESS ∧
          env.acquireResult ≠ VK_SUBOPTIMAL_KHR) ∧
        drawFrame maxFrames env s =
          ⟨acquiredState env fence s,
            [Call.vkWaitForFences fence, Call.vkAcquireNextImageKHR semaphore],
            Outcome.threw "failed to acquire swap chain image!"⟩) ∨
    (∃ fence semaphore t,
        s.inFlightFences[s.currentFrame]? = some fence ∧
        s.imageAvailableSemaphores[s.currentFrame]? = some semaphore ∧
        (env.acquireResult = VK_SUCCESS ∨ env.acquireResult = VK_SUBOPTIMAL_KHR) ∧
        (drawFrame maxFrames env s).outcome.stoppedInPreparation ∧
        (drawFrame maxFrames env s).trace =
          [Call.vkWaitForFences fence, Call.vkAcquireNextImageKHR semaphore] ++ t ∧
        ∀ c ∈ t, c.inPreparation = true) ∨
    (∃ fence semaphore guard l,
        s.inFlightFences[s.currentFrame]? = some fence ∧
        s.imageAvailableSemaphores[s.currentFrame]? = some semaphore ∧
        (env.acquireResult = VK_SUCCESS ∨ env.acquireResult = VK_SUBOPTIMAL_KHR) ∧
        s.imagesInFlight[env.acquiredIndex]? = some guard ∧
        submitLocals (acquiredState env fence s) = Except.ok l ∧
        env.submitResult ≠ VK_SUCCESS ∧
        drawFrame maxFrames env s =
          ⟨markedState guard fence (acquiredState env fence s),
            preparationCalls env fence semaphore guard s ++ submitCalls l fence,
            Outcome.threw "failed to submit draw command buffer!"⟩) ∨
    (∃ fence semaphore guard l,
        s.inFlightFences[s.currentFrame]? = some fence ∧
        s.imageAvailableSemaphores[s.currentFrame]? = some semaphore ∧
        (env.acquireResult = VK_SUCCESS ∨ env.acquireResult = VK_SUBOPTIMAL_KHR) ∧
        s.imagesInFlight[env.acquiredIndex]? = some guard ∧
        submitLocals (acquiredState env fence s) = Except.ok l ∧
        env.submitResult = VK_SUCCESS ∧
        drawFrame maxFrames env s =
          (Run.mk (submittedState env guard fence s)
            (preparationCalls env fence semaphore guard s ++ submitCalls l fence)
            Outcome.returned).andThen (presentFrame maxFrames env l)) := by
  rcases waitAndAcquire_cases env s with ⟨hout, htr⟩ | ⟨fence, semaphore, hf, hs, hrun⟩
  · left
    unfold drawFrame
    obtain ⟨access, ha⟩ := hout
    have hne : (waitAndAcquire env s).outcome ≠ Outcome.returned := by
      rw [ha]; simp
    rw [Run.andThen_of_stopped _ hne]
    exact ⟨⟨access, ha⟩, htr⟩
  · have hdraw := drawFrame_of_acquire maxFrames env s fence semaphore hrun
    rw [Run.mk_andThen] at hdraw
    by_cases hood : env.acquireResult = VK_ERROR_OUT_OF_DATE_KHR
    · right; left
      refine ⟨fence, semaphore, hf, hs, hood, ?_⟩
      rw [hdraw, if_pos hood, Run.mk_andThen]
    · rw [if_neg hood] at hdraw
      by_cases hfatal : env.acquireResult ≠ VK_SUCCESS ∧ env.acquireResult ≠ VK_SUBOPTIMAL_KHR
      · right; right; left
        rw [if_pos hfatal] at hdraw
        refine ⟨fence, semaphore, hf, hs, ⟨hood, hfatal.1, hfatal.2⟩, ?_⟩
        rw [hdraw]
        rfl
      · rw [if_neg hfatal] at hdraw
        have hok : env.acquireResult = VK_SUCCESS ∨ env.acquireResult = VK_SUBOPTIMAL_KHR := by
          by_cases h1 : env.acquireResult = VK_SUCCESS
          · exact Or.inl h1
          · by_cases h2 : env.acquireResult = VK_SUBOPTIMAL_KHR
            · exact Or.inr h2
            · exact absurd ⟨h1, h2⟩ hfatal
        rcases renderAcquiredImage_cases maxFrames env (acquiredState env fence s) with
          ⟨hout, htr⟩ | ⟨guard, fence', l, hg, hf', hl, hgui, hrender⟩
        · right; right; right; left
          refine ⟨fence, semaphore, _, hf, hs, hok, ?_, ?_, htr⟩
          · rw [hdraw]; exact hout
          · rw [hdraw]
        · have hff : fence' = fence := by
            have : (acquiredState env fence s).inFlightFences[
                (acquiredState env fence s).currentFrame]? = some fence := hf
            rw [this] at hf'
            exact (Option.some.inj hf').symm
          subst hff
          have hfence : (markedState guard fence' (acquiredState env fence' s)).inFlightFences[
              (markedState guard fence' (acquiredState env fence' s)).currentFrame]?
              = some fence' := by
            rw [markedState_eq]
            exact hf
          rw [hrender, Run.mk_andThen, submitFrame_of_fence _ _ _ _ hfence] at hdraw
          by_cases hsub : env.submitResult = VK_SUCCESS
          · right; right; right; right; right
            refine ⟨fence', semaphore, guard, l, hf, hs, hok, hg, hl, hsub, ?_⟩
            rw [hdraw]
            simp [hsub, Run.mk_andThen, preparationCalls, submittedState, acquiredState]
          · right; right; right; right; left
            refine ⟨fence', semaphore, guard, l, hf, hs, hok, hg, hl, hsub, ?_⟩
            rw [hdraw]
            simp [hsub, Run.mk_andThen_stopped, preparationCalls, acquiredState]

/-! ## The bound on outstanding submissions -/

theorem SubmissionInv.length_le {maxFrames : Nat} {s : Application}
    (h : SubmissionInv maxFrames s) : s.pending.length ≤ maxFrames := by
  obtain ⟨hnd, hsub, hlen⟩ := h
  rw [← hlen]
  exact (List.subperm_of_subset hnd hsub).length_le

theorem recreateVulkanData_submissionInv {maxFrames : Nat} (env : CreationEnv)
    {s : Application} (hs : SubmissionInv maxFrames s) :
    SubmissionInv maxFrames (recreateVulkanData env s).app := by
  have h := recreateVulkanData_kept env s
  simp only [Application.kept, Prod.mk.injEq] at h
  obtain ⟨-, -, hfences, -, -, -, hpending, -⟩ := h
  refine ⟨?_, ?_, ?_⟩
  · rw [hpending]; exact List.nodup_nil
  · rw [hpending]; simp
  · rw [hfences]; exact hs.2.2

theorem submittedState_pending (env : FrameEnv) (guard fence : Handle) (s : Application) :
    (submittedState env guard fence s).pending =
      (if guard ≠ VK_NULL_HANDLE then
        (s.pending.filter (fun f => f ≠ fence)).filter (fun f => f ≠ guard)
      else s.pending.filter (fun f => f ≠ fence)) ++ [fence] := by
  simp only [submittedState, markedState_eq, acquiredState, waitForFence]

theorem submittedState_inFlightFences (env : FrameEnv) (guard fence : Handle)
    (s : Application) :
    (submittedState env guard fence s).inFlightFences = s.inFlightFences := by
  simp only [submittedState, markedState_eq, acquiredState, waitForFence]

/-- After the submission of a frame every pending submission still has its own fence. -/
theorem submittedState_submissionInv {maxFrames : Nat} (env : FrameEnv)
    (guard fence : Handle) {s : Application} (hs : SubmissionInv maxFrames s)
    (hf : s.inFlightFences[s.currentFrame]? = some fence) :
    SubmissionInv maxFrames (submittedState env guard fence s) := by
  obtain ⟨hnd, hsub, hlen⟩ := hs
  have hmem : fence ∈ s.inFlightFences := by
    rw [List.getElem?_eq_some_iff] at hf
    obtain ⟨h, rfl⟩ := hf
    exact List.getElem_mem h
  refine ⟨?_, ?_, ?_⟩
  · rw [submittedState_pending]
    split
    · rw [List.nodup_append]
      refine ⟨(hnd.filter _).filter _, List.nodup_singleton _, ?_⟩
      intro a ha hb
      simp only [List.mem_singleton] at hb
      subst hb
      simp [List.mem_filter] at ha
    · rw [List.nodup_append]
      refine ⟨hnd.filter _, List.nodup_singleton _, ?_⟩
      intro a ha hb
      simp only [List.mem_singleton] at hb
      subst hb
      simp [List.mem_filter] at ha
  · rw [submittedState_pending, submittedState_inFlightFences]
    intro f hfm
    rw [List.mem_append] at hfm
    rcases hfm with h | h
    · split at h
      · exact hsub f (List.mem_of_mem_filter (List.mem_of_mem_filter h))
      · exact hsub f (List.mem_of_mem_filter h)
    · simp only [List.mem_singleton] at h
      subst h
      exact hmem
  · rw [submittedState_inFlightFences]
    exact hlen

theorem Run.andThen_invariant {P : Application → Prop} {r : Run} {f : Application → Run}
    (hr : P r.app) (hf : ∀ s, P s → P (f s).app) : P (r.andThen f).app := by
  by_cases h : r.outcome = Outcome.returned
  · rw [Run.andThen_of_returned f h]
    exact hf _ hr
  · rw [Run.andThen_of_stopped f h]
    exact hr

/-- The recreating branch of `presentFrame` (Application.cpp:688-692, 698). -/
theorem presentFrame_recreating (maxFrames : Nat) (env : FrameEnv) (l : SubmitLocals)
    (s : Application)
    (h : env.presentResult = VK_ERROR_OUT_OF_DATE_KHR ∨ env.presentResult = VK_SUBOPTIMAL_KHR
      ∨ s.framebufferResized = true) :
    presentFrame maxFrames env l s =
      (Run.mk (recreateVulkanData env.recreate { s with framebufferResized := false }).app
        (Call.vkQueuePresentKHR ⟨l.signalSemaphores, [s.imageIndex]⟩ ::
          (recreateVulkanData env.recreate { s with framebufferResized := false }).trace)
        (recreateVulkanData env.recreate { s with framebufferResized := false }).outcome
        ).andThen (advanceFrame maxFrames) := by
  unfold presentFrame
  simp only [if_pos h, logCalls, Run.mk_andThen]
  rfl

/-- The raising branch of `presentFrame` (Application.cpp:693-695). -/
theorem presentFrame_fatal (maxFrames : Nat) (env : FrameEnv) (l : SubmitLocals)
    (s : Application)
    (h : ¬ (env.presentResult = VK_ERROR_OUT_OF_DATE_KHR ∨
      env.presentResult = VK_SUBOPTIMAL_KHR ∨ s.framebufferResized = true))
    (hres : env.presentResult ≠ VK_SUCCESS) :
    presentFrame maxFrames env l s =
      ⟨s, [Call.vkQueuePresentKHR ⟨l.signalSemaphores, [s.imageIndex]⟩],
        Outcome.threw "failed to present swap chain image!"⟩ := by
  unfold presentFrame
  simp only [if_neg h, if_pos hres]

/-- The branch of `presentFrame` without recreation and without error. -/
theorem presentFrame_plain (maxFrames : Nat) (env : FrameEnv) (l : SubmitLocals)
    (s : Application)
    (h : ¬ (env.presentResult = VK_ERROR_OUT_OF_DATE_KHR ∨
      env.presentResult = VK_SUBOPTIMAL_KHR ∨ s.framebufferResized = true))
    (hres : env.presentResult = VK_SUCCESS) :
    presentFrame maxFrames env l s =
      ⟨{ s with currentFrame := (s.currentFrame + 1) % maxFrames },
        [Call.vkQueuePresentKHR ⟨l.signalSemaphores, [s.imageIndex]⟩],
        Outcome.returned⟩ := by
  unfold presentFrame
  simp only [if_neg h]
  rw [if_neg (not_not.mpr hres)]
  rfl

/-- The calls of `presentFrame`: the present call, then the recreation if there is one. -/
theorem presentFrame_trace (maxFrames : Nat) (env : FrameEnv) (l : SubmitLocals)
    (s : Application) :
    ∃ t, (presentFrame maxFrames env l s).trace =
        Call.vkQueuePresentKHR ⟨l.signalSemaphores, [s.imageIndex]⟩ :: t ∧
      (t = [] ∨ ∃ t', t = Call.recreateVulkanData :: t' ∧ ∀ c ∈ t', c.inRecreation = true) := by
  by_cases h : env.presentResult = VK_ERROR_OUT_OF_DATE_KHR ∨
      env.presentResult = VK_SUBOPTIMAL_KHR ∨ s.framebufferResized = true
  · obtain ⟨t', ht', hrec⟩ :=
      recreateVulkanData_trace env.recreate { s with framebufferResized := false }
    rw [presentFrame_recreating _ _ _ _ h]
    refine ⟨Call.recreateVulkanData :: t', ?_, Or.inr ⟨t', rfl, hrec⟩⟩
    by_cases hout : (recreateVulkanData env.recreate
        { s with framebufferResized := false }).outcome = Outcome.returned
    · simp [hout, Run.mk_andThen, advanceFrame, logCalls, ht']
    · rw [Run.mk_andThen_stopped _ _ _ _ hout]
      simp [ht']
  · by_cases hres : env.presentResult = VK_SUCCESS
    · rw [presentFrame_plain _ _ _ _ h hres]
      exact ⟨[], rfl, Or.inl rfl⟩
    · rw [presentFrame_fatal _ _ _ _ h hres]
      exact ⟨[], rfl, Or.inl rfl⟩

theorem presentFrame_submissionInv {maxFrames : Nat} (env : FrameEnv) (l : SubmitLocals)
    {s : Application} (hs : SubmissionInv maxFrames s) :
    SubmissionInv maxFrames (presentFrame maxFrames env l s).app := by
  by_cases h : env.presentResult = VK_ERROR_OUT_OF_DATE_KHR ∨
      env.presentResult = VK_SUBOPTIMAL_KHR ∨ s.framebufferResized = true
  · rw [presentFrame_recreating _ _ _ _ h]
    apply Run.andThen_invariant
    · exact recreateVulkanData_submissionInv (s := { s with framebufferResized := false })
        env.recreate hs
    · intro s' hs'
      exact hs'
  · by_cases hres : env.presentResult = VK_SUCCESS
    · rw [presentFrame_plain _ _ _ _ h hres]
      exact hs
    · rw [presentFrame_fatal _ _ _ _ h hres]
      exact hs

/-- A frame that returns leaves every pending submission with its own fence. -/
theorem drawFrame_submissionInv {maxFrames : Nat} (env : FrameEnv) {s : Application}
    (hs : SubmissionInv maxFrames s)
    (hret : (drawFrame maxFrames env s).outcome = Outcome.returned) :
    SubmissionInv maxFrames (drawFrame maxFrames env s).app := by
  rcases drawFrame_cases maxFrames env s with ⟨⟨access, ha⟩, -⟩ |
    ⟨fence, semaphore, hf, -, -, hdraw⟩ | ⟨fence, semaphore, -, -, -, hdraw⟩ |
    ⟨fence, semaphore, t, -, -, -, hstop, -, -⟩ |
    ⟨fence, semaphore, guard, l, hf, -, -, -, -, -, hdraw⟩ |
    ⟨fence, semaphore, guard, l, hf, -, -, -, -, -, hdraw⟩
  · rw [ha] at hret
    cases hret
  · rw [hdraw, Run.mk_andThen]
    apply recreateVulkanData_submissionInv
    obtain ⟨hnd, hsub, hlen⟩ := hs
    exact ⟨hnd.filter _, fun f hfm => hsub f (List.mem_of_mem_filter hfm), hlen⟩
  · rw [hdraw] at hret
    cases hret
  · rw [hret] at hstop
    rcases hstop with ⟨access, ha⟩ | ha <;> cases ha
  · rw [hdraw] at hret
    cases hret
  · rw [hdraw, Run.mk_andThen]
    exact presentFrame_submissionInv env l (submittedState_submissionInv env guard fence hs hf)

theorem gpuComplete_submissionInv {maxFrames : Nat} (k : Nat) {s : Application}
    (hs : SubmissionInv maxFrames s) : SubmissionInv maxFrames (gpuComplete k s) := by
  obtain ⟨hnd, hsub, hlen⟩ := hs
  refine ⟨?_, ?_, hlen⟩
  · exact hnd.sublist (List.eraseIdx_sublist _ _)
  · intro f hfm
    exact hsub f ((List.eraseIdx_sublist _ _).subset hfm)

theorem createFrameSyncObjects_keeps (env : InitEnv) (i : Nat) (s : Application) :
    ((createFrameSyncObjects env i s).app.pending,
      (createFrameSyncObjects env i s).app.inFlightFences.length) =
      (s.pending, s.inFlightFences.length) := by
  unfold createFrameSyncObjects
  split_ifs <;> simp

theorem createSyncObjectsLoop_keeps (env : InitEnv) (is : List Nat) (s : Application) :
    ((createSyncObjectsLoop env is s).app.pending,
      (createSyncObjectsLoop env is s).app.inFlightFences.length) =
      (s.pending, s.inFlightFences.length) := by
  induction is generalizing s with
  | nil => rfl
  | cons i rest ih =>
    unfold createSyncObjectsLoop
    exact Run.andThen_preserves (fun s => (s.pending, s.inFlightFences.length))
      (createFrameSyncObjects_keeps env i s) ih

theorem vectorResize_length (xs : List Handle) (n : Nat) (v : Handle) :
    (vectorResize xs n v).length = n := by
  simp only [vectorResize, List.length_append, List.length_take, List.length_replicate]
  omega

/-- `createSyncObjects` leaves `inFlightFences` with `maxFrames` entries and submits
nothing. -/
theorem createSyncObjects_keeps (maxFrames : Nat) (env : InitEnv) (s : Application) :
    ((createSyncObjects maxFrames env s).app.pending,
      (createSyncObjects maxFrames env s).app.inFlightFences.length) =
      (s.pending, maxFrames) := by
  unfold createSyncObjects
  refine Run.andThen_preserves (fun s => (s.pending, s.inFlightFences.length)) ?_
    (createSyncObjectsLoop_keeps env _)
  simp [logCalls, vectorResize_length]

theorem createTextures_app (env : InitEnv) (is : List Nat) (s : Application) :
    (createTextures env is s).app = s := by
  induction is generalizing s with
  | nil => rfl
  | cons i rest ih =>
    unfold createTextures
    exact Run.andThen_preserves id (externalCall_app _ _ s) ih

theorem checkedCall_app (call : Call) (result : VkResult) (what : String) (s : Application) :
    (checkedCall call result what s).app = s := by
  unfold checkedCall
  split <;> rfl

theorem loadModel_pending (env : InitEnv) (s : Application) :
    (loadModel env s).app.pending = s.pending := by
  unfold loadModel
  split <;> rfl

theorem kept_pending {s s' : Application} (h : s'.kept = s.kept) : s'.pending = s.pending := by
  simp only [Application.kept, Prod.mk.injEq] at h
  exact h.2.2.2.2.2.2.1

/-- Start-up submits nothing. -/
theorem initVulkan_pending (maxFrames : Nat) (env : InitEnv) (s : Application) :
    (initVulkan maxFrames env s).app.pending = s.pending := by
  unfold initVulkan
  refine Run.andThen_preserves Application.pending (Run.andThen_preserves Application.pending
    (Run.andThen_preserves Application.pending (Run.andThen_preserves Application.pending
    (Run.andThen_preserves Application.pending (Run.andThen_preserves Application.pending
    (Run.andThen_preserves Application.pending (Run.andThen_preserves Application.pending
    (Run.andThen_preserves Application.pending (Run.andThen_preserves Application.pending
    (Run.andThen_preserves Application.pending (Run.andThen_preserves Application.pending
    (Run.andThen_preserves Application.pending (Run.andThen_preserves Application.pending
    (Run.andThen_preserves Application.pending (Run.andThen_preserves Application.pending
    (Run.andThen_preserves Application.pending
    ?_ ?_) ?_) ?_) ?_) ?_) ?_) ?_) ?_) ?_) ?_) ?_) ?_) ?_) ?_) ?_) ?_) ?_
  · rw [externalCall_app]
  · exact loadModel_pending env
  · intro s; rw [checkedCall_app]
  · intro s; rw [checkedCall_app]
  · intro s; rw [checkedCall_app]
  · intro s; exact kept_pending (initSwapChain_kept _ s)
  · intro s; exact kept_pending (initFramebufferData_kept _ s)
  · intro s; rw [externalCall_app]
  · intro s; rw [createTextures_app]
  · intro s; rw [externalCall_app]
  · intro s; rw [externalCall_app]
  · intro s; rw [externalCall_app]
  · intro s; rw [checkedCall_app]
  · intro s; exact kept_pending (createDescriptorSets_kept _ s)
  · intro s; exact kept_pending (createCommandBuffers_kept _ _ s)
  · intro s; exact kept_pending (createCommandBuffers_kept _ _ s)
  · intro s; exact congrArg Prod.fst (createSyncObjects_keeps maxFrames env s)
  · intro s; rw [recordGeometryCommandBuffers_app]

/-- A start-up that returns leaves `maxFrames` fences in `inFlightFences`. -/
theorem initVulkan_inFlightFences_length (maxFrames : Nat) (env : InitEnv) (s : Application)
    (hret : (initVulkan maxFrames env s).outcome = Outcome.returned) :
    (initVulkan maxFrames env s).app.inFlightFences.length = maxFrames := by
  unfold initVulkan at hret ⊢
  have h1 := (Run.andThen_outcome_returned.mp hret).1
  have h2 := (Run.andThen_outcome_returned.mp h1).1
  refine Run.andThen_preserves (fun s => s.inFlightFences.length) ?_ ?_
  · rw [Run.andThen_of_returned _ h2]
    exact congrArg Prod.snd (createSyncObjects_keeps maxFrames env _)
  · intro s; rw [recordGeometryCommandBuffers_app]

theorem initVulkan_submissionInv (maxFrames : Nat) (env : InitEnv)
    (hret : (initVulkan maxFrames env Application.initial).outcome = Outcome.returned) :
    SubmissionInv maxFrames (initVulkan maxFrames env Application.initial).app := by
  have hp := initVulkan_pending maxFrames env Application.initial
  refine ⟨?_, ?_, initVulkan_inFlightFences_length maxFrames env _ hret⟩
  · rw [hp]; exact List.nodup_nil
  · rw [hp]; intro f hf; cases hf

theorem Reachable.submissionInv {maxFrames : Nat} {s : Application}
    (h : Reachable maxFrames s) : SubmissionInv maxFrames s := by
  induction h with
  | init env hret => exact initVulkan_submissionInv maxFrames env hret
  | frame env s _ hret ih => exact drawFrame_submissionInv env ih hret
  | gpu k s _ ih => exact gpuComplete_submissionInv k ih
  | resized s _ ih => exact ih

/-- Every `vkQueueSubmit` of a frame uses the fence of the current frame slot, and the
frame starts with the wait on that fence. -/
theorem drawFrame_submit_fence {maxFrames : Nat} {env : FrameEnv} {s : Application}
    {info : VkSubmitInfo} {fence : Handle}
    (h : Call.vkQueueSubmit info fence ∈ (drawFrame maxFrames env s).trace) :
    s.inFlightFences[s.currentFrame]? = some fence ∧
      ∃ rest, (drawFrame maxFrames env s).trace = Call.vkWaitForFences fence :: rest := by
  have hprep : ∀ fence' semaphore guard,
      Call.vkQueueSubmit info fence ∉ preparationCalls env fence' semaphore guard s := by
    intro fence' semaphore guard hmem
    simp only [preparationCalls, List.mem_append, List.mem_cons, List.mem_singleton,
      List.not_mem_nil, or_false] at hmem
    rcases hmem with ((h1 | h1) | h1) | h1 | h1
    · cases h1
    · cases h1
    · have := guardWait_inPreparation _ _ h1
      cases this
    · cases h1
    · have := recordGuiCommandBuffer_inPreparation _ _ _ _ h1
      cases this
  rcases drawFrame_cases maxFrames env s with ⟨-, htr⟩ |
    ⟨fence', semaphore, hf, -, -, hdraw⟩ | ⟨fence', semaphore, -, -, -, hdraw⟩ |
    ⟨fence', semaphore, t, -, -, -, -, htrace, htr⟩ |
    ⟨fence', semaphore, guard, l, hf, -, -, -, -, -, hdraw⟩ |
    ⟨fence', semaphore, guard, l, hf, -, -, -, -, -, hdraw⟩
  · obtain ⟨f, hc⟩ := htr _ h
    cases hc
  · exfalso
    obtain ⟨t, ht, hrec⟩ := recreateVulkanData_trace env.recreate (acquiredState env fence' s)
    rw [hdraw, Run.mk_andThen, ht] at h
    simp only [List.mem_append, List.mem_cons, List.mem_singleton, List.not_mem_nil,
      or_false] at h
    rcases h with (h1 | h1) | h1 | h1
    · cases h1
    · cases h1
    · cases h1
    · have := hrec _ h1
      cases this
  · exfalso
    rw [hdraw] at h
    simp at h
  · exfalso
    rw [htrace] at h
    simp only [List.mem_append, List.mem_cons, List.mem_singleton, List.not_mem_nil,
      or_false] at h
    rcases h with (h1 | h1) | h1
    · cases h1
    · cases h1
    · have := htr _ h1
      cases this
  · rw [hdraw] at h ⊢
    simp only [List.mem_append] at h
    rcases h with h1 | h1
    · exact absurd h1 (hprep _ _ _)
    · simp only [submitCalls, List.mem_cons, List.mem_singleton, List.not_mem_nil,
        or_false] at h1
      rcases h1 with h1 | h1
      · cases h1
      · cases h1
        exact ⟨hf, _, rfl⟩
  · rw [hdraw] at h ⊢
    rw [Run.mem_andThen_trace] at h
    have hhead : ∃ rest, ((Run.mk (submittedState env guard fence' s)
        (preparationCalls env fence' semaphore guard s ++ submitCalls l fence')
        Outcome.returned).andThen (presentFrame maxFrames env l)).trace
        = Call.vkWaitForFences fence' :: rest := by
      rw [Run.mk_andThen]
      exact ⟨_, rfl⟩
    rcases h with h1 | ⟨-, h1⟩
    · simp only [List.mem_append] at h1
      rcases h1 with h1 | h1
      · exact absurd h1 (hprep _ _ _)
      · simp only [submitCalls, List.mem_cons, List.mem_singleton, List.not_mem_nil,
          or_false] at h1
        rcases h1 with h1 | h1
        · cases h1
        · cases h1
          exact ⟨hf, hhead⟩
    · exfalso
      obtain ⟨t, ht, htail⟩ := presentFrame_trace maxFrames env l
        (submittedState env guard fence' s)
      rw [ht] at h1
      simp only [List.mem_cons] at h1
      rcases h1 with h1 | h1
      · cases h1
      · rcases htail with rfl | ⟨t', rfl, hrec⟩
        · cases h1
        · simp only [List.mem_cons] at h1
          rcases h1 with h1 | h1
          · cases h1
          · have := hrec _ h1
            cases this

/-! ## How recreation and presentation end -/

theorem Run.andThen_outcome_of {P : Outcome → Prop} {r : Run} {f : Application → Run}
    (hr : P r.outcome) (hf : ∀ s, P (f s).outcome) : P (r.andThen f).outcome := by
  by_cases h : r.outcome = Outcome.returned
  · rw [Run.andThen_of_returned f h]
    exact hf _
  · rw [Run.andThen_of_stopped f h]
    exact hr

theorem recordGeometryCommandBuffer_outcome (env : CreationEnv) (i : Nat) (s : Application) :
    (recordGeometryCommandBuffer env i s).outcome.ofRecreation = true := by
  unfold recordGeometryCommandBuffer
  repeat' split
  all_goals simp [Outcome.ofRecreation]

theorem recordGeometryCommandBuffers_outcome (env : CreationEnv) (is : List Nat)
    (s : Application) :
    (recordGeometryCommandBuffers env is s).outcome.ofRecreation = true := by
  induction is generalizing s with
  | nil => rfl
  | cons i rest ih =>
    unfold recordGeometryCommandBuffers
    exact Run.andThen_outcome_of (P := fun o => o.ofRecreation = true)
      (recordGeometryCommandBuffer_outcome env i s) ih

theorem externalCall_outcome (call : Call) (failure : Option String) (s : Application) :
    (externalCall call failure s).outcome.ofRecreation = true := by
  unfold externalCall
  cases failure <;> rfl

/-- `recreateVulkanData` ends in one of the ways listed in `Outcome.ofRecreation`. -/
theorem recreateVulkanData_outcome (env : CreationEnv) (s : Application) :
    (recreateVulkanData env s).outcome.ofRecreation = true := by
  unfold recreateVulkanData
  refine Run.andThen_outcome_of (P := fun o => o.ofRecreation = true)
    (Run.andThen_outcome_of (P := fun o => o.ofRecreation = true)
    (Run.andThen_outcome_of (P := fun o => o.ofRecreation = true)
    (Run.andThen_outcome_of (P := fun o => o.ofRecreation = true)
    (Run.andThen_outcome_of (P := fun o => o.ofRecreation = true)
    (Run.andThen_outcome_of (P := fun o => o.ofRecreation = true)
    (Run.andThen_outcome_of (P := fun o => o.ofRecreation = true)
    (Run.andThen_outcome_of (P := fun o => o.ofRecreation = true)
    (Run.andThen_outcome_of (P := fun o => o.ofRecreation = true)
    (Run.andThen_outcome_of (P := fun o => o.ofRecreation = true)
    (Run.andThen_outcome_of (P := fun o => o.ofRecreation = true)
    (Run.andThen_outcome_of (P := fun o => o.ofRecreation = true)
    ?_ ?_) ?_) ?_) ?_) ?_) ?_) ?_) ?_) ?_) ?_) ?_) ?_
  · rfl
  · intro s; rw [(zeroAreaLoop_run _ s).1]; rfl
  · intro s; rfl
  · intro s; rfl
  · intro s; unfold initSwapChain; split
    · rfl
    · split <;> rfl
  · intro s; unfold initFramebufferData; split <;> rfl
  · intro s; exact externalCall_outcome _ _ s
  · intro s; exact externalCall_outcome _ _ s
  · intro s; unfold createDescriptorSets; split <;> simp [Outcome.ofRecreation]
  · intro s; unfold createCommandBuffers; split <;> simp [Outcome.ofRecreation]
  · intro s; unfold createCommandBuffers; split <;> simp [Outcome.ofRecreation]
  · intro s; exact recordGeometryCommandBuffers_outcome env _ s
  · intro s; rfl

/-- What the recreating branch of `presentFrame` does: the present call, the recreation
right after it, and the outcome and resize flag that the recreation leaves. -/
theorem presentFrame_recreating_run (maxFrames : Nat) (env : FrameEnv) (l : SubmitLocals)
    (s : Application)
    (h : env.presentResult = VK_ERROR_OUT_OF_DATE_KHR ∨ env.presentResult = VK_SUBOPTIMAL_KHR
      ∨ s.framebufferResized = true) :
    (∃ t, (presentFrame maxFrames env l s).trace =
        Call.vkQueuePresentKHR ⟨l.signalSemaphores, [s.imageIndex]⟩ ::
          Call.recreateVulkanData :: t ∧ ∀ c ∈ t, c.inRecreation = true) ∧
    (presentFrame maxFrames env l s).outcome =
      (recreateVulkanData env.recreate { s with framebufferResized := false }).outcome ∧
    (presentFrame maxFrames env l s).app.framebufferResized = env.recreate.zeroAreaPolls.any id ∧
    (presentFrame maxFrames env l s).app.imagesInFlight = s.imagesInFlight := by
  obtain ⟨t', ht', hrec⟩ :=
    recreateVulkanData_trace env.recreate { s with framebufferResized := false }
  have hkept := recreateVulkanData_kept env.recreate { s with framebufferResized := false }
  simp only [Application.kept, Prod.mk.injEq, Bool.false_or] at hkept
  obtain ⟨-, -, -, himages, -, -, -, hflag⟩ := hkept
  rw [presentFrame_recreating _ _ _ _ h]
  by_cases hout : (recreateVulkanData env.recreate
      { s with framebufferResized := false }).outcome = Outcome.returned
  · rw [hout, Run.mk_andThen]
    refine ⟨⟨t', ?_, hrec⟩, rfl, hflag, himages⟩
    simp [advanceFrame, logCalls, ht']
  · rw [Run.mk_andThen_stopped _ _ _ _ hout]
    exact ⟨⟨t', by simp [ht'], hrec⟩, rfl, hflag, himages⟩

/-- `presentFrame` returns, raises the present error, or ends the way the recreation
ends. -/
theorem presentFrame_outcome (maxFrames : Nat) (env : FrameEnv) (l : SubmitLocals)
    (s : Application) :
    (presentFrame maxFrames env l s).outcome = Outcome.threw "failed to present swap chain image!"
      ∨ (presentFrame maxFrames env l s).outcome.ofRecreation = true := by
  by_cases h : env.presentResult = VK_ERROR_OUT_OF_DATE_KHR ∨
      env.presentResult = VK_SUBOPTIMAL_KHR ∨ s.framebufferResized = true
  · right
    rw [(presentFrame_recreating_run maxFrames env l s h).2.1]
    exact recreateVulkanData_outcome _ _
  · by_cases hres : env.presentResult = VK_SUCCESS
    · right
      rw [presentFrame_plain _ _ _ _ h hres]
      rfl
    · left
      rw [presentFrame_fatal _ _ _ _ h hres]

theorem preparationCalls_inPreparation (env : FrameEnv) (fence semaphore guard : Handle)
    (s : Application) :
    ∀ c ∈ preparationCalls env fence semaphore guard s, c.inPreparation = true := by
  intro c hc
  simp only [preparationCalls, List.mem_append, List.mem_cons, List.mem_singleton,
    List.not_mem_nil, or_false] at hc
  rcases hc with ((h | h) | h) | h | h
  · subst h; rfl
  · subst h; rfl
  · exact guardWait_inPreparation _ _ h
  · subst h; rfl
  · exact recordGuiCommandBuffer_inPreparation _ _ _ _ h

/-- Calls other than the reset and the submission are not among the calls of the
submission, and calls that are not preparation calls are not made before it. -/
theorem not_mem_before_present (env : FrameEnv) (fence semaphore guard : Handle)
    (l : SubmitLocals) (s : Application) (c : Call) (hprep : c.inPreparation = false)
    (hreset : ∀ f, c ≠ Call.vkResetFences f) (hsubmit : ∀ info f, c ≠ Call.vkQueueSubmit info f) :
    c ∉ preparationCalls env fence semaphore guard s ++ submitCalls l fence := by
  intro hc
  rw [List.mem_append] at hc
  rcases hc with h | h
  · rw [preparationCalls_inPreparation _ _ _ _ _ _ h] at hprep
    cases hprep
  · simp only [submitCalls, List.mem_cons, List.mem_singleton, List.not_mem_nil,
      or_false] at h
    rcases h with h | h
    · exact hreset _ h
    · exact hsubmit _ _ h

/-- A frame whose trace holds a present call got through the submission. -/
theorem drawFrame_present_reached {maxFrames : Nat} {env : FrameEnv} {s : Application}
    (h : ∃ info, Call.vkQueuePresentKHR info ∈ (drawFrame maxFrames env s).trace) :
    ∃ fence semaphore guard l,
        s.inFlightFences[s.currentFrame]? = some fence ∧
        s.imageAvailableSemaphores[s.currentFrame]? = some semaphore ∧
        (env.acquireResult = VK_SUCCESS ∨ env.acquireResult = VK_SUBOPTIMAL_KHR) ∧
        s.imagesInFlight[env.acquiredIndex]? = some guard ∧
        submitLocals (acquiredState env fence s) = Except.ok l ∧
        env.submitResult = VK_SUCCESS ∧
        drawFrame maxFrames env s =
          (Run.mk (submittedState env guard fence s)
            (preparationCalls env fence semaphore guard s ++ submitCalls l fence)
            Outcome.returned).andThen (presentFrame maxFrames env l) := by
  obtain ⟨info, h⟩ := h
  rcases drawFrame_cases maxFrames env s with ⟨-, htr⟩ |
    ⟨fence, semaphore, -, -, -, hdraw⟩ | ⟨fence, semaphore, -, -, -, hdraw⟩ |
    ⟨fence, semaphore, t, -, -, -, -, htrace, htr⟩ |
    ⟨fence, semaphore, guard, l, -, -, -, -, -, -, hdraw⟩ | hreached
  · obtain ⟨f, hc⟩ := htr _ h
    cases hc
  · exfalso
    obtain ⟨t, ht, hrec⟩ := recreateVulkanData_trace env.recreate (acquiredState env fence s)
    rw [hdraw, Run.mk_andThen, ht] at h
    simp only [List.mem_append, List.mem_cons, List.mem_singleton, List.not_mem_nil,
      or_false] at h
    rcases h with (h1 | h1) | h1 | h1
    · cases h1
    · cases h1
    · cases h1
    · have := hrec _ h1
      cases this
  · exfalso
    rw [hdraw] at h
    simp at h
  · exfalso
    rw [htrace] at h
    simp only [List.mem_append, List.mem_cons, List.mem_singleton, List.not_mem_nil,
      or_false] at h
    rcases h with (h1 | h1) | h1
    · cases h1
    · cases h1
    · have := htr _ h1
      cases this
  · exfalso
    rw [hdraw] at h
    exact not_mem_before_present env fence semaphore guard l s
      (Call.vkQueuePresentKHR info) rfl (by simp) (by simp) h
  · exact hreached

/-! ## The members a frame keeps -/

theorem submittedState_fields (env : FrameEnv) (guard fence : Handle) (s : Application) :
    (submittedState env guard fence s).framebufferResized = s.framebufferResized ∧
    (submittedState env guard fence s).currentFrame = s.currentFrame ∧
    (submittedState env guard fence s).imageIndex = env.acquiredIndex ∧
    (submittedState env guard fence s).imagesInFlight =
      s.imagesInFlight.set env.acquiredIndex fence := by
  simp only [submittedState, markedState_eq, acquiredState, waitForFence, and_self]

theorem presentFrame_imagesInFlight (maxFrames : Nat) (env : FrameEnv) (l : SubmitLocals)
    (s : Application) :
    (presentFrame maxFrames env l s).app.imagesInFlight = s.imagesInFlight := by
  by_cases h : env.presentResult = VK_ERROR_OUT_OF_DATE_KHR ∨
      env.presentResult = VK_SUBOPTIMAL_KHR ∨ s.framebufferResized = true
  · exact (presentFrame_recreating_run maxFrames env l s h).2.2.2
  · by_cases hres : env.presentResult = VK_SUCCESS
    · rw [presentFrame_plain _ _ _ _ h hres]
    · rw [presentFrame_fatal _ _ _ _ h hres]

theorem submitFrame_imagesInFlight (env : FrameEnv) (l : SubmitLocals) (s : Application) :
    (submitFrame env l s).app.imagesInFlight = s.imagesInFlight := by
  unfold submitFrame
  split
  · rfl
  · simp only []
    split <;> rfl

/-- With the marker of the acquired image and the fence of the frame slot in range, the
part of `drawFrame` after the acquisition waits on the marker (if it names a fence),
calls `updateUniformBuffers`, and whatever follows keeps the marker vector written at
Application.cpp:629. -/
theorem renderAcquiredImage_of_marker (maxFrames : Nat) (env : FrameEnv) (s : Application)
    (guard fence : Handle) (hg : s.imagesInFlight[s.imageIndex]? = some guard)
    (hf : s.inFlightFences[s.currentFrame]? = some fence) :
    (markImageInFlight s).app.imagesInFlight = s.imagesInFlight.set s.imageIndex fence ∧
    (renderAcquiredImage maxFrames env s).app.imagesInFlight =
      s.imagesInFlight.set s.imageIndex fence ∧
    ∃ rest, (renderAcquiredImage maxFrames env s).trace =
      guardWait guard ++ Call.updateUniformBuffers s.imageIndex :: rest := by
  have hrun : markImageInFlight s =
      ⟨markedState guard fence s, guardWait guard, Outcome.returned⟩ := by
    rcases markImageInFlight_cases s with ⟨⟨access, ha⟩, -⟩ | ⟨guard', fence', hg', hf', h⟩
    · exfalso
      simp [markImageInFlight, hg, hf] at ha
    · rw [hg] at hg'
      rw [hf] at hf'
      cases hg'
      cases hf'
      exact h
  have hidx : (markedState guard fence s).imageIndex = s.imageIndex := by
    rw [markedState_eq]
  have hmarked : (markedState guard fence s).imagesInFlight =
      s.imagesInFlight.set s.imageIndex fence := by
    rw [markedState_eq]
  refine ⟨by rw [hrun]; exact hmarked, ?_, ?_⟩
  · unfold renderAcquiredImage
    refine Run.andThen_preserves Application.imagesInFlight
      (Run.andThen_preserves Application.imagesInFlight
      (Run.andThen_preserves Application.imagesInFlight ?_ ?_) ?_) ?_
    · rw [hrun]; exact hmarked
    · intro s'; rfl
    · intro s'; rw [recordGuiCommandBuffer_app]
    · intro s'
      split
      · rfl
      · exact Run.andThen_preserves Application.imagesInFlight
          (submitFrame_imagesInFlight env _ s') (presentFrame_imagesInFlight maxFrames env _)
  · unfold renderAcquiredImage
    rw [hrun]
    simp only [Run.mk_andThen, updateUniformBuffers, logCalls, hidx]
    by_cases hgui : (recordGuiCommandBuffer env.guiBeginResult s.imageIndex
        (markedState guard fence s)).outcome = Outcome.returned
    · simp only [hgui, Run.mk_andThen]
      exact ⟨_, by simp only [List.append_assoc, List.singleton_append]; rfl⟩
    · rw [Run.mk_andThen_stopped _ _ _ _ hgui]
      exact ⟨_, by simp only [List.append_assoc, List.singleton_append]; rfl⟩

/-- In a frame that reaches the present call, the recreation is entered exactly when the
present status is out-of-date or suboptimal or the resize flag is set. -/
theorem drawFrame_recreation_iff {maxFrames : Nat} {env : FrameEnv} {s : Application}
    (hpresent : ∃ info, Call.vkQueuePresentKHR info ∈ (drawFrame maxFrames env s).trace) :
    Call.recreateVulkanData ∈ (drawFrame maxFrames env s).trace ↔
      (env.presentResult = VK_ERROR_OUT_OF_DATE_KHR ∨ env.presentResult = VK_SUBOPTIMAL_KHR ∨
        s.framebufferResized = true) := by
  obtain ⟨fence, semaphore, guard, l, -, -, -, -, -, -, hdraw⟩ :=
    drawFrame_present_reached hpresent
  have hflag := (submittedState_fields env guard fence s).1
  have hbefore : Call.recreateVulkanData ∉
      preparationCalls env fence semaphore guard s ++ submitCalls l fence :=
    not_mem_before_present env fence semaphore guard l s _ rfl (by simp) (by simp)
  rw [hdraw, Run.mk_andThen, ← hflag]
  by_cases hcond : env.presentResult = VK_ERROR_OUT_OF_DATE_KHR ∨
      env.presentResult = VK_SUBOPTIMAL_KHR ∨
      (submittedState env guard fence s).framebufferResized = true
  · obtain ⟨⟨t, ht, -⟩, -, -, -⟩ := presentFrame_recreating_run maxFrames env l _ hcond
    simp only [ht, hcond, iff_true]
    simp
  · simp only [hcond, iff_false]
    intro hmem
    rw [List.mem_append] at hmem
    rcases hmem with h | h
    · exact hbefore h
    · by_cases hres : env.presentResult = VK_SUCCESS
      · rw [presentFrame_plain _ _ _ _ hcond hres] at h
        simp at h
      · rw [presentFrame_fatal _ _ _ _ hcond hres] at h
        simp at h

/-- In a frame that acquires an image with a usable status, and whose marker for that
image is in range: the calls up to the uniform update, and the marker vector when
`updateUniformBuffers` is called and when the frame ends. -/
theorem drawFrame_of_marker {maxFrames : Nat} {env : FrameEnv} {s : Application}
    {guard : Handle}
    (hcall : ∃ semaphore,
      Call.vkAcquireNextImageKHR semaphore ∈ (drawFrame maxFrames env s).trace)
    (hok : env.acquireResult = VK_SUCCESS ∨ env.acquireResult = VK_SUBOPTIMAL_KHR)
    (hguard : s.imagesInFlight[env.acquiredIndex]? = some guard) :
    ∃ fence semaphore,
      s.inFlightFences[s.currentFrame]? = some fence ∧
      (∃ rest, (drawFrame maxFrames env s).trace =
        [Call.vkWaitForFences fence, Call.vkAcquireNextImageKHR semaphore] ++
          guardWait guard ++ Call.updateUniformBuffers env.acquiredIndex :: rest) ∧
      (markImageInFlight (waitAndAcquire env s).app).app.imagesInFlight =
        s.imagesInFlight.set env.acquiredIndex fence ∧
      (drawFrame maxFrames env s).app.imagesInFlight =
        s.imagesInFlight.set env.acquiredIndex fence := by
  obtain ⟨fence, semaphore, hf, -, hrun⟩ := drawFrame_acquire_called hcall
  have hdraw := drawFrame_of_acquire maxFrames env s fence semaphore hrun
  have hood : ¬ env.acquireResult = VK_ERROR_OUT_OF_DATE_KHR := by
    rcases hok with h | h <;> rw [h] <;> decide
  have hfatal : ¬ (env.acquireResult ≠ VK_SUCCESS ∧ env.acquireResult ≠ VK_SUBOPTIMAL_KHR) := by
    rcases hok with h | h <;> simp [h]
  rw [Run.mk_andThen, if_neg hood, if_neg hfatal] at hdraw
  obtain ⟨hmark, hfinal, rest, htrace⟩ :=
    renderAcquiredImage_of_marker maxFrames env (acquiredState env fence s) guard fence
      hguard hf
  refine ⟨fence, semaphore, hf, ⟨rest, ?_⟩, ?_, ?_⟩
  · rw [hdraw]
    simp only [htrace, List.append_assoc]
    rfl
  · rw [hrun]
    exact hmark
  · rw [hdraw]
    exact hfinal

/-! ## What a frame submits -/

theorem submitLocals_ok {s : Application} {l : SubmitLocals}
    (h : submitLocals s = Except.ok l) :
    ∃ render gui available finished,
      s.renderCommandBuffers[s.imageIndex]? = some render ∧
      s.imGuiCommandBuffers[s.imageIndex]? = some gui ∧
      s.imageAvailableSemaphores[s.currentFrame]? = some available ∧
      s.renderFinishedSemaphores[s.imageIndex]? = some finished ∧
      l = ⟨[render, gui], [available], [VK_PIPELINE_STAGE_COLOR_ATTACHMENT_OUTPUT_BIT],
        [finished]⟩ := by
  unfold submitLocals at h
  split at h
  · cases h
  · rename_i render hr
    split at h
    · cases h
    · rename_i gui hg
      split at h
      · cases h
      · rename_i available ha
        split at h
        · cases h
        · rename_i finished hfin
          cases h
          exact ⟨render, gui, available, finished, hr, hg, ha, hfin, rfl⟩

/-- The batch of every `vkQueueSubmit` of a frame: it waits on the image-available
semaphore of the frame slot at the colour-attachment-output stage, holds the geometry and
the GUI command buffer of the acquired image, and signals the entry of
`renderFinishedSemaphores` at the index of the acquired image; the fence is the one of the
frame slot, and `vkResetFences` on it is the call right before. -/
theorem drawFrame_submit_info {maxFrames : Nat} {env : FrameEnv} {s : Application}
    {info : VkSubmitInfo} {fence : Handle}
    (h : Call.vkQueueSubmit info fence ∈ (drawFrame maxFrames env s).trace) :
    ∃ render gui available finished,
      s.renderCommandBuffers[env.acquiredIndex]? = some render ∧
      s.imGuiCommandBuffers[env.acquiredIndex]? = some gui ∧
      s.imageAvailableSemaphores[s.currentFrame]? = some available ∧
      s.renderFinishedSemaphores[env.acquiredIndex]? = some finished ∧
      s.inFlightFences[s.currentFrame]? = some fence ∧
      info = ⟨[available], [VK_PIPELINE_STAGE_COLOR_ATTACHMENT_OUTPUT_BIT], [render, gui],
        [finished]⟩ ∧
      ∃ before after, (drawFrame maxFrames env s).trace =
        before ++ Call.vkResetFences fence :: Call.vkQueueSubmit info fence :: after ∧
        (∀ c ∈ before, c.inPreparation = true) ∧
        (∀ info' fence', Call.vkQueueSubmit info' fence' ∉ after) := by
  have hfence := (drawFrame_submit_fence h).1
  have key : ∀ fence' semaphore guard l,
      submitLocals (acquiredState env fence' s) = Except.ok l →
      Call.vkQueueSubmit info fence ∈
        preparationCalls env fence' semaphore guard s ++ submitCalls l fence' →
      fence' = fence ∧ ∃ render gui available finished,
        s.renderCommandBuffers[env.acquiredIndex]? = some render ∧
        s.imGuiCommandBuffers[env.acquiredIndex]? = some gui ∧
        s.imageAvailableSemaphores[s.currentFrame]? = some available ∧
        s.renderFinishedSemaphores[env.acquiredIndex]? = some finished ∧
        info = ⟨[available], [VK_PIPELINE_STAGE_COLOR_ATTACHMENT_OUTPUT_BIT], [render, gui],
          [finished]⟩ ∧
        submitCalls l fence' = [Call.vkResetFences fence, Call.vkQueueSubmit info fence] := by
    intro fence' semaphore guard l hl hmem
    obtain ⟨render, gui, available, finished, hr, hg, ha, hfin, rfl⟩ := submitLocals_ok hl
    rw [List.mem_append] at hmem
    rcases hmem with h1 | h1
    · have := preparationCalls_inPreparation _ _ _ _ _ _ h1
      cases this
    · simp only [submitCalls, List.mem_cons, List.mem_singleton, List.not_mem_nil,
        or_false] at h1
      rcases h1 with h1 | h1
      · cases h1
      · cases h1
        exact ⟨rfl, render, gui, available, finished, hr, hg, ha, hfin, rfl, rfl⟩
  rcases drawFrame_cases maxFrames env s with ⟨-, htr⟩ |
    ⟨fence', semaphore, -, -, -, hdraw⟩ | ⟨fence', semaphore, -, -, -, hdraw⟩ |
    ⟨fence', semaphore, t, -, -, -, -, htrace, htr⟩ |
    ⟨fence', semaphore, guard, l, -, -, -, -, hl, -, hdraw⟩ |
    ⟨fence', semaphore, guard, l, -, -, -, -, hl, -, hdraw⟩
  · obtain ⟨f, hc⟩ := htr _ h
    cases hc
  · exfalso
    obtain ⟨t, ht, hrec⟩ := recreateVulkanData_trace env.recreate (acquiredState env fence' s)
    rw [hdraw, Run.mk_andThen, ht] at h
    simp only [List.mem_append, List.mem_cons, List.mem_singleton, List.not_mem_nil,
      or_false] at h
    rcases h with (h1 | h1) | h1 | h1
    · cases h1
    · cases h1
    · cases h1
    · have := hrec _ h1
      cases this
  · exfalso
    rw [hdraw] at h
    simp at h
  · exfalso
    rw [htrace] at h
    simp only [List.mem_append, List.mem_cons, List.mem_singleton, List.not_mem_nil,
      or_false] at h
    rcases h with (h1 | h1) | h1
    · cases h1
    · cases h1
    · have := htr _ h1
      cases this
  · rw [hdraw] at h ⊢
    obtain ⟨rfl, render, gui, available, finished, hr, hg, ha, hfin, hinfo, hcalls⟩ :=
      key fence' semaphore guard l hl h
    refine ⟨render, gui, available, finished, hr, hg, ha, hfin, hfence, hinfo,
      preparationCalls env fence' semaphore guard s, [], ?_,
      preparationCalls_inPreparation _ _ _ _ _, by simp⟩
    simp only [hcalls]
  · rw [hdraw, Run.mk_andThen] at h ⊢
    have hnotlater : ∀ info' fence'',
        Call.vkQueueSubmit info' fence'' ∉
          (presentFrame maxFrames env l (submittedState env guard fence' s)).trace := by
      intro info' fence'' h1
      obtain ⟨t, ht, htail⟩ := presentFrame_trace maxFrames env l
        (submittedState env guard fence' s)
      rw [ht] at h1
      simp only [List.mem_cons] at h1
      rcases h1 with h1 | h1
      · cases h1
      · rcases htail with rfl | ⟨t', rfl, hrec⟩
        · cases h1
        · simp only [List.mem_cons] at h1
          rcases h1 with h1 | h1
          · cases h1
          · have := hrec _ h1
            cases this
    simp only [] at h
    rw [List.mem_append] at h
    rcases h with h1 | h1
    · obtain ⟨rfl, render, gui, available, finished, hr, hg, ha, hfin, hinfo, hcalls⟩ :=
        key fence' semaphore guard l hl h1
      refine ⟨render, gui, available, finished, hr, hg, ha, hfin, hfence, hinfo,
        preparationCalls env fence' semaphore guard s, _, ?_,
        preparationCalls_inPreparation _ _ _ _ _, hnotlater⟩
      simp only [hcalls, List.append_assoc]
      rfl
    · exact absurd h1 (hnotlater _ _)

/-! ### The frame slot -/

theorem kept_currentFrame {s s' : Application} (h : s'.kept = s.kept) :
    s'.currentFrame = s.currentFrame := by
  simp only [Application.kept, Prod.mk.injEq] at h
  exact h.2.2.2.2.1

theorem waitAndAcquire_currentFrame (env : FrameEnv) (s : Application) :
    (waitAndAcquire env s).app.currentFrame = s.currentFrame := by
  unfold waitAndAcquire
  split
  · rfl
  · split <;> rfl

theorem markImageInFlight_currentFrame (s : Application) :
    (markImageInFlight s).app.currentFrame = s.currentFrame := by
  unfold markImageInFlight
  split
  · rfl
  · simp only []
    split <;> split <;> rfl

theorem submitFrame_currentFrame (env : FrameEnv) (l : SubmitLocals) (s : Application) :
    (submitFrame env l s).app.currentFrame = s.currentFrame := by
  unfold submitFrame
  split
  · rfl
  · simp only []
    split <;> rfl

theorem recreateVulkanData_currentFrame (env : CreationEnv) (s : Application) :
    (recreateVulkanData env s).app.currentFrame = s.currentFrame := by
  have h := recreateVulkanData_kept env s
  simp only [Application.kept, Prod.mk.injEq] at h
  exact h.2.2.2.2.1

/-- The present step keeps the frame slot below `maxFrames`. -/
theorem presentFrame_currentFrame_lt (maxFrames : Nat) (env : FrameEnv) (l : SubmitLocals)
    (s : Application) (h : s.currentFrame < maxFrames) :
    (presentFrame maxFrames env l s).app.currentFrame < maxFrames := by
  have hpos : 0 < maxFrames := Nat.lt_of_le_of_lt (Nat.zero_le _) h
  have hadv : ∀ a : Application, a.currentFrame < maxFrames →
      (advanceFrame maxFrames a).app.currentFrame < maxFrames := by
    intro a _
    exact Nat.mod_lt _ hpos
  unfold presentFrame
  simp only []
  split
  · refine Run.andThen_invariant (P := fun a => a.currentFrame < maxFrames)
      (Run.andThen_invariant (P := fun a => a.currentFrame < maxFrames) h ?_) hadv
    intro a ha
    rw [recreateVulkanData_currentFrame]
    exact ha
  · split
    · exact h
    · exact Run.andThen_invariant (P := fun a => a.currentFrame < maxFrames) h hadv

/-- Every call of `drawFrame` keeps the frame slot below `maxFrames`, however it ends. -/
theorem drawFrame_currentFrame_lt (maxFrames : Nat) (env : FrameEnv) (s : Application)
    (h : s.currentFrame < maxFrames) :
    (drawFrame maxFrames env s).app.currentFrame < maxFrames := by
  unfold drawFrame
  refine Run.andThen_invariant (P := fun a => a.currentFrame < maxFrames) ?_ ?_
  · show (waitAndAcquire env s).app.currentFrame < maxFrames
    rw [waitAndAcquire_currentFrame]; exact h
  · intro a ha
    show Application.currentFrame (Run.app _) < maxFrames
    split
    · rw [recreateVulkanData_currentFrame]; exact ha
    · split
      · exact ha
      · unfold renderAcquiredImage
        refine Run.andThen_invariant (P := fun a => a.currentFrame < maxFrames)
          (Run.andThen_invariant (P := fun a => a.currentFrame < maxFrames)
          (Run.andThen_invariant (P := fun a => a.currentFrame < maxFrames) ?_ ?_) ?_) ?_
        · show (markImageInFlight a).app.currentFrame < maxFrames
          rw [markImageInFlight_currentFrame]; exact ha
        · intro b hb
          unfold updateUniformBuffers
          exact hb
        · intro b hb
          rw [recordGuiCommandBuffer_app]; exact hb
        · intro b hb
          split
          · exact hb
          · refine Run.andThen_invariant (P := fun a => a.currentFrame < maxFrames) ?_ ?_
            · show (submitFrame env _ b).app.currentFrame < maxFrames
              rw [submitFrame_currentFrame]; exact hb
            · intro c hc
              exact presentFrame_currentFrame_lt maxFrames env _ c hc

theorem loadModel_currentFrame (env : InitEnv) (s : Application) :
    (loadModel env s).app.currentFrame = s.currentFrame := by
  unfold loadModel
  split <;> rfl

theorem createFrameSyncObjects_currentFrame (env : InitEnv) (i : Nat) (s : Application) :
    (createFrameSyncObjects env i s).app.currentFrame = s.currentFrame := by
  unfold createFrameSyncObjects
  split_ifs <;> rfl

theorem createSyncObjectsLoop_currentFrame (env : InitEnv) (is : List Nat)
    (s : Application) :
    (createSyncObjectsLoop env is s).app.currentFrame = s.currentFrame := by
  induction is generalizing s with
  | nil => rfl
  | cons i rest ih =>
    unfold createSyncObjectsLoop
    exact Run.andThen_preserves Application.currentFrame
      (createFrameSyncObjects_currentFrame env i s) ih

theorem createSyncObjects_currentFrame (maxFrames : Nat) (env : InitEnv) (s : Application) :
    (createSyncObjects maxFrames env s).app.currentFrame = s.currentFrame := by
  unfold createSyncObjects
  exact Run.andThen_preserves Application.currentFrame rfl
    (createSyncObjectsLoop_currentFrame env _)

/-- Start-up leaves the frame slot at its initial value. -/
theorem initVulkan_currentFrame (maxFrames : Nat) (env : InitEnv) (s : Application) :
    (initVulkan maxFrames env s).app.currentFrame = s.currentFrame := by
  unfold initVulkan
  refine Run.andThen_preserves Application.currentFrame
    (Run.andThen_preserves Application.currentFrame
    (Run.andThen_preserves Application.currentFrame
    (Run.andThen_preserves Application.currentFrame
    (Run.andThen_preserves Application.currentFrame
    (Run.andThen_preserves Application.currentFrame
    (Run.andThen_preserves Application.currentFrame
    (Run.andThen_preserves Application.currentFrame
    (Run.andThen_preserves Application.currentFrame
    (Run.andThen_preserves Application.currentFrame
    (Run.andThen_preserves Application.currentFrame
    (Run.andThen_preserves Application.currentFrame
    (Run.andThen_preserves Application.currentFrame
    (Run.andThen_preserves Application.currentFrame
    (Run.andThen_preserves Application.currentFrame
    (Run.andThen_preserves Application.currentFrame
    (Run.andThen_preserves Application.currentFrame
    ?_ ?_) ?_) ?_) ?_) ?_) ?_) ?_) ?_) ?_) ?_) ?_) ?_) ?_) ?_) ?_) ?_) ?_
  · rw [externalCall_app]
  · exact loadModel_currentFrame env
  · intro s; rw [checkedCall_app]
  · intro s; rw [checkedCall_app]
  · intro s; rw [checkedCall_app]
  · intro s; exact kept_currentFrame (initSwapChain_kept _ s)
  · intro s; exact kept_currentFrame (initFramebufferData_kept _ s)
  · intro s; rw [externalCall_app]
  · intro s; rw [createTextures_app]
  · intro s; rw [externalCall_app]
  · intro s; rw [externalCall_app]
  · intro s; rw [externalCall_app]
  · intro s; rw [checkedCall_app]
  · intro s; exact kept_currentFrame (createDescriptorSets_kept _ s)
  · intro s; exact kept_currentFrame (createCommandBuffers_kept _ _ s)
  · intro s; exact kept_currentFrame (createCommandBuffers_kept _ _ s)
  · intro s; exact createSyncObjects_currentFrame maxFrames env s
  · intro s; rw [recordGeometryCommandBuffers_app]

/-- In every reachable state the frame slot is below `maxFrames`. -/
theorem Reachable.currentFrame_lt {maxFrames : Nat} (hpos : 0 < maxFrames) {s : Application}
    (h : Reachable maxFrames s) : s.currentFrame < maxFrames := by
  induction h with
  | init env _ =>
    rw [initVulkan_currentFrame]
    exact hpos
  | frame env s _ _ ih => exact drawFrame_currentFrame_lt maxFrames env s ih
  | gpu k s _ ih => exact ih
  | resized s _ ih => exact ih

/-- A call of `drawFrame` that presents and returns advances the frame slot by one,
modulo `maxFrames`. -/
theorem drawFrame_advances {maxFrames : Nat} {env : FrameEnv} {s : Application}
    {info : VkPresentInfoKHR}
    (hret : (drawFrame maxFrames env s).outcome = Outcome.returned)
    (hpresent : Call.vkQueuePresentKHR info ∈ (drawFrame maxFrames env s).trace) :
    (drawFrame maxFrames env s).app.currentFrame = (s.currentFrame + 1) % maxFrames := by
  obtain ⟨fence, semaphore, guard, l, _, _, _, _, _, _, hdraw⟩ :=
    drawFrame_present_reached ⟨info, hpresent⟩
  rw [hdraw, Run.mk_andThen] at hret ⊢
  simp only [] at hret ⊢
  have hcur := (submittedState_fields env guard fence s).2.1
  by_cases h : env.presentResult = VK_ERROR_OUT_OF_DATE_KHR ∨
      env.presentResult = VK_SUBOPTIMAL_KHR ∨
      (submittedState env guard fence s).framebufferResized = true
  · rw [presentFrame_recreating _ _ _ _ h] at hret ⊢
    have hrec := (Run.andThen_outcome_returned.mp hret).1
    rw [Run.andThen_of_returned _ hrec]
    show ((recreateVulkanData env.recreate _).app.currentFrame + 1) % maxFrames = _
    rw [recreateVulkanData_currentFrame, ← hcur]
  · by_cases hres : env.presentResult = VK_SUCCESS
    · rw [presentFrame_plain _ _ _ _ h hres]
      show ((submittedState env guard fence s).currentFrame + 1) % maxFrames = _
      rw [hcur]
    · rw [presentFrame_fatal _ _ _ _ h hres] at hret
      cases hret

/-! ### Runs that return -/

theorem Run.andThen_returned {r : Run} {f : Application → Run}
    (h : (r.andThen f).outcome = Outcome.returned) :
    r.outcome = Outcome.returned ∧ (f r.app).outcome = Outcome.returned ∧
      (r.andThen f).trace = r.trace ++ (f r.app).trace ∧
      (r.andThen f).app = (f r.app).app := by
  have h1 := Run.andThen_outcome_returned.mp h
  refine ⟨h1.1, h1.2, ?_, ?_⟩ <;> rw [Run.andThen_of_returned f h1.1]

/-- Sequential composition of two steps, for the runs that return. -/
theorem Run.andThen_returned_app {P Q : Application → Prop} {r : Run}
    {f : Application → Run} (hr : r.outcome = Outcome.returned → P r.app)
    (hf : ∀ s, P s → (f s).outcome = Outcome.returned → Q (f s).app) :
    (r.andThen f).outcome = Outcome.returned → Q (r.andThen f).app := by
  intro h
  obtain ⟨h1, h2, _, h4⟩ := Run.andThen_returned h
  rw [h4]
  exact hf _ (hr h1) h2

theorem loadModel_lengths (env : InitEnv) (s : Application) :
    (loadModel env s).app.lengths = s.lengths ∧ (loadModel env s).app.extent = s.extent := by
  unfold loadModel
  split <;> exact ⟨rfl, rfl⟩

theorem initSwapChain_returned {env : CreationEnv} {s : Application}
    (h : (initSwapChain env s).outcome = Outcome.returned) :
    (initSwapChain env s).app.imageViews.length = (initSwapChain env s).app.images.length ∧
    (initSwapChain env s).app.extent =
      chooseSwapExtent env.surface.capabilities env.windowSize := by
  unfold initSwapChain at h ⊢
  split
  · rename_i hfmt
    rw [hfmt] at h
    cases h
  · rename_i fmt hfmt
    rw [hfmt] at h
    simp only [] at h
    split
    · rename_i what hres
      rw [hres] at h
      cases h
    · exact ⟨rfl, rfl⟩

theorem initSwapChain_lengths (env : CreationEnv) (s : Application) :
    (initSwapChain env s).app.framebuffers = s.framebuffers ∧
    (initSwapChain env s).app.descriptorSets = s.descriptorSets ∧
    (initSwapChain env s).app.renderCommandBuffers = s.renderCommandBuffers ∧
    (initSwapChain env s).app.imGuiCommandBuffers = s.imGuiCommandBuffers := by
  unfold initSwapChain
  split
  · exact ⟨rfl, rfl, rfl, rfl⟩
  · split <;> exact ⟨rfl, rfl, rfl, rfl⟩

theorem initFramebufferData_lengths (env : CreationEnv) (s : Application) :
    (initFramebufferData env s).app.images = s.images ∧
    (initFramebufferData env s).app.imageViews = s.imageViews ∧
    (initFramebufferData env s).app.extent = s.extent ∧
    (initFramebufferData env s).app.descriptorSets = s.descriptorSets ∧
    (initFramebufferData env s).app.renderCommandBuffers = s.renderCommandBuffers ∧
    (initFramebufferData env s).app.imGuiCommandBuffers = s.imGuiCommandBuffers := by
  unfold initFramebufferData
  split <;> exact ⟨rfl, rfl, rfl, rfl, rfl, rfl⟩

theorem freshHandles_length (s : Application) (n : Nat) : (freshHandles s n).length = n := by
  simp [freshHandles]

theorem createDescriptorSets_returned {env : CreationEnv} {s : Application}
    (h : (createDescriptorSets env s).outcome = Outcome.returned) :
    (createDescriptorSets env s).app.descriptorSets.length = s.images.length ∧
    Call.vkAllocateDescriptorSets s.images.length ∈ (createDescriptorSets env s).trace := by
  unfold createDescriptorSets at h ⊢
  simp only [] at h ⊢
  split
  · rename_i hres
    rw [if_pos hres] at h
    cases h
  · exact ⟨freshHandles_length _ _, by simp⟩

theorem createDescriptorSets_lengths (env : CreationEnv) (s : Application) :
    (createDescriptorSets env s).app.images = s.images ∧
    (createDescriptorSets env s).app.imageViews = s.imageViews ∧
    (createDescriptorSets env s).app.extent = s.extent ∧
    (createDescriptorSets env s).app.framebuffers = s.framebuffers ∧
    (createDescriptorSets env s).app.renderCommandBuffers = s.renderCommandBuffers ∧
    (createDescriptorSets env s).app.imGuiCommandBuffers = s.imGuiCommandBuffers := by
  unfold createDescriptorSets
  simp only []
  split <;> exact ⟨rfl, rfl, rfl, rfl, rfl, rfl⟩

theorem createCommandBuffers_returned {env : CreationEnv} {pool : CommandPool}
    {s : Application} (h : (createCommandBuffers env pool s).outcome = Outcome.returned) :
    (commandBuffersOf pool (createCommandBuffers env pool s).app).length =
      s.framebuffers.length ∧
    Call.vkAllocateCommandBuffers pool s.framebuffers.length ∈
      (createCommandBuffers env pool s).trace := by
  unfold createCommandBuffers at h ⊢
  simp only [] at h ⊢
  split
  · rename_i hres
    rw [if_pos hres] at h
    cases h
  · refine ⟨?_, by simp⟩
    cases pool <;> exact freshHandles_length _ _

theorem createCommandBuffers_lengths (env : CreationEnv) (pool : CommandPool)
    (s : Application) :
    (createCommandBuffers env pool s).app.images = s.images ∧
    (createCommandBuffers env pool s).app.imageViews = s.imageViews ∧
    (createCommandBuffers env pool s).app.extent = s.extent ∧
    (createCommandBuffers env pool s).app.framebuffers = s.framebuffers ∧
    (createCommandBuffers env pool s).app.descriptorSets = s.descriptorSets := by
  unfold createCommandBuffers
  simp only []
  cases pool <;> split <;> exact ⟨rfl, rfl, rfl, rfl, rfl⟩

theorem createCommandBuffers_imGui_keeps (env : CreationEnv) (s : Application) :
    (createCommandBuffers env CommandPool.imGuiCommandPool s).app.renderCommandBuffers =
      s.renderCommandBuffers := by
  unfold createCommandBuffers
  simp only []
  split <;> rfl

theorem createFrameSyncObjects_lengths (env : InitEnv) (i : Nat) (s : Application) :
    (createFrameSyncObjects env i s).app.lengths = s.lengths ∧
    (createFrameSyncObjects env i s).app.extent = s.extent := by
  unfold createFrameSyncObjects
  split_ifs <;> exact ⟨rfl, rfl⟩

theorem createSyncObjectsLoop_lengths (env : InitEnv) (is : List Nat) (s : Application) :
    (createSyncObjectsLoop env is s).app.lengths = s.lengths ∧
    (createSyncObjectsLoop env is s).app.extent = s.extent := by
  induction is generalizing s with
  | nil => exact ⟨rfl, rfl⟩
  | cons i rest ih =>
    unfold createSyncObjectsLoop
    exact ⟨Run.andThen_preserves Application.lengths
        (createFrameSyncObjects_lengths env i s).1 (fun a => (ih a).1),
      Run.andThen_preserves Application.extent
        (createFrameSyncObjects_lengths env i s).2 (fun a => (ih a).2)⟩

theorem createSyncObjects_lengths (maxFrames : Nat) (env : InitEnv) (s : Application) :
    (createSyncObjects maxFrames env s).app.lengths = s.lengths ∧
    (createSyncObjects maxFrames env s).app.extent = s.extent := by
  unfold createSyncObjects
  exact ⟨Run.andThen_preserves Application.lengths rfl
      (fun a => (createSyncObjectsLoop_lengths env _ a).1),
    Run.andThen_preserves Application.extent rfl
      (fun a => (createSyncObjectsLoop_lengths env _ a).2)⟩

/-- After a recreation that returns, the image views and the descriptor sets are one per
swap-chain image, the command buffers of both pools one per framebuffer, and the extent is
the one negotiated from the surface capabilities and the window size. -/
theorem recreateVulkanData_returned_lengths (env : CreationEnv) (s : Application)
    (hret : (recreateVulkanData env s).outcome = Outcome.returned) :
    (((recreateVulkanData env s).app.imageViews.length =
          (recreateVulkanData env s).app.images.length ∧
        (recreateVulkanData env s).app.extent =
          chooseSwapExtent env.surface.capabilities env.windowSize) ∧
      (recreateVulkanData env s).app.descriptorSets.length =
        (recreateVulkanData env s).app.images.length) ∧
    (recreateVulkanData env s).app.renderCommandBuffers.length =
      (recreateVulkanData env s).app.framebuffers.length ∧
    (recreateVulkanData env s).app.imGuiCommandBuffers.length =
      (recreateVulkanData env s).app.framebuffers.length := by
  revert hret
  unfold recreateVulkanData
  let Q1 : Application → Prop := fun a =>
    a.imageViews.length = a.images.length ∧
      a.extent = chooseSwapExtent env.surface.capabilities env.windowSize
  let Q2 : Application → Prop := fun a => Q1 a ∧ a.descriptorSets.length = a.images.length
  let Q4 : Application → Prop := fun a => Q2 a ∧
    a.renderCommandBuffers.length = a.framebuffers.length ∧
    a.imGuiCommandBuffers.length = a.framebuffers.length
  let Q3 : Application → Prop := fun a => Q2 a ∧
    a.renderCommandBuffers.length = a.framebuffers.length
  refine Run.andThen_returned_app (P := Q4) (Q := Q4)
    (Run.andThen_returned_app (P := Q4) (Q := Q4)
    (Run.andThen_returned_app (P := Q3) (Q := Q4)
    (Run.andThen_returned_app (P := Q2) (Q := Q3)
    (Run.andThen_returned_app (P := Q1) (Q := Q2)
    (Run.andThen_returned_app (P := Q1) (Q := Q1)
    (Run.andThen_returned_app (P := Q1) (Q := Q1)
    (Run.andThen_returned_app (P := Q1) (Q := Q1)
    (Run.andThen_returned_app (P := fun _ => True) (Q := Q1) (fun _ => trivial)
    ?_) ?_) ?_) ?_) ?_) ?_) ?_) ?_) ?_
  · intro a _ h
    exact initSwapChain_returned h
  · intro a ha _
    obtain ⟨h1, h2, h3, _⟩ := initFramebufferData_lengths env a
    show _ ∧ _
    rw [h1, h2, h3]
    exact ha
  · intro a ha _
    show Q1 (Run.app _)
    rw [externalCall_app]; exact ha
  · intro a ha _
    show Q1 (Run.app _)
    rw [externalCall_app]; exact ha
  · intro a ha h
    obtain ⟨h1, h2, h3, _⟩ := createDescriptorSets_lengths env a
    refine ⟨?_, ?_⟩
    · show _ ∧ _
      rw [h1, h2, h3]; exact ha
    · rw [h1]; exact (createDescriptorSets_returned h).1
  · intro a ha h
    obtain ⟨h1, h2, h3, h4, h5⟩ :=
      createCommandBuffers_lengths env CommandPool.renderCommandPool a
    refine ⟨⟨?_, ?_⟩, ?_⟩
    · show _ ∧ _
      rw [h1, h2, h3]; exact ha.1
    · rw [h1, h5]; exact ha.2
    · rw [h4]; exact (createCommandBuffers_returned h).1
  · intro a ha h
    obtain ⟨h1, h2, h3, h4, h5⟩ :=
      createCommandBuffers_lengths env CommandPool.imGuiCommandPool a
    refine ⟨⟨?_, ?_⟩, ?_, ?_⟩
    · show _ ∧ _
      rw [h1, h2, h3]; exact ha.1.1
    · rw [h1, h5]; exact ha.1.2
    · rw [h4, createCommandBuffers_imGui_keeps]; exact ha.2
    · rw [h4]; exact (createCommandBuffers_returned h).1
  · intro a ha _
    show Q4 (Run.app _)
    rw [recordGeometryCommandBuffers_app]; exact ha
  · intro a ha _
    exact ha

/-- After a start-up that returns, the image views and the descriptor sets are one per
swap-chain image, the command buffers of both pools one per framebuffer, and the extent is
the one negotiated from the surface capabilities and the window size. -/
theorem initVulkan_returned_lengths (maxFrames : Nat) (env : InitEnv) (s : Application)
    (hret : (initVulkan maxFrames env s).outcome = Outcome.returned) :
    (((initVulkan maxFrames env s).app.imageViews.length =
          (initVulkan maxFrames env s).app.images.length ∧
        (initVulkan maxFrames env s).app.extent =
          chooseSwapExtent env.creation.surface.capabilities env.creation.windowSize) ∧
      (initVulkan maxFrames env s).app.descriptorSets.length =
        (initVulkan maxFrames env s).app.images.length) ∧
    (initVulkan maxFrames env s).app.renderCommandBuffers.length =
      (initVulkan maxFrames env s).app.framebuffers.length ∧
    (initVulkan maxFrames env s).app.imGuiCommandBuffers.length =
      (initVulkan maxFrames env s).app.framebuffers.length := by
  revert hret
  unfold initVulkan
  let Q1 : Application → Prop := fun a =>
    a.imageViews.length = a.images.length ∧
      a.extent = chooseSwapExtent env.creation.surface.capabilities env.creation.windowSize
  let Q2 : Application → Prop := fun a => Q1 a ∧ a.descriptorSets.length = a.images.length
  let Q4 : Application → Prop := fun a => Q2 a ∧
    a.renderCommandBuffers.length = a.framebuffers.length ∧
    a.imGuiCommandBuffers.length = a.framebuffers.length
  let Q3 : Application → Prop := fun a => Q2 a ∧
    a.renderCommandBuffers.length = a.framebuffers.length
  refine Run.andThen_returned_app (P := Q4) (Q := Q4)
    (Run.andThen_returned_app (P := Q4) (Q := Q4)
    (Run.andThen_returned_app (P := Q3) (Q := Q4)
    (Run.andThen_returned_app (P := Q2) (Q := Q3)
    (Run.andThen_returned_app (P := Q1) (Q := Q2)
    (Run.andThen_returned_app (P := Q1) (Q := Q1)
    (Run.andThen_returned_app (P := Q1) (Q := Q1)
    (Run.andThen_returned_app (P := Q1) (Q := Q1)
    (Run.andThen_returned_app (P := Q1) (Q := Q1)
    (Run.andThen_returned_app (P := Q1) (Q := Q1)
    (Run.andThen_returned_app (P := Q1) (Q := Q1)
    (Run.andThen_returned_app (P := Q1) (Q := Q1)
    (Run.andThen_returned_app (P := fun _ => True) (Q := Q1) (fun _ => trivial)
    ?_) ?_) ?_) ?_) ?_) ?_) ?_) ?_) ?_) ?_) ?_) ?_) ?_
  · intro a _ h
    exact initSwapChain_returned h
  · intro a ha _
    obtain ⟨h1, h2, h3, _⟩ := initFramebufferData_lengths env.creation a
    show _ ∧ _
    rw [h1, h2, h3]
    exact ha
  · intro a ha _
    show Q1 (Run.app _)
    rw [externalCall_app]; exact ha
  · intro a ha _
    show Q1 (Run.app _)
    rw [createTextures_app]; exact ha
  · intro a ha _
    show Q1 (Run.app _)
    rw [externalCall_app]; exact ha
  · intro a ha _
    show Q1 (Run.app _)
    rw [externalCall_app]; exact ha
  · intro a ha _
    show Q1 (Run.app _)
    rw [externalCall_app]; exact ha
  · intro a ha _
    show Q1 (Run.app _)
    rw [checkedCall_app]; exact ha
  · intro a ha h
    obtain ⟨h1, h2, h3, _⟩ := createDescriptorSets_lengths env.creation a
    refine ⟨?_, ?_⟩
    · show _ ∧ _
      rw [h1, h2, h3]; exact ha
    · rw [h1]; exact (createDescriptorSets_returned h).1
  · intro a ha h
    obtain ⟨h1, h2, h3, h4, h5⟩ :=
      createCommandBuffers_lengths env.creation CommandPool.renderCommandPool a
    refine ⟨⟨?_, ?_⟩, ?_⟩
    · show _ ∧ _
      rw [h1, h2, h3]; exact ha.1
    · rw [h1, h5]; exact ha.2
    · rw [h4]; exact (createCommandBuffers_returned h).1
  · intro a ha h
    obtain ⟨h1, h2, h3, h4, h5⟩ :=
      createCommandBuffers_lengths env.creation CommandPool.imGuiCommandPool a
    refine ⟨⟨?_, ?_⟩, ?_, ?_⟩
    · show _ ∧ _
      rw [h1, h2, h3]; exact ha.1.1
    · rw [h1, h5]; exact ha.1.2
    · rw [h4, createCommandBuffers_imGui_keeps]; exact ha.2
    · rw [h4]; exact (createCommandBuffers_returned h).1
  · intro a ha _
    obtain ⟨h1, h2⟩ := createSyncObjects_lengths maxFrames env a
    simp only [Application.lengths, Prod.mk.injEq] at h1
    obtain ⟨l1, l2, l3, l4, l5, l6⟩ := h1
    obtain ⟨⟨⟨q1, q2⟩, q3⟩, q4, q5⟩ := ha
    exact ⟨⟨⟨by rw [l1, l2]; exact q1, by rw [h2]; exact q2⟩, by rw [l4, l1]; exact q3⟩,
      by rw [l5, l3]; exact q4, by rw [l6, l3]; exact q5⟩
  · intro a ha _
    show Q4 (Run.app _)
    rw [recordGeometryCommandBuffers_app]; exact ha

theorem Run.andThen_assoc (r : Run) (f g : Application → Run) :
    (r.andThen f).andThen g = r.andThen (fun s => (f s).andThen g) := by
  by_cases h : r.outcome = Outcome.returned
  · rw [Run.andThen_of_returned f h, Run.andThen_of_returned _ h]
    by_cases h2 : (f r.app).outcome = Outcome.returned
    · rw [Run.andThen_of_returned g h2]
      have h3 : (Run.mk (f r.app).app (r.trace ++ (f r.app).trace) (f r.app).outcome).outcome
          = Outcome.returned := h2
      rw [Run.andThen_of_returned g h3]
      simp
    · rw [Run.andThen_of_stopped g h2]
      have h3 : (Run.mk (f r.app).app (r.trace ++ (f r.app).trace) (f r.app).outcome).outcome
          ≠ Outcome.returned := h2
      rw [Run.andThen_of_stopped g h3]
  · rw [Run.andThen_of_stopped f h, Run.andThen_of_stopped _ h, Run.andThen_of_stopped _ h]

theorem zeroAreaLoop_eq (polls : List Bool) (s : Application) :
    zeroAreaLoop polls s =
      ⟨{ s with framebufferResized := s.framebufferResized || polls.any id },
        (zeroAreaLoop polls s).trace, Outcome.returned⟩ := by
  have h := zeroAreaLoop_run polls s
  cases hz : zeroAreaLoop polls s with
  | mk a t o =>
    rw [hz] at h
    simp only [] at h
    rw [h.1, h.2]

/-- The two halves of `recreateVulkanData`: the wait for a window with an area, the wait
for the device and the release of the old data always run to their end; the run then
continues with the creation of the new data. -/
theorem recreateVulkanData_eq (env : CreationEnv) (s : Application) :
    recreateVulkanData env s =
      ⟨(createSwapChainData env (idleState env s)).app,
        [Call.recreateVulkanData, Call.glfwGetFramebufferSize] ++
          (zeroAreaLoop env.zeroAreaPolls s).trace ++ destroySwapChainData s ++
          (createSwapChainData env (idleState env s)).trace,
        (createSwapChainData env (idleState env s)).outcome⟩ := by
  obtain ⟨t, ht⟩ : ∃ t, zeroAreaLoop env.zeroAreaPolls s =
      ⟨{ s with framebufferResized := s.framebufferResized || env.zeroAreaPolls.any id },
        t, Outcome.returned⟩ := ⟨_, zeroAreaLoop_eq env.zeroAreaPolls s⟩
  unfold recreateVulkanData createSwapChainData
  simp only [Run.andThen_assoc]
  simp only [logCalls, Run.mk_andThen, ht, waitDeviceIdle, destroySwapChainData, idleState,
    List.append_assoc, List.cons_append, List.nil_append]

/-! ### The calls of the creation steps -/

theorem externalCall_trace (call : Call) (failure : Option String) (s : Application) :
    (externalCall call failure s).trace = [call] := by
  unfold externalCall
  cases failure <;> rfl

theorem checkedCall_trace (call : Call) (result : VkResult) (what : String)
    (s : Application) : (checkedCall call result what s).trace = [call] := by
  unfold checkedCall
  split <;> rfl

theorem loadModel_trace (env : InitEnv) (s : Application) :
    (loadModel env s).trace = [Call.startup StartupCall.loadModel] := by
  unfold loadModel
  split <;> rfl

theorem initFramebufferData_trace (env : CreationEnv) (s : Application) :
    (initFramebufferData env s).trace = [Call.initFramebufferData] := by
  unfold initFramebufferData
  split <;> rfl

theorem initSwapChain_trace (env : CreationEnv) (s : Application) :
    (initSwapChain env s).trace = [Call.initSwapChain] ∨
      ∃ surfaceFormat, chooseSwapSurfaceFormat env.surface.formats = some surfaceFormat ∧
        (initSwapChain env s).trace =
          [Call.initSwapChain, Call.vkCreateSwapchainKHR (swapchainCreateInfo env surfaceFormat)] := by
  unfold initSwapChain
  cases hfmt : chooseSwapSurfaceFormat env.surface.formats with
  | none => exact Or.inl rfl
  | some surfaceFormat =>
    right
    refine ⟨surfaceFormat, rfl, ?_⟩
    simp only []
    split <;> rfl

theorem initSwapChain_returned_trace {env : CreationEnv} {s : Application}
    (h : (initSwapChain env s).outcome = Outcome.returned) :
    ∃ surfaceFormat, chooseSwapSurfaceFormat env.surface.formats = some surfaceFormat ∧
      (initSwapChain env s).trace =
        [Call.initSwapChain, Call.vkCreateSwapchainKHR (swapchainCreateInfo env surfaceFormat)] := by
  unfold initSwapChain at h ⊢
  cases hfmt : chooseSwapSurfaceFormat env.surface.formats with
  | none =>
    rw [hfmt] at h
    cases h
  | some surfaceFormat =>
    refine ⟨surfaceFormat, rfl, ?_⟩
    simp only []
    split <;> rfl

theorem zeroAreaLoop_calls (polls : List Bool) (s : Application) :
    ∀ c ∈ (zeroAreaLoop polls s).trace, c = Call.glfwGetFramebufferSize ∨
      c = Call.glfwWaitEvents ∨ c = Call.framebufferResizeCallback := by
  induction polls generalizing s with
  | nil => simp [zeroAreaLoop, logCalls]
  | cons b rest ih =>
    unfold zeroAreaLoop
    apply Run.andThen_forall_trace
    · cases b <;> simp [zeroAreaPoll]
    · exact ih

theorem createDescriptorSets_plain (env : CreationEnv) (s : Application) :
    ∀ c ∈ (createDescriptorSets env s).trace, c.plain = true := by
  unfold createDescriptorSets
  intro c hc
  split at hc
  · simp at hc; rcases hc with rfl | rfl <;> rfl
  · simp at hc
    rcases hc with rfl | rfl | ⟨h, _, rfl⟩ <;> rfl

theorem createCommandBuffers_plain (env : CreationEnv) (pool : CommandPool)
    (s : Application) :
    ∀ c ∈ (createCommandBuffers env pool s).trace, c.plain = true := by
  unfold createCommandBuffers
  intro c hc
  split at hc <;>
  · simp at hc; rcases hc with rfl | rfl <;> rfl

theorem createTextures_plain (env : InitEnv) (is : List Nat) (s : Application) :
    ∀ c ∈ (createTextures env is s).trace, c.plain = true := by
  induction is generalizing s with
  | nil => simp [createTextures, logCalls]
  | cons i rest ih =>
    unfold createTextures
    apply Run.andThen_forall_trace
    · rw [externalCall_trace]
      intro c hc
      rw [List.mem_singleton.mp hc]
      rfl
    · exact ih

theorem createFrameSyncObjects_plain (env : InitEnv) (i : Nat) (s : Application) :
    ∀ c ∈ (createFrameSyncObjects env i s).trace, c.plain = true := by
  unfold createFrameSyncObjects
  intro c hc
  split_ifs at hc <;>
  · simp at hc
    rcases hc with rfl | rfl <;> rfl

theorem createSyncObjectsLoop_plain (env : InitEnv) (is : List Nat) (s : Application) :
    ∀ c ∈ (createSyncObjectsLoop env is s).trace, c.plain = true := by
  induction is generalizing s with
  | nil => simp [createSyncObjectsLoop, logCalls]
  | cons i rest ih =>
    unfold createSyncObjectsLoop
    exact Run.andThen_forall_trace (createFrameSyncObjects_plain env i s) ih

theorem createSyncObjects_plain (maxFrames : Nat) (env : InitEnv) (s : Application) :
    ∀ c ∈ (createSyncObjects maxFrames env s).trace, c.plain = true := by
  unfold createSyncObjects
  apply Run.andThen_forall_trace
  · intro c hc
    simp [logCalls] at hc
    subst hc
    rfl
  · exact createSyncObjectsLoop_plain env _

/-- The calls of one `recordGeometryCommandBuffer`: the entry with its index, then calls
that neither release nor create a resource. -/
theorem recordGeometryCommandBuffer_calls (env : CreationEnv) (i : Nat) (s : Application) :
    ∃ rest, (recordGeometryCommandBuffer env i s).trace =
        Call.recordGeometryCommandBuffer i :: rest ∧
      ∀ c ∈ rest, c.plain = true := by
  unfold recordGeometryCommandBuffer
  simp only []
  split
  · exact ⟨[], rfl, by simp⟩
  · split
    · refine ⟨_, rfl, ?_⟩
      intro c hc
      simp at hc; subst hc; rfl
    · split
      · refine ⟨_, rfl, ?_⟩
        intro c hc
        simp at hc; subst hc; rfl
      · split
        · refine ⟨_, rfl, ?_⟩
          intro c hc
          simp at hc
          rcases hc with rfl | rfl | rfl | rfl | rfl <;> rfl
        · split <;>
          · refine ⟨_, rfl, ?_⟩
            intro c hc
            simp at hc
            rcases hc with rfl | rfl | rfl | rfl | rfl | rfl | rfl | rfl | rfl <;> rfl

theorem plain_releases {c : Call} (h : c.plain = true) : c.releases = none := by
  simp only [Call.plain, Bool.and_eq_true, Option.isNone_iff_eq_none] at h
  exact h.1.1.2

theorem plain_recordedIndex {c : Call} (h : c.plain = true) : c.recordedIndex = none := by
  simp only [Call.plain, Bool.and_eq_true, Option.isNone_iff_eq_none] at h
  exact h.1.1.1

theorem plain_isSwapchainRequest {c : Call} (h : c.plain = true) :
    c.isSwapchainRequest = false := by
  simp only [Call.plain, Bool.and_eq_true, Bool.not_eq_true'] at h
  exact h.1.2

theorem createdSwapChainData_of_plain {t : List Call} (h : ∀ c ∈ t, c.plain = true) :
    createdSwapChainData t = [] := by
  induction t with
  | nil => rfl
  | cons c rest ih =>
    have hc := h c (List.mem_cons_self _ _)
    have hrest := ih (fun d hd => h d (List.mem_cons_of_mem _ hd))
    simp only [Call.plain, Bool.and_eq_true, Bool.not_eq_true'] at hc
    unfold createdSwapChainData at hrest ⊢
    cases hcr : c.creates with
    | none => simp [List.filterMap_cons, hcr, hrest]
    | some r =>
      have h2 := hc.2
      rw [hcr] at h2
      simp only [Option.map_some', Option.getD_some] at h2
      simp [List.filterMap_cons, hcr, h2, hrest]

theorem filterMap_recordedIndex_of_plain {t : List Call} (h : ∀ c ∈ t, c.plain = true) :
    t.filterMap Call.recordedIndex = [] := by
  rw [List.filterMap_eq_nil_iff]
  intro c hc
  exact plain_recordedIndex (h c hc)

/-- Sequential composition of two steps, for the runs that return, with the trace. -/
theorem Run.andThen_returned_run {P Q : List Call → Application → Prop} {r : Run}
    {f : Application → Run} (hr : r.outcome = Outcome.returned → P r.trace r.app)
    (hf : ∀ s t, P t s → (f s).outcome = Outcome.returned →
      Q (t ++ (f s).trace) (f s).app) :
    (r.andThen f).outcome = Outcome.returned →
      Q (r.andThen f).trace (r.andThen f).app := by
  intro h
  obtain ⟨h1, h2, h3, h4⟩ := Run.andThen_returned h
  rw [h3, h4]
  exact hf _ _ (hr h1) h2

theorem recordGeometryCommandBuffer_recordedIndex (env : CreationEnv) (i : Nat)
    (s : Application) :
    (recordGeometryCommandBuffer env i s).trace.filterMap Call.recordedIndex = [i] := by
  obtain ⟨rest, ht, hrest⟩ := recordGeometryCommandBuffer_calls env i s
  rw [ht, List.filterMap_cons]
  simp only [Call.recordedIndex]
  rw [filterMap_recordedIndex_of_plain hrest]

/-- A loop of `recordGeometryCommandBuffer` calls that returns has entered the function
once for each index of the loop, in the order of the loop. -/
theorem recordGeometryCommandBuffers_recordedIndex (env : CreationEnv) (is : List Nat)
    (s : Application)
    (h : (recordGeometryCommandBuffers env is s).outcome = Outcome.returned) :
    (recordGeometryCommandBuffers env is s).trace.filterMap Call.recordedIndex = is := by
  induction is generalizing s with
  | nil => rfl
  | cons i rest ih =>
    unfold recordGeometryCommandBuffers at h ⊢
    obtain ⟨_, h2, h3, _⟩ := Run.andThen_returned h
    rw [h3, List.filterMap_append, recordGeometryCommandBuffer_recordedIndex, ih _ h2]
    rfl

/-- A step whose calls are plain and which keeps the image and framebuffer counts keeps what
has been allocated, and adds its own calls. -/
theorem Allocated.step {sets render gui : Bool} {t t' : List Call} {a a' : Application}
    (h : Allocated sets render gui t a) (hplain : ∀ c ∈ t', c.plain = true)
    (himages : a'.images.length = a.images.length)
    (hframebuffers : a'.framebuffers.length = a.framebuffers.length) :
    Allocated sets render gui (t ++ t') a' := by
  obtain ⟨h0, h1, h2, h3⟩ := h
  refine ⟨?_, ?_, ?_, ?_⟩
  · rw [List.filterMap_append, h0, filterMap_recordedIndex_of_plain hplain]
    rfl
  · intro hs
    rw [himages]
    exact List.mem_append_left _ (h1 hs)
  · intro hs
    rw [hframebuffers]
    exact List.mem_append_left _ (h2 hs)
  · intro hs
    rw [hframebuffers]
    exact List.mem_append_left _ (h3 hs)

/-- Before anything is allocated, a step need only not enter
`recordGeometryCommandBuffer`. -/
theorem Allocated.start {t t' : List Call} {a a' : Application}
    (h : Allocated false false false t a)
    (hquiet : t'.filterMap Call.recordedIndex = []) :
    Allocated false false false (t ++ t') a' := by
  refine ⟨?_, ?_, ?_, ?_⟩
  · rw [List.filterMap_append, h.1, hquiet]
    rfl
  all_goals intro hs; cases hs

theorem Allocated.sets {render gui : Bool} {t : List Call} {a : Application}
    {env : CreationEnv} (h : Allocated false render gui t a)
    (hret : (createDescriptorSets env a).outcome = Outcome.returned) :
    Allocated true render gui (t ++ (createDescriptorSets env a).trace)
      (createDescriptorSets env a).app := by
  obtain ⟨h1, _, _, h4, _, _⟩ := createDescriptorSets_lengths env a
  have hstep := h.step (createDescriptorSets_plain env a) (congrArg List.length h1)
    (congrArg List.length h4)
  refine ⟨hstep.1, ?_, hstep.2.2.1, hstep.2.2.2⟩
  intro _
  rw [h1]
  exact List.mem_append_right _ (createDescriptorSets_returned hret).2

theorem Allocated.render {sets gui : Bool} {t : List Call} {a : Application}
    {env : CreationEnv} (h : Allocated sets false gui t a)
    (hret : (createCommandBuffers env CommandPool.renderCommandPool a).outcome =
      Outcome.returned) :
    Allocated sets true gui
      (t ++ (createCommandBuffers env CommandPool.renderCommandPool a).trace)
      (createCommandBuffers env CommandPool.renderCommandPool a).app := by
  obtain ⟨h1, _, _, h4, _⟩ := createCommandBuffers_lengths env CommandPool.renderCommandPool a
  have hstep := h.step (createCommandBuffers_plain env CommandPool.renderCommandPool a)
    (congrArg List.length h1)
    (congrArg List.length h4)
  refine ⟨hstep.1, hstep.2.1, ?_, hstep.2.2.2⟩
  intro _
  rw [h4]
  exact List.mem_append_right _ (createCommandBuffers_returned hret).2

theorem Allocated.gui {sets render : Bool} {t : List Call} {a : Application}
    {env : CreationEnv} (h : Allocated sets render false t a)
    (hret : (createCommandBuffers env CommandPool.imGuiCommandPool a).outcome =
      Outcome.returned) :
    Allocated sets render true
      (t ++ (createCommandBuffers env CommandPool.imGuiCommandPool a).trace)
      (createCommandBuffers env CommandPool.imGuiCommandPool a).app := by
  obtain ⟨h1, _, _, h4, _⟩ := createCommandBuffers_lengths env CommandPool.imGuiCommandPool a
  have hstep := h.step (createCommandBuffers_plain env CommandPool.imGuiCommandPool a)
    (congrArg List.length h1)
    (congrArg List.length h4)
  refine ⟨hstep.1, hstep.2.1, hstep.2.2.1, ?_⟩
  intro _
  rw [h4]
  exact List.mem_append_right _ (createCommandBuffers_returned hret).2

theorem Allocated.record {t : List Call} {a : Application} {env : CreationEnv}
    (h : Allocated true true true t a)
    (hret : (recordGeometryCommandBuffers env (List.range a.images.length) a).outcome =
      Outcome.returned) :
    RecordedAfterAllocation
      (t ++ (recordGeometryCommandBuffers env (List.range a.images.length) a).trace)
      (recordGeometryCommandBuffers env (List.range a.images.length) a).app := by
  rw [recordGeometryCommandBuffers_app]
  exact ⟨t, _, rfl, h, recordGeometryCommandBuffers_recordedIndex env _ a hret⟩

theorem initSwapChain_recordedIndex (env : CreationEnv) (s : Application) :
    (initSwapChain env s).trace.filterMap Call.recordedIndex = [] := by
  rcases initSwapChain_trace env s with h | ⟨_, _, h⟩ <;> rw [h] <;> rfl

/-- A recreation that returns has allocated the descriptor sets and the command buffers
and then recorded the geometry commands once per image, in increasing order. -/
theorem createSwapChainData_recorded (env : CreationEnv) (s : Application) :
    (createSwapChainData env s).outcome = Outcome.returned →
      RecordedAfterAllocation (createSwapChainData env s).trace
        (createSwapChainData env s).app := by
  unfold createSwapChainData
  refine Run.andThen_returned_run (P := RecordedAfterAllocation)
    (Run.andThen_returned_run (P := Allocated true true true)
    (Run.andThen_returned_run (P := Allocated true true false)
    (Run.andThen_returned_run (P := Allocated true false false)
    (Run.andThen_returned_run (P := Allocated false false false)
    (Run.andThen_returned_run (P := Allocated false false false)
    (Run.andThen_returned_run (P := Allocated false false false)
    (Run.andThen_returned_run (P := Allocated false false false)
    ?_ ?_) ?_) ?_) ?_) ?_) ?_) ?_) ?_
  · intro _
    refine ⟨initSwapChain_recordedIndex env s, ?_, ?_, ?_⟩ <;> (intro hs; cases hs)
  · intro a t h _
    exact h.start (by rw [initFramebufferData_trace]; rfl)
  · intro a t h _
    exact h.start (by rw [externalCall_trace]; rfl)
  · intro a t h _
    exact h.start (by rw [externalCall_trace]; rfl)
  · intro a t h hret
    exact h.sets hret
  · intro a t h hret
    exact h.render hret
  · intro a t h hret
    exact h.gui hret
  · intro a t h hret
    exact h.record hret
  · intro a t h _
    obtain ⟨before, after, ht, hbefore, hafter⟩ := h
    refine ⟨before, after ++ [Call.ImGui_ImplVulkan_SetMinImageCount a.images.length],
      by rw [ht]; simp [logCalls], hbefore, ?_⟩
    rw [List.filterMap_append, hafter]
    simp [logCalls, Call.recordedIndex]

theorem filterMap_recordedIndex_prologue (env : CreationEnv) (s : Application) :
    ([Call.recreateVulkanData, Call.glfwGetFramebufferSize] ++
      (zeroAreaLoop env.zeroAreaPolls s).trace ++ destroySwapChainData s).filterMap
        Call.recordedIndex = [] := by
  rw [List.filterMap_eq_nil_iff]
  intro c hc
  rcases List.mem_append.mp hc with h1 | h1
  · rcases List.mem_append.mp h1 with h2 | h2
    · simp at h2
      rcases h2 with rfl | rfl <;> rfl
    · rcases zeroAreaLoop_calls _ _ c h2 with rfl | rfl | rfl <;> rfl
  · simp [destroySwapChainData] at h1
    rcases h1 with rfl | rfl | rfl | rfl | rfl | rfl | rfl <;> rfl

/-- A recreation that returns has allocated the descriptor sets and the command buffers
of the new swap chain and then recorded the geometry commands once per image of the new
swap chain, in increasing order. -/
theorem recreateVulkanData_recorded (env : CreationEnv) (s : Application)
    (hret : (recreateVulkanData env s).outcome = Outcome.returned) :
    RecordedAfterAllocation (recreateVulkanData env s).trace
      (recreateVulkanData env s).app := by
  rw [recreateVulkanData_eq] at hret ⊢
  obtain ⟨before, after, ht, hbefore, hafter⟩ := createSwapChainData_recorded env _ hret
  refine ⟨([Call.recreateVulkanData, Call.glfwGetFramebufferSize] ++
      (zeroAreaLoop env.zeroAreaPolls s).trace ++ destroySwapChainData s) ++ before, after,
    ?_, ?_, hafter⟩
  · show _ ++ (createSwapChainData env (idleState env s)).trace = _
    rw [ht]
    simp only [List.append_assoc]
  · obtain ⟨h0, h1, h2, h3⟩ := hbefore
    refine ⟨?_, fun hs => List.mem_append_right _ (h1 hs),
      fun hs => List.mem_append_right _ (h2 hs), fun hs => List.mem_append_right _ (h3 hs)⟩
    rw [List.filterMap_append, filterMap_recordedIndex_prologue, h0]
    rfl

theorem loadModel_images (env : InitEnv) (s : Application) :
    (loadModel env s).app.images = s.images ∧
      (loadModel env s).app.framebuffers = s.framebuffers := by
  unfold loadModel
  split <;> exact ⟨rfl, rfl⟩

/-- A start-up that returns has allocated the descriptor sets and the command buffers and
then recorded the geometry commands once per swap-chain image, in increasing order. -/
theorem initVulkan_recorded (maxFrames : Nat) (env : InitEnv) (s : Application) :
    (initVulkan maxFrames env s).outcome = Outcome.returned →
      RecordedAfterAllocation (initVulkan maxFrames env s).trace
        (initVulkan maxFrames env s).app := by
  unfold initVulkan
  refine Run.andThen_returned_run (P := Allocated true true true)
    (Run.andThen_returned_run (P := Allocated true true true)
    (Run.andThen_returned_run (P := Allocated true true false)
    (Run.andThen_returned_run (P := Allocated true false false)
    (Run.andThen_returned_run (P := Allocated false false false)
    (Run.andThen_returned_run (P := Allocated false false false)
    (Run.andThen_returned_run (P := Allocated false false false)
    (Run.andThen_returned_run (P := Allocated false false false)
    (Run.andThen_returned_run (P := Allocated false false false)
    (Run.andThen_returned_run (P := Allocated false false false)
    (Run.andThen_returned_run (P := Allocated false false false)
    (Run.andThen_returned_run (P := Allocated false false false)
    (Run.andThen_returned_run (P := Allocated false false false)
    (Run.andThen_returned_run (P := Allocated false false false)
    (Run.andThen_returned_run (P := Allocated false false false)
    (Run.andThen_returned_run (P := Allocated false false false)
    (Run.andThen_returned_run (P := Allocated false false false)
    ?_ ?_) ?_) ?_) ?_) ?_) ?_) ?_) ?_) ?_) ?_) ?_) ?_) ?_) ?_) ?_) ?_) ?_
  · intro _
    refine ⟨by rw [externalCall_trace]; rfl, ?_, ?_, ?_⟩ <;> (intro hs; cases hs)
  · intro a t h _
    exact h.start (by rw [loadModel_trace]; rfl)
  · intro a t h _
    exact h.start (by rw [checkedCall_trace]; rfl)
  · intro a t h _
    exact h.start (by rw [checkedCall_trace]; rfl)
  · intro a t h _
    exact h.start (by rw [checkedCall_trace]; rfl)
  · intro a t h _
    exact h.start (initSwapChain_recordedIndex _ a)
  · intro a t h _
    exact h.start (by rw [initFramebufferData_trace]; rfl)
  · intro a t h _
    exact h.start (by rw [externalCall_trace]; rfl)
  · intro a t h _
    exact h.start (filterMap_recordedIndex_of_plain (createTextures_plain env _ a))
  · intro a t h _
    exact h.start (by rw [externalCall_trace]; rfl)
  · intro a t h _
    exact h.start (by rw [externalCall_trace]; rfl)
  · intro a t h _
    exact h.start (by rw [externalCall_trace]; rfl)
  · intro a t h _
    exact h.start (by rw [checkedCall_trace]; rfl)
  · intro a t h hret
    exact h.sets hret
  · intro a t h hret
    exact h.render hret
  · intro a t h hret
    exact h.gui hret
  · intro a t h _
    have hl := (createSyncObjects_lengths maxFrames env a).1
    simp only [Application.lengths, Prod.mk.injEq] at hl
    exact h.step (createSyncObjects_plain maxFrames env a) hl.1 hl.2.2.1
  · intro a t h hret
    exact h.record hret

/-! ### The order of creation -/

theorem createdSwapChainData_append (t t' : List Call) :
    createdSwapChainData (t ++ t') = createdSwapChainData t ++ createdSwapChainData t' := by
  simp [createdSwapChainData, List.filterMap_append, List.filter_append]

theorem createdSwapChainData_of_quiet {t : List Call} (h : ∀ c ∈ t, c.quiet = true) :
    createdSwapChainData t = [] := by
  induction t with
  | nil => rfl
  | cons c rest ih =>
    have hc := h c (List.mem_cons_self _ _)
    have hrest := ih (fun d hd => h d (List.mem_cons_of_mem _ hd))
    simp only [Call.quiet, Bool.and_eq_true, Bool.not_eq_true'] at hc
    unfold createdSwapChainData at hrest ⊢
    cases hcr : c.creates with
    | none => simp [List.filterMap_cons, hcr, hrest]
    | some r =>
      have h2 := hc.2
      rw [hcr] at h2
      simp only [Option.map_some', Option.getD_some] at h2
      simp [List.filterMap_cons, hcr, h2, hrest]

theorem plain_quiet {c : Call} (h : c.plain = true) : c.quiet = true := by
  simp only [Call.plain, Bool.and_eq_true] at h
  simp only [Call.quiet, Bool.and_eq_true]
  exact ⟨⟨h.1.1.2, h.1.2⟩, h.2⟩

theorem quiet_releases {c : Call} (h : c.quiet = true) : c.releases = none := by
  simp only [Call.quiet, Bool.and_eq_true, Option.isNone_iff_eq_none] at h
  exact h.1.1

theorem quiet_isSwapchainRequest {c : Call} (h : c.quiet = true) :
    c.isSwapchainRequest = false := by
  simp only [Call.quiet, Bool.and_eq_true, Bool.not_eq_true'] at h
  exact h.1.2

theorem recordGeometryCommandBuffers_quiet (env : CreationEnv) (is : List Nat)
    (s : Application) :
    ∀ c ∈ (recordGeometryCommandBuffers env is s).trace, c.quiet = true := by
  induction is generalizing s with
  | nil => simp [recordGeometryCommandBuffers, logCalls]
  | cons i rest ih =>
    unfold recordGeometryCommandBuffers
    refine Run.andThen_forall_trace ?_ ih
    obtain ⟨t, ht, hplain⟩ := recordGeometryCommandBuffer_calls env i s
    rw [ht]
    intro c hc
    rcases List.mem_cons.mp hc with rfl | h1
    · rfl
    · exact plain_quiet (hplain c h1)

/-- A step that creates none of the swap-chain dependent resources. -/
theorem CreatedInOrder.silent {order : List Resource} {k : Nat} {r : Run}
    {f : Application → Run} (h : CreatedInOrder order k r)
    (hf : ∀ s, createdSwapChainData (f s).trace = []) :
    CreatedInOrder order k (r.andThen f) := by
  by_cases hr : r.outcome = Outcome.returned
  · rw [Run.andThen_of_returned f hr]
    have h1 : createdSwapChainData (r.trace ++ (f r.app).trace) = order.take k := by
      rw [createdSwapChainData_append, hf, List.append_nil]
      exact h.1 hr
    exact ⟨fun _ => h1, k, Nat.le_refl k, h1⟩
  · rw [Run.andThen_of_stopped f hr]
    exact h

/-- A step that creates the next of the swap-chain dependent resources. -/
theorem CreatedInOrder.creating {order : List Resource} {k : Nat} {r : Run}
    {f : Application → Run} {x : Resource} (h : CreatedInOrder order k r)
    (hx : order.take (k + 1) = order.take k ++ [x])
    (hf : ∀ s, createdSwapChainData (f s).trace = [x]) :
    CreatedInOrder order (k + 1) (r.andThen f) := by
  by_cases hr : r.outcome = Outcome.returned
  · rw [Run.andThen_of_returned f hr]
    have h1 : createdSwapChainData (r.trace ++ (f r.app).trace) = order.take (k + 1) := by
      rw [createdSwapChainData_append, hf, hx, h.1 hr]
    exact ⟨fun _ => h1, k + 1, Nat.le_refl _, h1⟩
  · rw [Run.andThen_of_stopped f hr]
    obtain ⟨j, hj, hcreated⟩ := h.2
    exact ⟨fun h2 => absurd h2 hr, j, Nat.le_succ_of_le hj, hcreated⟩

theorem initSwapChain_created (env : CreationEnv) (s : Application) :
    createdSwapChainData (initSwapChain env s).trace = [Resource.swapChain] := by
  rcases initSwapChain_trace env s with h | ⟨_, _, h⟩ <;> rw [h] <;> rfl

theorem createdSwapChainData_of_plain_run {r : Run} (h : ∀ c ∈ r.trace, c.plain = true) :
    createdSwapChainData r.trace = [] :=
  createdSwapChainData_of_quiet (fun c hc => plain_quiet (h c hc))

/-- The creation half of `recreateVulkanData` creates the swap chain, the framebuffer
data, the G-buffer and the uniform buffer in this order, as far as it gets. -/
theorem createSwapChainData_created (env : CreationEnv) (s : Application) :
    CreatedInOrder swapChainCreationOrder 4 (createSwapChainData env s) := by
  unfold createSwapChainData
  have h1 : CreatedInOrder swapChainCreationOrder 1 (initSwapChain env s) :=
    ⟨fun _ => initSwapChain_created env s, 1, Nat.le_refl 1, initSwapChain_created env s⟩
  have h2 := h1.creating (f := initFramebufferData env) (x := Resource.framebufferData) rfl
    (fun a => by rw [initFramebufferData_trace]; rfl)
  have h3 := h2.creating (f := externalCall Call.createGBuffer env.createGBuffer)
    (x := Resource.gBuffer) rfl (fun a => by rw [externalCall_trace]; rfl)
  have h4 := h3.creating
    (f := fun s => externalCall (Call.createUniformBuffer s.images.length)
      env.createUniformBuffer s)
    (x := Resource.uniformBuffer) rfl (fun a => by rw [externalCall_trace]; rfl)
  refine CreatedInOrder.silent (CreatedInOrder.silent (CreatedInOrder.silent
    (CreatedInOrder.silent (CreatedInOrder.silent h4 ?_) ?_) ?_) ?_) ?_
  · intro a; exact createdSwapChainData_of_plain_run (createDescriptorSets_plain env a)
  · intro a; exact createdSwapChainData_of_plain_run (createCommandBuffers_plain env _ a)
  · intro a; exact createdSwapChainData_of_plain_run (createCommandBuffers_plain env _ a)
  · intro a; exact createdSwapChainData_of_quiet (recordGeometryCommandBuffers_quiet env _ a)
  · intro a; rfl

/-- The calls of the creation half of `recreateVulkanData` release nothing, and a swap
chain is requested only with the `createInfo` negotiated from the surface. -/
theorem createSwapChainData_calls (env : CreationEnv) (s : Application) :
    ∀ c ∈ (createSwapChainData env s).trace, c.releases = none ∧
      ∀ info, c = Call.vkCreateSwapchainKHR info →
        ∃ surfaceFormat, chooseSwapSurfaceFormat env.surface.formats = some surfaceFormat ∧
          info = swapchainCreateInfo env surfaceFormat := by
  have hquiet : ∀ c : Call, c.quiet = true → c.releases = none ∧
      ∀ info, c = Call.vkCreateSwapchainKHR info →
        ∃ surfaceFormat, chooseSwapSurfaceFormat env.surface.formats = some surfaceFormat ∧
          info = swapchainCreateInfo env surfaceFormat := by
    intro c hc
    refine ⟨quiet_releases hc, ?_⟩
    rintro info rfl
    cases quiet_isSwapchainRequest hc
  have hone : ∀ d c : Call, c ∈ [d] → d.releases = none → d.isSwapchainRequest = false →
      c.releases = none ∧
      ∀ info, c = Call.vkCreateSwapchainKHR info →
        ∃ surfaceFormat, chooseSwapSurfaceFormat env.surface.formats = some surfaceFormat ∧
          info = swapchainCreateInfo env surfaceFormat := by
    intro d c hc h1 h2
    rw [List.mem_singleton.mp hc]
    refine ⟨h1, ?_⟩
    rintro info rfl
    cases h2
  unfold createSwapChainData
  refine Run.andThen_forall_trace (Run.andThen_forall_trace (Run.andThen_forall_trace
    (Run.andThen_forall_trace (Run.andThen_forall_trace (Run.andThen_forall_trace
    (Run.andThen_forall_trace (Run.andThen_forall_trace ?_ ?_) ?_) ?_) ?_) ?_) ?_) ?_) ?_
  · intro c hc
    rcases initSwapChain_trace env s with h | ⟨surfaceFormat, hfmt, h⟩
    · rw [h] at hc
      exact hone _ c hc rfl rfl
    · rw [h] at hc
      rcases List.mem_cons.mp hc with rfl | h1
      · exact ⟨rfl, fun _ h2 => by cases h2⟩
      · rw [List.mem_singleton.mp h1]
        refine ⟨rfl, ?_⟩
        intro info hinfo
        cases hinfo
        exact ⟨surfaceFormat, hfmt, rfl⟩
  · intro a c hc
    rw [initFramebufferData_trace] at hc
    exact hone _ c hc rfl rfl
  · intro a c hc
    rw [externalCall_trace] at hc
    exact hone _ c hc rfl rfl
  · intro a c hc
    rw [externalCall_trace] at hc
    exact hone _ c hc rfl rfl
  · intro a c hc
    exact hquiet c (plain_quiet (createDescriptorSets_plain env a c hc))
  · intro a c hc
    exact hquiet c (plain_quiet (createCommandBuffers_plain env _ a c hc))
  · intro a c hc
    exact hquiet c (plain_quiet (createCommandBuffers_plain env _ a c hc))
  · intro a c hc
    exact hquiet c (recordGeometryCommandBuffers_quiet env _ a c hc)
  · intro a c hc
    exact hone _ c hc rfl rfl

/-- Start-up creates the swap chain, the framebuffer data, the G-buffer and the uniform
buffer in this order, as far as it gets. -/
theorem initVulkan_created (maxFrames : Nat) (env : InitEnv) (s : Application) :
    CreatedInOrder swapChainCreationOrder 4 (initVulkan maxFrames env s) := by
  unfold initVulkan
  have h0 : CreatedInOrder swapChainCreationOrder 0
      (externalCall (Call.startup StartupCall.initSetup) env.initSetup s) := by
    have h : createdSwapChainData
        (externalCall (Call.startup StartupCall.initSetup) env.initSetup s).trace = [] := by
      rw [externalCall_trace]; rfl
    exact ⟨fun _ => h, 0, Nat.le_refl 0, h⟩
  have h1 := (((h0.silent (f := loadModel env) (fun a => by rw [loadModel_trace]; rfl)).silent
    (f := checkedCall (Call.startup StartupCall.createDescriptorSetLayout)
      env.vkCreateDescriptorSetLayout
      "failed to create descriptor set layout!")
    (fun a => by rw [checkedCall_trace]; rfl)).silent
    (f := checkedCall
      (Call.startup (StartupCall.createCommandPool CommandPool.renderCommandPool))
      (env.vkCreateCommandPool CommandPool.renderCommandPool) "failed to create command pool!")
    (fun a => by rw [checkedCall_trace]; rfl)).silent
    (f := checkedCall
      (Call.startup (StartupCall.createCommandPool CommandPool.imGuiCommandPool))
      (env.vkCreateCommandPool CommandPool.imGuiCommandPool) "failed to create command pool!")
    (fun a => by rw [checkedCall_trace]; rfl)
  have h2 := ((h1.creating (f := initSwapChain env.creation) (x := Resource.swapChain) rfl
    (fun a => initSwapChain_created _ a)).creating
    (f := initFramebufferData env.creation) (x := Resource.framebufferData) rfl
    (fun a => by rw [initFramebufferData_trace]; rfl)).creating
    (f := externalCall Call.createGBuffer env.creation.createGBuffer)
    (x := Resource.gBuffer) rfl (fun a => by rw [externalCall_trace]; rfl)
  have h3 := ((h2.silent (f := createTextures env (List.range (textureCount env)))
    (fun a => createdSwapChainData_of_plain_run (createTextures_plain env _ a))).silent
    (f := externalCall
      (Call.startup (StartupCall.createDeviceLocalBuffer BufferMember.vertexBuffer))
      env.createDeviceLocalBuffer)
    (fun a => by rw [externalCall_trace]; rfl)).silent
    (f := externalCall
      (Call.startup (StartupCall.createDeviceLocalBuffer BufferMember.indexBuffer))
      env.createDeviceLocalBuffer)
    (fun a => by rw [externalCall_trace]; rfl)
  have h4 := h3.creating
    (f := fun s => externalCall (Call.createUniformBuffer s.images.length)
      env.creation.createUniformBuffer s)
    (x := Resource.uniformBuffer) rfl (fun a => by rw [externalCall_trace]; rfl)
  refine CreatedInOrder.silent (CreatedInOrder.silent (CreatedInOrder.silent
    (CreatedInOrder.silent (CreatedInOrder.silent (CreatedInOrder.silent h4 ?_) ?_) ?_) ?_)
    ?_) ?_
  · intro a; rw [checkedCall_trace]; rfl
  · intro a; exact createdSwapChainData_of_plain_run (createDescriptorSets_plain _ a)
  · intro a; exact createdSwapChainData_of_plain_run (createCommandBuffers_plain _ _ a)
  · intro a; exact createdSwapChainData_of_plain_run (createCommandBuffers_plain _ _ a)
  · intro a; exact createdSwapChainData_of_plain_run (createSyncObjects_plain maxFrames env a)
  · intro a; exact createdSwapChainData_of_quiet (recordGeometryCommandBuffers_quiet _ _ a)

/-- A recreation that returns has requested a swap chain with the negotiated
`createInfo`. -/
theorem createSwapChainData_requested (env : CreationEnv) (s : Application) :
    (createSwapChainData env s).outcome = Outcome.returned →
      ∃ surfaceFormat, chooseSwapSurfaceFormat env.surface.formats = some surfaceFormat ∧
        Call.vkCreateSwapchainKHR (swapchainCreateInfo env surfaceFormat) ∈
          (createSwapChainData env s).trace := by
  unfold createSwapChainData
  let P : List Call → Application → Prop := fun t _ =>
    ∃ surfaceFormat, chooseSwapSurfaceFormat env.surface.formats = some surfaceFormat ∧
      Call.vkCreateSwapchainKHR (swapchainCreateInfo env surfaceFormat) ∈ t
  have hstep : ∀ (f : Application → Run) (a : Application) (t : List Call), P t a →
      (f a).outcome = Outcome.returned → P (t ++ (f a).trace) (f a).app := by
    intro f a t h _
    obtain ⟨surfaceFormat, h1, h2⟩ := h
    exact ⟨surfaceFormat, h1, List.mem_append_left _ h2⟩
  refine Run.andThen_returned_run (P := P) (Q := P) (Run.andThen_returned_run (P := P) (Q := P)
    (Run.andThen_returned_run (P := P) (Q := P) (Run.andThen_returned_run (P := P) (Q := P)
    (Run.andThen_returned_run (P := P) (Q := P) (Run.andThen_returned_run (P := P) (Q := P)
    (Run.andThen_returned_run (P := P) (Q := P) (Run.andThen_returned_run (P := P) (Q := P)
    ?_ (hstep _)) (hstep _)) (hstep _)) (hstep _)) (hstep _)) (hstep _)) (hstep _)) (hstep _)
  intro h
  obtain ⟨surfaceFormat, h1, h2⟩ := initSwapChain_returned_trace h
  exact ⟨surfaceFormat, h1, by rw [h2]; simp⟩

theorem prologue_calls (env : CreationEnv) (s : Application) :
    ∀ c ∈ [Call.recreateVulkanData, Call.glfwGetFramebufferSize] ++
        (zeroAreaLoop env.zeroAreaPolls s).trace,
      c = Call.recreateVulkanData ∨ c = Call.glfwGetFramebufferSize ∨
        c = Call.glfwWaitEvents ∨ c = Call.framebufferResizeCallback := by
  intro c hc
  rcases List.mem_append.mp hc with h1 | h1
  · simp at h1
    rcases h1 with rfl | rfl
    · exact Or.inl rfl
    · exact Or.inr (Or.inl rfl)
  · exact Or.inr (zeroAreaLoop_calls _ _ c h1)

/-- Every swap-chain request of a recreation carries the `createInfo` negotiated from the
surface and the window size. -/
theorem recreateVulkanData_request (env : CreationEnv) (s : Application)
    (info : VkSwapchainCreateInfoKHR)
    (h : Call.vkCreateSwapchainKHR info ∈ (recreateVulkanData env s).trace) :
    ∃ surfaceFormat, chooseSwapSurfaceFormat env.surface.formats = some surfaceFormat ∧
      info = swapchainCreateInfo env surfaceFormat := by
  rw [recreateVulkanData_eq] at h
  rcases List.mem_append.mp h with h1 | h1
  · exfalso
    rcases List.mem_append.mp h1 with h2 | h2
    · rcases prologue_calls env s _ h2 with h3 | h3 | h3 | h3 <;> cases h3
    · simp [destroySwapChainData] at h2
  · exact (createSwapChainData_calls env _ _ h1).2 info rfl

/-! ### The end of the main loop, and `cleanup` -/

theorem Run.andThen_endsIdle {r : Run} {f : Application → Run}
    (hf : ∀ s, (f s).outcome = Outcome.returned → EndsIdle (f s))
    (h : (r.andThen f).outcome = Outcome.returned) : EndsIdle (r.andThen f) := by
  obtain ⟨_, h2, h3, h4⟩ := Run.andThen_returned h
  obtain ⟨⟨t, ht⟩, hp⟩ := hf _ h2
  refine ⟨⟨r.trace ++ t, ?_⟩, ?_⟩
  · rw [h3, ht, List.append_assoc]
  · rw [h4]; exact hp

theorem waitDeviceIdle_endsIdle (s : Application) : EndsIdle (waitDeviceIdle s) :=
  ⟨⟨[], rfl⟩, rfl⟩

/-- However the loop of `mainLoop` is left with a return, by a close request or by the ESC
key, the last call is `vkDeviceWaitIdle`. -/
theorem mainLoopIterations_endsIdle (maxFrames : Nat) (envs : List LoopEnv)
    (s : Application)
    (h : (mainLoopIterations maxFrames envs s).outcome = Outcome.returned) :
    EndsIdle (mainLoopIterations maxFrames envs s) := by
  induction envs generalizing s with
  | nil =>
    unfold mainLoopIterations at h ⊢
    exact Run.andThen_endsIdle (fun a _ => waitDeviceIdle_endsIdle a) h
  | cons env rest ih =>
    unfold mainLoopIterations at h ⊢
    refine Run.andThen_endsIdle ?_ h
    intro a ha
    by_cases hkey : processKeyInput env = 0
    · rw [if_pos hkey]
      exact waitDeviceIdle_endsIdle a
    · rw [if_neg hkey] at ha ⊢
      exact Run.andThen_endsIdle (fun b hb => ih b hb) ha

theorem mainLoop_endsIdle (maxFrames : Nat) (envs : List LoopEnv) (s : Application)
    (h : (mainLoop maxFrames envs s).outcome = Outcome.returned) :
    EndsIdle (mainLoop maxFrames envs s) := by
  unfold mainLoop at h ⊢
  exact Run.andThen_endsIdle (fun a ha => mainLoopIterations_endsIdle maxFrames envs a ha) h

theorem collapse_cons_ne (a b : Resource) (rest : List Resource) (h : a ≠ b) :
    collapse (a :: b :: rest) = a :: collapse (b :: rest) := by
  simp [collapse, h]

theorem collapse_cons_eq (a : Resource) (rest : List Resource) :
    collapse (a :: a :: rest) = collapse (a :: rest) := by
  simp [collapse]

theorem collapse_replicate (x : Resource) (n : Nat) (rest : List Resource)
    (hrest : ∀ y r, rest = y :: r → x ≠ y) :
    collapse (List.replicate (n + 1) x ++ rest) = x :: collapse rest := by
  induction n with
  | zero =>
    cases rest with
    | nil => rfl
    | cons y r =>
      exact collapse_cons_ne x y r (hrest y r rfl)
  | succ n ih =>
    have h : List.replicate (n + 1 + 1) x ++ rest = x :: x :: (List.replicate n x ++ rest) := by
      simp [List.replicate_succ]
    rw [h, collapse_cons_eq]
    have h2 : x :: (List.replicate n x ++ rest) = List.replicate (n + 1) x ++ rest := by
      simp [List.replicate_succ]
    rw [h2, ih]

theorem destroyFrameSyncObjects_releases (i : Nat) (s : Application)
    (h : (destroyFrameSyncObjects i s).outcome = Outcome.returned) :
    (destroyFrameSyncObjects i s).trace.filterMap Call.releases =
      List.replicate 3 Resource.syncObjects := by
  unfold destroyFrameSyncObjects at h ⊢
  split
  · rename_i h1; rw [h1] at h; cases h
  · rename_i renderFinished h1
    rw [h1] at h
    simp only [] at h ⊢
    split
    · rename_i h2; rw [h2] at h; cases h
    · rename_i imageAvailable h2
      rw [h2] at h
      simp only [] at h ⊢
      split
      · rename_i h3; rw [h3] at h; cases h
      · rfl

theorem destroySyncObjects_releases (is : List Nat) (s : Application)
    (h : (destroySyncObjects is s).outcome = Outcome.returned) :
    (destroySyncObjects is s).trace.filterMap Call.releases =
      List.replicate (3 * is.length) Resource.syncObjects := by
  induction is generalizing s with
  | nil => rfl
  | cons i rest ih =>
    unfold destroySyncObjects at h ⊢
    obtain ⟨h1, h2, h3, _⟩ := Run.andThen_returned h
    rw [h3, List.filterMap_append, destroyFrameSyncObjects_releases i s h1, ih _ h2,
      ← List.replicate_add]
    congr 1
    simp only [List.length_cons]
    omega

theorem filterMap_replicate {α β : Type} (f : α → Option β) (c : α) (r : β)
    (h : f c = some r) (k : Nat) :
    (List.replicate k c).filterMap f = List.replicate k r := by
  induction k with
  | zero => rfl
  | succ k ih => rw [List.replicate_succ, List.filterMap_cons, h, ih, List.replicate_succ]

theorem collapse_cleanup (k n : Nat) :
    collapse (List.replicate (k + 1) Resource.textures ++
      ([Resource.commandBuffers, Resource.commandBuffers, Resource.uniformBuffer,
        Resource.gBuffer, Resource.framebufferData, Resource.swapChain,
        Resource.descriptorPool, Resource.descriptorSetLayout, Resource.indexBuffer,
        Resource.vertexBuffer] ++
      (List.replicate (n + 1) Resource.syncObjects ++
        [Resource.commandPools, Resource.commandPools]))) = cleanupOrder := by
  have hsync : collapse (List.replicate (n + 1) Resource.syncObjects ++
      [Resource.commandPools, Resource.commandPools]) =
      [Resource.syncObjects, Resource.commandPools] := by
    rw [collapse_replicate]
    · rfl
    · intro y r h
      cases h
      decide
  rw [collapse_replicate]
  · simp only [List.cons_append, List.nil_append]
    rw [collapse_cons_eq, collapse_cons_ne _ _ _ (by decide), collapse_cons_ne _ _ _ (by decide),
      collapse_cons_ne _ _ _ (by decide), collapse_cons_ne _ _ _ (by decide),
      collapse_cons_ne _ _ _ (by decide), collapse_cons_ne _ _ _ (by decide),
      collapse_cons_ne _ _ _ (by decide), collapse_cons_ne _ _ _ (by decide)]
    have h : Resource.vertexBuffer ::
        (List.replicate (n + 1) Resource.syncObjects ++
          [Resource.commandPools, Resource.commandPools]) =
        Resource.vertexBuffer :: Resource.syncObjects ::
          (List.replicate n Resource.syncObjects ++
            [Resource.commandPools, Resource.commandPools]) := by
      simp [List.replicate_succ]
    rw [h, collapse_cons_ne _ _ _ (by decide)]
    have h2 : Resource.syncObjects :: (List.replicate n Resource.syncObjects ++
        [Resource.commandPools, Resource.commandPools]) =
        List.replicate (n + 1) Resource.syncObjects ++
          [Resource.commandPools, Resource.commandPools] := by
      simp [List.replicate_succ]
    rw [h2, hsync]
    rfl
  · intro y r h
    cases h
    decide

/-- The order in which a `cleanup` that returns releases the resources. -/
theorem cleanup_releaseOrder (maxFrames : Nat) (s : Application)
    (hframes : 0 < maxFrames) (htextures : 0 < s.textureCount)
    (h : (cleanup maxFrames s).outcome = Outcome.returned) :
    releaseOrder (cleanup maxFrames s).trace = cleanupOrder := by
  unfold cleanup at h ⊢
  obtain ⟨h1, _, h3, _⟩ := Run.andThen_returned h
  obtain ⟨_, g2, g3, _⟩ := Run.andThen_returned h1
  have hsync := destroySyncObjects_releases _ _ g2
  simp only [List.length_range, logCalls] at hsync
  obtain ⟨n, hn⟩ : ∃ n, 3 * maxFrames = n + 1 := ⟨3 * maxFrames - 1, by omega⟩
  obtain ⟨k, hk⟩ : ∃ k, s.textureCount = k + 1 := ⟨s.textureCount - 1, by omega⟩
  rw [hn] at hsync
  unfold releaseOrder
  rw [h3, g3]
  simp only [List.filterMap_append, logCalls, hsync, hk]
  rw [filterMap_replicate Call.releases (Call.lifecycle LifecycleCall.cleanupTexture)
    Resource.textures rfl]
  simp only [List.append_assoc]
  exact collapse_cleanup k n

theorem Run.andThen_trace_prefix (r : Run) (f : Application → Run) :
    ∃ t, (r.andThen f).trace = r.trace ++ t := by
  by_cases h : r.outcome = Outcome.returned
  · rw [Run.andThen_of_returned f h]
    exact ⟨_, rfl⟩
  · rw [Run.andThen_of_stopped f h]
    exact ⟨[], (List.append_nil _).symm⟩

theorem cleanup_trace (maxFrames : Nat) (s : Application) :
    ∃ rest, (cleanup maxFrames s).trace = Call.lifecycle LifecycleCall.cleanup :: rest := by
  unfold cleanup
  obtain ⟨t1, h1⟩ := Run.andThen_trace_prefix
    ((logCalls
      ([Call.lifecycle LifecycleCall.cleanup,
        Call.lifecycle LifecycleCall.ImGui_ImplVulkan_Shutdown,
        Call.lifecycle LifecycleCall.ImGui_ImplGlfw_Shutdown,
        Call.lifecycle LifecycleCall.ImGui_DestroyContext]
        ++ List.replicate s.textureCount (Call.lifecycle LifecycleCall.cleanupTexture)
        ++ [Call.vkFreeCommandBuffers CommandPool.renderCommandPool s.renderCommandBuffers,
            Call.vkFreeCommandBuffers CommandPool.imGuiCommandPool s.imGuiCommandBuffers,
            Call.cleanupBufferData BufferMember.uniforms,
            Call.cleanupGBuffer,
            Call.cleanupFrambufferData,
            Call.cleanupSwapChain,
            Call.lifecycle LifecycleCall.vkDestroyDescriptorPool,
            Call.lifecycle LifecycleCall.vkDestroyDescriptorSetLayout,
            Call.cleanupBufferData BufferMember.indexBuffer,
            Call.cleanupBufferData BufferMember.vertexBuffer]) s).andThen
      (destroySyncObjects (List.range maxFrames)))
    (logCalls
      [Call.lifecycle (LifecycleCall.vkDestroyCommandPool CommandPool.renderCommandPool),
       Call.lifecycle (LifecycleCall.vkDestroyCommandPool CommandPool.imGuiCommandPool),
       Call.lifecycle LifecycleCall.cleanupSetup,
       Call.lifecycle LifecycleCall.glfwDestroyWindow,
       Call.lifecycle LifecycleCall.glfwTerminate])
  obtain ⟨t2, h2⟩ := Run.andThen_trace_prefix
    (logCalls
      ([Call.lifecycle LifecycleCall.cleanup,
        Call.lifecycle LifecycleCall.ImGui_ImplVulkan_Shutdown,
        Call.lifecycle LifecycleCall.ImGui_ImplGlfw_Shutdown,
        Call.lifecycle LifecycleCall.ImGui_DestroyContext]
        ++ List.replicate s.textureCount (Call.lifecycle LifecycleCall.cleanupTexture)
        ++ [Call.vkFreeCommandBuffers CommandPool.renderCommandPool s.renderCommandBuffers,
            Call.vkFreeCommandBuffers CommandPool.imGuiCommandPool s.imGuiCommandBuffers,
            Call.cleanupBufferData BufferMember.uniforms,
            Call.cleanupGBuffer,
            Call.cleanupFrambufferData,
            Call.cleanupSwapChain,
            Call.lifecycle LifecycleCall.vkDestroyDescriptorPool,
            Call.lifecycle LifecycleCall.vkDestroyDescriptorSetLayout,
            Call.cleanupBufferData BufferMember.indexBuffer,
            Call.cleanupBufferData BufferMember.vertexBuffer]) s)
    (destroySyncObjects (List.range maxFrames))
  rw [h1, h2]
  exact ⟨_, rfl⟩

/-- When `run` returns, the main loop has ended with `vkDeviceWaitIdle`, and `cleanup`
starts right after it. -/
theorem run_returned (maxFrames : Nat) (env : RunEnv)
    (h : (run maxFrames env).outcome = Outcome.returned) :
    ∃ before a rest,
      (run maxFrames env).trace =
        before ++ [Call.vkDeviceWaitIdle] ++ (cleanup maxFrames a).trace ∧
      a.pending = [] ∧ (cleanup maxFrames a).outcome = Outcome.returned ∧
      (cleanup maxFrames a).trace = Call.lifecycle LifecycleCall.cleanup :: rest := by
  unfold run at h ⊢
  obtain ⟨h1, h2, h3, _⟩ := Run.andThen_returned h
  obtain ⟨⟨t, ht⟩, hp⟩ :=
    Run.andThen_endsIdle (fun a ha => mainLoop_endsIdle maxFrames env.loop a ha) h1
  obtain ⟨rest, hrest⟩ := cleanup_trace maxFrames
    ((((logCalls [Call.lifecycle LifecycleCall.initWindow] Application.initial).andThen
      (initVulkan maxFrames env.init)).andThen
      (externalCall (Call.lifecycle LifecycleCall.initImGui) env.initImGui)).andThen
      (mainLoop maxFrames env.loop)).app
  exact ⟨t, _, rest, by rw [h3, ht], hp, h2, hrest⟩

/-! ### `findMemoryType` -/

theorem and_shiftLeft_eq_zero (typeFilter i : Nat) :
    typeFilter &&& (1 <<< i) = 0 ↔ typeFilter.testBit i = false := by
  rw [Nat.one_shiftLeft, Nat.and_two_pow]
  cases h : typeFilter.testBit i
  · simp
  · simp [Nat.pos_pow_of_pos]

theorem and_eq_right_iff (propertyFlags properties : Nat) :
    propertyFlags &&& properties = properties ↔
      ∀ bit, properties.testBit bit = true → propertyFlags.testBit bit = true := by
  constructor
  · intro h bit hbit
    rw [← h, Nat.testBit_and] at hbit
    simp only [Bool.and_eq_true] at hbit
    exact hbit.1
  · intro h
    apply Nat.eq_of_testBit_eq
    intro bit
    rw [Nat.testBit_and]
    cases hp : properties.testBit bit
    · simp
    · simp [h bit hp]

theorem findMemoryTypeFrom_suitable (memProperties : VkPhysicalDeviceMemoryProperties)
    (typeFilter properties fuel i : Nat) (hi : i < 32)
    (h : SuitableMemoryType memProperties typeFilter properties i) :
    findMemoryTypeFrom memProperties typeFilter properties (fuel + 1) i = Except.ok i := by
  obtain ⟨_, hbit, propertyFlags, hflags, hall⟩ := h
  unfold findMemoryTypeFrom
  rw [if_neg (by omega)]
  have h1 : ¬ (typeFilter &&& (1 <<< i) = 0) := by
    rw [and_shiftLeft_eq_zero, hbit]
    simp
  rw [if_neg h1, hflags]
  simp only []
  rw [if_pos ((and_eq_right_iff _ _).mpr hall)]

theorem findMemoryTypeFrom_unsuitable (memProperties : VkPhysicalDeviceMemoryProperties)
    (typeFilter properties fuel i : Nat) (hi : i < memProperties.memoryTypeCount)
    (hcount : memProperties.memoryTypeCount ≤ 32)
    (harray : memProperties.memoryTypes.length = VK_MAX_MEMORY_TYPES)
    (h : ¬ SuitableMemoryType memProperties typeFilter properties i) :
    findMemoryTypeFrom memProperties typeFilter properties (fuel + 1) i =
      findMemoryTypeFrom memProperties typeFilter properties fuel (i + 1) := by
  have hlen : i < memProperties.memoryTypes.length := by
    rw [harray]; unfold VK_MAX_MEMORY_TYPES; omega
  rw [findMemoryTypeFrom]
  rw [if_neg (by omega)]
  by_cases h1 : typeFilter &&& (1 <<< i) = 0
  · rw [if_pos h1]
  · rw [if_neg h1, List.getElem?_eq_getElem hlen]
    simp only []
    have h2 : ¬ (memProperties.memoryTypes[i] &&& properties = properties) := by
      intro h3
      apply h
      refine ⟨hi, ?_, _, List.getElem?_eq_getElem hlen, (and_eq_right_iff _ _).mp h3⟩
      cases hb : typeFilter.testBit i
      · exact absurd ((and_shiftLeft_eq_zero _ _).mpr hb) h1
      · rfl
    rw [if_neg h2]

/-- The loop of `findMemoryType` from index `i`: it returns the first suitable index from
`i` on, and raises the error when there is none. -/
theorem findMemoryTypeFrom_spec (memProperties : VkPhysicalDeviceMemoryProperties)
    (typeFilter properties : Nat) (hcount : memProperties.memoryTypeCount ≤ 32)
    (harray : memProperties.memoryTypes.length = VK_MAX_MEMORY_TYPES)
    (fuel i : Nat) (hfuel : i + fuel = memProperties.memoryTypeCount) :
    (∃ k, i ≤ k ∧ SuitableMemoryType memProperties typeFilter properties k ∧
        (∀ j, i ≤ j → j < k → ¬ SuitableMemoryType memProperties typeFilter properties j) ∧
        findMemoryTypeFrom memProperties typeFilter properties fuel i = Except.ok k) ∨
      ((∀ j, i ≤ j → ¬ SuitableMemoryType memProperties typeFilter properties j) ∧
        findMemoryTypeFrom memProperties typeFilter properties fuel i =
          Except.error (Outcome.threw "failed to find suitable memory type!")) := by
  induction fuel generalizing i with
  | zero =>
    right
    refine ⟨?_, rfl⟩
    intro j hj hs
    have := hs.1
    omega
  | succ fuel ih =>
    by_cases hs : SuitableMemoryType memProperties typeFilter properties i
    · left
      exact ⟨i, Nat.le_refl i, hs, fun j h1 h2 => by omega,
        findMemoryTypeFrom_suitable _ _ _ _ _ (by omega) hs⟩
    · rw [findMemoryTypeFrom_unsuitable _ _ _ _ _ (by omega) hcount harray hs]
      rcases ih (i + 1) (by omega) with ⟨k, hk, hsk, hmin, hres⟩ | ⟨hnone, hres⟩
      · left
        refine ⟨k, by omega, hsk, ?_, hres⟩
        intro j h1 h2
        rcases Nat.eq_or_lt_of_le h1 with h3 | h3
        · rw [← h3]; exact hs
        · exact hmin j h3 h2
      · right
        refine ⟨?_, hres⟩
        intro j h1
        rcases Nat.eq_or_lt_of_le h1 with h3 | h3
        · rw [← h3]; exact hs
        · exact hnone j h3

/-! ## The contents of command buffers -/

theorem recorded_append (t u : List Call) (contents : Handle → List Command) :
    recorded (t ++ u) contents = recorded u (recorded t contents) := by
  unfold recorded
  rw [List.foldl_append]

theorem recorded_cons (c : Call) (t : List Call) (contents : Handle → List Command) :
    recorded (c :: t) contents = recorded t (c.record contents) := rfl

theorem recorded_nil (contents : Handle → List Command) : recorded [] contents = contents :=
  rfl

/-- A call that does not touch a command buffer leaves its contents as they were. -/
theorem Call.record_of_not_touches (c : Call) (h : Handle) (contents : Handle → List Command)
    (hc : c.touches h = false) : c.record contents h = contents h := by
  cases c <;> simp [Call.touches] at hc <;> simp [Call.record, appendCommand, hc]

/-- A trace none of whose calls touches a command buffer leaves its contents as they
were. -/
theorem recorded_of_not_touches (t : List Call) (h : Handle)
    (ht : ∀ c ∈ t, c.touches h = false) (contents : Handle → List Command) :
    recorded t contents h = contents h := by
  induction t generalizing contents with
  | nil => rfl
  | cons c rest ih =>
    rw [recorded_cons, ih (fun d hd => ht d (List.mem_cons_of_mem _ hd)),
      Call.record_of_not_touches c h contents (ht c (List.mem_cons_self _ _))]

/-- The run of `recordGeometryCommandBuffer` for an index at which the vectors have their
entries and for which the driver accepts the begin and the end of the recording. -/
theorem recordGeometryCommandBuffer_recorded (env : CreationEnv) (i : Nat) (s : Application)
    (cb fb set : Handle) (hcb : s.renderCommandBuffers[i]? = some cb)
    (hfb : s.framebuffers[i]? = some fb) (hset : s.descriptorSets[i]? = some set)
    (hbegin : env.vkBeginCommandBuffer i = VK_SUCCESS)
    (hend : env.vkEndCommandBuffer i = VK_SUCCESS) :
    recordGeometryCommandBuffer env i s =
      ⟨s, [Call.recordGeometryCommandBuffer i, Call.vkBeginCommandBuffer cb,
          Call.vkCmdBeginRenderPass cb RenderPass.renderPass fb s.extent,
          Call.vkCmdBindPipeline cb, Call.vkCmdBindVertexBuffers cb,
          Call.vkCmdBindIndexBuffer cb, Call.vkCmdBindDescriptorSets cb set,
          Call.vkCmdDrawIndexed cb s.modelNumIndices 1, Call.vkCmdEndRenderPass cb,
          Call.vkEndCommandBuffer cb], Outcome.returned⟩ := by
  unfold recordGeometryCommandBuffer
  simp [hcb, hfb, hset, hbegin, hend]

/-- One run of `recordGeometryCommandBuffer` replaces the contents of its command buffer and
keeps the contents of every other command buffer. -/
theorem recordGeometryCommandBuffer_contents (env : CreationEnv) (i : Nat) (s : Application)
    (cb fb set : Handle) (hcb : s.renderCommandBuffers[i]? = some cb)
    (hfb : s.framebuffers[i]? = some fb) (hset : s.descriptorSets[i]? = some set)
    (hbegin : env.vkBeginCommandBuffer i = VK_SUCCESS)
    (hend : env.vkEndCommandBuffer i = VK_SUCCESS) (contents : Handle → List Command) :
    recorded (recordGeometryCommandBuffer env i s).trace contents cb =
        geometryCommands fb s.extent set s.modelNumIndices ∧
      ∀ h, h ≠ cb → recorded (recordGeometryCommandBuffer env i s).trace contents h =
        contents h := by
  rw [recordGeometryCommandBuffer_recorded env i s cb fb set hcb hfb hset hbegin hend]
  constructor
  · simp [recorded, Call.record, appendCommand, geometryCommands]
  · intro h hne
    simp [recorded, Call.record, appendCommand, hne]

/-- Any positive number of runs of `recordGeometryCommandBuffer` for one index, one after
the other. -/
theorem recordGeometryCommandBuffers_replicate (env : CreationEnv) (i : Nat) (s : Application)
    (cb fb set : Handle) (hcb : s.renderCommandBuffers[i]? = some cb)
    (hfb : s.framebuffers[i]? = some fb) (hset : s.descriptorSets[i]? = some set)
    (hbegin : env.vkBeginCommandBuffer i = VK_SUCCESS)
    (hend : env.vkEndCommandBuffer i = VK_SUCCESS) (k : Nat) :
    (recordGeometryCommandBuffers env (List.replicate (k + 1) i) s).outcome =
        Outcome.returned ∧
      ∀ contents : Handle → List Command,
        recorded (recordGeometryCommandBuffers env (List.replicate (k + 1) i) s).trace
            contents cb = geometryCommands fb s.extent set s.modelNumIndices ∧
        ∀ h, h ≠ cb →
          recorded (recordGeometryCommandBuffers env (List.replicate (k + 1) i) s).trace
            contents h = contents h := by
  have hone := recordGeometryCommandBuffer_recorded env i s cb fb set hcb hfb hset hbegin hend
  have hcontents := recordGeometryCommandBuffer_contents env i s cb fb set hcb hfb hset
    hbegin hend
  induction k with
  | zero =>
    have hrun : recordGeometryCommandBuffers env (List.replicate (0 + 1) i) s =
        recordGeometryCommandBuffer env i s := by
      show (recordGeometryCommandBuffer env i s).andThen (recordGeometryCommandBuffers env [])
        = _
      rw [hone]
      simp [Run.andThen, recordGeometryCommandBuffers, logCalls]
    rw [hrun]
    exact ⟨by rw [hone], hcontents⟩
  | succ k ih =>
    have hrun : recordGeometryCommandBuffers env (List.replicate (k + 1 + 1) i) s =
        ⟨(recordGeometryCommandBuffers env (List.replicate (k + 1) i) s).app,
          (recordGeometryCommandBuffer env i s).trace ++
            (recordGeometryCommandBuffers env (List.replicate (k + 1) i) s).trace,
          (recordGeometryCommandBuffers env (List.replicate (k + 1) i) s).outcome⟩ := by
      show (recordGeometryCommandBuffer env i s).andThen
        (recordGeometryCommandBuffers env (List.replicate (k + 1) i)) = _
      rw [hone]
      rfl
    rw [hrun]
    refine ⟨ih.1, fun contents => ?_⟩
    simp only [recorded_append]
    refine ⟨(ih.2 _).1, fun h hne => ?_⟩
    rw [(ih.2 _).2 h hne]
    exact (hcontents contents).2 h hne

/-! ## The shape of the trace of a frame -/

theorem recordGuiCommandBuffer_shape (b : VkResult) (k : Nat) (s : Application) :
    ∃ gui, (recordGuiCommandBuffer b k s).trace = Call.recordGuiCommandBuffer k :: gui ∧
      ∀ c ∈ gui, c.inGuiRecording s.imGuiCommandBuffers = true := by
  unfold recordGuiCommandBuffer
  simp only []
  split
  · exact ⟨_, rfl, by simp [Call.inGuiRecording]⟩
  · rename_i cb hcb
    have hmem : cb ∈ s.imGuiCommandBuffers := List.getElem?_mem hcb
    split
    · exact ⟨_, rfl, by simp [Call.inGuiRecording, hmem]⟩
    · split
      · exact ⟨_, rfl, by simp [Call.inGuiRecording, hmem]⟩
      · split
        · exact ⟨_, rfl, by simp [Call.inGuiRecording, hmem]⟩
        · rename_i target htarget
          have hmem2 : target ∈ s.imGuiCommandBuffers := List.getElem?_mem htarget
          exact ⟨_, rfl, by simp [Call.inGuiRecording, hmem, hmem2]⟩

/-- The calls of the part of `drawFrame` that follows the GUI recording: calls of the
submission and presentation, then the recreation if there is one. -/
theorem submitAndPresent_shape (maxFrames : Nat) (env : FrameEnv) (s : Application) :
    ∃ sub rec,
      (match submitLocals s with
        | Except.error access => (⟨s, [], Outcome.outOfRange access⟩ : Run)
        | Except.ok l => (submitFrame env l s).andThen (presentFrame maxFrames env l)).trace =
        sub ++ rec ∧
      (∀ c ∈ sub, c.inSubmission = true) ∧
      (rec = [] ∨ ∃ t, rec = Call.recreateVulkanData :: t ∧ ∀ c ∈ t, c.inRecreation = true) := by
  cases hl : submitLocals s with
  | error access => exact ⟨[], [], rfl, by simp, Or.inl rfl⟩
  | ok l =>
    simp only []
    by_cases hsub : (submitFrame env l s).outcome = Outcome.returned
    · rw [Run.andThen_of_returned _ hsub]
      obtain ⟨t, ht, hrec⟩ := presentFrame_trace maxFrames env l (submitFrame env l s).app
      refine ⟨(submitFrame env l s).trace ++ [Call.vkQueuePresentKHR
        ⟨l.signalSemaphores, [(submitFrame env l s).app.imageIndex]⟩], t, ?_, ?_, hrec⟩
      · simp only [ht, List.append_assoc, List.singleton_append]
      · intro c hc
        rcases List.mem_append.mp hc with h | h
        · revert h
          unfold submitFrame
          split
          · simp
          · simp only []
            split <;> (intro h; simp at h; rcases h with rfl | rfl <;> rfl)
        · simp at h; subst h; rfl
    · rw [Run.andThen_of_stopped _ hsub]
      refine ⟨(submitFrame env l s).trace, [], by simp, ?_, Or.inl rfl⟩
      intro c
      unfold submitFrame
      split
      · simp
      · simp only []
        split <;> (intro h; simp at h; rcases h with rfl | rfl <;> rfl)

theorem markImageInFlight_inAcquisition (s : Application) :
    ∀ c ∈ (markImageInFlight s).trace, c.inAcquisition = true := by
  cases hg : s.imagesInFlight[s.imageIndex]? with
  | none => simp [markImageInFlight, hg]
  | some guard =>
    cases hf : s.inFlightFences[s.currentFrame]? with
    | none =>
      by_cases h : guard = VK_NULL_HANDLE <;>
        simp [markImageInFlight, hg, hf, h, logCalls, Call.inAcquisition]
    | some fence =>
      by_cases h : guard = VK_NULL_HANDLE <;>
        simp [markImageInFlight, hg, hf, h, logCalls, Call.inAcquisition]

theorem markedState_imGuiCommandBuffers (guard fence : Handle) (s : Application) :
    (markedState guard fence s).imGuiCommandBuffers = s.imGuiCommandBuffers := by
  rw [markedState_eq]

/-- The calls of the part of `drawFrame` after the acquisition, in four segments: waits,
then the uniform update and the GUI recording, then the submission and presentation, then
the recreation. The second segment is there when the reads of Application.cpp:624-629 are
in range. -/
theorem renderAcquiredImage_shape (maxFrames : Nat) (env : FrameEnv) (s : Application) :
    ∃ acq prep sub rec,
      (renderAcquiredImage maxFrames env s).trace = acq ++ (prep ++ (sub ++ rec)) ∧
      (∀ c ∈ acq, c.inAcquisition = true) ∧
      (prep = [] ∨ ∃ gui, prep = Call.updateUniformBuffers s.imageIndex ::
          Call.recordGuiCommandBuffer s.imageIndex :: gui ∧
        ∀ c ∈ gui, c.inGuiRecording s.imGuiCommandBuffers = true) ∧
      (∀ c ∈ sub, c.inSubmission = true) ∧
      (rec = [] ∨ ∃ t, rec = Call.recreateVulkanData :: t ∧ ∀ c ∈ t, c.inRecreation = true) ∧
      ((∃ guard, s.imagesInFlight[s.imageIndex]? = some guard) →
        (∃ fence, s.inFlightFences[s.currentFrame]? = some fence) → prep ≠ []) := by
  rcases markImageInFlight_cases s with ⟨⟨access, ha⟩, -⟩ | ⟨guard, fence, hg, hf, hrun⟩
  · have hstop : (markImageInFlight s).outcome ≠ Outcome.returned := by
      rw [ha]; exact fun h => Outcome.noConfusion h
    have htrace : (renderAcquiredImage maxFrames env s).trace = (markImageInFlight s).trace := by
      unfold renderAcquiredImage
      rw [Run.andThen_of_stopped _ hstop, Run.andThen_of_stopped _ hstop,
        Run.andThen_of_stopped _ hstop]
    refine ⟨(markImageInFlight s).trace, [], [], [], by simp [htrace],
      markImageInFlight_inAcquisition s, Or.inl rfl, by simp, Or.inl rfl, ?_⟩
    rintro ⟨guard, hg⟩ ⟨fence, hf⟩
    exfalso
    simp [markImageInFlight, hg, hf] at ha
  · have hidx : (markedState guard fence s).imageIndex = s.imageIndex := by
      rw [markedState_eq]
    obtain ⟨gui, hgui, hrec⟩ :=
      recordGuiCommandBuffer_shape env.guiBeginResult s.imageIndex (markedState guard fence s)
    rw [markedState_imGuiCommandBuffers] at hrec
    have hacq : ∀ c ∈ guardWait guard, c.inAcquisition = true := by
      have h := markImageInFlight_inAcquisition s
      rw [hrun] at h
      exact h
    unfold renderAcquiredImage
    rw [hrun]
    simp only [Run.mk_andThen, updateUniformBuffers, logCalls, hidx]
    by_cases hret : (recordGuiCommandBuffer env.guiBeginResult s.imageIndex
        (markedState guard fence s)).outcome = Outcome.returned
    · obtain ⟨sub, rec, htail, hsub, hrecr⟩ := submitAndPresent_shape maxFrames env
        (recordGuiCommandBuffer env.guiBeginResult s.imageIndex (markedState guard fence s)).app
      simp only [hret, Run.mk_andThen]
      refine ⟨guardWait guard, _, sub, rec, ?_, hacq, Or.inr ⟨gui, rfl, hrec⟩, hsub, hrecr,
        fun _ _ => by simp⟩
      refine (congrArg (fun t => guardWait guard ++ [Call.updateUniformBuffers s.imageIndex] ++
        (recordGuiCommandBuffer env.guiBeginResult s.imageIndex
          (markedState guard fence s)).trace ++ t) htail).trans ?_
      simp [hgui]
    · rw [Run.mk_andThen_stopped _ _ _ _ hret]
      refine ⟨guardWait guard, _, [], [], ?_, hacq, Or.inr ⟨gui, rfl, hrec⟩, by simp,
        Or.inl rfl, fun _ _ => by simp⟩
      simp [hgui]

/-- The calls of `drawFrame`, in four segments: waits and the acquisition, then the uniform
update and the GUI recording, then the submission and presentation, then the recreation. The
second segment is there when the acquisition was called, reported a usable image, and the
marker of that image is in range. -/
theorem drawFrame_shape (maxFrames : Nat) (env : FrameEnv) (s : Application) :
    ∃ acq prep sub rec,
      (drawFrame maxFrames env s).trace = acq ++ (prep ++ (sub ++ rec)) ∧
      (∀ c ∈ acq, c.inAcquisition = true) ∧
      (prep = [] ∨ ∃ gui, prep = Call.updateUniformBuffers env.acquiredIndex ::
          Call.recordGuiCommandBuffer env.acquiredIndex :: gui ∧
        ∀ c ∈ gui, c.inGuiRecording s.imGuiCommandBuffers = true) ∧
      (∀ c ∈ sub, c.inSubmission = true) ∧
      (rec = [] ∨ ∃ t, rec = Call.recreateVulkanData :: t ∧ ∀ c ∈ t, c.inRecreation = true) ∧
      ((∃ semaphore, Call.vkAcquireNextImageKHR semaphore ∈ (drawFrame maxFrames env s).trace) →
        (env.acquireResult = VK_SUCCESS ∨ env.acquireResult = VK_SUBOPTIMAL_KHR) →
        (∃ guard, s.imagesInFlight[env.acquiredIndex]? = some guard) → prep ≠ []) := by
  rcases waitAndAcquire_cases env s with ⟨⟨access, ha⟩, hwaits⟩ | ⟨fence, semaphore, hf, -, hrun⟩
  · have hstop : (waitAndAcquire env s).outcome ≠ Outcome.returned := by
      rw [ha]; exact fun h => Outcome.noConfusion h
    have htrace : (drawFrame maxFrames env s).trace = (waitAndAcquire env s).trace := by
      unfold drawFrame
      rw [Run.andThen_of_stopped _ hstop]
    refine ⟨(waitAndAcquire env s).trace, [], [], [], by simp [htrace], ?_, Or.inl rfl,
      by simp, Or.inl rfl, ?_⟩
    · intro c hc
      obtain ⟨f, rfl⟩ := hwaits c hc
      rfl
    · rintro ⟨semaphore, hmem⟩ - -
      rw [htrace] at hmem
      obtain ⟨f, hf⟩ := hwaits _ hmem
      cases hf
  · rw [drawFrame_of_acquire maxFrames env s fence semaphore hrun, Run.mk_andThen]
    have hacq : ∀ c ∈ [Call.vkWaitForFences fence, Call.vkAcquireNextImageKHR semaphore],
        c.inAcquisition = true := by
      intro c hc
      simp at hc
      rcases hc with rfl | rfl <;> rfl
    by_cases hood : env.acquireResult = VK_ERROR_OUT_OF_DATE_KHR
    · simp only [if_pos hood]
      obtain ⟨t, ht, hrec⟩ := recreateVulkanData_trace env.recreate (acquiredState env fence s)
      refine ⟨_, [], [], Call.recreateVulkanData :: t, ?_, hacq, Or.inl rfl, by simp,
        Or.inr ⟨t, rfl, hrec⟩, ?_⟩
      · rw [ht]; rfl
      · rintro - hok -
        exfalso
        rcases hok with h | h <;> rw [h] at hood <;> revert hood <;> decide
    · simp only [if_neg hood]
      by_cases hfatal : env.acquireResult ≠ VK_SUCCESS ∧ env.acquireResult ≠ VK_SUBOPTIMAL_KHR
      · simp only [if_pos hfatal]
        refine ⟨_, [], [], [], by simp, hacq, Or.inl rfl, by simp, Or.inl rfl, ?_⟩
        rintro - hok -
        exfalso
        rcases hok with h | h
        · exact hfatal.1 h
        · exact hfatal.2 h
      · simp only [if_neg hfatal]
        obtain ⟨acq, prep, sub, rec, ht, hacq2, hprep, hsub, hrec, hthere⟩ :=
          renderAcquiredImage_shape maxFrames env (acquiredState env fence s)
        refine ⟨[Call.vkWaitForFences fence, Call.vkAcquireNextImageKHR semaphore] ++ acq,
          prep, sub, rec, ?_, ?_, hprep, hsub, hrec, ?_⟩
        · rw [ht]; simp only [List.append_assoc]
        · intro c hc
          rcases List.mem_append.mp hc with h | h
          · exact hacq c h
          · exact hacq2 c h
        · rintro - - hguard
          exact hthere hguard ⟨fence, hf⟩

theorem Call.inAcquisition_facts {c : Call} (h : c.inAcquisition = true) :
    c.isRecordGui = false ∧ c.isSubmit = false ∧ c.recordedIndex = none ∧
      ∀ b, c.touches b = false := by
  cases c <;> simp [Call.inAcquisition] at h <;>
    simp [Call.isRecordGui, Call.isSubmit, Call.recordedIndex, Call.touches]

theorem Call.inSubmission_facts {c : Call} (h : c.inSubmission = true) :
    c.isRecordGui = false ∧ c.recordedIndex = none ∧ ∀ b, c.touches b = false := by
  cases c <;> simp [Call.inSubmission] at h <;>
    simp [Call.isRecordGui, Call.recordedIndex, Call.touches]

theorem Call.inRecreation_isRecordGui {c : Call} (h : c.inRecreation = true) :
    c.isRecordGui = false := by
  cases c <;> simp [Call.inRecreation] at h <;> simp [Call.isRecordGui]

theorem Call.inGuiRecording_facts {commandBuffers : List Handle} {c : Call}
    (h : c.inGuiRecording commandBuffers = true) :
    c.isRecordGui = false ∧ c.isSubmit = false ∧ c.recordedIndex = none ∧
      ∀ b, c.touches b = true → b ∈ commandBuffers := by
  cases c <;> simp [Call.inGuiRecording] at h <;>
    simp [Call.isRecordGui, Call.isSubmit, Call.recordedIndex, Call.touches] <;>
    exact h

/-- In a frame whose acquisition was called and reported a usable image whose marker is in
range, `recordGuiCommandBuffer` is entered once, with the acquired index, right after the
uniform update and before any submission. -/
theorem drawFrame_gui_once (maxFrames : Nat) (env : FrameEnv) (s : Application)
    (hcall : ∃ semaphore,
      Call.vkAcquireNextImageKHR semaphore ∈ (drawFrame maxFrames env s).trace)
    (hok : env.acquireResult = VK_SUCCESS ∨ env.acquireResult = VK_SUBOPTIMAL_KHR)
    (hguard : ∃ guard, s.imagesInFlight[env.acquiredIndex]? = some guard) :
    ∃ before after,
      (drawFrame maxFrames env s).trace =
        before ++ Call.updateUniformBuffers env.acquiredIndex ::
          Call.recordGuiCommandBuffer env.acquiredIndex :: after ∧
      (∀ c ∈ before, c.isRecordGui = false ∧ c.isSubmit = false) ∧
      ∀ c ∈ after, c.isRecordGui = false := by
  obtain ⟨acq, prep, sub, rec, ht, hacq, hprep, hsub, hrec, hthere⟩ :=
    drawFrame_shape maxFrames env s
  rcases hprep with hnil | ⟨gui, hgui, hrecording⟩
  · exact absurd hnil (hthere hcall hok hguard)
  · refine ⟨acq, gui ++ (sub ++ rec), ?_, ?_, ?_⟩
    · rw [ht, hgui]; simp
    · intro c hc
      exact ⟨(Call.inAcquisition_facts (hacq c hc)).1, (Call.inAcquisition_facts (hacq c hc)).2.1⟩
    · intro c hc
      rcases List.mem_append.mp hc with h | h
      · exact (Call.inGuiRecording_facts (hrecording c h)).1
      · rcases List.mem_append.mp h with h | h
        · exact (Call.inSubmission_facts (hsub c h)).1
        · rcases hrec with hnil | ⟨t, rfl, hin⟩
          · rw [hnil] at h; cases h
          · rcases List.mem_cons.mp h with rfl | h
            · rfl
            · exact Call.inRecreation_isRecordGui (hin c h)

/-- In a frame without recreation, `recordGeometryCommandBuffer` is not entered, and the
recordings name command buffers of `imGuiCommandBuffers` only. -/
theorem drawFrame_without_recreation (maxFrames : Nat) (env : FrameEnv) (s : Application)
    (hno : Call.recreateVulkanData ∉ (drawFrame maxFrames env s).trace) :
    ∀ c ∈ (drawFrame maxFrames env s).trace,
      c.recordedIndex = none ∧ ∀ b, c.touches b = true → b ∈ s.imGuiCommandBuffers := by
  obtain ⟨acq, prep, sub, rec, ht, hacq, hprep, hsub, hrec, -⟩ :=
    drawFrame_shape maxFrames env s
  rw [ht] at hno ⊢
  have hrecnil : rec = [] := by
    rcases hrec with h | ⟨t, rfl, -⟩
    · exact h
    · exact absurd (by simp) hno
  subst hrecnil
  intro c hc
  simp only [List.append_nil, List.mem_append] at hc
  rcases hc with h | h | h
  · have hf := Call.inAcquisition_facts (hacq c h)
    exact ⟨hf.2.2.1, fun b hb => by rw [hf.2.2.2 b] at hb; cases hb⟩
  · rcases hprep with hnil | ⟨gui, rfl, hrecording⟩
    · rw [hnil] at h; cases h
    · simp only [List.mem_cons] at h
      rcases h with rfl | rfl | h
      · exact ⟨rfl, fun b hb => by cases hb⟩
      · exact ⟨rfl, fun b hb => by cases hb⟩
      · have hf := Call.inGuiRecording_facts (hrecording c h)
        exact ⟨hf.2.2.1, hf.2.2.2⟩
  · have hf := Call.inSubmission_facts (hsub c h)
    exact ⟨hf.2.1, fun b hb => by rw [hf.2.2 b] at hb; cases hb⟩

theorem Call.inRecreation_facts {c : Call} (h : c.inRecreation = true) :
    c.isSubmit = false ∧ ∀ fence, c ≠ Call.vkResetFences fence := by
  cases c <;> simp [Call.inRecreation] at h <;> simp [Call.isSubmit]

/-- The run of a frame whose acquisition was called and reported out-of-date: the wait, the
acquisition, and the recreation. -/
theorem drawFrame_out_of_date {maxFrames : Nat} {env : FrameEnv} {s : Application}
    (hcall : ∃ semaphore,
      Call.vkAcquireNextImageKHR semaphore ∈ (drawFrame maxFrames env s).trace)
    (hood : env.acquireResult = VK_ERROR_OUT_OF_DATE_KHR) :
    ∃ fence semaphore,
      s.inFlightFences[s.currentFrame]? = some fence ∧
      drawFrame maxFrames env s =
        ⟨(recreateVulkanData env.recreate (acquiredState env fence s)).app,
          [Call.vkWaitForFences fence, Call.vkAcquireNextImageKHR semaphore] ++
            (recreateVulkanData env.recreate (acquiredState env fence s)).trace,
          (recreateVulkanData env.recreate (acquiredState env fence s)).outcome⟩ := by
  obtain ⟨fence, semaphore, hf, -, hrun⟩ := drawFrame_acquire_called hcall
  refine ⟨fence, semaphore, hf, ?_⟩
  rw [drawFrame_of_acquire maxFrames env s fence semaphore hrun, Run.mk_andThen]
  simp only [if_pos hood]

/-! ## The uniform buffer ranges -/

/-- The destination sets of the `vkUpdateDescriptorSets` calls of a `createDescriptorSets`
that returns are the sets of `descriptorSets`, in order. -/
theorem createDescriptorSets_updatedSets {env : CreationEnv} {s : Application}
    (h : (createDescriptorSets env s).outcome = Outcome.returned) :
    (createDescriptorSets env s).trace.filterMap Call.updatedSet =
      (createDescriptorSets env s).app.descriptorSets := by
  unfold createDescriptorSets at h ⊢
  simp only [] at h ⊢
  split
  · rename_i hres
    rw [if_pos hres] at h
    cases h
  · simp only [List.filterMap_append, List.filterMap_cons, Call.updatedSet,
      List.filterMap_nil, List.nil_append, List.filterMap_map]
    have hsome : Call.updatedSet ∘ Call.vkUpdateDescriptorSets = some := rfl
    rw [hsome, List.filterMap_some]

/-! ## The descriptor pool -/

theorem Call.inRecreation_poolMaxSets {c : Call} (h : c.inRecreation = true) :
    c.poolMaxSets = none ∧ c ≠ Call.lifecycle LifecycleCall.vkDestroyDescriptorPool := by
  cases c <;> simp [Call.inRecreation] at h <;> simp [Call.poolMaxSets]

theorem filterMap_poolMaxSets_of_inRecreation {t : List Call}
    (h : ∀ c ∈ t, c.inRecreation = true) : t.filterMap Call.poolMaxSets = [] :=
  List.filterMap_eq_nil_iff.mpr (fun c hc => (Call.inRecreation_poolMaxSets (h c hc)).1)

theorem createTextures_poolMaxSets (env : InitEnv) (is : List Nat) (s : Application) :
    ∀ c ∈ (createTextures env is s).trace, c.poolMaxSets = none := by
  induction is generalizing s with
  | nil => simp [createTextures, logCalls]
  | cons i rest ih =>
    unfold createTextures
    apply Run.andThen_forall_trace
    · intro c hc
      rw [externalCall_trace] at hc
      simp at hc
      subst hc
      rfl
    · exact ih

theorem createSyncObjectsLoop_poolMaxSets (env : InitEnv) (is : List Nat) (s : Application) :
    ∀ c ∈ (createSyncObjectsLoop env is s).trace, c.poolMaxSets = none := by
  induction is generalizing s with
  | nil => simp [createSyncObjectsLoop, logCalls]
  | cons i rest ih =>
    unfold createSyncObjectsLoop
    apply Run.andThen_forall_trace
    · intro c hc
      have hcases : c = Call.startup StartupCall.vkCreateSemaphore ∨
          c = Call.startup StartupCall.vkCreateFence := by
        unfold createFrameSyncObjects at hc
        split_ifs at hc <;> simp at hc <;> tauto
      rcases hcases with rfl | rfl <;> rfl
    · exact ih

theorem createSyncObjects_poolMaxSets (maxFrames : Nat) (env : InitEnv) (s : Application) :
    ∀ c ∈ (createSyncObjects maxFrames env s).trace, c.poolMaxSets = none := by
  unfold createSyncObjects
  apply Run.andThen_forall_trace
  · intro c hc
    simp [logCalls] at hc
    subst hc
    rfl
  · exact fun a => createSyncObjectsLoop_poolMaxSets env _ a

theorem createSyncObjectsLoop_allocated (env : InitEnv) (is : List Nat) (s : Application) :
    (createSyncObjectsLoop env is s).app.allocatedDescriptorSets = s.allocatedDescriptorSets := by
  induction is generalizing s with
  | nil => rfl
  | cons i rest ih =>
    unfold createSyncObjectsLoop
    refine Run.andThen_preserves Application.allocatedDescriptorSets ?_ ih
    unfold createFrameSyncObjects
    split_ifs <;> rfl

theorem createSyncObjects_allocated (maxFrames : Nat) (env : InitEnv) (s : Application) :
    (createSyncObjects maxFrames env s).app.allocatedDescriptorSets =
      s.allocatedDescriptorSets := by
  unfold createSyncObjects
  exact Run.andThen_preserves Application.allocatedDescriptorSets rfl
    (fun a => createSyncObjectsLoop_allocated env _ a)

theorem initSwapChain_allocated (env : CreationEnv) (s : Application) :
    (initSwapChain env s).app.allocatedDescriptorSets = s.allocatedDescriptorSets := by
  unfold initSwapChain
  split
  · rfl
  · split <;> rfl

/-- The image count after an `initSwapChain` that returns is the one the driver gave. -/
theorem initSwapChain_images {env : CreationEnv} {s : Application} {n : Nat}
    (hn : env.initSwapChain = Except.ok n)
    (h : (initSwapChain env s).outcome = Outcome.returned) :
    (initSwapChain env s).app.images.length = n := by
  unfold initSwapChain at h ⊢
  cases hfmt : chooseSwapSurfaceFormat env.surface.formats with
  | none =>
    rw [hfmt] at h
    cases h
  | some surfaceFormat =>
    simp only [hn]
    exact freshHandles_length _ _

theorem initFramebufferData_allocated (env : CreationEnv) (s : Application) :
    (initFramebufferData env s).app.allocatedDescriptorSets = s.allocatedDescriptorSets := by
  unfold initFramebufferData
  split <;> rfl

theorem createCommandBuffers_allocated (env : CreationEnv) (pool : CommandPool)
    (s : Application) :
    (createCommandBuffers env pool s).app.allocatedDescriptorSets =
      s.allocatedDescriptorSets := by
  unfold createCommandBuffers
  simp only []
  cases pool <;> split <;> rfl

/-- A `createDescriptorSets` that returns has allocated one set per swap-chain image. -/
theorem createDescriptorSets_allocated {env : CreationEnv} {s : Application}
    (h : (createDescriptorSets env s).outcome = Outcome.returned) :
    (createDescriptorSets env s).app.allocatedDescriptorSets =
      s.allocatedDescriptorSets + s.images.length := by
  unfold createDescriptorSets at h ⊢
  simp only [] at h ⊢
  split
  · rename_i hres
    rw [if_pos hres] at h
    cases h
  · rfl

theorem loadModel_allocated (env : InitEnv) (s : Application) :
    (loadModel env s).app.allocatedDescriptorSets = s.allocatedDescriptorSets := by
  unfold loadModel
  split <;> rfl

/-- The creation of the swap-chain dependent data, when it returns, has allocated one
descriptor set per image of the new swap chain. -/
theorem createSwapChainData_allocated {env : CreationEnv} {s : Application} {n : Nat}
    (hn : env.initSwapChain = Except.ok n)
    (hret : (createSwapChainData env s).outcome = Outcome.returned) :
    (createSwapChainData env s).app.allocatedDescriptorSets = s.allocatedDescriptorSets + n ∧
      (createSwapChainData env s).app.images.length = n := by
  revert hret
  unfold createSwapChainData
  let Q0 : Application → Prop := fun a =>
    a.allocatedDescriptorSets = s.allocatedDescriptorSets ∧ a.images.length = n
  let Q1 : Application → Prop := fun a =>
    a.allocatedDescriptorSets = s.allocatedDescriptorSets + n ∧ a.images.length = n
  refine Run.andThen_returned_app (P := Q1) (Q := Q1)
    (Run.andThen_returned_app (P := Q1) (Q := Q1)
    (Run.andThen_returned_app (P := Q1) (Q := Q1)
    (Run.andThen_returned_app (P := Q1) (Q := Q1)
    (Run.andThen_returned_app (P := Q0) (Q := Q1)
    (Run.andThen_returned_app (P := Q0) (Q := Q0)
    (Run.andThen_returned_app (P := Q0) (Q := Q0)
    (Run.andThen_returned_app (P := Q0) (Q := Q0)
    ?_ ?_) ?_) ?_) ?_) ?_) ?_) ?_) ?_
  · intro h
    exact ⟨initSwapChain_allocated env s, initSwapChain_images hn h⟩
  · intro a ha _
    show _ ∧ _
    rw [initFramebufferData_allocated, (initFramebufferData_lengths env a).1]
    exact ha
  · intro a ha _
    show Q0 (Run.app _)
    rw [externalCall_app]; exact ha
  · intro a ha _
    show Q0 (Run.app _)
    rw [externalCall_app]; exact ha
  · intro a ha h
    show _ ∧ _
    rw [createDescriptorSets_allocated h, (createDescriptorSets_lengths env a).1, ha.1, ha.2]
    exact ⟨rfl, rfl⟩
  · intro a ha _
    show _ ∧ _
    rw [createCommandBuffers_allocated, (createCommandBuffers_lengths env _ a).1]
    exact ha
  · intro a ha _
    show _ ∧ _
    rw [createCommandBuffers_allocated, (createCommandBuffers_lengths env _ a).1]
    exact ha
  · intro a ha _
    show Q1 (Run.app _)
    rw [recordGeometryCommandBuffers_app]; exact ha
  · intro a ha _
    exact ha

/-- A recreation that returns has allocated one descriptor set per image of the new swap
chain, on top of the sets allocated before. -/
theorem recreateVulkanData_allocated {env : CreationEnv} {s : Application} {n : Nat}
    (hn : env.initSwapChain = Except.ok n)
    (hret : (recreateVulkanData env s).outcome = Outcome.returned) :
    (recreateVulkanData env s).app.allocatedDescriptorSets = s.allocatedDescriptorSets + n ∧
      (recreateVulkanData env s).app.images.length = n := by
  rw [recreateVulkanData_eq] at hret ⊢
  exact createSwapChainData_allocated hn hret

/-- The calls of a recreation neither create nor destroy the descriptor pool. -/
theorem recreateVulkanData_pool (env : CreationEnv) (s : Application) :
    ∀ c ∈ (recreateVulkanData env s).trace,
      c.poolMaxSets = none ∧ c ≠ Call.lifecycle LifecycleCall.vkDestroyDescriptorPool := by
  obtain ⟨t, ht, hrec⟩ := recreateVulkanData_trace env s
  rw [ht]
  intro c hc
  simp only [List.singleton_append, List.mem_cons] at hc
  rcases hc with rfl | hc
  · exact ⟨rfl, fun h => by cases h⟩
  · exact Call.inRecreation_poolMaxSets (hrec c hc)

/-- Recreations that all return and all build `n` images. -/
theorem recreations_allocated {n : Nat} (envs : List CreationEnv) (s : Application)
    (hconst : ∀ env ∈ envs, env.initSwapChain = Except.ok n)
    (hs : s.images.length = n)
    (hret : (recreations envs s).outcome = Outcome.returned) :
    (recreations envs s).app.allocatedDescriptorSets =
        s.allocatedDescriptorSets + envs.length * n ∧
      (recreations envs s).app.images.length = n ∧
      (recreations envs s).trace.count Call.recreateVulkanData = envs.length := by
  induction envs generalizing s with
  | nil => exact ⟨by simp [recreations, logCalls], hs, by simp [recreations, logCalls]⟩
  | cons env rest ih =>
    unfold recreations at hret ⊢
    obtain ⟨h1, h2, h3, h4⟩ := Run.andThen_returned hret
    obtain ⟨ha, hi⟩ := recreateVulkanData_allocated (hconst env (List.mem_cons_self _ _)) h1
    obtain ⟨hb, hj, hc⟩ := ih _ (fun e he => hconst e (List.mem_cons_of_mem _ he)) hi h2
    rw [h3, h4, hb, ha]
    refine ⟨?_, hj, ?_⟩
    · simp only [List.length_cons, Nat.succ_mul]; omega
    · obtain ⟨t, ht, hrec⟩ := recreateVulkanData_trace env s
      rw [List.count_append, hc, ht]
      have hzero : t.count Call.recreateVulkanData = 0 :=
        List.count_eq_zero.mpr (fun hmem => by have := hrec _ hmem; cases this)
      simp [hzero]
      omega

theorem recreations_pool (envs : List CreationEnv) (s : Application) :
    ∀ c ∈ (recreations envs s).trace,
      c.poolMaxSets = none ∧ c ≠ Call.lifecycle LifecycleCall.vkDestroyDescriptorPool := by
  induction envs generalizing s with
  | nil => simp [recreations, logCalls]
  | cons env rest ih =>
    unfold recreations
    exact Run.andThen_forall_trace (recreateVulkanData_pool env s) ih

theorem filterMap_poolMaxSets_append {t u : List Call} {l : List Nat}
    (ht : t.filterMap Call.poolMaxSets = l) (hu : ∀ c ∈ u, c.poolMaxSets = none) :
    (t ++ u).filterMap Call.poolMaxSets = l := by
  rw [List.filterMap_append, ht, List.filterMap_eq_nil_iff.mpr hu, List.append_nil]

theorem poolMaxSets_singleton {call : Call} (h : call.poolMaxSets = none) :
    ∀ c ∈ [call], c.poolMaxSets = none := by
  intro c hc
  simp at hc
  subst hc
  exact h

/-- A start-up that returns has created the descriptor pool once, with `maxSets` the
`uint32_t` product of `IMGUI_POOL_NUM` and the image count, and has allocated one
descriptor set per swap-chain image. -/
theorem initVulkan_pool {maxFrames : Nat} {env : InitEnv} {s : Application} {n : Nat}
    (hn : env.creation.initSwapChain = Except.ok n)
    (hret : (initVulkan maxFrames env s).outcome = Outcome.returned) :
    (initVulkan maxFrames env s).trace.filterMap Call.poolMaxSets =
        [(IMGUI_POOL_NUM * n) % 2 ^ 32] ∧
      (initVulkan maxFrames env s).app.allocatedDescriptorSets =
        s.allocatedDescriptorSets + n ∧
      (initVulkan maxFrames env s).app.images.length = n := by
  revert hret
  unfold initVulkan
  let R0 : List Call → Application → Prop := fun t a =>
    t.filterMap Call.poolMaxSets = [] ∧ a.allocatedDescriptorSets = s.allocatedDescriptorSets
  let R1 : List Call → Application → Prop := fun t a =>
    t.filterMap Call.poolMaxSets = [] ∧
      a.allocatedDescriptorSets = s.allocatedDescriptorSets ∧ a.images.length = n
  let R2 : List Call → Application → Prop := fun t a =>
    t.filterMap Call.poolMaxSets = [(IMGUI_POOL_NUM * n) % 2 ^ 32] ∧
      a.allocatedDescriptorSets = s.allocatedDescriptorSets ∧ a.images.length = n
  let R3 : List Call → Application → Prop := fun t a =>
    t.filterMap Call.poolMaxSets = [(IMGUI_POOL_NUM * n) % 2 ^ 32] ∧
      a.allocatedDescriptorSets = s.allocatedDescriptorSets + n ∧ a.images.length = n
  refine Run.andThen_returned_run (P := R3) (Q := R3)
    (Run.andThen_returned_run (P := R3) (Q := R3)
    (Run.andThen_returned_run (P := R3) (Q := R3)
    (Run.andThen_returned_run (P := R3) (Q := R3)
    (Run.andThen_returned_run (P := R2) (Q := R3)
    (Run.andThen_returned_run (P := R1) (Q := R2)
    (Run.andThen_returned_run (P := R1) (Q := R1)
    (Run.andThen_returned_run (P := R1) (Q := R1)
    (Run.andThen_returned_run (P := R1) (Q := R1)
    (Run.andThen_returned_run (P := R1) (Q := R1)
    (Run.andThen_returned_run (P := R1) (Q := R1)
    (Run.andThen_returned_run (P := R1) (Q := R1)
    (Run.andThen_returned_run (P := R0) (Q := R1)
    (Run.andThen_returned_run (P := R0) (Q := R0)
    (Run.andThen_returned_run (P := R0) (Q := R0)
    (Run.andThen_returned_run (P := R0) (Q := R0)
    (Run.andThen_returned_run (P := R0) (Q := R0)
    ?_ ?_) ?_) ?_) ?_) ?_) ?_) ?_) ?_) ?_) ?_) ?_) ?_) ?_) ?_) ?_) ?_) ?_
  · intro _
    show _ ∧ _
    rw [externalCall_trace, externalCall_app]
    exact ⟨rfl, rfl⟩
  · intro a t ha _
    show _ ∧ _
    rw [loadModel_trace, loadModel_allocated]
    exact ⟨filterMap_poolMaxSets_append ha.1 (poolMaxSets_singleton rfl), ha.2⟩
  · intro a t ha _
    show _ ∧ _
    rw [checkedCall_trace, checkedCall_app]
    exact ⟨filterMap_poolMaxSets_append ha.1 (poolMaxSets_singleton rfl), ha.2⟩
  · intro a t ha _
    show _ ∧ _
    rw [checkedCall_trace, checkedCall_app]
    exact ⟨filterMap_poolMaxSets_append ha.1 (poolMaxSets_singleton rfl), ha.2⟩
  · intro a t ha _
    show _ ∧ _
    rw [checkedCall_trace, checkedCall_app]
    exact ⟨filterMap_poolMaxSets_append ha.1 (poolMaxSets_singleton rfl), ha.2⟩
  · intro a t ha h
    refine ⟨filterMap_poolMaxSets_append ha.1 (fun c hc =>
      (Call.inRecreation_poolMaxSets (initSwapChain_inRecreation _ a c hc)).1), ?_, ?_⟩
    · rw [initSwapChain_allocated]; exact ha.2
    · exact initSwapChain_images hn h
  · intro a t ha _
    refine ⟨filterMap_poolMaxSets_append ha.1 (fun c hc =>
      (Call.inRecreation_poolMaxSets (initFramebufferData_inRecreation _ a c hc)).1), ?_, ?_⟩
    · rw [initFramebufferData_allocated]; exact ha.2.1
    · rw [(initFramebufferData_lengths _ a).1]; exact ha.2.2
  · intro a t ha _
    show _ ∧ _
    rw [externalCall_trace, externalCall_app]
    exact ⟨filterMap_poolMaxSets_append ha.1 (poolMaxSets_singleton rfl), ha.2⟩
  · intro a t ha _
    show _ ∧ _
    rw [createTextures_app]
    exact ⟨filterMap_poolMaxSets_append ha.1 (createTextures_poolMaxSets env _ a), ha.2⟩
  · intro a t ha _
    show _ ∧ _
    rw [externalCall_trace, externalCall_app]
    exact ⟨filterMap_poolMaxSets_append ha.1 (poolMaxSets_singleton rfl), ha.2⟩
  · intro a t ha _
    show _ ∧ _
    rw [externalCall_trace, externalCall_app]
    exact ⟨filterMap_poolMaxSets_append ha.1 (poolMaxSets_singleton rfl), ha.2⟩
  · intro a t ha _
    show _ ∧ _
    rw [externalCall_trace, externalCall_app]
    exact ⟨filterMap_poolMaxSets_append ha.1 (poolMaxSets_singleton rfl), ha.2⟩
  · intro a t ha _
    show _ ∧ _
    rw [checkedCall_trace, checkedCall_app, List.filterMap_append, ha.1, ha.2.2]
    exact ⟨rfl, ha.2.1, rfl⟩
  · intro a t ha h
    refine ⟨filterMap_poolMaxSets_append ha.1 (fun c hc =>
      (Call.inRecreation_poolMaxSets (createDescriptorSets_inRecreation _ a c hc)).1), ?_, ?_⟩
    · rw [createDescriptorSets_allocated h, ha.2.1, ha.2.2]
    · rw [(createDescriptorSets_lengths _ a).1]; exact ha.2.2
  · intro a t ha _
    refine ⟨filterMap_poolMaxSets_append ha.1 (fun c hc =>
      (Call.inRecreation_poolMaxSets (createCommandBuffers_inRecreation _ _ a c hc)).1), ?_, ?_⟩
    · rw [createCommandBuffers_allocated]; exact ha.2.1
    · rw [(createCommandBuffers_lengths _ _ a).1]; exact ha.2.2
  · intro a t ha _
    refine ⟨filterMap_poolMaxSets_append ha.1 (fun c hc =>
      (Call.inRecreation_poolMaxSets (createCommandBuffers_inRecreation _ _ a c hc)).1), ?_, ?_⟩
    · rw [createCommandBuffers_allocated]; exact ha.2.1
    · rw [(createCommandBuffers_lengths _ _ a).1]; exact ha.2.2
  · intro a t ha _
    refine ⟨filterMap_poolMaxSets_append ha.1 (createSyncObjects_poolMaxSets _ env a), ?_, ?_⟩
    · rw [createSyncObjects_allocated]; exact ha.2.1
    · have h := congrArg Prod.fst (createSyncObjects_lengths maxFrames env a).1
      exact h.trans ha.2.2
  · intro a t ha _
    refine ⟨filterMap_poolMaxSets_append ha.1 (fun c hc =>
      (Call.inRecreation_poolMaxSets
        (recordGeometryCommandBuffers_inRecreation _ _ a c hc)).1), ?_, ?_⟩
    · rw [recordGeometryCommandBuffers_app]; exact ha.2.1
    · rw [recordGeometryCommandBuffers_app]; exact ha.2.2

/-! ## Image layout transitions -/

/-- The run of `transitionImageLayout` for a pair of layouts that it does not support. -/
theorem transitionImageLayout_of_unsupported (commandBuffer : Handle)
    {transitionData : LayoutTransitionInfo}
    (h : ¬ supportedTransition transitionData.oldLayout transitionData.newLayout) :
    transitionImageLayout commandBuffer transitionData =
      ⟨beginSingleTimeCommands commandBuffer,
        TransitionOutcome.invalidArgument "unsupported layout transition!"⟩ := by
  unfold supportedTransition at h
  simp only [not_or] at h
  unfold transitionImageLayout
  simp only [if_neg h.1, if_neg h.2.1, if_neg h.2.2]

/-- The run of `transitionImageLayout` for a pair of layouts that it supports. -/
theorem transitionImageLayout_of_supported (commandBuffer : Handle)
    {transitionData : LayoutTransitionInfo}
    (h : supportedTransition transitionData.oldLayout transitionData.newLayout) :
    ∃ sourceStage destinationStage srcAccessMask dstAccessMask,
      transitionImageLayout commandBuffer transitionData =
        ⟨beginSingleTimeCommands commandBuffer ++
          [TransitionCall.vkCmdPipelineBarrier commandBuffer sourceStage destinationStage
            ⟨transitionData.oldLayout, transitionData.newLayout,
              barrierAspectMask transitionData, srcAccessMask, dstAccessMask⟩] ++
          endSingleTimeCommands commandBuffer, TransitionOutcome.returned⟩ := by
  unfold transitionImageLayout
  by_cases h1 : transitionData.oldLayout = VK_IMAGE_LAYOUT_UNDEFINED ∧
      transitionData.newLayout = VK_IMAGE_LAYOUT_TRANSFER_DST_OPTIMAL
  · exact ⟨_, _, _, _, by simp only [if_pos h1]; rfl⟩
  · by_cases h2 : transitionData.oldLayout = VK_IMAGE_LAYOUT_TRANSFER_DST_OPTIMAL ∧
        transitionData.newLayout = VK_IMAGE_LAYOUT_SHADER_READ_ONLY_OPTIMAL
    · exact ⟨_, _, _, _, by simp only [if_neg h1, if_pos h2]; rfl⟩
    · by_cases h3 : transitionData.oldLayout = VK_IMAGE_LAYOUT_UNDEFINED ∧
          transitionData.newLayout = VK_IMAGE_LAYOUT_DEPTH_STENCIL_ATTACHMENT_OPTIMAL
      · exact ⟨_, _, _, _, by simp only [if_neg h1, if_neg h2, if_pos h3]; rfl⟩
      · exfalso
        rcases h with h | h | h
        · exact h1 h
        · exact h2 h
        · exact h3 h

/-- The aspect mask of the barrier (Image.cpp:97-108), by the new layout and the format. -/
theorem barrierAspectMask_spec (transitionData : LayoutTransitionInfo) :
    (transitionData.newLayout = VK_IMAGE_LAYOUT_DEPTH_STENCIL_ATTACHMENT_OPTIMAL →
      (barrierAspectMask transitionData &&& VK_IMAGE_ASPECT_DEPTH_BIT =
          VK_IMAGE_ASPECT_DEPTH_BIT ∧
        barrierAspectMask transitionData &&& VK_IMAGE_ASPECT_COLOR_BIT = 0 ∧
        (barrierAspectMask transitionData &&& VK_IMAGE_ASPECT_STENCIL_BIT =
            VK_IMAGE_ASPECT_STENCIL_BIT ↔
          transitionData.format = VK_FORMAT_D32_SFLOAT_S8_UINT ∨
            transitionData.format = VK_FORMAT_D24_UNORM_S8_UINT) ∧
        (barrierAspectMask transitionData = VK_IMAGE_ASPECT_DEPTH_BIT ∨
          barrierAspectMask transitionData =
            VK_IMAGE_ASPECT_DEPTH_BIT ||| VK_IMAGE_ASPECT_STENCIL_BIT))) ∧
    (transitionData.newLayout ≠ VK_IMAGE_LAYOUT_DEPTH_STENCIL_ATTACHMENT_OPTIMAL →
      barrierAspectMask transitionData = VK_IMAGE_ASPECT_COLOR_BIT) := by
  constructor
  · intro hnew
    unfold barrierAspectMask
    rw [if_pos hnew]
    by_cases hst : hasStencilComponent transitionData.format = true
    · have hfmt : transitionData.format = VK_FORMAT_D32_SFLOAT_S8_UINT ∨
          transitionData.format = VK_FORMAT_D24_UNORM_S8_UINT := by
        simpa [hasStencilComponent] using hst
      rw [if_pos hst]
      exact ⟨by decide, by decide, ⟨fun _ => hfmt, fun _ => by decide⟩, Or.inr rfl⟩
    · have hfmt : ¬ (transitionData.format = VK_FORMAT_D32_SFLOAT_S8_UINT ∨
          transitionData.format = VK_FORMAT_D24_UNORM_S8_UINT) := by
        simpa [hasStencilComponent] using hst
      rw [if_neg hst]
      exact ⟨by decide, by decide,
        ⟨fun h => absurd h (by decide), fun h => absurd h hfmt⟩, Or.inl rfl⟩
  · intro hnew
    unfold barrierAspectMask
    rw [if_neg hnew]

/-! ## The G-buffer attachments -/

theorem subscript_keys (name : String) (m : List (String × Attachment)) :
    (subscript name m).map Prod.fst = insertKey name (m.map Prod.fst) := by
  induction m with
  | nil => rfl
  | cons entry rest ih =>
    obtain ⟨key, value⟩ := entry
    simp only [subscript, insertKey, List.map_cons]
    split
    · rfl
    · split
      · rfl
      · rw [List.map_cons, ih]

theorem assign_keys (name : String) (f : Attachment → Attachment)
    (m : List (String × Attachment)) :
    (assign name f m).map Prod.fst = m.map Prod.fst := by
  induction m with
  | nil => rfl
  | cons entry rest ih =>
    obtain ⟨key, value⟩ := entry
    simp only [assign, List.map_cons]
    split
    · rfl
    · rw [List.map_cons, ih]

/-- A `createAttachment` that returns leaves the keys of the map as `attachments[name]` made
them, and neither the render pass nor the framebuffer is touched. -/
theorem createAttachment_keys {env : GBufferEnv} {name : String} {format usage : Nat}
    {g created : GBuffer} (h : createAttachment env name format usage g = Except.ok created) :
    created.attachments.map Prod.fst = insertKey name (g.attachments.map Prod.fst) := by
  unfold createAttachment at h
  cases hi : env.createImage name with
  | some what => simp [hi] at h
  | none =>
    cases hv : env.createImageView name with
    | some what =>
      simp only [hi, hv] at h
      split_ifs at h
    | none =>
      simp only [hi, hv] at h
      split_ifs at h <;> cases h <;> simp only [assign_keys, subscript_keys]

theorem gBufferCall_ok {failure : Option String} {g created : GBuffer}
    (h : gBufferCall failure g = Except.ok created) : created = g := by
  unfold gBufferCall at h
  split at h
  · cases h
  · cases h
    rfl

/-- A `createGBuffer` that returns: the keys of the map, and the render pass and the
framebuffer built from the map. -/
theorem createGBuffer_ok {env : GBufferEnv} {g created : GBuffer}
    (h : createGBuffer env g = Except.ok created) :
    created.attachments.map Prod.fst =
        insertKey "depth" (insertKey "albedo" (insertKey "normal" (insertKey "position"
          (g.attachments.map Prod.fst)))) ∧
      created.deferredRenderPass =
        some (describeAttachments created.attachments 0 ⟨[], [], ⟨0, 0⟩⟩) ∧
      created.deferredFrameBuffer =
        some (created.attachments.map (fun attachment => attachment.2.imageView)) := by
  unfold createGBuffer at h
  cases h1 : createAttachment env "position" VK_FORMAT_R16G16B16A16_SFLOAT
      VK_IMAGE_USAGE_COLOR_ATTACHMENT_BIT g with
  | error what => simp [h1, bind, Except.bind] at h
  | ok g1 =>
    cases h2 : createAttachment env "normal" VK_FORMAT_R16G16B16A16_SFLOAT
        VK_IMAGE_USAGE_COLOR_ATTACHMENT_BIT g1 with
    | error what => simp [h1, h2, bind, Except.bind] at h
    | ok g2 =>
      cases h3 : createAttachment env "albedo" VK_FORMAT_R8G8B8A8_SRGB
          VK_IMAGE_USAGE_COLOR_ATTACHMENT_BIT g2 with
      | error what => simp [h1, h2, h3, bind, Except.bind] at h
      | ok g3 =>
        cases hd : env.findDepthFormat with
        | error what => simp [h1, h2, h3, hd, bind, Except.bind] at h
        | ok depthFormat =>
          cases h4 : createAttachment env "depth" depthFormat
              VK_IMAGE_USAGE_DEPTH_STENCIL_ATTACHMENT_BIT g3 with
          | error what => simp [h1, h2, h3, hd, h4, bind, Except.bind] at h
          | ok g4 =>
            have hkeys : g4.attachments.map Prod.fst =
                insertKey "depth" (insertKey "albedo" (insertKey "normal"
                  (insertKey "position" (g.attachments.map Prod.fst)))) := by
              rw [createAttachment_keys h4, createAttachment_keys h3,
                createAttachment_keys h2, createAttachment_keys h1]
            simp only [h1, h2, h3, hd, h4, bind, Except.bind, createDeferredRenderPass,
              createDeferredFrameBuffer] at h
            split at h
            · cases h
            · rename_i v1 heq1
              split_ifs at heq1
              cases heq1
              split at h
              · cases h
              · rename_i v2 heq2
                split_ifs at heq2
                cases heq2
                split at h
                · cases h
                · rename_i v3 heq3
                  have h7 := gBufferCall_ok heq3
                  have h8 := gBufferCall_ok h
                  subst h7
                  subst h8
                  exact ⟨hkeys, rfl, rfl⟩

theorem cleanupGBuffer_attachments (g : GBuffer) :
    (cleanupGBuffer g).attachments = g.attachments := rfl

/-- The keys of the map are none or the four attachment names, whatever the number of
completed cycles. -/
theorem gBufferCycles_keys (envs : List GBufferEnv) (g cycled : GBuffer)
    (hg : g.attachments.map Prod.fst = [] ∨
      g.attachments.map Prod.fst = ["albedo", "depth", "normal", "position"])
    (h : gBufferCycles envs g = Except.ok cycled) :
    cycled.attachments.map Prod.fst = [] ∨
      cycled.attachments.map Prod.fst = ["albedo", "depth", "normal", "position"] := by
  induction envs generalizing g with
  | nil =>
    simp only [gBufferCycles] at h
    cases h
    exact hg
  | cons env rest ih =>
    unfold gBufferCycles at h
    cases hc : createGBuffer env g with
    | error what => simp [hc] at h
    | ok created =>
      simp only [hc] at h
      refine ih (cleanupGBuffer created) (Or.inr ?_) h
      rw [cleanupGBuffer_attachments, (createGBuffer_ok hc).1]
      rcases hg with hg | hg <;> rw [hg] <;> decide

/-- The locals of `createDeferredRenderPass` for a map with the four attachment names. -/
theorem describeAttachments_four (albedo depth normal position : Attachment) :
    describeAttachments
        [("albedo", albedo), ("depth", depth), ("normal", normal), ("position", position)]
        0 ⟨[], [], ⟨0, 0⟩⟩ =
      ⟨[⟨albedo.format, VK_IMAGE_LAYOUT_UNDEFINED, VK_IMAGE_LAYOUT_SHADER_READ_ONLY_OPTIMAL⟩,
        ⟨depth.format, VK_IMAGE_LAYOUT_UNDEFINED,
          VK_IMAGE_LAYOUT_DEPTH_STENCIL_ATTACHMENT_OPTIMAL⟩,
        ⟨normal.format, VK_IMAGE_LAYOUT_UNDEFINED, VK_IMAGE_LAYOUT_SHADER_READ_ONLY_OPTIMAL⟩,
        ⟨position.format, VK_IMAGE_LAYOUT_UNDEFINED,
          VK_IMAGE_LAYOUT_SHADER_READ_ONLY_OPTIMAL⟩],
       [⟨0, VK_IMAGE_LAYOUT_COLOR_ATTACHMENT_OPTIMAL⟩,
        ⟨2, VK_IMAGE_LAYOUT_COLOR_ATTACHMENT_OPTIMAL⟩,
        ⟨3, VK_IMAGE_LAYOUT_COLOR_ATTACHMENT_OPTIMAL⟩],
       ⟨1, VK_IMAGE_LAYOUT_DEPTH_STENCIL_ATTACHMENT_OPTIMAL⟩⟩ := by
  rfl

/-- A map whose keys are the four attachment names has four entries. -/
theorem attachments_of_keys {m : List (String × Attachment)}
    (h : m.map Prod.fst = ["albedo", "depth", "normal", "position"]) :
    ∃ albedo depth normal position,
      m = [("albedo", albedo), ("depth", depth), ("normal", normal), ("position", position)] := by
  match m, h with
  | [(k1, v1), (k2, v2), (k3, v3), (k4, v4)], h =>
    simp only [List.map_cons, List.map_nil, List.cons.injEq, and_true] at h
    obtain ⟨rfl, rfl, rfl, rfl⟩ := h
    exact ⟨v1, v2, v3, v4, rfl⟩

/-! ## The call of `recordGuiCommandBuffer` in a frame -/

/-- C1 (amended). When `vkAcquireNextImageKHR` is called and reports out-of-date,
`drawFrame` enters `recreateVulkanData` exactly once, ends the way that recreation ends
(it returns when the recreation returns, and an exception raised inside the recreation
propagates), and makes no uniform update, no GUI recording, no `vkQueueSubmit` and no
`vkQueuePresentKHR`. -/
theorem drawFrame_acquire_out_of_date (maxFrames : Nat) (env : FrameEnv) (s : Application)
    (hcall : ∃ semaphore,
      Call.vkAcquireNextImageKHR semaphore ∈ (drawFrame maxFrames env s).trace)
    (hres : env.acquireResult = VK_ERROR_OUT_OF_DATE_KHR) :
    (drawFrame maxFrames env s).trace.count Call.recreateVulkanData = 1 ∧
    (drawFrame maxFrames env s).outcome =
      (recreateVulkanData env.recreate (waitAndAcquire env s).app).outcome ∧
    (∀ i, Call.updateUniformBuffers i ∉ (drawFrame maxFrames env s).trace) ∧
    (∀ i, Call.recordGuiCommandBuffer i ∉ (drawFrame maxFrames env s).trace) ∧
    (∀ info fence, Call.vkQueueSubmit info fence ∉ (drawFrame maxFrames env s).trace) ∧
    (∀ info, Call.vkQueuePresentKHR info ∉ (drawFrame maxFrames env s).trace) := by
  obtain ⟨fence, semaphore, -, -, hrun⟩ := drawFrame_acquire_called hcall
  obtain ⟨t, ht, hrec⟩ := recreateVulkanData_trace env.recreate (waitAndAcquire env s).app
  have hdraw : drawFrame maxFrames env s =
      ⟨(recreateVulkanData env.recreate (waitAndAcquire env s).app).app,
        [Call.vkWaitForFences fence, Call.vkAcquireNextImageKHR semaphore]
          ++ ([Call.recreateVulkanData] ++ t),
        (recreateVulkanData env.recreate (waitAndAcquire env s).app).outcome⟩ := by
    unfold drawFrame
    have hret : (waitAndAcquire env s).outcome = Outcome.returned := by rw [hrun]
    rw [Run.andThen_of_returned _ hret, if_pos hres, ht]
    rw [hrun]
  have hnot : ∀ c, c.inRecreation = false → c ≠ Call.vkWaitForFences fence →
      c ≠ Call.vkAcquireNextImageKHR semaphore → c ≠ Call.recreateVulkanData →
      c ∉ (drawFrame maxFrames env s).trace := by
    intro c hc h1 h2 h3 hmem
    rw [hdraw] at hmem
    simp only [List.mem_append, List.mem_cons, List.mem_singleton, List.not_mem_nil,
      or_false] at hmem
    rcases hmem with (h | h) | h | h
    · exact h1 h
    · exact h2 h
    · exact h3 h
    · rw [hrec c h] at hc
      cases hc
  refine ⟨?_, ?_, ?_, ?_, ?_, ?_⟩
  · rw [hdraw]
    have h0 : t.count Call.recreateVulkanData = 0 := by
      rw [List.count_eq_zero]
      intro hmem
      have := hrec _ hmem
      cases this
    simp [List.count_cons, h0]
  · rw [hdraw]
  · intro i; exact hnot _ rfl (by simp) (by simp) (by simp)
  · intro i; exact hnot _ rfl (by simp) (by simp) (by simp)
  · intro info f; exact hnot _ rfl (by simp) (by simp) (by simp)
  · intro info; exact hnot _ rfl (by simp) (by simp) (by simp)

/-- C1 (as stated) fails: the acquisition reports out-of-date, the recreation is entered,
its descriptor-set allocation fails, and `drawFrame` leaves by that exception. -/
theorem drawFrame_out_of_date_recreation_throws :
    exampleOutOfDateFailing.acquireResult = VK_ERROR_OUT_OF_DATE_KHR ∧
    Call.vkAcquireNextImageKHR 19 ∈
      (drawFrame MAX_FRAMES_IN_FLIGHT exampleOutOfDateFailing exampleStarted).trace ∧
    (drawFrame MAX_FRAMES_IN_FLIGHT exampleOutOfDateFailing exampleStarted).outcome =
      Outcome.threw "failed to allocate descriptor sets!" := by
  decide

/-- C1 (amended), at a concrete input: three images, two frame slots, the acquisition
reports out-of-date and the recreation succeeds. -/
theorem drawFrame_acquire_out_of_date_witness :
    (∃ semaphore, Call.vkAcquireNextImageKHR semaphore ∈
      (drawFrame MAX_FRAMES_IN_FLIGHT exampleOutOfDate exampleStarted).trace) ∧
    exampleOutOfDate.acquireResult = VK_ERROR_OUT_OF_DATE_KHR ∧
    (drawFrame MAX_FRAMES_IN_FLIGHT exampleOutOfDate exampleStarted).trace.count
      Call.recreateVulkanData = 1 ∧
    (drawFrame MAX_FRAMES_IN_FLIGHT exampleOutOfDate exampleStarted).outcome =
      Outcome.returned :=
  have h := drawFrame_acquire_out_of_date MAX_FRAMES_IN_FLIGHT exampleOutOfDate exampleStarted
    ⟨19, by decide⟩ (by decide)
  ⟨⟨19, by decide⟩, by decide, h.1, h.2.1.trans (by decide)⟩

/-- C2 (the code at the failing input). With three images and two frame slots, in the
first frame (slot 0: fence 21, image-available semaphore 19, render-finished semaphore 20)
the driver hands out image 1. The frame resets fence 21 and submits one batch that waits
on semaphore 19 at the colour-attachment-output stage, holds the command buffers 14 and 17
of image 1 and signals fence 21, but the semaphore it signals is 23, the entry of
`renderFinishedSemaphores` at the image index 1, not 20, the entry of the frame slot. -/
theorem drawFrame_signals_semaphore_of_image :
    exampleStarted.currentFrame = 0 ∧
    exampleStarted.inFlightFences = [21, 24] ∧
    exampleStarted.imageAvailableSemaphores = [19, 22] ∧
    exampleStarted.renderFinishedSemaphores = [20, 23] ∧
    exampleStarted.renderCommandBuffers = [13, 14, 15] ∧
    exampleStarted.imGuiCommandBuffers = [16, 17, 18] ∧
    (drawFrame MAX_FRAMES_IN_FLIGHT (exampleFrame 1 3) exampleStarted).trace =
      [Call.vkWaitForFences 21, Call.vkAcquireNextImageKHR 19, Call.updateUniformBuffers 1,
        Call.recordGuiCommandBuffer 1, Call.ImGui_Render, Call.vkBeginCommandBuffer 17,
        Call.vkCmdBeginRenderPass 17 RenderPass.imGuiRenderPass 8 ⟨800, 600⟩,
        Call.ImGui_ImplVulkan_RenderDrawData 17, Call.vkCmdEndRenderPass 17,
        Call.vkEndCommandBuffer 17, Call.vkResetFences 21,
        Call.vkQueueSubmit ⟨[19], [VK_PIPELINE_STAGE_COLOR_ATTACHMENT_OUTPUT_BIT], [14, 17],
          [23]⟩ 21,
        Call.vkQueuePresentKHR ⟨[23], [1]⟩] := by
  decide

/-- C3. In every state the application reaches from `initVulkan` by frames that return,
GPU completions and resize events, and for every number `maxFrames` of frames in flight,
at most `maxFrames` submissions are pending; this also holds right after the
`vkQueueSubmit` of the next frame (the state `submittedState` of `drawFrame_cases`),
whatever the driver answers; and every `vkQueueSubmit` uses the fence
`inFlightFences[currentFrame]`, on which the frame waited first. -/
theorem outstanding_submissions_bounded (maxFrames : Nat) (s : Application)
    (h : Reachable maxFrames s) :
    s.pending.length ≤ maxFrames ∧
    ∀ env : FrameEnv,
      (∀ guard fence, s.inFlightFences[s.currentFrame]? = some fence →
        (submittedState env guard fence s).pending.length ≤ maxFrames) ∧
      (∀ info fence,
        Call.vkQueueSubmit info fence ∈ (drawFrame maxFrames env s).trace →
        s.inFlightFences[s.currentFrame]? = some fence ∧
          ∃ rest, (drawFrame maxFrames env s).trace = Call.vkWaitForFences fence :: rest) := by
  have hinv := h.submissionInv
  refine ⟨hinv.length_le, fun env => ⟨?_, ?_⟩⟩
  · intro guard fence hf
    exact (submittedState_submissionInv env guard fence hinv hf).length_le
  · intro info fence hmem
    exact drawFrame_submit_fence hmem

/-- C3 at a concrete input: after two frames without a GPU completion, two submissions
are pending, which is the bound for two frames in flight. -/
theorem outstanding_submissions_bounded_witness :
    Reachable MAX_FRAMES_IN_FLIGHT exampleTwoFrames ∧
    exampleTwoFrames.pending = [21, 24] ∧
    exampleTwoFrames.pending.length ≤ MAX_FRAMES_IN_FLIGHT := by
  have hreach : Reachable MAX_FRAMES_IN_FLIGHT exampleTwoFrames :=
    Reachable.frame _ _
      (Reachable.frame _ _ (Reachable.init (exampleInit 3) (by decide)) (by decide))
      (by decide)
  exact ⟨hreach, by decide,
    (outstanding_submissions_bounded MAX_FRAMES_IN_FLIGHT exampleTwoFrames hreach).1⟩

/-- C4 (the code at the failing input). After one frame on image 0 of a three-image swap
chain the marker vector is `[21, 0, 0]`. A recreation that builds a swap chain of four
images returns and leaves the marker vector as it was: three entries, the first of them
still the fence 21. The same holds for the recreation as `drawFrame` runs it when the next
acquisition reports out-of-date. -/
theorem recreateVulkanData_keeps_imagesInFlight :
    exampleFirstFrame.imagesInFlight = [21, VK_NULL_HANDLE, VK_NULL_HANDLE] ∧
    (recreateVulkanData (exampleCreation 4) exampleFirstFrame).outcome = Outcome.returned ∧
    (recreateVulkanData (exampleCreation 4) exampleFirstFrame).app.images.length = 4 ∧
    (recreateVulkanData (exampleCreation 4) exampleFirstFrame).app.imagesInFlight =
      [21, VK_NULL_HANDLE, VK_NULL_HANDLE] ∧
    (drawFrame MAX_FRAMES_IN_FLIGHT exampleOutOfDateGrowing exampleFirstFrame).outcome =
      Outcome.returned ∧
    (drawFrame MAX_FRAMES_IN_FLIGHT exampleOutOfDateGrowing exampleFirstFrame).app.images.length
      = 4 ∧
    (drawFrame MAX_FRAMES_IN_FLIGHT exampleOutOfDateGrowing exampleFirstFrame).app.imagesInFlight
      = [21, VK_NULL_HANDLE, VK_NULL_HANDLE] := by
  decide

/-- C5 (the code at the failing inputs). Right after `initVulkan` with three images and
two frame slots, a frame that acquires image 2 reads `renderFinishedSemaphores[2]` in a
vector of two entries. After a frame whose recreation builds four images, a frame that
acquires image 3 reads `imagesInFlight[3]` in a vector of three entries. -/
theorem drawFrame_reads_out_of_range :
    Reachable MAX_FRAMES_IN_FLIGHT exampleStarted ∧
    2 < exampleStarted.images.length ∧
    exampleStarted.currentFrame < MAX_FRAMES_IN_FLIGHT ∧
    exampleStarted.renderFinishedSemaphores.length = 2 ∧
    (drawFrame MAX_FRAMES_IN_FLIGHT (exampleFrame 2 3) exampleStarted).outcome =
      Outcome.outOfRange "renderFinishedSemaphores[imageIndex]" ∧
    Reachable MAX_FRAMES_IN_FLIGHT exampleGrown ∧
    3 < exampleGrown.images.length ∧
    exampleGrown.currentFrame < MAX_FRAMES_IN_FLIGHT ∧
    exampleGrown.imagesInFlight.length = 3 ∧
    (drawFrame MAX_FRAMES_IN_FLIGHT (exampleFrame 3 4) exampleGrown).outcome =
      Outcome.outOfRange "imagesInFlight[imageIndex]" := by
  have hstart : Reachable MAX_FRAMES_IN_FLIGHT exampleStarted :=
    Reachable.init (exampleInit 3) (by decide)
  have hgrown : Reachable MAX_FRAMES_IN_FLIGHT exampleGrown :=
    Reachable.frame _ _ (Reachable.resized _ hstart) (by decide)
  exact ⟨hstart, by decide, by decide, by decide, by decide, hgrown, by decide, by decide,
    by decide, by decide⟩

/-- C6 (as stated) fails: a resize event is pending, `vkQueuePresentKHR` reports the
status `-4`, and `drawFrame` recreates and returns instead of raising the present error. -/
theorem drawFrame_present_error_swallowed_by_resize :
    (framebufferResizeCallback exampleStarted).framebufferResized = true ∧
    examplePresentError.presentResult ≠ VK_SUCCESS ∧
    examplePresentError.presentResult ≠ VK_ERROR_OUT_OF_DATE_KHR ∧
    examplePresentError.presentResult ≠ VK_SUBOPTIMAL_KHR ∧
    Call.vkQueuePresentKHR ⟨[20], [0]⟩ ∈
      (drawFrame MAX_FRAMES_IN_FLIGHT examplePresentError
        (framebufferResizeCallback exampleStarted)).trace ∧
    Call.recreateVulkanData ∈
      (drawFrame MAX_FRAMES_IN_FLIGHT examplePresentError
        (framebufferResizeCallback exampleStarted)).trace ∧
    (drawFrame MAX_FRAMES_IN_FLIGHT examplePresentError
      (framebufferResizeCallback exampleStarted)).outcome = Outcome.returned := by
  decide

/-- C6 (amended). In a `drawFrame` call that reaches `vkQueuePresentKHR`, for every status
of that call other than success, out-of-date and suboptimal: when `framebufferResized` is
not set, `drawFrame` raises the present error and enters no recreation; when it is set,
`drawFrame` enters the recreation once and does not raise the present error. -/
theorem drawFrame_present_fatal (maxFrames : Nat) (env : FrameEnv) (s : Application)
    (hpresent : ∃ info, Call.vkQueuePresentKHR info ∈ (drawFrame maxFrames env s).trace)
    (hres : env.presentResult ≠ VK_SUCCESS ∧ env.presentResult ≠ VK_ERROR_OUT_OF_DATE_KHR ∧
      env.presentResult ≠ VK_SUBOPTIMAL_KHR) :
    (s.framebufferResized = false →
      (drawFrame maxFrames env s).outcome =
        Outcome.threw "failed to present swap chain image!" ∧
      Call.recreateVulkanData ∉ (drawFrame maxFrames env s).trace) ∧
    (s.framebufferResized = true →
      (drawFrame maxFrames env s).outcome ≠
        Outcome.threw "failed to present swap chain image!" ∧
      (drawFrame maxFrames env s).trace.count Call.recreateVulkanData = 1) := by
  obtain ⟨fence, semaphore, guard, l, -, -, -, -, -, -, hdraw⟩ :=
    drawFrame_present_reached hpresent
  have hflag := (submittedState_fields env guard fence s).1
  have hbefore : Call.recreateVulkanData ∉
      preparationCalls env fence semaphore guard s ++ submitCalls l fence :=
    not_mem_before_present env fence semaphore guard l s _ rfl (by simp) (by simp)
  rw [hdraw, Run.mk_andThen]
  constructor
  · intro hfalse
    have hcond : ¬ (env.presentResult = VK_ERROR_OUT_OF_DATE_KHR ∨
        env.presentResult = VK_SUBOPTIMAL_KHR ∨
        (submittedState env guard fence s).framebufferResized = true) := by
      rw [hflag, hfalse]
      simp [hres.2.1, hres.2.2]
    rw [presentFrame_fatal _ _ _ _ hcond hres.1]
    refine ⟨rfl, ?_⟩
    intro hmem
    rw [List.mem_append] at hmem
    rcases hmem with h | h
    · exact hbefore h
    · simp at h
  · intro htrue
    have hcond : env.presentResult = VK_ERROR_OUT_OF_DATE_KHR ∨
        env.presentResult = VK_SUBOPTIMAL_KHR ∨
        (submittedState env guard fence s).framebufferResized = true :=
      Or.inr (Or.inr (hflag.trans htrue))
    obtain ⟨⟨t, ht, hrec⟩, hout, -, -⟩ :=
      presentFrame_recreating_run maxFrames env l _ hcond
    constructor
    · intro heq
      have hof := recreateVulkanData_outcome env.recreate
        { submittedState env guard fence s with framebufferResized := false }
      rw [← hout] at hof
      simp only [] at heq
      rw [heq] at hof
      revert hof
      decide
    · simp only []
      rw [List.count_append, List.count_eq_zero.mpr hbefore, ht]
      have h0 : t.count Call.recreateVulkanData = 0 := by
        rw [List.count_eq_zero]
        intro hmem
        have := hrec _ hmem
        cases this
      simp [h0]

/-- C6 (amended), at a concrete input: no resize event is pending and the present call
reports the status `-4`. -/
theorem drawFrame_present_fatal_witness :
    (∃ info, Call.vkQueuePresentKHR info ∈
      (drawFrame MAX_FRAMES_IN_FLIGHT examplePresentError exampleStarted).trace) ∧
    exampleStarted.framebufferResized = false ∧
    (drawFrame MAX_FRAMES_IN_FLIGHT examplePresentError exampleStarted).outcome =
      Outcome.threw "failed to present swap chain image!" ∧
    Call.recreateVulkanData ∉
      (drawFrame MAX_FRAMES_IN_FLIGHT examplePresentError exampleStarted).trace :=
  ⟨⟨⟨[20], [0]⟩, by decide⟩, by decide,
    (drawFrame_present_fatal MAX_FRAMES_IN_FLIGHT examplePresentError exampleStarted
      ⟨⟨[20], [0]⟩, by decide⟩ (by decide)).1 (by decide)⟩

/-- C7 (as stated) fails: a resize event is pending, the present succeeds, the recreation
is entered once after it and finds the window zero-area; while it waits, `glfwWaitEvents`
delivers a framebuffer-size event, `framebufferResizeCallback` sets the flag again, and
`drawFrame` returns with `framebufferResized` set. -/
theorem drawFrame_resize_event_during_recreation :
    (framebufferResizeCallback exampleStarted).framebufferResized = true ∧
    (drawFrame MAX_FRAMES_IN_FLIGHT exampleResizeWhileWaiting
      (framebufferResizeCallback exampleStarted)).trace.take 18 =
      [Call.vkWaitForFences 21, Call.vkAcquireNextImageKHR 19, Call.updateUniformBuffers 0,
        Call.recordGuiCommandBuffer 0, Call.ImGui_Render, Call.vkBeginCommandBuffer 16,
        Call.vkCmdBeginRenderPass 16 RenderPass.imGuiRenderPass 7 ⟨800, 600⟩,
        Call.ImGui_ImplVulkan_RenderDrawData 16, Call.vkCmdEndRenderPass 16,
        Call.vkEndCommandBuffer 16, Call.vkResetFences 21,
        Call.vkQueueSubmit ⟨[19], [VK_PIPELINE_STAGE_COLOR_ATTACHMENT_OUTPUT_BIT], [13, 16],
          [20]⟩ 21,
        Call.vkQueuePresentKHR ⟨[20], [0]⟩, Call.recreateVulkanData,
        Call.glfwGetFramebufferSize, Call.glfwGetFramebufferSize, Call.glfwWaitEvents,
        Call.framebufferResizeCallback] ∧
    (drawFrame MAX_FRAMES_IN_FLIGHT exampleResizeWhileWaiting
      (framebufferResizeCallback exampleStarted)).trace.count Call.recreateVulkanData = 1 ∧
    (drawFrame MAX_FRAMES_IN_FLIGHT exampleResizeWhileWaiting
      (framebufferResizeCallback exampleStarted)).outcome = Outcome.returned ∧
    (drawFrame MAX_FRAMES_IN_FLIGHT exampleResizeWhileWaiting
      (framebufferResizeCallback exampleStarted)).app.framebufferResized = true := by
  decide

/-- C7 (amended). In a `drawFrame` call that reaches `vkQueuePresentKHR`: if the present
status is out-of-date or suboptimal or `framebufferResized` is set, `recreateVulkanData`
is entered right after the present call and nowhere else in the call, and when the call
ends `framebufferResized` is set exactly if a resize event was delivered while the
recreation waited for a window of non-zero area (it is cleared before the recreation
starts); otherwise `recreateVulkanData` is not entered and the flag stays cleared. -/
theorem drawFrame_recreates_after_present (maxFrames : Nat) (env : FrameEnv)
    (s : Application)
    (hpresent : ∃ info, Call.vkQueuePresentKHR info ∈ (drawFrame maxFrames env s).trace) :
    ((env.presentResult = VK_ERROR_OUT_OF_DATE_KHR ∨ env.presentResult = VK_SUBOPTIMAL_KHR ∨
        s.framebufferResized = true) →
      (∃ before info after,
        (drawFrame maxFrames env s).trace =
          before ++ Call.vkQueuePresentKHR info :: Call.recreateVulkanData :: after ∧
        Call.recreateVulkanData ∉ before ∧ Call.recreateVulkanData ∉ after) ∧
      (drawFrame maxFrames env s).app.framebufferResized =
        env.recreate.zeroAreaPolls.any id) ∧
    (¬ (env.presentResult = VK_ERROR_OUT_OF_DATE_KHR ∨ env.presentResult = VK_SUBOPTIMAL_KHR ∨
        s.framebufferResized = true) →
      Call.recreateVulkanData ∉ (drawFrame maxFrames env s).trace ∧
      (drawFrame maxFrames env s).app.framebufferResized = false) := by
  obtain ⟨fence, semaphore, guard, l, -, -, -, -, -, -, hdraw⟩ :=
    drawFrame_present_reached hpresent
  have hflag := (submittedState_fields env guard fence s).1
  have hbefore : Call.recreateVulkanData ∉
      preparationCalls env fence semaphore guard s ++ submitCalls l fence :=
    not_mem_before_present env fence semaphore guard l s _ rfl (by simp) (by simp)
  rw [hdraw, Run.mk_andThen]
  constructor
  · intro hc
    have hcond : env.presentResult = VK_ERROR_OUT_OF_DATE_KHR ∨
        env.presentResult = VK_SUBOPTIMAL_KHR ∨
        (submittedState env guard fence s).framebufferResized = true := by
      rw [hflag]; exact hc
    obtain ⟨⟨t, ht, hrec⟩, -, hresized, -⟩ :=
      presentFrame_recreating_run maxFrames env l _ hcond
    refine ⟨⟨preparationCalls env fence semaphore guard s ++ submitCalls l fence,
      ⟨l.signalSemaphores, [(submittedState env guard fence s).imageIndex]⟩, t, ?_, hbefore,
      ?_⟩, hresized⟩
    · simp only [ht]
    · intro hmem
      have := hrec _ hmem
      cases this
  · intro hc
    have hcond : ¬ (env.presentResult = VK_ERROR_OUT_OF_DATE_KHR ∨
        env.presentResult = VK_SUBOPTIMAL_KHR ∨
        (submittedState env guard fence s).framebufferResized = true) := by
      rw [hflag]; exact hc
    have hfalse : s.framebufferResized = false := by
      cases h : s.framebufferResized
      · rfl
      · exact absurd (Or.inr (Or.inr h)) hc
    by_cases hres : env.presentResult = VK_SUCCESS
    · rw [presentFrame_plain _ _ _ _ hcond hres]
      refine ⟨?_, hflag.trans hfalse⟩
      intro hmem
      rw [List.mem_append] at hmem
      rcases hmem with h | h
      · exact hbefore h
      · simp at h
    · rw [presentFrame_fatal _ _ _ _ hcond hres]
      refine ⟨?_, hflag.trans hfalse⟩
      intro hmem
      rw [List.mem_append] at hmem
      rcases hmem with h | h
      · exact hbefore h
      · simp at h

/-- C7 (amended), at a concrete input: a resize event is pending, the window is not
minimised, and the frame recreates once and returns with the flag cleared. -/
theorem drawFrame_recreates_after_present_witness :
    (∃ info, Call.vkQueuePresentKHR info ∈
      (drawFrame MAX_FRAMES_IN_FLIGHT (exampleFrame 0 3)
        (framebufferResizeCallback exampleStarted)).trace) ∧
    (framebufferResizeCallback exampleStarted).framebufferResized = true ∧
    (∃ before info after,
      (drawFrame MAX_FRAMES_IN_FLIGHT (exampleFrame 0 3)
        (framebufferResizeCallback exampleStarted)).trace =
        before ++ Call.vkQueuePresentKHR info :: Call.recreateVulkanData :: after ∧
      Call.recreateVulkanData ∉ before ∧ Call.recreateVulkanData ∉ after) ∧
    (drawFrame MAX_FRAMES_IN_FLIGHT (exampleFrame 0 3)
      (framebufferResizeCallback exampleStarted)).app.framebufferResized = false :=
  ⟨⟨⟨[20], [0]⟩, by decide⟩, by decide,
    (drawFrame_recreates_after_present MAX_FRAMES_IN_FLIGHT (exampleFrame 0 3)
      (framebufferResizeCallback exampleStarted) ⟨⟨[20], [0]⟩, by decide⟩).1
      (Or.inr (Or.inr (by decide)))⟩

/-- C8 (as stated) fails: the acquisition reports suboptimal, the present succeeds and no
resize event is pending; the frame submits and presents and enters no recreation. -/
theorem drawFrame_suboptimal_acquire_not_remembered :
    exampleSuboptimal.acquireResult = VK_SUBOPTIMAL_KHR ∧
    exampleSuboptimal.presentResult = VK_SUCCESS ∧
    exampleStarted.framebufferResized = false ∧
    Call.vkQueuePresentKHR ⟨[20], [0]⟩ ∈
      (drawFrame MAX_FRAMES_IN_FLIGHT exampleSuboptimal exampleStarted).trace ∧
    Call.recreateVulkanData ∉
      (drawFrame MAX_FRAMES_IN_FLIGHT exampleSuboptimal exampleStarted).trace ∧
    (drawFrame MAX_FRAMES_IN_FLIGHT exampleSuboptimal exampleStarted).outcome =
      Outcome.returned := by
  decide

/-- C8 (amended). A `drawFrame` call in which the acquisition reports suboptimal runs
exactly as it does when the acquisition reports success (so it goes on to the submission
and the present in the same cases), and when it reaches the present call the recreation
is entered exactly if the present status is out-of-date or suboptimal or a resize event
is pending: the status of the acquisition is not remembered. -/
theorem drawFrame_acquire_suboptimal (maxFrames : Nat) (env : FrameEnv) (s : Application)
    (hres : env.acquireResult = VK_SUBOPTIMAL_KHR) :
    drawFrame maxFrames env s =
      drawFrame maxFrames { env with acquireResult := VK_SUCCESS } s ∧
    ((∃ info, Call.vkQueuePresentKHR info ∈ (drawFrame maxFrames env s).trace) →
      (Call.recreateVulkanData ∈ (drawFrame maxFrames env s).trace ↔
        (env.presentResult = VK_ERROR_OUT_OF_DATE_KHR ∨
          env.presentResult = VK_SUBOPTIMAL_KHR ∨ s.framebufferResized = true))) := by
  refine ⟨?_, fun hpresent => drawFrame_recreation_iff hpresent⟩
  have hsame : ∀ s', renderAcquiredImage maxFrames { env with acquireResult := VK_SUCCESS } s'
      = renderAcquiredImage maxFrames env s' := fun _ => rfl
  have hwait : waitAndAcquire { env with acquireResult := VK_SUCCESS } s = waitAndAcquire env s :=
    rfl
  unfold drawFrame
  rw [hwait]
  congr 1
  funext s'
  simp only [hres, hsame]
  rw [if_neg (by decide), if_neg (by decide), if_neg (by decide), if_neg (by decide)]

/-- C8 (amended), at a concrete input: the acquisition reports suboptimal and the frame
is the one drawn after a successful acquisition. -/
theorem drawFrame_acquire_suboptimal_witness :
    exampleSuboptimal.acquireResult = VK_SUBOPTIMAL_KHR ∧
    drawFrame MAX_FRAMES_IN_FLIGHT exampleSuboptimal exampleStarted =
      drawFrame MAX_FRAMES_IN_FLIGHT { exampleSuboptimal with acquireResult := VK_SUCCESS }
        exampleStarted :=
  ⟨by decide,
    (drawFrame_acquire_suboptimal MAX_FRAMES_IN_FLIGHT exampleSuboptimal exampleStarted
      (by decide)).1⟩

/-- C9. In a `drawFrame` call that makes the acquire call, the acquire error is raised
if and only if the status is none of success, suboptimal and out-of-date; and when it is
raised, the call has entered no recreation, made no submission and no present, and
`imagesInFlight` and `currentFrame` are as they were. -/
theorem drawFrame_acquire_fatal (maxFrames : Nat) (env : FrameEnv) (s : Application)
    (hcall : ∃ semaphore,
      Call.vkAcquireNextImageKHR semaphore ∈ (drawFrame maxFrames env s).trace) :
    ((drawFrame maxFrames env s).outcome =
        Outcome.threw "failed to acquire swap chain image!" ↔
      (env.acquireResult ≠ VK_SUCCESS ∧ env.acquireResult ≠ VK_SUBOPTIMAL_KHR ∧
        env.acquireResult ≠ VK_ERROR_OUT_OF_DATE_KHR)) ∧
    ((drawFrame maxFrames env s).outcome =
        Outcome.threw "failed to acquire swap chain image!" →
      Call.recreateVulkanData ∉ (drawFrame maxFrames env s).trace ∧
      (∀ info fence, Call.vkQueueSubmit info fence ∉ (drawFrame maxFrames env s).trace) ∧
      (∀ info, Call.vkQueuePresentKHR info ∉ (drawFrame maxFrames env s).trace) ∧
      (drawFrame maxFrames env s).app.imagesInFlight = s.imagesInFlight ∧
      (drawFrame maxFrames env s).app.currentFrame = s.currentFrame) := by
  have hother : (drawFrame maxFrames env s).outcome ≠
        Outcome.threw "failed to acquire swap chain image!" →
      ¬ (env.acquireResult ≠ VK_SUCCESS ∧ env.acquireResult ≠ VK_SUBOPTIMAL_KHR ∧
        env.acquireResult ≠ VK_ERROR_OUT_OF_DATE_KHR) →
      ((drawFrame maxFrames env s).outcome =
          Outcome.threw "failed to acquire swap chain image!" ↔
        (env.acquireResult ≠ VK_SUCCESS ∧ env.acquireResult ≠ VK_SUBOPTIMAL_KHR ∧
          env.acquireResult ≠ VK_ERROR_OUT_OF_DATE_KHR)) ∧
      ((drawFrame maxFrames env s).outcome =
          Outcome.threw "failed to acquire swap chain image!" →
        Call.recreateVulkanData ∉ (drawFrame maxFrames env s).trace ∧
        (∀ info fence, Call.vkQueueSubmit info fence ∉ (drawFrame maxFrames env s).trace) ∧
        (∀ info, Call.vkQueuePresentKHR info ∉ (drawFrame maxFrames env s).trace) ∧
        (drawFrame maxFrames env s).app.imagesInFlight = s.imagesInFlight ∧
        (drawFrame maxFrames env s).app.currentFrame = s.currentFrame) :=
    fun hne hnf => ⟨⟨fun h => absurd h hne, fun h => absurd h hnf⟩, fun h => absurd h hne⟩
  have hnotok : (env.acquireResult = VK_SUCCESS ∨ env.acquireResult = VK_SUBOPTIMAL_KHR) →
      ¬ (env.acquireResult ≠ VK_SUCCESS ∧ env.acquireResult ≠ VK_SUBOPTIMAL_KHR ∧
        env.acquireResult ≠ VK_ERROR_OUT_OF_DATE_KHR) := by
    rintro (h | h) ⟨h1, h2, -⟩
    · exact h1 h
    · exact h2 h
  rcases drawFrame_cases maxFrames env s with ⟨-, htr⟩ |
    ⟨fence, semaphore, -, -, hood, hdraw⟩ | ⟨fence, semaphore, -, -, hfatal, hdraw⟩ |
    ⟨fence, semaphore, t, -, -, hok, hstop, -, -⟩ |
    ⟨fence, semaphore, guard, l, -, -, hok, -, -, -, hdraw⟩ |
    ⟨fence, semaphore, guard, l, -, -, hok, -, -, -, hdraw⟩
  · exfalso
    obtain ⟨semaphore, hmem⟩ := hcall
    obtain ⟨f, hc⟩ := htr _ hmem
    cases hc
  · apply hother
    · rw [hdraw, Run.mk_andThen]
      intro heq
      have hof := recreateVulkanData_outcome env.recreate (acquiredState env fence s)
      simp only [] at heq
      rw [heq] at hof
      revert hof
      decide
    · rintro ⟨-, -, h⟩
      exact h hood
  · rw [hdraw]
    refine ⟨⟨fun _ => ⟨hfatal.2.1, hfatal.2.2, hfatal.1⟩, fun _ => rfl⟩, fun _ => ?_⟩
    refine ⟨by simp, by simp, by simp, rfl, rfl⟩
  · apply hother _ (hnotok hok)
    intro heq
    rw [heq] at hstop
    rcases hstop with ⟨access, ha⟩ | ha
    · cases ha
    · revert ha
      decide
  · apply hother _ (hnotok hok)
    rw [hdraw]
    intro heq
    simp only [] at heq
    revert heq
    decide
  · apply hother _ (hnotok hok)
    rw [hdraw, Run.mk_andThen]
    intro heq
    simp only [] at heq
    rcases presentFrame_outcome maxFrames env l (submittedState env guard fence s) with h | h
    · rw [heq] at h
      revert h
      decide
    · rw [heq] at h
      revert h
      decide

/-- C9 at a concrete input: the acquisition reports the status `-4`. -/
theorem drawFrame_acquire_fatal_witness :
    (∃ semaphore, Call.vkAcquireNextImageKHR semaphore ∈
      (drawFrame MAX_FRAMES_IN_FLIGHT exampleAcquireError exampleStarted).trace) ∧
    (drawFrame MAX_FRAMES_IN_FLIGHT exampleAcquireError exampleStarted).outcome =
      Outcome.threw "failed to acquire swap chain image!" :=
  ⟨⟨19, by decide⟩,
    (drawFrame_acquire_fatal MAX_FRAMES_IN_FLIGHT exampleAcquireError exampleStarted
      ⟨19, by decide⟩).1.mpr (by decide)⟩

/-- C10. In a `drawFrame` call that makes the acquire call, gets a usable status and the
image index `i`, and whose marker `imagesInFlight[i]` is `guard`: the calls up to the
uniform update are the wait on the fence of the frame slot, the acquisition, one wait on
`guard` when `guard` is not `VK_NULL_HANDLE` and no call when it is, and
`updateUniformBuffers(i)`; when the update is called, and still when the frame ends,
`imagesInFlight` is the old vector with entry `i` replaced by the fence of the frame slot.
Consequently a next frame that acquires the same index waits on that fence before it
updates the uniforms. -/
theorem drawFrame_waits_for_image_fence (maxFrames : Nat) (env : FrameEnv) (s : Application)
    (guard : Handle)
    (hcall : ∃ semaphore,
      Call.vkAcquireNextImageKHR semaphore ∈ (drawFrame maxFrames env s).trace)
    (hok : env.acquireResult = VK_SUCCESS ∨ env.acquireResult = VK_SUBOPTIMAL_KHR)
    (hguard : s.imagesInFlight[env.acquiredIndex]? = some guard) :
    ∃ fence semaphore,
      s.inFlightFences[s.currentFrame]? = some fence ∧
      (∃ rest, (drawFrame maxFrames env s).trace =
        [Call.vkWaitForFences fence, Call.vkAcquireNextImageKHR semaphore] ++
          (if guard ≠ VK_NULL_HANDLE then [Call.vkWaitForFences guard] else []) ++
          Call.updateUniformBuffers env.acquiredIndex :: rest) ∧
      (markImageInFlight (waitAndAcquire env s).app).app.imagesInFlight =
        s.imagesInFlight.set env.acquiredIndex fence ∧
      (drawFrame maxFrames env s).app.imagesInFlight =
        s.imagesInFlight.set env.acquiredIndex fence ∧
      (∀ next : FrameEnv,
        next.acquiredIndex = env.acquiredIndex →
        fence ≠ VK_NULL_HANDLE →
        (∃ semaphore', Call.vkAcquireNextImageKHR semaphore' ∈
          (drawFrame maxFrames next (drawFrame maxFrames env s).app).trace) →
        (next.acquireResult = VK_SUCCESS ∨ next.acquireResult = VK_SUBOPTIMAL_KHR) →
        ∃ fence' semaphore' rest',
          (drawFrame maxFrames next (drawFrame maxFrames env s).app).trace =
            [Call.vkWaitForFences fence', Call.vkAcquireNextImageKHR semaphore',
              Call.vkWaitForFences fence, Call.updateUniformBuffers env.acquiredIndex]
              ++ rest') := by
  obtain ⟨fence, semaphore, hf, htrace, hmark, hfinal⟩ := drawFrame_of_marker hcall hok hguard
  refine ⟨fence, semaphore, hf, htrace, hmark, hfinal, ?_⟩
  intro next hindex hvalid hcall' hok'
  have hlt : env.acquiredIndex < s.imagesInFlight.length := by
    rw [List.getElem?_eq_some_iff] at hguard
    exact hguard.1
  have hguard' : (drawFrame maxFrames env s).app.imagesInFlight[next.acquiredIndex]?
      = some fence := by
    rw [hfinal, hindex]
    exact List.getElem?_set_self hlt
  obtain ⟨fence', semaphore', -, ⟨rest', htrace'⟩, -, -⟩ :=
    drawFrame_of_marker hcall' hok' hguard'
  refine ⟨fence', semaphore', rest', ?_⟩
  rw [htrace', hindex]
  simp [guardWait, hvalid]

/-- C10 at a concrete input: the first frame drew on image 0 with the fence 21 of slot 0,
and the second frame (slot 1, fence 24) acquires image 0 again. -/
theorem drawFrame_waits_for_image_fence_witness :
    (∃ semaphore, Call.vkAcquireNextImageKHR semaphore ∈
      (drawFrame MAX_FRAMES_IN_FLIGHT (exampleFrame 0 3) exampleFirstFrame).trace) ∧
    exampleFirstFrame.imagesInFlight[(exampleFrame 0 3).acquiredIndex]? = some 21 ∧
    ∃ fence semaphore,
      exampleFirstFrame.inFlightFences[exampleFirstFrame.currentFrame]? = some fence ∧
      ∃ rest, (drawFrame MAX_FRAMES_IN_FLIGHT (exampleFrame 0 3) exampleFirstFrame).trace =
        [Call.vkWaitForFences fence, Call.vkAcquireNextImageKHR semaphore] ++
          (if (21 : Handle) ≠ VK_NULL_HANDLE then [Call.vkWaitForFences 21] else []) ++
          Call.updateUniformBuffers (exampleFrame 0 3).acquiredIndex :: rest :=
  have h := drawFrame_waits_for_image_fence MAX_FRAMES_IN_FLIGHT (exampleFrame 0 3)
    exampleFirstFrame 21 ⟨22, by decide⟩ (Or.inl rfl) (by decide)
  ⟨⟨22, by decide⟩, by decide,
    h.imp fun _ hfence => hfence.imp fun _ hsem => ⟨hsem.1, hsem.2.1⟩⟩

/-- C11 (the code at the failing input). Start-up with three images and two frame slots
leaves two render-finished semaphores and the resize flag unset. In ten frames in which
every driver call returns `VK_SUCCESS`, no resize event arrives and the acquired indices
are 0, 1, 2, 0, 1, 2, ..., the first two calls of `drawFrame` return and present, and the
third, which acquires image 2, reads `renderFinishedSemaphores[2]` out of range: the run
ends there with two `vkQueuePresentKHR` calls instead of ten. -/
theorem drawFrames_third_image_out_of_range :
    exampleStarted.images.length = 3 ∧
    exampleStarted.renderFinishedSemaphores.length = MAX_FRAMES_IN_FLIGHT ∧
    exampleStarted.framebufferResized = false ∧
    exampleTenFrames.length = 10 ∧
    (∀ env ∈ exampleTenFrames, env.acquireResult = VK_SUCCESS ∧
      env.presentResult = VK_SUCCESS ∧ env.submitResult = VK_SUCCESS ∧
      env.acquiredIndex < 3) ∧
    (drawFrames MAX_FRAMES_IN_FLIGHT (exampleTenFrames.take 2) exampleStarted).outcome =
      Outcome.returned ∧
    (drawFrames MAX_FRAMES_IN_FLIGHT exampleTenFrames exampleStarted).outcome =
      Outcome.outOfRange "renderFinishedSemaphores[imageIndex]" ∧
    (drawFrames MAX_FRAMES_IN_FLIGHT exampleTenFrames exampleStarted).trace.countP
      Call.isPresent = 2 := by
  decide

/-- C12. For every number `maxFrames` of frame slots other than zero: the frame slot
`currentFrame` is below `maxFrames` in every state the application reaches; a call of
`drawFrame` from a state with `currentFrame < maxFrames` ends, however it ends, in a state
with `currentFrame < maxFrames`; and a call that issues `vkQueuePresentKHR` and returns,
with or without a recreation after the present, leaves
`currentFrame = (old currentFrame + 1) mod maxFrames`. -/
theorem drawFrame_currentFrame_invariant (maxFrames : Nat) (hpos : 0 < maxFrames)
    (env : FrameEnv) (s : Application) :
    (Reachable maxFrames s → s.currentFrame < maxFrames) ∧
    (s.currentFrame < maxFrames →
      (drawFrame maxFrames env s).app.currentFrame < maxFrames) ∧
    (∀ info, (drawFrame maxFrames env s).outcome = Outcome.returned →
      Call.vkQueuePresentKHR info ∈ (drawFrame maxFrames env s).trace →
      (drawFrame maxFrames env s).app.currentFrame = (s.currentFrame + 1) % maxFrames) :=
  ⟨fun h => h.currentFrame_lt hpos, drawFrame_currentFrame_lt maxFrames env s,
    fun _ hret hpresent => drawFrame_advances hret hpresent⟩

theorem drawFrame_currentFrame_invariant_witness :
    (drawFrame MAX_FRAMES_IN_FLIGHT (exampleFrame 1 3) exampleStarted).outcome =
      Outcome.returned ∧
    Call.vkQueuePresentKHR ⟨[23], [1]⟩ ∈
      (drawFrame MAX_FRAMES_IN_FLIGHT (exampleFrame 1 3) exampleStarted).trace ∧
    (drawFrame MAX_FRAMES_IN_FLIGHT (exampleFrame 1 3) exampleStarted).app.currentFrame =
      (exampleStarted.currentFrame + 1) % MAX_FRAMES_IN_FLIGHT :=
  ⟨by decide, by decide,
    (drawFrame_currentFrame_invariant MAX_FRAMES_IN_FLIGHT (by decide) (exampleFrame 1 3)
      exampleStarted).2.2 ⟨[23], [1]⟩ (by decide) (by decide)⟩

/-- C13. In every call of `drawFrame` that issues `vkQueuePresentKHR`, the present request
names exactly the image index acquired in this call and waits on exactly one semaphore;
the `vkQueueSubmit` of this call comes right before the present call and was told to
signal that same semaphore; and the call issues no other submit and no other present. -/
theorem drawFrame_presents_submitted_image (maxFrames : Nat) (env : FrameEnv)
    (s : Application) (info : VkPresentInfoKHR)
    (h : Call.vkQueuePresentKHR info ∈ (drawFrame maxFrames env s).trace) :
    info.pImageIndices = [env.acquiredIndex] ∧
    ∃ semaphore submitInfo fence before after,
      info.pWaitSemaphores = [semaphore] ∧
      submitInfo.pSignalSemaphores = [semaphore] ∧
      (drawFrame maxFrames env s).trace =
        before ++ Call.vkQueueSubmit submitInfo fence :: Call.vkQueuePresentKHR info :: after ∧
      (∀ c ∈ before ++ after, c.isPresent = false ∧ ∀ i f, c ≠ Call.vkQueueSubmit i f) := by
  obtain ⟨fence, semaphore, guard, l, _, _, _, _, hl, _, hdraw⟩ :=
    drawFrame_present_reached ⟨info, h⟩
  obtain ⟨render, gui, available, finished, _, _, _, _, hlocals⟩ := submitLocals_ok hl
  obtain ⟨t, ht, hrest⟩ := presentFrame_trace maxFrames env l (submittedState env guard fence s)
  have hidx := (submittedState_fields env guard fence s).2.2.1
  have hafter : ∀ c ∈ t, c.isPresent = false ∧ ∀ i f, c ≠ Call.vkQueueSubmit i f := by
    intro c hc
    rcases hrest with h0 | ⟨t', ht', hrec⟩
    · rw [h0] at hc; cases hc
    · rw [ht'] at hc
      rcases List.mem_cons.mp hc with h1 | h1
      · subst h1
        exact ⟨rfl, fun _ _ h2 => by cases h2⟩
      · have h2 := hrec c h1
        constructor
        · cases c <;> first | rfl | (simp [Call.inRecreation] at h2)
        · intro i f h3
          subst h3
          simp [Call.inRecreation] at h2
  have hbefore : ∀ c ∈ preparationCalls env fence semaphore guard s ++ [Call.vkResetFences fence],
      c.isPresent = false ∧ ∀ i f, c ≠ Call.vkQueueSubmit i f := by
    intro c hc
    rcases List.mem_append.mp hc with h1 | h1
    · have h2 := preparationCalls_inPreparation env fence semaphore guard s c h1
      constructor
      · cases c <;> first | rfl | (simp [Call.inPreparation] at h2)
      · intro i f h3
        subst h3
        simp [Call.inPreparation] at h2
    · rw [List.mem_singleton.mp h1]
      exact ⟨rfl, fun _ _ h2 => by cases h2⟩
  have htrace : (drawFrame maxFrames env s).trace =
      (preparationCalls env fence semaphore guard s ++ [Call.vkResetFences fence]) ++
        Call.vkQueueSubmit
          ⟨l.waitSemaphores, l.waitStages, l.submitCommandBuffers, l.signalSemaphores⟩ fence ::
        Call.vkQueuePresentKHR ⟨l.signalSemaphores, [env.acquiredIndex]⟩ :: t := by
    rw [hdraw, Run.mk_andThen]
    simp only [ht, hidx, submitCalls, List.append_assoc, List.cons_append, List.nil_append]
  have hinfo : info = ⟨l.signalSemaphores, [env.acquiredIndex]⟩ := by
    rw [htrace] at h
    rcases List.mem_append.mp h with h1 | h1
    · have h2 := (hbefore _ h1).1
      simp [Call.isPresent] at h2
    · rcases List.mem_cons.mp h1 with h2 | h2
      · cases h2
      · rcases List.mem_cons.mp h2 with h3 | h3
        · cases h3; rfl
        · have h4 := (hafter _ h3).1
          simp [Call.isPresent] at h4
  subst hinfo
  refine ⟨rfl, finished, _, fence, _, t, ?_, ?_, htrace, ?_⟩
  · rw [hlocals]
  · rw [hlocals]
  · intro c hc
    rcases List.mem_append.mp hc with h1 | h1
    · exact hbefore c h1
    · exact hafter c h1

theorem drawFrame_presents_submitted_image_witness :
    (drawFrame MAX_FRAMES_IN_FLIGHT (exampleFrame 1 3) exampleStarted).trace.countP
      Call.isPresent = 1 ∧
    (⟨[23], [1]⟩ : VkPresentInfoKHR).pImageIndices = [(exampleFrame 1 3).acquiredIndex] :=
  ⟨by decide,
    (drawFrame_presents_submitted_image MAX_FRAMES_IN_FLIGHT (exampleFrame 1 3) exampleStarted
      ⟨[23], [1]⟩ (by decide)).1⟩

/-- C14. Every execution of `recreateVulkanData`, however it ends, leaves the vectors
`imageAvailableSemaphores`, `renderFinishedSemaphores` and `inFlightFences` (their handles,
hence their lengths) and `currentFrame` as they were, and issues no call that creates or
destroys a semaphore or a fence. -/
theorem recreateVulkanData_keeps_sync_objects (env : CreationEnv) (s : Application) :
    (recreateVulkanData env s).app.imageAvailableSemaphores = s.imageAvailableSemaphores ∧
    (recreateVulkanData env s).app.renderFinishedSemaphores = s.renderFinishedSemaphores ∧
    (recreateVulkanData env s).app.inFlightFences = s.inFlightFences ∧
    (recreateVulkanData env s).app.currentFrame = s.currentFrame ∧
    ∀ c ∈ (recreateVulkanData env s).trace,
      c ≠ Call.startup StartupCall.createSyncObjects ∧
      c ≠ Call.startup StartupCall.vkCreateSemaphore ∧
      c ≠ Call.startup StartupCall.vkCreateFence ∧
      (∀ semaphore, c ≠ Call.lifecycle (LifecycleCall.vkDestroySemaphore semaphore)) ∧
      (∀ fence, c ≠ Call.lifecycle (LifecycleCall.vkDestroyFence fence)) := by
  have hkept := recreateVulkanData_kept env s
  simp only [Application.kept, Prod.mk.injEq] at hkept
  refine ⟨hkept.1, hkept.2.1, hkept.2.2.1, hkept.2.2.2.2.1, ?_⟩
  obtain ⟨t, ht, hrec⟩ := recreateVulkanData_trace env s
  intro c hc
  rw [ht] at hc
  have hcases : c = Call.recreateVulkanData ∨ c.inRecreation = true := by
    rcases List.mem_append.mp hc with h1 | h1
    · exact Or.inl (List.mem_singleton.mp h1)
    · exact Or.inr (hrec c h1)
  refine ⟨?_, ?_, ?_, ?_, ?_⟩
  · rintro rfl; rcases hcases with h1 | h1 <;> cases h1
  · rintro rfl; rcases hcases with h1 | h1 <;> cases h1
  · rintro rfl; rcases hcases with h1 | h1 <;> cases h1
  · rintro semaphore rfl; rcases hcases with h1 | h1 <;> cases h1
  · rintro fence rfl; rcases hcases with h1 | h1 <;> cases h1

/-- C15. Every execution of `recreateVulkanData`, however it ends: the call of
`vkDeviceWaitIdle` is preceded only by the entry into the function and the polls of the
window size, hence by no call that frees, destroys or creates; right after it the command
buffers of the render pool and of the GUI pool are freed, then the uniform buffer, the
G-buffer, the framebuffer data and the swap chain are destroyed, in this order; these are
all the releases of the run, so every creation call comes after the last destruction. The
run then creates swap chain, framebuffer data, G-buffer and uniform buffer in this order as
far as it gets, and all four if it returns; `initVulkan` creates them in the same order;
and the order of destruction is the reverse of that order. -/
theorem recreateVulkanData_release_order (maxFrames : Nat) (initEnv : InitEnv)
    (start : Application) (env : CreationEnv) (s : Application) :
    (∃ before after,
      (recreateVulkanData env s).trace =
        before ++
          [Call.vkDeviceWaitIdle,
           Call.vkFreeCommandBuffers CommandPool.renderCommandPool s.renderCommandBuffers,
           Call.vkFreeCommandBuffers CommandPool.imGuiCommandPool s.imGuiCommandBuffers,
           Call.cleanupBufferData BufferMember.uniforms, Call.cleanupGBuffer,
           Call.cleanupFrambufferData, Call.cleanupSwapChain] ++ after ∧
      (∀ c ∈ before, c = Call.recreateVulkanData ∨ c = Call.glfwGetFramebufferSize ∨
        c = Call.glfwWaitEvents ∨ c = Call.framebufferResizeCallback) ∧
      (∀ c ∈ after, c.releases = none) ∧
      (∃ rest, swapChainCreationOrder = createdSwapChainData after ++ rest) ∧
      ((recreateVulkanData env s).outcome = Outcome.returned →
        createdSwapChainData after = swapChainCreationOrder)) ∧
    ((recreateVulkanData env s).trace.filterMap Call.releases).filter
        Resource.swapChainDependent = swapChainCreationOrder.reverse ∧
    (∃ rest, swapChainCreationOrder =
      createdSwapChainData (initVulkan maxFrames initEnv start).trace ++ rest) ∧
    ((initVulkan maxFrames initEnv start).outcome = Outcome.returned →
      createdSwapChainData (initVulkan maxFrames initEnv start).trace =
        swapChainCreationOrder) := by
  have hcalls := createSwapChainData_calls env (idleState env s)
  have hcreated := createSwapChainData_created env (idleState env s)
  have hinit := initVulkan_created maxFrames initEnv start
  have hprefix : ∀ r : Run, CreatedInOrder swapChainCreationOrder 4 r →
      ∃ rest, swapChainCreationOrder = createdSwapChainData r.trace ++ rest := by
    intro r h
    obtain ⟨j, _, hj⟩ := h.2
    exact ⟨swapChainCreationOrder.drop j, by rw [hj, List.take_append_drop]⟩
  have hbefore := prologue_calls env s
  refine ⟨⟨[Call.recreateVulkanData, Call.glfwGetFramebufferSize] ++
      (zeroAreaLoop env.zeroAreaPolls s).trace,
      (createSwapChainData env (idleState env s)).trace, ?_, hbefore,
      fun c hc => (hcalls c hc).1, hprefix _ hcreated, ?_⟩, ?_, hprefix _ hinit, hinit.1⟩
  · rw [recreateVulkanData_eq]
    rfl
  · intro hret
    rw [recreateVulkanData_eq] at hret
    exact hcreated.1 hret
  · rw [recreateVulkanData_eq]
    simp only [List.filterMap_append, List.filter_append]
    have h1 : (zeroAreaLoop env.zeroAreaPolls s).trace.filterMap Call.releases = [] := by
      rw [List.filterMap_eq_nil_iff]
      intro c hc
      rcases zeroAreaLoop_calls _ _ c hc with rfl | rfl | rfl <;> rfl
    have h2 : (createSwapChainData env (idleState env s)).trace.filterMap Call.releases
        = [] := by
      rw [List.filterMap_eq_nil_iff]
      exact fun c hc => (hcalls c hc).1
    rw [h1, h2]
    rfl

theorem recreateVulkanData_release_order_witness :
    (recreateVulkanData (exampleCreation 3) exampleStarted).outcome = Outcome.returned ∧
    createdSwapChainData
        (initVulkan MAX_FRAMES_IN_FLIGHT (exampleInit 3) Application.initial).trace =
      swapChainCreationOrder :=
  ⟨by decide,
    (recreateVulkanData_release_order MAX_FRAMES_IN_FLIGHT (exampleInit 3) Application.initial
      (exampleCreation 3) exampleStarted).2.2.2 (by decide)⟩

/-- C16. When `initVulkan` returns, and when `recreateVulkanData` returns, its trace is in
two parts: the first holds the allocation of one descriptor set per image of the (new)
swap chain and of one command buffer per framebuffer from each of the two pools, and no
entry into `recordGeometryCommandBuffer`; in the second, `recordGeometryCommandBuffer` is
entered with the indices `0, 1, ..., images.size() - 1` in this order, each once, and with
no other index. -/
theorem recordGeometry_once_per_image (maxFrames : Nat) (initEnv : InitEnv)
    (start : Application) (env : CreationEnv) (s : Application) :
    ((initVulkan maxFrames initEnv start).outcome = Outcome.returned →
      ∃ before after,
        (initVulkan maxFrames initEnv start).trace = before ++ after ∧
        before.filterMap Call.recordedIndex = [] ∧
        Call.vkAllocateDescriptorSets
          (initVulkan maxFrames initEnv start).app.images.length ∈ before ∧
        Call.vkAllocateCommandBuffers CommandPool.renderCommandPool
          (initVulkan maxFrames initEnv start).app.framebuffers.length ∈ before ∧
        Call.vkAllocateCommandBuffers CommandPool.imGuiCommandPool
          (initVulkan maxFrames initEnv start).app.framebuffers.length ∈ before ∧
        after.filterMap Call.recordedIndex =
          List.range (initVulkan maxFrames initEnv start).app.images.length) ∧
    ((recreateVulkanData env s).outcome = Outcome.returned →
      ∃ before after,
        (recreateVulkanData env s).trace = before ++ after ∧
        before.filterMap Call.recordedIndex = [] ∧
        Call.vkAllocateDescriptorSets (recreateVulkanData env s).app.images.length ∈ before ∧
        Call.vkAllocateCommandBuffers CommandPool.renderCommandPool
          (recreateVulkanData env s).app.framebuffers.length ∈ before ∧
        Call.vkAllocateCommandBuffers CommandPool.imGuiCommandPool
          (recreateVulkanData env s).app.framebuffers.length ∈ before ∧
        after.filterMap Call.recordedIndex =
          List.range (recreateVulkanData env s).app.images.length) := by
  constructor
  · intro hret
    obtain ⟨before, after, ht, ⟨h0, h1, h2, h3⟩, hafter⟩ :=
      initVulkan_recorded maxFrames initEnv start hret
    exact ⟨before, after, ht, h0, h1 rfl, h2 rfl, h3 rfl, hafter⟩
  · intro hret
    obtain ⟨before, after, ht, ⟨h0, h1, h2, h3⟩, hafter⟩ :=
      recreateVulkanData_recorded env s hret
    exact ⟨before, after, ht, h0, h1 rfl, h2 rfl, h3 rfl, hafter⟩

theorem recordGeometry_once_per_image_witness :
    (recreateVulkanData (exampleCreation 3) exampleStarted).app.images.length = 3 ∧
    ∃ before after,
      (recreateVulkanData (exampleCreation 3) exampleStarted).trace = before ++ after ∧
      before.filterMap Call.recordedIndex = [] ∧
      Call.vkAllocateDescriptorSets
        (recreateVulkanData (exampleCreation 3) exampleStarted).app.images.length ∈ before ∧
      Call.vkAllocateCommandBuffers CommandPool.renderCommandPool
        (recreateVulkanData (exampleCreation 3) exampleStarted).app.framebuffers.length
          ∈ before ∧
      Call.vkAllocateCommandBuffers CommandPool.imGuiCommandPool
        (recreateVulkanData (exampleCreation 3) exampleStarted).app.framebuffers.length
          ∈ before ∧
      after.filterMap Call.recordedIndex =
        List.range (recreateVulkanData (exampleCreation 3) exampleStarted).app.images.length :=
  ⟨by decide,
    (recordGeometry_once_per_image MAX_FRAMES_IN_FLIGHT (exampleInit 3) Application.initial
      (exampleCreation 3) exampleStarted).2 (by decide)⟩

/-- C17. Let `recreateVulkanData` run twice in succession and return both times, the
second time with the surface capabilities, surface formats, present modes and window
framebuffer size of the first. Then each run requests a swap chain, every request of the
second run carries the same `createInfo` as every request of the first (in particular the
same image count `minImageCount` and the same extent), the image count requested is the
one computed from the capabilities, and `swapChain.extent` after the second run is what it
was after the first. -/
theorem recreateVulkanData_twice_same_negotiation (env1 env2 : CreationEnv)
    (s : Application) (hsurface : env2.surface = env1.surface)
    (hwindow : env2.windowSize = env1.windowSize)
    (h1 : (recreateVulkanData env1 s).outcome = Outcome.returned)
    (h2 : (recreateVulkanData env2 (recreateVulkanData env1 s).app).outcome =
      Outcome.returned) :
    (∃ info, Call.vkCreateSwapchainKHR info ∈ (recreateVulkanData env1 s).trace ∧
      Call.vkCreateSwapchainKHR info ∈
        (recreateVulkanData env2 (recreateVulkanData env1 s).app).trace ∧
      info.minImageCount = requestedImageCount env1.surface.capabilities ∧
      info.imageExtent = chooseSwapExtent env1.surface.capabilities env1.windowSize) ∧
    (∀ info1 info2, Call.vkCreateSwapchainKHR info1 ∈ (recreateVulkanData env1 s).trace →
      Call.vkCreateSwapchainKHR info2 ∈
        (recreateVulkanData env2 (recreateVulkanData env1 s).app).trace →
      info2 = info1) ∧
    (recreateVulkanData env2 (recreateVulkanData env1 s).app).app.extent =
      (recreateVulkanData env1 s).app.extent ∧
    (recreateVulkanData env1 s).app.extent =
      chooseSwapExtent env1.surface.capabilities env1.windowSize := by
  have hinfo : ∀ surfaceFormat,
      swapchainCreateInfo env2 surfaceFormat = swapchainCreateInfo env1 surfaceFormat := by
    intro surfaceFormat
    simp only [swapchainCreateInfo, hsurface, hwindow]
  have hsame : ∀ info1 info2,
      Call.vkCreateSwapchainKHR info1 ∈ (recreateVulkanData env1 s).trace →
      Call.vkCreateSwapchainKHR info2 ∈
        (recreateVulkanData env2 (recreateVulkanData env1 s).app).trace →
      info2 = info1 := by
    intro info1 info2 hm1 hm2
    obtain ⟨f1, hf1, e1⟩ := recreateVulkanData_request env1 s info1 hm1
    obtain ⟨f2, hf2, e2⟩ := recreateVulkanData_request env2 _ info2 hm2
    rw [hsurface, hf1] at hf2
    cases hf2
    rw [e1, e2, hinfo]
  have hext1 := (recreateVulkanData_returned_lengths env1 s h1).1.1.2
  have hext2 := (recreateVulkanData_returned_lengths env2 _ h2).1.1.2
  refine ⟨?_, hsame, ?_, hext1⟩
  · have hr1 := h1
    have hr2 := h2
    rw [recreateVulkanData_eq] at hr1 hr2
    obtain ⟨f1, hf1, hm1⟩ := createSwapChainData_requested env1 _ hr1
    obtain ⟨f2, hf2, hm2⟩ := createSwapChainData_requested env2 _ hr2
    have hm1' : Call.vkCreateSwapchainKHR (swapchainCreateInfo env1 f1) ∈
        (recreateVulkanData env1 s).trace := by
      rw [recreateVulkanData_eq]
      exact List.mem_append_right _ hm1
    have hm2' : Call.vkCreateSwapchainKHR (swapchainCreateInfo env2 f2) ∈
        (recreateVulkanData env2 (recreateVulkanData env1 s).app).trace := by
      rw [recreateVulkanData_eq]
      exact List.mem_append_right _ hm2
    rw [hsame _ _ hm1' hm2'] at hm2'
    exact ⟨_, hm1', hm2', rfl, rfl⟩
  · rw [hext2, hext1, hsurface, hwindow]

theorem recreateVulkanData_twice_same_negotiation_witness :
    (recreateVulkanData (exampleCreation 3)
        (recreateVulkanData (exampleCreation 3) exampleStarted).app).app.extent =
      (recreateVulkanData (exampleCreation 3) exampleStarted).app.extent ∧
    (recreateVulkanData (exampleCreation 3) exampleStarted).app.extent = ⟨800, 600⟩ :=
  ⟨(recreateVulkanData_twice_same_negotiation (exampleCreation 3) (exampleCreation 3)
      exampleStarted rfl rfl (by decide) (by decide)).2.2.1, by decide⟩

/-- C18 (counterexample). A run with three images in which one frame is drawn and the
window is then closed returns. `initVulkan` creates descriptor set layout, command pools,
swap chain, framebuffer data, G-buffer, textures, vertex buffer, index buffer, uniform
buffer, descriptor pool, command buffers, sync objects, in this order; `cleanup` releases
textures, command buffers, uniform buffer, G-buffer, framebuffer data, swap chain,
descriptor pool, descriptor set layout, index buffer, vertex buffer, sync objects, command
pools, which is not the reverse of the order of creation. -/
theorem cleanup_not_reverse_of_creation :
    (run MAX_FRAMES_IN_FLIGHT exampleRun).outcome = Outcome.returned ∧
    creationOrder (run MAX_FRAMES_IN_FLIGHT exampleRun).trace =
      [Resource.descriptorSetLayout, Resource.commandPools, Resource.swapChain,
       Resource.framebufferData, Resource.gBuffer, Resource.textures, Resource.vertexBuffer,
       Resource.indexBuffer, Resource.uniformBuffer, Resource.descriptorPool,
       Resource.commandBuffers, Resource.syncObjects] ∧
    releaseOrder (run MAX_FRAMES_IN_FLIGHT exampleRun).trace =
      [Resource.textures, Resource.commandBuffers, Resource.uniformBuffer, Resource.gBuffer,
       Resource.framebufferData, Resource.swapChain, Resource.descriptorPool,
       Resource.descriptorSetLayout, Resource.indexBuffer, Resource.vertexBuffer,
       Resource.syncObjects, Resource.commandPools] ∧
    releaseOrder (run MAX_FRAMES_IN_FLIGHT exampleRun).trace ≠
      (creationOrder (run MAX_FRAMES_IN_FLIGHT exampleRun).trace).reverse := by
  decide

/-- C18 (amended). Whenever `mainLoop` returns, by a close request or by the ESC key, its
last call is `vkDeviceWaitIdle` and nothing is pending on the device; whenever `run`
returns, the entry into `cleanup` comes right after that `vkDeviceWaitIdle`; and a
`cleanup` that returns, with at least one texture and at least one frame slot, releases the
resources in the order textures, command buffers, uniform buffer, G-buffer, framebuffer
data, swap chain, descriptor pool, descriptor set layout, index buffer, vertex buffer,
sync objects, command pools. Within the swap-chain dependent resources this is the reverse
of the order of creation. -/
theorem run_waits_idle_then_cleans_up (maxFrames : Nat) (env : RunEnv)
    (envs : List LoopEnv) (s a : Application) :
    ((mainLoop maxFrames envs s).outcome = Outcome.returned →
      (∃ t, (mainLoop maxFrames envs s).trace = t ++ [Call.vkDeviceWaitIdle]) ∧
      (mainLoop maxFrames envs s).app.pending = []) ∧
    ((run maxFrames env).outcome = Outcome.returned →
      ∃ before state rest,
        (run maxFrames env).trace =
          before ++ [Call.vkDeviceWaitIdle] ++ (cleanup maxFrames state).trace ∧
        state.pending = [] ∧ (cleanup maxFrames state).outcome = Outcome.returned ∧
        (cleanup maxFrames state).trace = Call.lifecycle LifecycleCall.cleanup :: rest) ∧
    (0 < maxFrames → 0 < a.textureCount →
      (cleanup maxFrames a).outcome = Outcome.returned →
      releaseOrder (cleanup maxFrames a).trace =
        [Resource.textures, Resource.commandBuffers, Resource.uniformBuffer, Resource.gBuffer,
         Resource.framebufferData, Resource.swapChain, Resource.descriptorPool,
         Resource.descriptorSetLayout, Resource.indexBuffer, Resource.vertexBuffer,
         Resource.syncObjects, Resource.commandPools]) ∧
    cleanupOrder.filter Resource.swapChainDependent = swapChainCreationOrder.reverse :=
  ⟨fun h => mainLoop_endsIdle maxFrames envs s h, fun h => run_returned maxFrames env h,
    fun hframes htextures h => cleanup_releaseOrder maxFrames a hframes htextures h, rfl⟩

theorem run_waits_idle_then_cleans_up_witness :
    (mainLoop MAX_FRAMES_IN_FLIGHT exampleRunEscape.loop exampleStarted).outcome =
      Outcome.returned ∧
    (mainLoop MAX_FRAMES_IN_FLIGHT exampleRunEscape.loop exampleStarted).trace.countP
      Call.isPresent = 1 ∧
    ((∃ t, (mainLoop MAX_FRAMES_IN_FLIGHT exampleRunEscape.loop exampleStarted).trace =
        t ++ [Call.vkDeviceWaitIdle]) ∧
      (mainLoop MAX_FRAMES_IN_FLIGHT exampleRunEscape.loop exampleStarted).app.pending = []) ∧
    releaseOrder (cleanup MAX_FRAMES_IN_FLIGHT exampleStarted).trace =
      [Resource.textures, Resource.commandBuffers, Resource.uniformBuffer, Resource.gBuffer,
       Resource.framebufferData, Resource.swapChain, Resource.descriptorPool,
       Resource.descriptorSetLayout, Resource.indexBuffer, Resource.vertexBuffer,
       Resource.syncObjects, Resource.commandPools] :=
  ⟨by decide, by decide,
    (run_waits_idle_then_cleans_up MAX_FRAMES_IN_FLIGHT exampleRunEscape
      exampleRunEscape.loop exampleStarted exampleStarted).1 (by decide),
    (run_waits_idle_then_cleans_up MAX_FRAMES_IN_FLIGHT exampleRunEscape
      exampleRunEscape.loop exampleStarted exampleStarted).2.2.1 (by decide) (by decide)
      (by decide)⟩

/-- C19. When `initVulkan` returns, and when `recreateVulkanData` returns,
`swapChain.imageViews` and `descriptorSets` have the length of `swapChain.images`, and
`renderCommandBuffers` and `imGuiCommandBuffers` have the length of
`framebufferData.framebuffers`; so if there is one framebuffer per image, the image views,
the descriptor sets and the command buffers of both pools are as many as the images. -/
theorem per_image_vectors_sized (maxFrames : Nat) (initEnv : InitEnv) (start : Application)
    (env : CreationEnv) (s : Application) (a : Application)
    (h : ((initVulkan maxFrames initEnv start).outcome = Outcome.returned ∧
          a = (initVulkan maxFrames initEnv start).app) ∨
        ((recreateVulkanData env s).outcome = Outcome.returned ∧
          a = (recreateVulkanData env s).app)) :
    a.imageViews.length = a.images.length ∧
    a.descriptorSets.length = a.images.length ∧
    a.renderCommandBuffers.length = a.framebuffers.length ∧
    a.imGuiCommandBuffers.length = a.framebuffers.length ∧
    (a.framebuffers.length = a.images.length →
      a.imageViews.length = a.images.length ∧
      a.descriptorSets.length = a.images.length ∧
      a.renderCommandBuffers.length = a.images.length ∧
      a.imGuiCommandBuffers.length = a.images.length) := by
  have key : ∀ extent : VkExtent2D,
      (((a.imageViews.length = a.images.length ∧ a.extent = extent) ∧
        a.descriptorSets.length = a.images.length) ∧
      a.renderCommandBuffers.length = a.framebuffers.length ∧
      a.imGuiCommandBuffers.length = a.framebuffers.length) →
      a.imageViews.length = a.images.length ∧
      a.descriptorSets.length = a.images.length ∧
      a.renderCommandBuffers.length = a.framebuffers.length ∧
      a.imGuiCommandBuffers.length = a.framebuffers.length ∧
      (a.framebuffers.length = a.images.length →
        a.imageViews.length = a.images.length ∧
        a.descriptorSets.length = a.images.length ∧
        a.renderCommandBuffers.length = a.images.length ∧
        a.imGuiCommandBuffers.length = a.images.length) := by
    rintro extent ⟨⟨⟨h1, _⟩, h2⟩, h3, h4⟩
    exact ⟨h1, h2, h3, h4, fun h5 => ⟨h1, h2, h3.trans h5, h4.trans h5⟩⟩
  rcases h with ⟨hret, rfl⟩ | ⟨hret, rfl⟩
  · exact key _ (initVulkan_returned_lengths maxFrames initEnv start hret)
  · exact key _ (recreateVulkanData_returned_lengths env s hret)

theorem per_image_vectors_sized_witness :
    exampleStarted.imageViews.length = exampleStarted.images.length ∧
    exampleStarted.descriptorSets.length = exampleStarted.images.length ∧
    exampleStarted.renderCommandBuffers.length = exampleStarted.framebuffers.length ∧
    exampleStarted.imGuiCommandBuffers.length = exampleStarted.framebuffers.length ∧
    (exampleStarted.framebuffers.length = exampleStarted.images.length →
      exampleStarted.imageViews.length = exampleStarted.images.length ∧
      exampleStarted.descriptorSets.length = exampleStarted.images.length ∧
      exampleStarted.renderCommandBuffers.length = exampleStarted.images.length ∧
      exampleStarted.imGuiCommandBuffers.length = exampleStarted.images.length) :=
  per_image_vectors_sized MAX_FRAMES_IN_FLIGHT (exampleInit 3) Application.initial
    (exampleCreation 3) exampleStarted exampleStarted (Or.inl ⟨by decide, rfl⟩)

/-- C20. For every memory-property table with `memoryTypeCount ≤ 32` (in an array of
`VK_MAX_MEMORY_TYPES` entries), every `typeFilter` and every `properties` mask:
`findMemoryType` returns index `i` exactly when `i` is the smallest index below
`memoryTypeCount` such that bit `i` of `typeFilter` is set and the `propertyFlags` of
`memoryTypes[i]` contain every bit of `properties`; it raises
"failed to find suitable memory type!" exactly when no index is suitable; and it ends in
one of these two ways. -/
theorem findMemoryType_smallest_suitable (memProperties : VkPhysicalDeviceMemoryProperties)
    (typeFilter properties : Nat) (hcount : memProperties.memoryTypeCount ≤ 32)
    (harray : memProperties.memoryTypes.length = VK_MAX_MEMORY_TYPES) :
    (∀ i, findMemoryType memProperties typeFilter properties = Except.ok i ↔
      (SuitableMemoryType memProperties typeFilter properties i ∧
        ∀ j, j < i → ¬ SuitableMemoryType memProperties typeFilter properties j)) ∧
    (findMemoryType memProperties typeFilter properties =
        Except.error (Outcome.threw "failed to find suitable memory type!") ↔
      ∀ i, ¬ SuitableMemoryType memProperties typeFilter properties i) ∧
    ((∃ i, findMemoryType memProperties typeFilter properties = Except.ok i) ∨
      findMemoryType memProperties typeFilter properties =
        Except.error (Outcome.threw "failed to find suitable memory type!")) := by
  unfold findMemoryType
  rcases findMemoryTypeFrom_spec memProperties typeFilter properties hcount harray
    memProperties.memoryTypeCount 0 (by omega) with ⟨k, _, hsk, hmin, hres⟩ | ⟨hnone, hres⟩
  · rw [hres]
    refine ⟨?_, ?_, Or.inl ⟨k, rfl⟩⟩
    · intro i
      constructor
      · intro h
        cases h
        exact ⟨hsk, fun j hj => hmin j (Nat.zero_le j) hj⟩
      · rintro ⟨hsi, hmini⟩
        have h1 : ¬ k < i := fun h => hmini k h hsk
        have h2 : ¬ i < k := fun h => hmin i (Nat.zero_le i) h hsi
        have h3 : k = i := by omega
        rw [h3]
    · constructor
      · intro h; cases h
      · intro h; exact absurd hsk (h k)
  · rw [hres]
    refine ⟨?_, ?_, Or.inr rfl⟩
    · intro i
      constructor
      · intro h; cases h
      · rintro ⟨hsi, _⟩; exact absurd hsi (hnone i (Nat.zero_le i))
    · exact ⟨fun _ i => hnone i (Nat.zero_le i), fun _ => rfl⟩

theorem findMemoryType_smallest_suitable_witness :
    findMemoryType exampleMemoryProperties 6 6 = Except.ok 1 ∧
    (SuitableMemoryType exampleMemoryProperties 6 6 1 ∧
      ∀ j, j < 1 → ¬ SuitableMemoryType exampleMemoryProperties 6 6 j) :=
  ⟨rfl,
    ((findMemoryType_smallest_suitable exampleMemoryProperties 6 6 (by decide) (by decide)).1
      1).mp rfl⟩

/-- C21: for an image index `i` below the image count of a state whose per-image vectors
have one entry per image, and a driver that accepts the begin and the end of the recording,
any positive number `k + 1` of calls of `recordGeometryCommandBuffer(i)` returns, enters the
function `k + 1` times, and leaves in `renderCommandBuffers[i]` exactly one render pass
instance of `swapChain.renderPass` on `framebuffers[i]` with render area `swapChain.extent`
that holds, in this order, the pipeline binding, the vertex buffer binding, the index buffer
binding, the binding of `descriptorSets[i]` and one indexed draw of `model.getNumIndices(0)`
indices with one instance - whatever the command buffer held before - while every other
command buffer keeps its contents. -/
theorem recordGeometryCommandBuffer_replaces_contents (env : CreationEnv) (s : Application)
    (i k : Nat) (hi : i < s.images.length)
    (hframebuffers : s.framebuffers.length = s.images.length)
    (hsets : s.descriptorSets.length = s.images.length)
    (hbuffers : s.renderCommandBuffers.length = s.images.length)
    (hbegin : env.vkBeginCommandBuffer i = VK_SUCCESS)
    (hend : env.vkEndCommandBuffer i = VK_SUCCESS) :
    ∃ cb fb set, s.renderCommandBuffers[i]? = some cb ∧ s.framebuffers[i]? = some fb ∧
      s.descriptorSets[i]? = some set ∧
      (recordGeometryCommandBuffers env (List.replicate (k + 1) i) s).outcome =
        Outcome.returned ∧
      (recordGeometryCommandBuffers env (List.replicate (k + 1) i) s).trace.filterMap
        Call.recordedIndex = List.replicate (k + 1) i ∧
      ∀ contents : Handle → List Command,
        recorded (recordGeometryCommandBuffers env (List.replicate (k + 1) i) s).trace
            contents cb =
          [Command.beginRenderPass RenderPass.renderPass fb s.extent,
           Command.bindPipeline, Command.bindVertexBuffers, Command.bindIndexBuffer,
           Command.bindDescriptorSets set, Command.drawIndexed s.modelNumIndices 1,
           Command.endRenderPass] ∧
        ∀ h, h ≠ cb →
          recorded (recordGeometryCommandBuffers env (List.replicate (k + 1) i) s).trace
            contents h = contents h := by
  have hcb : s.renderCommandBuffers[i]? = some (s.renderCommandBuffers[i]) :=
    List.getElem?_eq_getElem (hbuffers ▸ hi)
  have hfb : s.framebuffers[i]? = some (s.framebuffers[i]) :=
    List.getElem?_eq_getElem (hframebuffers ▸ hi)
  have hset : s.descriptorSets[i]? = some (s.descriptorSets[i]) :=
    List.getElem?_eq_getElem (hsets ▸ hi)
  have h := recordGeometryCommandBuffers_replicate env i s _ _ _ hcb hfb hset hbegin hend k
  exact ⟨_, _, _, hcb, hfb, hset, h.1, recordGeometryCommandBuffers_recordedIndex env _ s h.1,
    h.2⟩

theorem recordGeometryCommandBuffer_replaces_contents_witness :
    ∃ cb fb set, exampleStarted.renderCommandBuffers[1]? = some cb ∧
      exampleStarted.framebuffers[1]? = some fb ∧
      exampleStarted.descriptorSets[1]? = some set ∧
      (recordGeometryCommandBuffers (exampleCreation 3) (List.replicate (2 + 1) 1)
        exampleStarted).outcome = Outcome.returned ∧
      (recordGeometryCommandBuffers (exampleCreation 3) (List.replicate (2 + 1) 1)
        exampleStarted).trace.filterMap Call.recordedIndex = List.replicate (2 + 1) 1 ∧
      ∀ contents : Handle → List Command,
        recorded (recordGeometryCommandBuffers (exampleCreation 3) (List.replicate (2 + 1) 1)
            exampleStarted).trace contents cb =
          [Command.beginRenderPass RenderPass.renderPass fb exampleStarted.extent,
           Command.bindPipeline, Command.bindVertexBuffers, Command.bindIndexBuffer,
           Command.bindDescriptorSets set,
           Command.drawIndexed exampleStarted.modelNumIndices 1,
           Command.endRenderPass] ∧
        ∀ h, h ≠ cb →
          recorded (recordGeometryCommandBuffers (exampleCreation 3)
            (List.replicate (2 + 1) 1) exampleStarted).trace contents h = contents h :=
  recordGeometryCommandBuffer_replaces_contents (exampleCreation 3) exampleStarted 1 2
    (by decide) (by decide) (by decide) (by decide) (by decide) (by decide)

/-- C23: a `drawFrame` call that does not abort at the acquisition need not call
`recordGuiCommandBuffer`. In the state after a recreation that builds four images
(`imagesInFlight` still has three entries), the frame that acquires image 3 with the status
`VK_SUCCESS` stops at the read of `imagesInFlight[imageIndex]`, after the wait and the
acquisition and before the uniform update: `recordGuiCommandBuffer` is not entered. For every
frame whose acquisition was called and reported success or suboptimal, and in which the
marker of the acquired image is in range, `recordGuiCommandBuffer` is entered exactly once,
with the acquired image index, right after the uniform update and before any submission. For
every frame without recreation, `recordGeometryCommandBuffer` is not entered, and if no
render command buffer is also a GUI command buffer, every render command buffer holds after
the frame what it held before. -/
theorem drawFrame_gui_recording_skipped :
    ((exampleFrame 3 4).acquireResult = VK_SUCCESS ∧
      3 < exampleGrown.images.length ∧
      exampleGrown.imagesInFlight.length = 3 ∧
      (drawFrame MAX_FRAMES_IN_FLIGHT (exampleFrame 3 4) exampleGrown).trace =
        [Call.vkWaitForFences 24, Call.vkAcquireNextImageKHR 22] ∧
      (drawFrame MAX_FRAMES_IN_FLIGHT (exampleFrame 3 4) exampleGrown).outcome =
        Outcome.outOfRange "imagesInFlight[imageIndex]" ∧
      (drawFrame MAX_FRAMES_IN_FLIGHT (exampleFrame 3 4) exampleGrown).trace.filter
        Call.isRecordGui = []) ∧
    (∀ (maxFrames : Nat) (env : FrameEnv) (s : Application),
      (∃ semaphore,
        Call.vkAcquireNextImageKHR semaphore ∈ (drawFrame maxFrames env s).trace) →
      (env.acquireResult = VK_SUCCESS ∨ env.acquireResult = VK_SUBOPTIMAL_KHR) →
      (∃ guard, s.imagesInFlight[env.acquiredIndex]? = some guard) →
      (drawFrame maxFrames env s).trace.filter Call.isRecordGui =
        [Call.recordGuiCommandBuffer env.acquiredIndex] ∧
      ∃ before after,
        (drawFrame maxFrames env s).trace =
          before ++ Call.updateUniformBuffers env.acquiredIndex ::
            Call.recordGuiCommandBuffer env.acquiredIndex :: after ∧
        (∀ c ∈ before, c.isRecordGui = false ∧ c.isSubmit = false) ∧
        ∀ c ∈ after, c.isRecordGui = false) ∧
    ∀ (maxFrames : Nat) (env : FrameEnv) (s : Application),
      Call.recreateVulkanData ∉ (drawFrame maxFrames env s).trace →
      (drawFrame maxFrames env s).trace.filterMap Call.recordedIndex = [] ∧
      ((∀ h ∈ s.renderCommandBuffers, h ∉ s.imGuiCommandBuffers) →
        ∀ (contents : Handle → List Command), ∀ h ∈ s.renderCommandBuffers,
          recorded (drawFrame maxFrames env s).trace contents h = contents h) := by
  refine ⟨⟨rfl, by decide, by decide, by decide, by decide, by decide⟩, ?_, ?_⟩
  · intro maxFrames env s hcall hok hguard
    obtain ⟨before, after, ht, hbefore, hafter⟩ :=
      drawFrame_gui_once maxFrames env s hcall hok hguard
    refine ⟨?_, before, after, ht, hbefore, hafter⟩
    rw [ht, List.filter_append, List.filter_cons, List.filter_cons]
    have h1 : before.filter Call.isRecordGui = [] :=
      List.filter_eq_nil_iff.mpr (fun c hc => by simp [(hbefore c hc).1])
    have h2 : after.filter Call.isRecordGui = [] :=
      List.filter_eq_nil_iff.mpr (fun c hc => by simp [hafter c hc])
    simp [h1, h2, Call.isRecordGui]
  · intro maxFrames env s hno
    have hall := drawFrame_without_recreation maxFrames env s hno
    refine ⟨?_, fun hdisjoint contents h hh => ?_⟩
    · rw [List.filterMap_eq_nil_iff]
      exact fun c hc => (hall c hc).1
    · refine recorded_of_not_touches _ h (fun c hc => ?_) contents
      cases htouch : c.touches h with
      | false => rfl
      | true => exact absurd ((hall c hc).2 h htouch) (hdisjoint h hh)

/-- C24: for surface capabilities with `minImageCount < 2^32 - 1`, the `createInfo` that
`createSwapChain` hands to `vkCreateSwapchainKHR` asks for `minImageCount + 1` images,
except that it asks for `maxImageCount` when `maxImageCount > 0` and
`minImageCount + 1 > maxImageCount`; with `maxImageCount = 0` it asks for
`minImageCount + 1`. Every `vkCreateSwapchainKHR` call of `initSwapChain` carries that
count, and there is such a call when the surface has a format. Whenever `maxImageCount` is
0 or at least `minImageCount`, the count is at least `minImageCount` and, if
`maxImageCount > 0`, at most `maxImageCount`. -/
theorem createSwapChain_requested_image_count (env : CreationEnv) (s : Application)
    (hmin : env.surface.capabilities.minImageCount < 2 ^ 32 - 1) :
    requestedImageCount env.surface.capabilities =
      (if env.surface.capabilities.maxImageCount > 0 ∧
          env.surface.capabilities.minImageCount + 1 > env.surface.capabilities.maxImageCount
        then env.surface.capabilities.maxImageCount
        else env.surface.capabilities.minImageCount + 1) ∧
    (env.surface.capabilities.maxImageCount = 0 →
      requestedImageCount env.surface.capabilities =
        env.surface.capabilities.minImageCount + 1) ∧
    (∀ info, Call.vkCreateSwapchainKHR info ∈ (initSwapChain env s).trace →
      info.minImageCount = requestedImageCount env.surface.capabilities) ∧
    (env.surface.formats ≠ [] →
      ∃ info, Call.vkCreateSwapchainKHR info ∈ (initSwapChain env s).trace) ∧
    (env.surface.capabilities.maxImageCount = 0 ∨
        env.surface.capabilities.maxImageCount ≥ env.surface.capabilities.minImageCount →
      env.surface.capabilities.minImageCount ≤ requestedImageCount env.surface.capabilities ∧
      (env.surface.capabilities.maxImageCount > 0 →
        requestedImageCount env.surface.capabilities ≤
          env.surface.capabilities.maxImageCount)) := by
  have hmod : (env.surface.capabilities.minImageCount + 1) % 2 ^ 32 =
      env.surface.capabilities.minImageCount + 1 := Nat.mod_eq_of_lt (by omega)
  have hreq : requestedImageCount env.surface.capabilities =
      (if env.surface.capabilities.maxImageCount > 0 ∧
          env.surface.capabilities.minImageCount + 1 > env.surface.capabilities.maxImageCount
        then env.surface.capabilities.maxImageCount
        else env.surface.capabilities.minImageCount + 1) := by
    unfold requestedImageCount
    simp only [hmod]
  refine ⟨hreq, ?_, ?_, ?_, ?_⟩
  · intro hzero
    rw [hreq, hzero]
    simp
  · intro info hinfo
    rcases initSwapChain_trace env s with h | ⟨surfaceFormat, -, h⟩
    · rw [h] at hinfo
      simp at hinfo
    · rw [h] at hinfo
      simp at hinfo
      rw [hinfo]
      rfl
  · intro hformats
    cases hfmt : chooseSwapSurfaceFormat env.surface.formats with
    | none =>
      exfalso
      revert hfmt
      unfold chooseSwapSurfaceFormat
      cases hlist : env.surface.formats with
      | nil => exact absurd hlist hformats
      | cons f rest => simp; split <;> simp
    | some surfaceFormat =>
      rcases initSwapChain_trace env s with h | ⟨surfaceFormat, -, h⟩
      · exfalso
        revert h
        unfold initSwapChain
        rw [hfmt]
        simp only []
        split <;> simp
      · exact ⟨swapchainCreateInfo env surfaceFormat, by rw [h]; simp⟩
  · intro hbound
    rw [hreq]
    split <;> omega

theorem createSwapChain_requested_image_count_witness :
    requestedImageCount (exampleCreation 3).surface.capabilities =
      (if (exampleCreation 3).surface.capabilities.maxImageCount > 0 ∧
          (exampleCreation 3).surface.capabilities.minImageCount + 1 >
            (exampleCreation 3).surface.capabilities.maxImageCount
        then (exampleCreation 3).surface.capabilities.maxImageCount
        else (exampleCreation 3).surface.capabilities.minImageCount + 1) ∧
    ((exampleCreation 3).surface.capabilities.maxImageCount = 0 →
      requestedImageCount (exampleCreation 3).surface.capabilities =
        (exampleCreation 3).surface.capabilities.minImageCount + 1) ∧
    (∀ info, Call.vkCreateSwapchainKHR info ∈
        (initSwapChain (exampleCreation 3) Application.initial).trace →
      info.minImageCount = requestedImageCount (exampleCreation 3).surface.capabilities) ∧
    ((exampleCreation 3).surface.formats ≠ [] →
      ∃ info, Call.vkCreateSwapchainKHR info ∈
        (initSwapChain (exampleCreation 3) Application.initial).trace) ∧
    ((exampleCreation 3).surface.capabilities.maxImageCount = 0 ∨
        (exampleCreation 3).surface.capabilities.maxImageCount ≥
          (exampleCreation 3).surface.capabilities.minImageCount →
      (exampleCreation 3).surface.capabilities.minImageCount ≤
        requestedImageCount (exampleCreation 3).surface.capabilities ∧
      ((exampleCreation 3).surface.capabilities.maxImageCount > 0 →
        requestedImageCount (exampleCreation 3).surface.capabilities ≤
          (exampleCreation 3).surface.capabilities.maxImageCount)) :=
  createSwapChain_requested_image_count (exampleCreation 3) Application.initial (by decide)

/-- C25, counterexample: an iteration of the main loop is entered (`glfwWindowShouldClose`
returned false) with the ESC key pressed; the loop ends after `processKeyInput`, and neither
`setGUI` nor `drawFrame` is called. -/
theorem mainLoop_escape_skips_frame :
    (mainLoopIterations MAX_FRAMES_IN_FLIGHT
        [{ exampleIteration 1 with escapePressed := true }] exampleStarted).trace =
      [Call.lifecycle LifecycleCall.glfwWindowShouldClose,
       Call.lifecycle LifecycleCall.glfwPollEvents,
       Call.lifecycle LifecycleCall.glfwGetCursorPos,
       Call.lifecycle LifecycleCall.processKeyInput,
       Call.vkDeviceWaitIdle] ∧
    (mainLoopIterations MAX_FRAMES_IN_FLIGHT
        [{ exampleIteration 1 with escapePressed := true }] exampleStarted).outcome =
      Outcome.returned ∧
    Call.lifecycle LifecycleCall.setGUI ∉
      (mainLoopIterations MAX_FRAMES_IN_FLIGHT
        [{ exampleIteration 1 with escapePressed := true }] exampleStarted).trace ∧
    Call.lifecycle LifecycleCall.drawFrame ∉
      (mainLoopIterations MAX_FRAMES_IN_FLIGHT
        [{ exampleIteration 1 with escapePressed := true }] exampleStarted).trace := by
  decide

/-- C25, amended: `glfwWindowShouldClose` is evaluated at the top of the loop only, and an
iteration that is entered ends in one of two ways. With the ESC key pressed,
`processKeyInput` returns 0 and the loop is left by `break`: after `glfwPollEvents`,
`glfwGetCursorPos` and `processKeyInput` the only call is the `vkDeviceWaitIdle` that
follows the loop, whatever iterations would have followed. With the ESC key not pressed,
the iteration calls `setGUI` and then `drawFrame`; the loop goes on (to `glfwGetCursorPos`
and the next evaluation of `glfwWindowShouldClose`) when `drawFrame` has returned, and ends
with the outcome of `drawFrame` when it has not. -/
theorem mainLoop_iteration (maxFrames : Nat) (env : LoopEnv) (rest : List LoopEnv)
    (s : Application) :
    (env.escapePressed = true →
      mainLoopIterations maxFrames (env :: rest) s =
        ⟨{ (pollEvents env s).app with pending := [] },
          [Call.lifecycle LifecycleCall.glfwWindowShouldClose] ++ (pollEvents env s).trace ++
            [Call.lifecycle LifecycleCall.glfwGetCursorPos,
             Call.lifecycle LifecycleCall.processKeyInput, Call.vkDeviceWaitIdle],
          Outcome.returned⟩) ∧
    (env.escapePressed = false →
      mainLoopIterations maxFrames (env :: rest) s =
        ((Run.mk (pollEvents env s).app
            ([Call.lifecycle LifecycleCall.glfwWindowShouldClose] ++ (pollEvents env s).trace ++
              [Call.lifecycle LifecycleCall.glfwGetCursorPos,
               Call.lifecycle LifecycleCall.processKeyInput] ++
              (mouseInput env (pollEvents env s).app).trace ++
              [Call.lifecycle LifecycleCall.setGUI, Call.lifecycle LifecycleCall.drawFrame])
            Outcome.returned).andThen (drawFrame maxFrames env.frame)).andThen
          (fun s => (logCalls [Call.lifecycle LifecycleCall.glfwGetCursorPos] s).andThen
            (mainLoopIterations maxFrames rest))) := by
  constructor
  · intro h
    unfold mainLoopIterations
    by_cases hres : env.resized = true <;>
      simp [pollEvents, hres, Run.andThen, logCalls, processKeyInput, h, waitDeviceIdle]
  · intro h
    unfold mainLoopIterations
    have hkey : ¬ processKeyInput env = 0 := by simp [processKeyInput, h]
    obtain ⟨a, t, hp⟩ : ∃ a t, pollEvents env s = ⟨a, t, Outcome.returned⟩ := by
      unfold pollEvents
      split <;> exact ⟨_, _, rfl⟩
    obtain ⟨u, hmouse⟩ : ∃ u, mouseInput env a = ⟨a, u, Outcome.returned⟩ := by
      unfold mouseInput
      split <;> exact ⟨_, rfl⟩
    simp only [logCalls, Run.mk_andThen, hp, if_neg hkey, hmouse]
    generalize drawFrame maxFrames env.frame a = d
    rcases d with ⟨a', t', o'⟩
    cases o' <;> simp [Run.andThen, logCalls]

/-- C26, counterexample: the resize flag is not set, the acquisition reports out-of-date,
and a framebuffer-size event arrives while `recreateVulkanData` waits for a window of
non-zero area; `drawFrame` returns with the resize flag set. -/
theorem drawFrame_out_of_date_sets_resize_flag :
    exampleStarted.framebufferResized = false ∧
    exampleOutOfDateWhileMinimised.acquireResult = VK_ERROR_OUT_OF_DATE_KHR ∧
    (drawFrame MAX_FRAMES_IN_FLIGHT exampleOutOfDateWhileMinimised exampleStarted).trace.take 8 =
      [Call.vkWaitForFences 21, Call.vkAcquireNextImageKHR 19, Call.recreateVulkanData,
       Call.glfwGetFramebufferSize, Call.glfwGetFramebufferSize, Call.glfwWaitEvents,
       Call.framebufferResizeCallback, Call.vkDeviceWaitIdle] ∧
    (drawFrame MAX_FRAMES_IN_FLIGHT exampleOutOfDateWhileMinimised exampleStarted).outcome =
      Outcome.returned ∧
    (drawFrame MAX_FRAMES_IN_FLIGHT exampleOutOfDateWhileMinimised
      exampleStarted).app.framebufferResized = true := by
  decide

/-- C26, amended: a `drawFrame` call whose acquisition reports `VK_ERROR_OUT_OF_DATE_KHR`
leaves `currentFrame`, `inFlightFences` and every entry of `imagesInFlight` unchanged, calls
neither `vkResetFences` nor `vkQueueSubmit`, and calls `recreateVulkanData` once, right
after the acquisition; the fence of the frame slot, which it waited for, is not pending when
the call ends. It does not clear `framebufferResized`: afterwards the flag is set exactly if
it was set before or a framebuffer-size event was delivered while `recreateVulkanData`
waited for a window of non-zero area. In particular a flag that was set before the call is
still set afterwards, and then every next `drawFrame` call that reaches the presentation
performs a recreation. -/
theorem drawFrame_out_of_date_keeps_frame_state (maxFrames : Nat) (env : FrameEnv)
    (s : Application)
    (hcall : ∃ semaphore,
      Call.vkAcquireNextImageKHR semaphore ∈ (drawFrame maxFrames env s).trace)
    (hood : env.acquireResult = VK_ERROR_OUT_OF_DATE_KHR) :
    (drawFrame maxFrames env s).app.currentFrame = s.currentFrame ∧
    (drawFrame maxFrames env s).app.imagesInFlight = s.imagesInFlight ∧
    (drawFrame maxFrames env s).app.inFlightFences = s.inFlightFences ∧
    (∀ c ∈ (drawFrame maxFrames env s).trace,
      c.isSubmit = false ∧ ∀ fence, c ≠ Call.vkResetFences fence) ∧
    (∃ fence semaphore t, s.inFlightFences[s.currentFrame]? = some fence ∧
      (drawFrame maxFrames env s).trace =
        Call.vkWaitForFences fence :: Call.vkAcquireNextImageKHR semaphore ::
          Call.recreateVulkanData :: t ∧
      Call.recreateVulkanData ∉ t ∧
      fence ∉ (drawFrame maxFrames env s).app.pending) ∧
    (drawFrame maxFrames env s).app.framebufferResized =
      (s.framebufferResized || env.recreate.zeroAreaPolls.any id) ∧
    (s.framebufferResized = true →
      (drawFrame maxFrames env s).app.framebufferResized = true ∧
      ∀ (next : FrameEnv),
        (∃ info, Call.vkQueuePresentKHR info ∈
          (drawFrame maxFrames next (drawFrame maxFrames env s).app).trace) →
        Call.recreateVulkanData ∈
          (drawFrame maxFrames next (drawFrame maxFrames env s).app).trace) := by
  obtain ⟨fence, semaphore, hf, hrun⟩ := drawFrame_out_of_date hcall hood
  have hkept := recreateVulkanData_kept env.recreate (acquiredState env fence s)
  simp only [Application.kept, Prod.mk.injEq] at hkept
  obtain ⟨-, -, hfences, hmarkers, hframe, -, hpending, hflag⟩ := hkept
  obtain ⟨t, ht, hrec⟩ := recreateVulkanData_trace env.recreate (acquiredState env fence s)
  have hflag2 : (drawFrame maxFrames env s).app.framebufferResized =
      (s.framebufferResized || env.recreate.zeroAreaPolls.any id) := by
    rw [hrun]; exact hflag
  refine ⟨by rw [hrun]; exact hframe, by rw [hrun]; exact hmarkers,
    by rw [hrun]; exact hfences, ?_, ?_, hflag2, ?_⟩
  · rw [hrun, ht]
    intro c hc
    simp only [List.cons_append, List.nil_append, List.mem_cons] at hc
    rcases hc with rfl | rfl | rfl | hc
    · exact ⟨rfl, fun f h => by cases h⟩
    · exact ⟨rfl, fun f h => by cases h⟩
    · exact ⟨rfl, fun f h => by cases h⟩
    · exact Call.inRecreation_facts (hrec c hc)
  · refine ⟨fence, semaphore, t, hf, by rw [hrun, ht]; rfl, ?_, ?_⟩
    · intro hmem
      have h := hrec _ hmem
      cases h
    · rw [hrun]
      show fence ∉ (recreateVulkanData env.recreate (acquiredState env fence s)).app.pending
      rw [hpending]
      simp
  · intro hset
    have hafter : (drawFrame maxFrames env s).app.framebufferResized = true := by
      rw [hflag2, hset]; rfl
    exact ⟨hafter, fun next hpresent =>
      (drawFrame_recreation_iff hpresent).mpr (Or.inr (Or.inr hafter))⟩

theorem drawFrame_out_of_date_keeps_frame_state_witness :
    (drawFrame MAX_FRAMES_IN_FLIGHT exampleOutOfDate
      (framebufferResizeCallback exampleStarted)).app.framebufferResized = true ∧
    (drawFrame MAX_FRAMES_IN_FLIGHT exampleOutOfDate
      (framebufferResizeCallback exampleStarted)).app.currentFrame =
        (framebufferResizeCallback exampleStarted).currentFrame ∧
    Call.recreateVulkanData ∈
      (drawFrame MAX_FRAMES_IN_FLIGHT (exampleFrame 0 3)
        (drawFrame MAX_FRAMES_IN_FLIGHT exampleOutOfDate
          (framebufferResizeCallback exampleStarted)).app).trace :=
  ⟨((drawFrame_out_of_date_keeps_frame_state MAX_FRAMES_IN_FLIGHT exampleOutOfDate
      (framebufferResizeCallback exampleStarted) ⟨19, by decide⟩ rfl).2.2.2.2.2.2
      (by decide)).1,
    (drawFrame_out_of_date_keeps_frame_state MAX_FRAMES_IN_FLIGHT exampleOutOfDate
      (framebufferResizeCallback exampleStarted) ⟨19, by decide⟩ rfl).1,
    ((drawFrame_out_of_date_keeps_frame_state MAX_FRAMES_IN_FLIGHT exampleOutOfDate
      (framebufferResizeCallback exampleStarted) ⟨19, by decide⟩ rfl).2.2.2.2.2.2
      (by decide)).2 (exampleFrame 0 3) ⟨⟨[20], [0]⟩, by decide⟩⟩

/-- C27: after a `createDescriptorSets` that returns, for every image index `i` below the
image count, and with `sizeof(UBO)` times the image count within the range of the offsets,
the write to binding 0 of iteration `i` goes to `descriptorSets[i]`, which is the `i`-th set
updated by `vkUpdateDescriptorSets`, and binds the offset `sizeof(UBO) * i` with the range
`sizeof(UBO)`; `updateUniformBuffers(i)` maps and writes the same offset and size, so a byte
is written exactly if it lies in the bound range, that is in
`[sizeof(UBO) * i, sizeof(UBO) * (i + 1))`; and the ranges written for two distinct indices
below the image count have no byte in common. -/
theorem uniform_write_range_is_bound_range (sizeofUBO : Nat) (env : CreationEnv)
    (s : Application) (i : Nat)
    (hret : (createDescriptorSets env s).outcome = Outcome.returned)
    (hi : i < (createDescriptorSets env s).app.images.length)
    (hsize : sizeofUBO * (createDescriptorSets env s).app.images.length ≤ 2 ^ 64) :
    (∃ set, (createDescriptorSets env s).app.descriptorSets[i]? = some set ∧
      ((createDescriptorSets env s).trace.filterMap Call.updatedSet)[i]? = some set ∧
      (uniformDescriptorWrites sizeofUBO (createDescriptorSets env s).app)[i]? =
        some (some set, ⟨sizeofUBO * i, sizeofUBO⟩)) ∧
    mappedUniformRange sizeofUBO i = ⟨sizeofUBO * i, sizeofUBO⟩ ∧
    (∀ b, (mappedUniformRange sizeofUBO i).contains b = (uboBufferInf sizeofUBO i).contains b) ∧
    (∀ b, (mappedUniformRange sizeofUBO i).contains b = true ↔
      sizeofUBO * i ≤ b ∧ b < sizeofUBO * (i + 1)) ∧
    ∀ j, j < (createDescriptorSets env s).app.images.length → j ≠ i →
      ∀ b, ¬ ((mappedUniformRange sizeofUBO i).contains b = true ∧
        (mappedUniformRange sizeofUBO j).contains b = true) := by
  have hlen : (createDescriptorSets env s).app.descriptorSets.length =
      (createDescriptorSets env s).app.images.length := by
    rw [(createDescriptorSets_lengths env s).1]
    exact (createDescriptorSets_returned hret).1
  have hmod : ∀ j, j < (createDescriptorSets env s).app.images.length →
      (sizeofUBO * j) % 2 ^ 64 = sizeofUBO * j := by
    intro j hj
    apply Nat.mod_eq_of_lt
    have h1 : sizeofUBO * j ≤ sizeofUBO * ((createDescriptorSets env s).app.images.length - 1) :=
      Nat.mul_le_mul_left _ (by omega)
    rcases Nat.eq_zero_or_pos sizeofUBO with h | h
    · rw [h]; simp
    · have h2 : sizeofUBO * ((createDescriptorSets env s).app.images.length - 1) <
          sizeofUBO * (createDescriptorSets env s).app.images.length :=
        Nat.mul_lt_mul_of_pos_left (by omega) h
      omega
  have hrange : ∀ j, j < (createDescriptorSets env s).app.images.length →
      mappedUniformRange sizeofUBO j = ⟨sizeofUBO * j, sizeofUBO⟩ := by
    intro j hj
    simp only [mappedUniformRange, hmod j hj]
  have hcontains : ∀ j, j < (createDescriptorSets env s).app.images.length → ∀ b,
      ((mappedUniformRange sizeofUBO j).contains b = true ↔
        sizeofUBO * j ≤ b ∧ b < sizeofUBO * (j + 1)) := by
    intro j hj b
    rw [hrange j hj]
    simp only [MappedRange.contains, decide_eq_true_eq, Nat.mul_succ]
  refine ⟨?_, hrange i hi, fun b => rfl, hcontains i hi, ?_⟩
  · refine ⟨(createDescriptorSets env s).app.descriptorSets[i], ?_, ?_, ?_⟩
    · exact List.getElem?_eq_getElem (hlen ▸ hi)
    · rw [createDescriptorSets_updatedSets hret]
      exact List.getElem?_eq_getElem (hlen ▸ hi)
    · simp only [uniformDescriptorWrites, uboBufferInf, hmod i hi]
      rw [List.getElem?_map, List.getElem?_range hi]
      simp only [Option.map_some', List.getElem?_eq_getElem (hlen ▸ hi)]
      rw [hmod i hi]
  · intro j hj hne b ⟨hb1, hb2⟩
    rw [hcontains i hi] at hb1
    rw [hcontains j hj] at hb2
    rcases Nat.lt_or_gt_of_ne hne with h | h
    · have : sizeofUBO * (j + 1) ≤ sizeofUBO * i := Nat.mul_le_mul_left _ h
      omega
    · have : sizeofUBO * (i + 1) ≤ sizeofUBO * j := Nat.mul_le_mul_left _ h
      omega

theorem uniform_write_range_is_bound_range_witness :
    (∃ set, (createDescriptorSets (exampleCreation 3) exampleStarted).app.descriptorSets[1]? =
        some set ∧
      ((createDescriptorSets (exampleCreation 3) exampleStarted).trace.filterMap
        Call.updatedSet)[1]? = some set ∧
      (uniformDescriptorWrites 192
        (createDescriptorSets (exampleCreation 3) exampleStarted).app)[1]? =
        some (some set, ⟨192 * 1, 192⟩)) ∧
    mappedUniformRange 192 1 = ⟨192 * 1, 192⟩ ∧
    (∀ b, (mappedUniformRange 192 1).contains b = (uboBufferInf 192 1).contains b) ∧
    (∀ b, (mappedUniformRange 192 1).contains b = true ↔ 192 * 1 ≤ b ∧ b < 192 * (1 + 1)) ∧
    ∀ j, j < (createDescriptorSets (exampleCreation 3) exampleStarted).app.images.length →
      j ≠ 1 →
      ∀ b, ¬ ((mappedUniformRange 192 1).contains b = true ∧
        (mappedUniformRange 192 j).contains b = true) :=
  uniform_write_range_is_bound_range 192 (exampleCreation 3) exampleStarted 1
    (by decide) (by decide) (by decide)

/-- C28: with the descriptor sets that `createDescriptorSets` allocates from `descriptorPool`
counted in the state. When `initVulkan` returns with `n` swap-chain images, it has created
the pool exactly once, with `maxSets` the `uint32_t` product `IMGUI_POOL_NUM * n`, which is
`IMGUI_POOL_NUM * n` when that fits `uint32_t`, and has allocated `n` sets. No call of a
recreation creates or destroys the pool, and each `recreateVulkanData` that returns has
allocated as many further sets as the new swap chain has images, on top of the sets counted
before. So after `k` recreations that all return and all build `n` images, `(k + 1) * n`
sets have been allocated. -/
theorem descriptor_sets_allocated (maxFrames : Nat) (init : InitEnv) (start : Application)
    (envs : List CreationEnv) (n : Nat)
    (hstart : start.allocatedDescriptorSets = 0)
    (hn : init.creation.initSwapChain = Except.ok n)
    (hinit : (initVulkan maxFrames init start).outcome = Outcome.returned)
    (hconst : ∀ env ∈ envs, env.initSwapChain = Except.ok n)
    (hrec : (recreations envs (initVulkan maxFrames init start).app).outcome =
      Outcome.returned) :
    (initVulkan maxFrames init start).trace.filterMap Call.poolMaxSets =
      [(IMGUI_POOL_NUM * n) % 2 ^ 32] ∧
    (IMGUI_POOL_NUM * n < 2 ^ 32 →
      (initVulkan maxFrames init start).trace.filterMap Call.poolMaxSets =
        [IMGUI_POOL_NUM * n]) ∧
    (initVulkan maxFrames init start).app.images.length = n ∧
    (initVulkan maxFrames init start).app.allocatedDescriptorSets = n ∧
    (∀ c ∈ (recreations envs (initVulkan maxFrames init start).app).trace,
      c.poolMaxSets = none ∧ c ≠ Call.lifecycle LifecycleCall.vkDestroyDescriptorPool) ∧
    (∀ (env : CreationEnv) (s : Application) (m : Nat), env.initSwapChain = Except.ok m →
      (recreateVulkanData env s).outcome = Outcome.returned →
      (recreateVulkanData env s).app.images.length = m ∧
      (recreateVulkanData env s).app.allocatedDescriptorSets =
        s.allocatedDescriptorSets + (recreateVulkanData env s).app.images.length) ∧
    (recreations envs (initVulkan maxFrames init start).app).trace.count
      Call.recreateVulkanData = envs.length ∧
    (recreations envs (initVulkan maxFrames init start).app).app.images.length = n ∧
    (recreations envs (initVulkan maxFrames init start).app).app.allocatedDescriptorSets =
      (envs.length + 1) * n := by
  obtain ⟨h1, h2, h3⟩ := initVulkan_pool hn hinit
  obtain ⟨h4, h5, h6⟩ := recreations_allocated envs _ hconst h3 hrec
  rw [hstart, Nat.zero_add] at h2
  refine ⟨h1, fun hpool => by rw [h1, Nat.mod_eq_of_lt hpool], h3, h2,
    recreations_pool envs _, ?_, h6, h5, ?_⟩
  · intro env s m hm hret
    obtain ⟨ha, hi⟩ := recreateVulkanData_allocated hm hret
    exact ⟨hi, by rw [ha, hi]⟩
  · rw [h4, h2, Nat.succ_mul]
    omega

theorem descriptor_sets_allocated_witness :
    (recreations [exampleCreation 3, exampleCreation 3]
      (initVulkan MAX_FRAMES_IN_FLIGHT (exampleInit 3)
        Application.initial).app).app.allocatedDescriptorSets = (2 + 1) * 3 ∧
    (initVulkan MAX_FRAMES_IN_FLIGHT (exampleInit 3) Application.initial).trace.filterMap
      Call.poolMaxSets = [IMGUI_POOL_NUM * 3] :=
  ⟨(descriptor_sets_allocated MAX_FRAMES_IN_FLIGHT (exampleInit 3) Application.initial
      [exampleCreation 3, exampleCreation 3] 3 rfl rfl (by decide)
      (fun env henv => by simp at henv; subst henv; rfl) (by decide)).2.2.2.2.2.2.2.2,
    (descriptor_sets_allocated MAX_FRAMES_IN_FLIGHT (exampleInit 3) Application.initial
      [exampleCreation 3, exampleCreation 3] 3 rfl rfl (by decide)
      (fun env henv => by simp at henv; subst henv; rfl) (by decide)).2.1 (by decide)⟩

/-- C29: `VulkanImage::transitionImageLayout` raises `std::invalid_argument` with the
message "unsupported layout transition!" exactly if `(oldLayout, newLayout)` is none of
(UNDEFINED, TRANSFER_DST_OPTIMAL), (TRANSFER_DST_OPTIMAL, SHADER_READ_ONLY_OPTIMAL) and
(UNDEFINED, DEPTH_STENCIL_ATTACHMENT_OPTIMAL), and returns otherwise. For a supported pair
it allocates and begins a command buffer, records one pipeline barrier, and ends, submits,
waits for and frees the command buffer; the aspect mask of the barrier is DEPTH, with
STENCIL added exactly when the format is D32_SFLOAT_S8_UINT or D24_UNORM_S8_UINT, when
`newLayout` is DEPTH_STENCIL_ATTACHMENT_OPTIMAL, and COLOR otherwise. When it raises, the
command buffer has been allocated and begun, and no other call has been made: it is neither
ended nor submitted nor freed. -/
theorem transitionImageLayout_unsupported_iff (commandBuffer : Handle)
    (transitionData : LayoutTransitionInfo) :
    ((transitionImageLayout commandBuffer transitionData).outcome =
        TransitionOutcome.invalidArgument "unsupported layout transition!" ↔
      ¬ supportedTransition transitionData.oldLayout transitionData.newLayout) ∧
    ((transitionImageLayout commandBuffer transitionData).outcome =
        TransitionOutcome.returned ↔
      supportedTransition transitionData.oldLayout transitionData.newLayout) ∧
    (supportedTransition transitionData.oldLayout transitionData.newLayout →
      ∃ sourceStage destinationStage barrier,
        (transitionImageLayout commandBuffer transitionData).trace =
          [TransitionCall.vkAllocateCommandBuffers commandBuffer,
           TransitionCall.vkBeginCommandBuffer commandBuffer,
           TransitionCall.vkCmdPipelineBarrier commandBuffer sourceStage destinationStage
             barrier,
           TransitionCall.vkEndCommandBuffer commandBuffer,
           TransitionCall.vkQueueSubmit commandBuffer,
           TransitionCall.vkQueueWaitIdle,
           TransitionCall.vkFreeCommandBuffers commandBuffer] ∧
        barrier.oldLayout = transitionData.oldLayout ∧
        barrier.newLayout = transitionData.newLayout ∧
        (transitionData.newLayout = VK_IMAGE_LAYOUT_DEPTH_STENCIL_ATTACHMENT_OPTIMAL →
          (barrier.aspectMask &&& VK_IMAGE_ASPECT_DEPTH_BIT = VK_IMAGE_ASPECT_DEPTH_BIT ∧
            barrier.aspectMask &&& VK_IMAGE_ASPECT_COLOR_BIT = 0 ∧
            (barrier.aspectMask &&& VK_IMAGE_ASPECT_STENCIL_BIT = VK_IMAGE_ASPECT_STENCIL_BIT ↔
              transitionData.format = VK_FORMAT_D32_SFLOAT_S8_UINT ∨
                transitionData.format = VK_FORMAT_D24_UNORM_S8_UINT) ∧
            (barrier.aspectMask = VK_IMAGE_ASPECT_DEPTH_BIT ∨
              barrier.aspectMask =
                VK_IMAGE_ASPECT_DEPTH_BIT ||| VK_IMAGE_ASPECT_STENCIL_BIT))) ∧
        (transitionData.newLayout ≠ VK_IMAGE_LAYOUT_DEPTH_STENCIL_ATTACHMENT_OPTIMAL →
          barrier.aspectMask = VK_IMAGE_ASPECT_COLOR_BIT)) ∧
    (¬ supportedTransition transitionData.oldLayout transitionData.newLayout →
      (transitionImageLayout commandBuffer transitionData).trace =
        [TransitionCall.vkAllocateCommandBuffers commandBuffer,
         TransitionCall.vkBeginCommandBuffer commandBuffer]) := by
  by_cases h : supportedTransition transitionData.oldLayout transitionData.newLayout
  · obtain ⟨sourceStage, destinationStage, srcAccessMask, dstAccessMask, hrun⟩ :=
      transitionImageLayout_of_supported commandBuffer h
    rw [hrun]
    refine ⟨⟨fun hout => (by cases hout), fun hnot => absurd h hnot⟩,
      ⟨fun _ => h, fun _ => rfl⟩, fun _ => ⟨_, _, _, rfl, rfl, rfl, ?_⟩,
      fun hnot => absurd h hnot⟩
    exact barrierAspectMask_spec transitionData
  · rw [transitionImageLayout_of_unsupported commandBuffer h]
    exact ⟨⟨fun _ => h, fun _ => rfl⟩, ⟨fun hout => (by cases hout), fun hs => absurd hs h⟩,
      fun hs => absurd hs h, fun _ => rfl⟩

/-- C30: after a `createGBuffer` that returns, whatever the number of completed cycles of
`createGBuffer` and `cleanupGBuffer` before it, the keys of the attachments map are exactly
albedo, depth, normal, position, in this order of iteration; `createDeferredRenderPass` has
built four attachment descriptions and `createDeferredFrameBuffer` four views in that same
order, so description `k` carries the format and view `k` is the image view of the `k`-th
entry of the map, for every `k`; the depth reference has attachment index 1, and the colour
references are the indices 0, 2, 3 in this order. -/
theorem createGBuffer_attachment_order (envs : List GBufferEnv) (env : GBufferEnv)
    (cycled g : GBuffer)
    (hcycles : gBufferCycles envs GBuffer.initial = Except.ok cycled)
    (hcreate : createGBuffer env cycled = Except.ok g) :
    g.attachments.map Prod.fst = ["albedo", "depth", "normal", "position"] ∧
    ∃ locals views,
      g.deferredRenderPass = some locals ∧ g.deferredFrameBuffer = some views ∧
      locals.attachmentDescriptions.length = 4 ∧ views.length = 4 ∧
      (∀ k, k < 4 → ∃ key value description,
        g.attachments[k]? = some (key, value) ∧
        locals.attachmentDescriptions[k]? = some description ∧
        description.format = value.format ∧
        views[k]? = some value.imageView) ∧
      locals.depthReference.attachment = 1 ∧
      locals.colourReferences.map VkAttachmentReference.attachment = [0, 2, 3] := by
  have hbefore := gBufferCycles_keys envs GBuffer.initial cycled (Or.inl rfl) hcycles
  obtain ⟨hkeys, hpass, hframe⟩ := createGBuffer_ok hcreate
  have hfour : g.attachments.map Prod.fst = ["albedo", "depth", "normal", "position"] := by
    rw [hkeys]
    rcases hbefore with h | h <;> rw [h] <;> decide
  obtain ⟨albedo, depth, normal, position, hmap⟩ := attachments_of_keys hfour
  refine ⟨hfour, _, _, hpass, hframe, ?_⟩
  rw [hmap, describeAttachments_four]
  refine ⟨rfl, rfl, ?_, rfl, rfl⟩
  intro k hk
  match k, hk with
  | 0, _ => exact ⟨_, _, _, rfl, rfl, rfl, rfl⟩
  | 1, _ => exact ⟨_, _, _, rfl, rfl, rfl, rfl⟩
  | 2, _ => exact ⟨_, _, _, rfl, rfl, rfl, rfl⟩
  | 3, _ => exact ⟨_, _, _, rfl, rfl, rfl, rfl⟩

theorem createGBuffer_attachment_order_witness :
    gBufferCycles [exampleGBufferEnv, exampleGBufferEnv] GBuffer.initial =
      Except.ok exampleCycledGBuffer ∧
    createGBuffer exampleGBufferEnv exampleCycledGBuffer = Except.ok exampleCreatedGBuffer ∧
    exampleCreatedGBuffer.attachments.map Prod.fst =
      ["albedo", "depth", "normal", "position"] :=
  ⟨rfl, rfl,
    (createGBuffer_attachment_order [exampleGBufferEnv, exampleGBufferEnv] exampleGBufferEnv
      exampleCycledGBuffer exampleCreatedGBuffer rfl rfl).1⟩

end HPGA3
